import Mathlib

/-!
Directus3D deferred pass pipeline.

A shallow embedding of `Runtime/Rendering/Renderer_Passes.cpp`, with the command
record of `Runtime/RHI/RHI_CommandList.h`, the compile entry points of
`Engine/RHI/RHI_Shader.h`, the swap chain of `Runtime/RHI/D3D11/D3D11_SwapChain.cpp` and
`ModelImporter::ReadAnimations` of `Runtime/Resource/Import/ModelImporter.cpp`.

Every call a pass makes on `m_cmd_list`, and every other side effect it has on
the renderer (default-buffer updates, constant-buffer updates, log lines), is
appended in call order to `Renderer.trace`.  Reference parameters
(`shared_ptr<RHI_RenderTexture>&`) are passed in and handed back explicitly.
Floating-point quantities that are only carried through (clear depth, blur sigma)
are rationals; the components of a `Vector4`, one of which a pass compares, are
floats with NaN and the infinities (`Float32`).

A function of the source that can dereference a null pointer returns an `Except`:
`.ok` with its result when it returns, `.error x` when it dereferences null with
the renderer in state `x`.
-/

namespace Directus

/-! ## RHI definitions -/

/-- Shader compilation states, `Shader_State` of `RHI_Shader.h`. -/
inductive Shader_State where
  | Shader_Uninitialized
  | Shader_Compiling
  | Shader_Built
  | Shader_Failed
deriving DecidableEq, Repr

/-- Modelled from the spec: `Renderer_Passes.cpp` compares against `Shader_Compiled`, whose
declaration (`Runtime/RHI/RHI_Shader.h`) is missing; the spec lists the states
Uninitialized, Compiling, Built, Failed, so it is the `Built` state. -/
def Shader_Compiled : Shader_State := Shader_State.Shader_Built

/-- A shader object: its id (`RHI_GetID`) and its compilation state. -/
structure RHI_Shader where
  id : Nat
  state : Shader_State
deriving DecidableEq, Repr

def RHI_Shader.GetCompilationState (s : RHI_Shader) : Shader_State := s.state

def RHI_Shader.RHI_GetID (s : RHI_Shader) : Nat := s.id

/-- A value of the C++ type `float` (IEEE 754), as far as comparisons see it: not a number,
one of the two infinities, or a finite value. -/
inductive Float32 where
  | NaN
  | neg_infinity
  | infinity
  | finite (value : Rat)
deriving DecidableEq, Repr

instance (n : Nat) : OfNat Float32 n := ⟨.finite n⟩

/-- The comparison `a < b` of two floats: false whenever one of them is NaN. -/
def Float32.lt : Float32 → Float32 → Bool
  | .finite a, .finite b => decide (a < b)
  | .finite _, .infinity => true
  | .neg_infinity, .finite _ => true
  | .neg_infinity, .infinity => true
  | _, _ => false

/-- The comparison `a <= b` of two floats: false whenever one of them is NaN. -/
def Float32.le : Float32 → Float32 → Bool
  | .finite a, .finite b => decide (a ≤ b)
  | .finite _, .infinity => true
  | .neg_infinity, .finite _ => true
  | .neg_infinity, .infinity => true
  | .neg_infinity, .neg_infinity => true
  | .infinity, .infinity => true
  | _, _ => false

instance : LT Float32 := ⟨fun a b => a.lt b = true⟩

instance : LE Float32 := ⟨fun a b => a.le b = true⟩

instance (a b : Float32) : Decidable (a < b) := inferInstanceAs (Decidable (a.lt b = true))

instance (a b : Float32) : Decidable (a ≤ b) := inferInstanceAs (Decidable (a.le b = true))

/-- Four-component vector of floats (`Math::Vector4`). -/
structure Vector4 where
  x : Float32
  y : Float32
  z : Float32
  w : Float32
deriving DecidableEq, Repr

def Vector4.Zero : Vector4 := ⟨0, 0, 0, 0⟩

inductive RHI_PrimitiveTopology_Mode where
  | PrimitiveTopology_TriangleList
  | PrimitiveTopology_LineList
  | PrimitiveTopology_NotAssigned
deriving DecidableEq, Repr

inductive RHI_Buffer_Scope where
  | Buffer_VertexShader
  | Buffer_PixelShader
  | Buffer_Global
  | Buffer_NotAssigned
deriving DecidableEq, Repr

inductive RHI_Cull_Mode where
  | Cull_None
  | Cull_Front
  | Cull_Back
deriving DecidableEq, Repr

inductive RHI_Fill_Mode where
  | Fill_Solid
  | Fill_Wireframe
deriving DecidableEq, Repr

/-- Clear flags of `ClearDepthStencil`; the passes only use `Clear_Depth`. -/
inductive RHI_Clear_Buffer where
  | Clear_Depth
  | Clear_Stencil
deriving DecidableEq, Repr

/-- Rasterizer states the passes hand to `SetRasterizerState`: the renderer members and the
result of `GetRasterizerState(cull_mode, fill_mode)`. -/
inductive RasterizerState where
  | m_rasterizer_cull_back_solid
  | m_rasterizer_cull_back_wireframe
  | GetRasterizerState (cull : RHI_Cull_Mode) (fill : RHI_Fill_Mode)
deriving DecidableEq, Repr

inductive DepthStencilState where
  | m_depth_stencil_enabled
  | m_depth_stencil_disabled
deriving DecidableEq, Repr

inductive BlendState where
  | m_blend_enabled
  | m_blend_disabled
deriving DecidableEq, Repr

inductive Sampler where
  | m_sampler_compare_depth
  | m_sampler_point_clamp
  | m_sampler_bilinear_clamp
  | m_sampler_bilinear_wrap
  | m_sampler_trilinear_clamp
  | m_sampler_anisotropic_wrap
deriving DecidableEq, Repr

/-- Constant buffers named by their owner. -/
inductive ConstantBuffer where
  /-- The member `m_buffer_global` -/
  | m_buffer_global
  /-- The buffer `transform->GetConstantBuffer()` of an entity -/
  | transform (entity : Nat)
  /-- The buffer `transform->GetConstantBufferLight(cascade_index)` of an entity -/
  | transformLight (entity : Nat) (cascade_index : Nat)
  /-- The buffer `material->GetConstantBuffer()` -/
  | material (resource_id : Nat)
  /-- The buffer `shader->GetConstantBuffer(index)` -/
  | shader (shader_id : Nat) (index : Nat)
deriving DecidableEq, Repr

/-- A render-target view: `texture->GetRenderTargetView(index)`. -/
structure RenderTargetView where
  texture : Nat
  index : Nat
deriving DecidableEq, Repr

/-- Render texture handle (`shared_ptr<RHI_RenderTexture>`): identity plus the
attributes the passes query. -/
structure RHI_RenderTexture where
  id : Nat
  width : Nat
  height : Nat
  format : Nat
  array_size : Nat
deriving DecidableEq, Repr

def RHI_RenderTexture.GetRenderTargetView (t : RHI_RenderTexture) (index : Nat) : RenderTargetView :=
  ⟨t.id, index⟩

/-- The depth-stencil view of a texture, named by the texture. -/
def RHI_RenderTexture.GetDepthStencilView (t : RHI_RenderTexture) : Nat := t.id

/-- The shader resource of a texture, named by the texture. -/
def RHI_RenderTexture.GetShaderResource (t : RHI_RenderTexture) : Option Nat := some t.id

/-- Matrix argument of `SetDefaultBuffer`. -/
inductive MatrixArg where
  | Identity
  | m_view_projection_orthographic
  | grid_world_view_projection_unjittered
  | view_projection_unjittered
deriving DecidableEq, Repr

/-- Payload of a shader `UpdateBuffer` call. -/
inductive BufferData where
  | Struct_Blur (direction_x direction_y sigma : Rat)
  | Struct_Transparency (entity : Nat)
  | other
  | Struct_ShadowMapping
  | Struct_Matrix_Vector3 (axis : Nat)
  | Struct_Matrix_Vector4
deriving DecidableEq, Repr

/-- One recorded call: the `RHI_CommandList` interface, followed by the renderer's other
side effects. -/
inductive Ev where
  | Begin (pass_name : String)
  | End
  | Draw (vertex_count : Nat)
  | DrawIndexed (index_count index_offset vertex_offset : Nat)
  | SetViewport (texture : Nat)
  | SetPrimitiveTopology (mode : RHI_PrimitiveTopology_Mode)
  | SetInputLayout (shader : Nat)
  | SetDepthStencilState (s : DepthStencilState)
  | SetRasterizerState (s : RasterizerState)
  | SetBlendState (s : BlendState)
  | SetBufferVertex (buffer : Nat)
  | SetBufferIndex (buffer : Nat)
  | SetShaderVertex (shader : RHI_Shader)
  | SetShaderPixel (shader : RHI_Shader)
  | SetConstantBuffers (start_slot : Nat) (scope : RHI_Buffer_Scope) (buffers : List ConstantBuffer)
  | SetConstantBuffer (start_slot : Nat) (scope : RHI_Buffer_Scope) (buffer : ConstantBuffer)
  | SetSamplers (start_slot : Nat) (samplers : List Sampler)
  | SetSampler (start_slot : Nat) (sampler : Sampler)
  | SetTextures (start_slot : Nat) (textures : List (Option Nat))
  | SetTexture (start_slot : Nat) (texture : Option Nat)
  | ClearTextures
  | SetRenderTargets (render_targets : List RenderTargetView) (depth_stencil : Option Nat)
  | SetRenderTarget (render_target : RenderTargetView) (depth_stencil : Option Nat)
  | ClearRenderTarget (render_target : RenderTargetView) (color : Vector4)
  | ClearDepthStencil (depth_stencil : Nat) (flags : RHI_Clear_Buffer) (depth : Rat)
  | Submit
  | Clear
  | SetDefaultBuffer (width height : Nat) (mvp : MatrixArg)
  | LOG_ERROR (text : String)
  | UpdateBuffer (shader : Nat) (index : Nat) (data : BufferData)
  | Material_UpdateConstantBuffer (resource_id : Nat)
  | Transform_UpdateConstantBuffer (entity : Nat)
  | Transform_UpdateConstantBufferLight (entity : Nat) (cascade_index : Nat)
  | ShaderLight_UpdateConstantBuffer (ssr : Bool)
  | Texture_Clear (texture : Nat) (color : Vector4)
  | VertexBuffer_CreateDynamic (vertex_count : Nat)
  | VertexBuffer_Update (vertex_count : Nat)
  | Rectangle_CreateBuffers
  | Font_SetText
  | Gizmo_Update
deriving DecidableEq, Repr

/-! ## Scene data -/

/-- Geometry model: resource id and its two buffers (absent when null). -/
structure Model where
  resource_id : Nat
  vertex_buffer : Option Nat
  index_buffer : Option Nat
deriving DecidableEq, Repr

def Model.GetResourceId (m : Model) : Nat := m.resource_id

inductive TextureType where
  | TextureType_Albedo
  | TextureType_Roughness
  | TextureType_Metallic
  | TextureType_Normal
  | TextureType_Height
  | TextureType_Occlusion
  | TextureType_Emission
  | TextureType_Mask
deriving DecidableEq, Repr

structure Material where
  resource_id : Nat
  shader : Option RHI_Shader
  cull_mode : RHI_Cull_Mode
  color_albedo : Vector4
  tex_albedo : Option Nat
  tex_roughness : Option Nat
  tex_metallic : Option Nat
  tex_normal : Option Nat
  tex_height : Option Nat
  tex_occlusion : Option Nat
  tex_emission : Option Nat
  tex_mask : Option Nat
deriving DecidableEq, Repr

def Material.GetResourceId (m : Material) : Nat := m.resource_id

def Material.GetTextureShaderResourceByType (m : Material) : TextureType → Option Nat
  | .TextureType_Albedo => m.tex_albedo
  | .TextureType_Roughness => m.tex_roughness
  | .TextureType_Metallic => m.tex_metallic
  | .TextureType_Normal => m.tex_normal
  | .TextureType_Height => m.tex_height
  | .TextureType_Occlusion => m.tex_occlusion
  | .TextureType_Emission => m.tex_emission
  | .TextureType_Mask => m.tex_mask

/-- Renderable component.  `in_view_frustum` is the verdict of the camera's
`IsInViewFrustrum(renderable)` for the frame. -/
structure Renderable where
  material : Option Material
  model : Option Model
  cast_shadows : Bool
  index_count : Nat
  index_offset : Nat
  vertex_offset : Nat
  in_view_frustum : Bool
deriving DecidableEq, Repr

/-- Scene entity: its identity (owner of the transform) and optional renderable. -/
structure Entity where
  id : Nat
  renderable : Option Renderable
deriving DecidableEq, Repr

/-- Light component as seen by the passes. -/
structure Light where
  cast_shadows : Bool
  shadow_map : Option RHI_RenderTexture
deriving DecidableEq, Repr

def Light.GetCastShadows (l : Light) : Bool := l.cast_shadows

def Light.GetShadowMap (l : Light) : Option RHI_RenderTexture := l.shadow_map

/-- Flags of `m_flags` (`Renderer_Option`). -/
inductive Renderer_Option where
  | Render_Gizmo_AABB
  | Render_Gizmo_PickingRay
  | Render_Gizmo_Grid
  | Render_Gizmo_Transform
  | Render_Gizmo_Lights
  | Render_Gizmo_PerformanceMetrics
  | Render_PostProcess_Bloom
  | Render_PostProcess_FXAA
  | Render_PostProcess_SSAO
  | Render_PostProcess_SSR
  | Render_PostProcess_TAA
  | Render_PostProcess_MotionBlur
  | Render_PostProcess_Sharpening
  | Render_PostProcess_ChromaticAberration
  | Render_PostProcess_Dithering
deriving DecidableEq, Repr

/-- Tone-mapping operator selection; only `ToneMapping_Off` is named by the passes. -/
inductive ToneMapping_Type where
  | ToneMapping_Off
  | ToneMapping_Operator (code : Nat)
deriving DecidableEq, Repr

/-- Light types (`LightType`). -/
inductive LightType where
  | LightType_Directional
  | LightType_Point
  | LightType_Spot
deriving DecidableEq, Repr

/-- Screen rectangle (`Math::Rectangle`). -/
structure Rectangle where
  x : Rat
  y : Rat
  width : Rat
  height : Rat
deriving DecidableEq, Repr

/-- An entity of the light bucket as the gizmo pass sees it: the values the pass computes
from the camera and the light (the dot product of the camera's forward direction with the
direction to the light, the light type, the screen rectangle of the icon and its scaled
texture width as an unsigned integer). -/
structure LightEntity where
  id : Nat
  v_dot_l : Rat
  light_type : LightType
  rectangle : Rectangle
  tex_width : Nat
deriving DecidableEq, Repr

/-- Buffer selector `m_debug_buffer` (`RendererDebug_Buffer`). -/
inductive RendererDebug_Buffer where
  | RendererDebug_None
  | RendererDebug_Albedo
  | RendererDebug_Normal
  | RendererDebug_Material
  | RendererDebug_Velocity
  | RendererDebug_Depth
  | RendererDebug_SSAO
deriving DecidableEq, Repr

/-- The transform gizmo `m_gizmo_transform`: its buffers, the result of its `Update` for
the frame and of `DrawXYZ`. -/
structure Transform_Gizmo where
  vertex_buffer : Nat
  index_buffer : Nat
  index_count : Nat
  update_result : Bool
  draw_xyz : Bool
deriving DecidableEq, Repr

/-- The font `m_font`: its buffers and atlas texture. -/
structure Font where
  vertex_buffer : Nat
  index_buffer : Nat
  index_count : Nat
  texture : Nat
deriving DecidableEq, Repr

/-- The full-screen quad `m_quad`. -/
structure Quad where
  vertex_buffer : Nat
  index_buffer : Nat
  index_count : Nat
deriving DecidableEq, Repr

/-! ## Renderer state -/

/-- The members of `Renderer` the passes read or write, plus the call trace. -/
structure Renderer where
  trace : List Ev
  m_rhi_device : Bool
  reverse_z : Bool
  m_viewport_max_depth : Rat
  m_resolution_x : Nat
  m_resolution_y : Nat
  m_flags : List Renderer_Option
  m_tonemapping : ToneMapping_Type
  m_entities_ObjectOpaque : List Entity
  m_entities_ObjectTransparent : List Entity
  m_light_directional : Option Light
  m_skybox : Option Nat
  m_tex_white : Nat
  m_tex_lut_ibl : Nat
  m_quad : Quad
  m_renderer_meshes_rendered : Nat
  m_g_buffer_albedo : RHI_RenderTexture
  m_g_buffer_normal : RHI_RenderTexture
  m_g_buffer_material : RHI_RenderTexture
  m_g_buffer_velocity : RHI_RenderTexture
  m_g_buffer_depth : RHI_RenderTexture
  m_render_tex_full_hdr_light2 : RHI_RenderTexture
  m_render_tex_full_taa_current : RHI_RenderTexture
  m_render_tex_full_taa_history : RHI_RenderTexture
  m_render_tex_quarter_blur1 : RHI_RenderTexture
  m_render_tex_quarter_blur2 : RHI_RenderTexture
  m_vs_gbuffer : RHI_Shader
  m_vs_quad : RHI_Shader
  m_vps_depth : RHI_Shader
  m_vps_light : RHI_Shader
  m_vps_transparent : RHI_Shader
  m_ps_taa : RHI_Shader
  m_ps_texture : RHI_Shader
  m_ps_downsample_box : RHI_Shader
  m_ps_bloom_bright : RHI_Shader
  m_ps_bloom_blend : RHI_Shader
  m_ps_blur_gaussian : RHI_Shader
  m_ps_blur_gaussian_bilateral : RHI_Shader
  m_ps_tone_mapping : RHI_Shader
  m_ps_gamma_correction : RHI_Shader
  m_ps_luma : RHI_Shader
  m_ps_fxaa : RHI_Shader
  m_ps_chromatic_aberration : RHI_Shader
  m_ps_motion_blur : RHI_Shader
  m_ps_dithering : RHI_Shader
  m_ps_sharpening : RHI_Shader
  m_render_tex_half_spare : RHI_RenderTexture
  m_render_tex_half_shadows : RHI_RenderTexture
  m_render_tex_half_ssao : RHI_RenderTexture
  m_render_tex_full_hdr_light : RHI_RenderTexture
  m_tex_noise_normal : Nat
  m_vps_shadow_mapping : RHI_Shader
  m_vps_ssao : RHI_Shader
  m_ps_blur_box : RHI_Shader
  m_vps_color : RHI_Shader
  m_vps_font : RHI_Shader
  m_vps_gizmo_transform : RHI_Shader
  m_ps_debug_normal_ : RHI_Shader
  m_ps_debug_velocity : RHI_Shader
  m_ps_debug_depth : RHI_Shader
  m_ps_debug_ssao : RHI_Shader
  m_entities_Light : List LightEntity
  m_debug_buffer : RendererDebug_Buffer
  m_lines_list_depth_enabled : Nat
  m_lines_list_depth_disabled : Nat
  m_vertex_buffer_lines : Nat
  m_vertex_buffer_lines_count : Nat
  DrawLine_vertices : Nat
  DrawBox_vertices : Nat
  m_gizmo_grid : Quad
  m_gizmo_transform : Transform_Gizmo
  m_gizmo_light_rect : Rectangle
  m_gizmo_light_rect_buffers : Quad
  m_gizmo_tex_light_directional : Nat
  m_gizmo_tex_light_point : Nat
  m_gizmo_tex_light_spot : Nat
  m_font : Font
deriving DecidableEq, Repr

/-- Append calls to the trace, in order. -/
def Renderer.emit (r : Renderer) (evs : List Ev) : Renderer :=
  { r with trace := r.trace ++ evs }

/-- Modelled from the spec: `Flags_IsSet` (declared in the missing `Renderer.h`) tests one flag of
the bit-set `m_flags`, here the list of flags that are set. -/
def Renderer.Flags_IsSet (r : Renderer) (flag : Renderer_Option) : Bool :=
  r.m_flags.contains flag

def Renderer.GetLightDirectional (r : Renderer) : Option Light := r.m_light_directional

/-- The clear depth both geometry passes compute:
`GetReverseZ() ? 1.0f - m_viewport.GetMaxDepth() : m_viewport.GetMaxDepth()`. -/
def Renderer.clear_depth (r : Renderer) : Rat :=
  if r.reverse_z then 1 - r.m_viewport_max_depth else r.m_viewport_max_depth

/-! ## Pass_GBuffer -/

/-- The three "currently bound" variables of `Pass_GBuffer`. -/
structure BindCache where
  currently_bound_geometry : Nat
  currently_bound_shader : Nat
  currently_bound_material : Nat
deriving DecidableEq, Repr

/-- Body of the entity loop of `Pass_GBuffer` (one iteration). -/
def Pass_GBuffer_entity (s : Renderer × BindCache) (entity : Entity) : Renderer × BindCache :=
  let r := s.1
  let c := s.2
  -- Get renderable and material
  match entity.renderable with
  | none => s
  | some renderable =>
  match renderable.material with
  | none => s
  | some material =>
  -- Validate shader
  match material.shader with
  | none => s
  | some shader =>
  if shader.GetCompilationState ≠ Shader_Compiled then s else
  -- Validate geometry
  match renderable.model with
  | none => s
  | some model =>
  match model.vertex_buffer, model.index_buffer with
  | none, _ => s
  | some _, none => s
  | some vertex_buffer, some index_buffer =>
  -- Skip objects outside of the view frustum
  if !renderable.in_view_frustum then s else
  -- Set face culling
  let r := r.emit [.SetRasterizerState (.GetRasterizerState material.cull_mode .Fill_Solid)]
  -- Bind geometry
  let (r, c) :=
    if c.currently_bound_geometry ≠ model.GetResourceId then
      (r.emit [.SetBufferIndex index_buffer, .SetBufferVertex vertex_buffer],
        { c with currently_bound_geometry := model.GetResourceId })
    else (r, c)
  -- Bind shader
  let (r, c) :=
    if c.currently_bound_shader ≠ shader.RHI_GetID then
      (r.emit [.SetShaderPixel shader], { c with currently_bound_shader := shader.RHI_GetID })
    else (r, c)
  -- Bind material
  let (r, c) :=
    if c.currently_bound_material ≠ material.GetResourceId then
      (r.emit
        [ .SetTextures 0
            [ material.GetTextureShaderResourceByType .TextureType_Albedo,
              material.GetTextureShaderResourceByType .TextureType_Roughness,
              material.GetTextureShaderResourceByType .TextureType_Metallic,
              material.GetTextureShaderResourceByType .TextureType_Normal,
              material.GetTextureShaderResourceByType .TextureType_Height,
              material.GetTextureShaderResourceByType .TextureType_Occlusion,
              material.GetTextureShaderResourceByType .TextureType_Emission,
              material.GetTextureShaderResourceByType .TextureType_Mask ],
          .Material_UpdateConstantBuffer material.resource_id,
          .SetConstantBuffer 1 .Buffer_PixelShader (.material material.resource_id) ],
        { c with currently_bound_material := material.GetResourceId })
    else (r, c)
  -- Bind object buffer, render
  let r := r.emit
    [ .Transform_UpdateConstantBuffer entity.id,
      .SetConstantBuffer 2 .Buffer_VertexShader (.transform entity.id),
      .DrawIndexed renderable.index_count renderable.index_offset renderable.vertex_offset ]
  ({ r with m_renderer_meshes_rendered := r.m_renderer_meshes_rendered + 1 }, c)

/-- The pass `Renderer::Pass_GBuffer`. -/
def Pass_GBuffer (r : Renderer) : Renderer :=
  if !r.m_rhi_device then r else
  let r := r.emit [.Begin "Pass_GBuffer"]
  let depth := r.clear_depth
  let clear_color := Vector4.Zero
  -- If there is nothing to render, just clear
  if r.m_entities_ObjectOpaque.isEmpty then
    r.emit
      [ .ClearRenderTarget (r.m_g_buffer_albedo.GetRenderTargetView 0) Vector4.Zero,
        .ClearRenderTarget (r.m_g_buffer_normal.GetRenderTargetView 0) Vector4.Zero,
        .ClearRenderTarget (r.m_g_buffer_material.GetRenderTargetView 0) Vector4.Zero,
        .ClearRenderTarget (r.m_g_buffer_velocity.GetRenderTargetView 0) Vector4.Zero,
        .ClearDepthStencil r.m_g_buffer_depth.GetDepthStencilView .Clear_Depth depth,
        .End, .Submit, .Clear ]
  else
  -- Prepare resources
  let r := r.emit [.SetDefaultBuffer r.m_resolution_x r.m_resolution_y .Identity]
  let render_targets :=
    [ r.m_g_buffer_albedo.GetRenderTargetView 0,
      r.m_g_buffer_normal.GetRenderTargetView 0,
      r.m_g_buffer_material.GetRenderTargetView 0,
      r.m_g_buffer_velocity.GetRenderTargetView 0,
      r.m_g_buffer_depth.GetRenderTargetView 0 ]
  -- Start command list
  let r := r.emit
    [ .SetRasterizerState .m_rasterizer_cull_back_solid,
      .SetBlendState .m_blend_disabled,
      .SetPrimitiveTopology .PrimitiveTopology_TriangleList,
      .SetDepthStencilState .m_depth_stencil_enabled,
      .SetRenderTargets render_targets (some r.m_g_buffer_depth.GetDepthStencilView),
      .SetViewport r.m_g_buffer_albedo.id,
      .ClearRenderTarget (r.m_g_buffer_albedo.GetRenderTargetView 0) clear_color,
      .ClearRenderTarget (r.m_g_buffer_normal.GetRenderTargetView 0) clear_color,
      .ClearRenderTarget (r.m_g_buffer_material.GetRenderTargetView 0) clear_color,
      .ClearRenderTarget (r.m_g_buffer_velocity.GetRenderTargetView 0) clear_color,
      .ClearDepthStencil r.m_g_buffer_depth.GetDepthStencilView .Clear_Depth depth,
      .SetShaderVertex r.m_vs_gbuffer,
      .SetInputLayout r.m_vs_gbuffer.id,
      .SetConstantBuffer 0 .Buffer_Global .m_buffer_global,
      .SetSampler 0 .m_sampler_anisotropic_wrap ]
  -- Variables that help reduce state changes
  let c : BindCache := ⟨0, 0, 0⟩
  let s := r.m_entities_ObjectOpaque.foldl Pass_GBuffer_entity (r, c)
  s.1.emit [.End, .Submit, .Clear]

/-! ## Pass_DepthDirectionalLight -/

/-- Body of the entity loop of `Pass_DepthDirectionalLight`; the state carries
`currently_bound_geometry`. -/
def Pass_DepthDirectionalLight_entity (cascade_index : Nat) (s : Renderer × Nat) (entity : Entity) :
    Renderer × Nat :=
  let r := s.1
  let currently_bound_geometry := s.2
  -- Acquire renderable component
  match entity.renderable with
  | none => s
  | some renderable =>
  -- Acquire material
  match renderable.material with
  | none => s
  | some material =>
  -- Acquire geometry
  match renderable.model with
  | none => s
  | some model =>
  match model.vertex_buffer, model.index_buffer with
  | none, _ => s
  | some _, none => s
  | some vertex_buffer, some index_buffer =>
  -- Skip meshes that don't cast shadows
  if !renderable.cast_shadows then s else
  -- Skip transparent meshes (for now)
  if material.color_albedo.w < 1 then s else
  -- Bind geometry
  let (r, currently_bound_geometry) :=
    if currently_bound_geometry ≠ model.GetResourceId then
      (r.emit [.SetBufferIndex index_buffer, .SetBufferVertex vertex_buffer], model.GetResourceId)
    else (r, currently_bound_geometry)
  -- Update constant buffer, draw
  let r := r.emit
    [ .Transform_UpdateConstantBufferLight entity.id cascade_index,
      .SetConstantBuffer 1 .Buffer_VertexShader (.transformLight entity.id cascade_index),
      .DrawIndexed renderable.index_count renderable.index_offset renderable.vertex_offset ]
  (r, currently_bound_geometry)

/-- Body of the cascade loop of `Pass_DepthDirectionalLight` (iteration `i`). -/
def Pass_DepthDirectionalLight_cascade (shadow_map : RHI_RenderTexture) (entities : List Entity)
    (clear_depth : Rat) (s : Renderer × Nat) (i : Nat) : Renderer × Nat :=
  let cascade_index := i
  let r := s.1.emit
    [ .Begin ("Cascade_" ++ toString (cascade_index + 1)),
      .SetRenderTarget (shadow_map.GetRenderTargetView i) (some shadow_map.GetDepthStencilView),
      .ClearDepthStencil shadow_map.GetDepthStencilView .Clear_Depth clear_depth ]
  let s := entities.foldl (Pass_DepthDirectionalLight_entity cascade_index) (r, s.2)
  (s.1.emit [.End], s.2)

/-- The pass `Renderer::Pass_DepthDirectionalLight`. -/
def Pass_DepthDirectionalLight (r : Renderer) (light_directional : Option Light) : Renderer :=
  -- Validate light
  match light_directional with
  | none => r
  | some light =>
  if !light.GetCastShadows then r else
  -- Validate light's shadow map
  match light.GetShadowMap with
  | none => r
  | some shadow_map =>
  -- Validate entities
  let entities := r.m_entities_ObjectOpaque
  if entities.isEmpty then r else
  -- Begin command list
  let r := r.emit
    [ .Begin "Pass_DepthDirectionalLight",
      .SetDepthStencilState .m_depth_stencil_enabled,
      .SetRasterizerState .m_rasterizer_cull_back_solid,
      .SetBlendState .m_blend_disabled,
      .SetPrimitiveTopology .PrimitiveTopology_TriangleList,
      .SetShaderVertex r.m_vps_depth,
      .SetShaderPixel r.m_vps_depth,
      .SetInputLayout r.m_vps_depth.id,
      .SetViewport shadow_map.id,
      .ClearRenderTarget (shadow_map.GetRenderTargetView 0) Vector4.Zero,
      .ClearRenderTarget (shadow_map.GetRenderTargetView 1) Vector4.Zero,
      .ClearRenderTarget (shadow_map.GetRenderTargetView 2) Vector4.Zero ]
  -- Variables that help reduce state changes
  let currently_bound_geometry := 0
  let clear_depth := r.clear_depth
  let s := (List.range shadow_map.array_size).foldl
    (Pass_DepthDirectionalLight_cascade shadow_map entities clear_depth) (r, currently_bound_geometry)
  s.1.emit [.End, .Submit, .Clear]

/-! ## Pass_Light, Pass_Transparent -/

/-- The pass `Renderer::Pass_Light`. -/
def Pass_Light (r : Renderer) (tex_shadows tex_ssao tex_out : RHI_RenderTexture) : Renderer :=
  if r.m_vps_light.GetCompilationState ≠ Shader_Compiled then r else
  let r := r.emit
    [ .Begin "Pass_Light",
      .SetDefaultBuffer r.m_resolution_x r.m_resolution_y .Identity,
      .ShaderLight_UpdateConstantBuffer (r.Flags_IsSet .Render_PostProcess_SSR) ]
  -- Prepare resources
  let shader := r.m_vps_light
  let samplers := [Sampler.m_sampler_trilinear_clamp, Sampler.m_sampler_point_clamp]
  let constant_buffers := [ConstantBuffer.m_buffer_global, ConstantBuffer.shader r.m_vps_light.id 0]
  let textures : List (Option Nat) :=
    [ r.m_g_buffer_albedo.GetShaderResource,
      r.m_g_buffer_normal.GetShaderResource,
      r.m_g_buffer_depth.GetShaderResource,
      r.m_g_buffer_material.GetShaderResource,
      tex_shadows.GetShaderResource,
      if r.Flags_IsSet .Render_PostProcess_SSAO then tex_ssao.GetShaderResource else some r.m_tex_white,
      r.m_render_tex_full_hdr_light2.GetShaderResource,
      match r.m_skybox with
      | some t => some t
      | none => some r.m_tex_white,
      some r.m_tex_lut_ibl ]
  -- Setup command list
  r.emit
    [ .SetDepthStencilState .m_depth_stencil_disabled,
      .SetRasterizerState .m_rasterizer_cull_back_solid,
      .SetBlendState .m_blend_disabled,
      .SetPrimitiveTopology .PrimitiveTopology_TriangleList,
      .SetViewport tex_out.id,
      .SetRenderTarget (tex_out.GetRenderTargetView 0) none,
      .SetShaderVertex shader,
      .SetShaderPixel shader,
      .SetInputLayout shader.id,
      .SetSamplers 0 samplers,
      .SetTextures 0 textures,
      .SetConstantBuffers 0 .Buffer_Global constant_buffers,
      .SetBufferIndex r.m_quad.index_buffer,
      .SetBufferVertex r.m_quad.vertex_buffer,
      .DrawIndexed r.m_quad.index_count 0 0,
      .End, .Submit, .Clear ]

/-- Body of the entity loop of `Pass_Transparent`. -/
def Pass_Transparent_entity (r : Renderer) (entity : Entity) : Renderer :=
  -- Get renderable and material
  match entity.renderable with
  | none => r
  | some renderable =>
  match renderable.material with
  | none => r
  | some material =>
  -- Get geometry
  match renderable.model with
  | none => r
  | some model =>
  match model.vertex_buffer, model.index_buffer with
  | none, _ => r
  | some _, none => r
  | some vertex_buffer, some index_buffer =>
  -- Skip objects outside of the view frustum
  if !renderable.in_view_frustum then r else
  let r := r.emit
    [ .SetRasterizerState (.GetRasterizerState material.cull_mode .Fill_Solid),
      .SetBufferIndex index_buffer,
      .SetBufferVertex vertex_buffer,
      .UpdateBuffer r.m_vps_transparent.id 0 (.Struct_Transparency entity.id),
      .SetConstantBuffer 1 .Buffer_Global (.shader r.m_vps_transparent.id 0),
      .DrawIndexed renderable.index_count renderable.index_offset renderable.vertex_offset ]
  { r with m_renderer_meshes_rendered := r.m_renderer_meshes_rendered + 1 }

/-- The pass `Renderer::Pass_Transparent`. -/
def Pass_Transparent (r : Renderer) (tex_out : RHI_RenderTexture) : Renderer :=
  match r.GetLightDirectional with
  | none => r
  | some _ =>
  let entities_transparent := r.m_entities_ObjectTransparent
  if entities_transparent.isEmpty then r else
  -- Prepare resources
  let textures : List (Option Nat) := [r.m_g_buffer_depth.GetShaderResource, r.m_skybox]
  -- Begin command list
  let r := r.emit
    [ .Begin "Pass_Transparent",
      .SetPrimitiveTopology .PrimitiveTopology_TriangleList,
      .SetBlendState .m_blend_enabled,
      .SetDepthStencilState .m_depth_stencil_enabled,
      .SetRenderTarget (tex_out.GetRenderTargetView 0) (some r.m_g_buffer_depth.GetDepthStencilView),
      .SetViewport tex_out.id,
      .SetTextures 0 textures,
      .SetSampler 0 .m_sampler_bilinear_clamp,
      .SetShaderVertex r.m_vps_transparent,
      .SetInputLayout r.m_vps_transparent.id,
      .SetShaderPixel r.m_vps_transparent ]
  let r := entities_transparent.foldl Pass_Transparent_entity r
  r.emit [.End, .Submit, .Clear]

/-! ## Blur passes -/

/-- A pass result together with the two texture references it was given (`tex_in`,
`tex_out` are `shared_ptr&` parameters that some passes exchange). -/
structure PassState where
  r : Renderer
  tex_in : RHI_RenderTexture
  tex_out : RHI_RenderTexture
deriving DecidableEq, Repr

/-- The pass `Renderer::Pass_BlurGaussian`. -/
def Pass_BlurGaussian (r : Renderer) (tex_in tex_out : RHI_RenderTexture) (sigma pixel_stride : Rat) :
    PassState :=
  if tex_in.width ≠ tex_out.width ∨ tex_in.height ≠ tex_out.height ∨ tex_in.format ≠ tex_out.format then
    ⟨r.emit [.LOG_ERROR "Invalid parameters, textures must match because they will get swapped"],
      tex_in, tex_out⟩
  else
  let r := r.emit [.SetDefaultBuffer tex_in.width tex_in.height .Identity]
  -- Start command list
  let r := r.emit
    [ .Begin "Pass_BlurBilateralGaussian",
      .SetViewport tex_out.id,
      .SetShaderPixel r.m_ps_blur_gaussian,
      .SetSampler 0 .m_sampler_bilinear_clamp,
      .SetConstantBuffer 0 .Buffer_Global .m_buffer_global ]
  -- Horizontal Gaussian blur
  let r := r.emit
    [ .Begin "Pass_BlurBilateralGaussian_Horizontal",
      .UpdateBuffer r.m_ps_blur_gaussian.id 0 (.Struct_Blur pixel_stride 0 sigma),
      .ClearTextures,
      .SetRenderTarget (tex_out.GetRenderTargetView 0) none,
      .SetTexture 0 tex_in.GetShaderResource,
      .SetConstantBuffer 1 .Buffer_PixelShader (.shader r.m_ps_blur_gaussian_bilateral.id 0),
      .DrawIndexed r.m_quad.index_count 0 0,
      .End ]
  -- Vertical Gaussian blur
  let r := r.emit
    [ .Begin "Pass_BlurBilateralGaussian_Horizontal",
      .UpdateBuffer r.m_ps_blur_gaussian.id 1 (.Struct_Blur 0 pixel_stride sigma),
      .ClearTextures,
      .SetRenderTarget (tex_in.GetRenderTargetView 0) none,
      .SetTexture 0 tex_out.GetShaderResource,
      .SetConstantBuffer 1 .Buffer_PixelShader (.shader r.m_ps_blur_gaussian_bilateral.id 1),
      .DrawIndexed r.m_quad.index_count 0 0,
      .End ]
  let r := r.emit [.End, .Submit, .Clear]
  -- Swap textures
  ⟨r, tex_out, tex_in⟩

/-- The pass `Renderer::Pass_BlurBilateralGaussian`. -/
def Pass_BlurBilateralGaussian (r : Renderer) (tex_in tex_out : RHI_RenderTexture)
    (sigma pixel_stride : Rat) : PassState :=
  if tex_in.width ≠ tex_out.width ∨ tex_in.height ≠ tex_out.height ∨ tex_in.format ≠ tex_out.format then
    ⟨r.emit [.LOG_ERROR "Invalid parameters, textures must match because they will get swapped."],
      tex_in, tex_out⟩
  else
  let r := r.emit [.SetDefaultBuffer tex_in.width tex_in.height .Identity]
  -- Start command list
  let r := r.emit
    [ .Begin "Pass_BlurBilateralGaussian",
      .SetViewport tex_out.id,
      .SetShaderVertex r.m_vs_quad,
      .SetInputLayout r.m_vs_quad.id,
      .SetShaderPixel r.m_ps_blur_gaussian_bilateral,
      .SetSampler 0 .m_sampler_bilinear_clamp,
      .SetConstantBuffer 0 .Buffer_Global .m_buffer_global ]
  -- Horizontal Gaussian blur
  let r := r.emit
    [ .Begin "Pass_BlurBilateralGaussian_Horizontal",
      .UpdateBuffer r.m_ps_blur_gaussian_bilateral.id 0 (.Struct_Blur pixel_stride 0 sigma),
      .ClearTextures,
      .SetRenderTarget (tex_out.GetRenderTargetView 0) none,
      .SetTextures 0
        [tex_in.GetShaderResource, r.m_g_buffer_depth.GetShaderResource, r.m_g_buffer_normal.GetShaderResource],
      .SetConstantBuffer 1 .Buffer_PixelShader (.shader r.m_ps_blur_gaussian_bilateral.id 0),
      .DrawIndexed r.m_quad.index_count 0 0,
      .End ]
  -- Vertical Gaussian blur
  let r := r.emit
    [ .Begin "Pass_BlurBilateralGaussian_Vertical",
      .UpdateBuffer r.m_ps_blur_gaussian_bilateral.id 1 (.Struct_Blur 0 pixel_stride sigma),
      .ClearTextures,
      .SetRenderTarget (tex_in.GetRenderTargetView 0) none,
      .SetTextures 0
        [tex_out.GetShaderResource, r.m_g_buffer_depth.GetShaderResource, r.m_g_buffer_normal.GetShaderResource],
      .SetConstantBuffer 1 .Buffer_PixelShader (.shader r.m_ps_blur_gaussian_bilateral.id 1),
      .DrawIndexed r.m_quad.index_count 0 0,
      .End ]
  let r := r.emit [.End, .Submit, .Clear]
  ⟨r, tex_out, tex_in⟩

/-! ## Post-process effects -/

/-- The pass `Renderer::Pass_TAA`. -/
def Pass_TAA (r : Renderer) (tex_in tex_out : RHI_RenderTexture) : Renderer :=
  let r := r.emit [.Begin "Pass_TAA"]
  -- Resolve
  let r := r.emit
    [ .SetDefaultBuffer r.m_render_tex_full_taa_current.width r.m_render_tex_full_taa_current.height
        .Identity,
      .ClearTextures,
      .SetRenderTarget (r.m_render_tex_full_taa_current.GetRenderTargetView 0) none,
      .SetViewport r.m_render_tex_full_taa_current.id,
      .SetShaderPixel r.m_ps_taa,
      .SetSampler 0 .m_sampler_bilinear_clamp,
      .SetTextures 0
        [ r.m_render_tex_full_taa_history.GetShaderResource,
          tex_in.GetShaderResource,
          r.m_g_buffer_velocity.GetShaderResource,
          r.m_g_buffer_depth.GetShaderResource ],
      .SetConstantBuffer 0 .Buffer_Global .m_buffer_global,
      .DrawIndexed r.m_quad.index_count 0 0 ]
  -- Output to texOut
  let r := r.emit
    [ .SetDefaultBuffer tex_out.width tex_out.height .Identity,
      .SetRenderTarget (tex_out.GetRenderTargetView 0) none,
      .SetViewport tex_out.id,
      .SetShaderPixel r.m_ps_texture,
      .SetSampler 0 .m_sampler_point_clamp,
      .SetTexture 0 r.m_render_tex_full_taa_current.GetShaderResource,
      .SetConstantBuffer 0 .Buffer_Global .m_buffer_global,
      .DrawIndexed r.m_quad.index_count 0 0 ]
  let r := r.emit [.End, .Submit, .Clear]
  -- Swap textures so current becomes history
  { r with
    m_render_tex_full_taa_current := r.m_render_tex_full_taa_history,
    m_render_tex_full_taa_history := r.m_render_tex_full_taa_current }

/-- The pass `Renderer::Pass_Bloom`.  The Gaussian blur is called on the members
`m_render_tex_quarter_blur2`, `m_render_tex_quarter_blur1` by reference, with the
declaration's default `pixel_stride` (1). -/
def Pass_Bloom (r : Renderer) (tex_in tex_out : RHI_RenderTexture) : Renderer :=
  let r := r.emit [.Begin "Pass_Bloom", .SetSampler 0 .m_sampler_bilinear_clamp]
  let r := r.emit
    [ .Begin "Pass_Bloom_Downsample",
      .SetDefaultBuffer r.m_render_tex_quarter_blur1.width r.m_render_tex_quarter_blur1.height .Identity,
      .SetRenderTarget (r.m_render_tex_quarter_blur1.GetRenderTargetView 0) none,
      .SetViewport r.m_render_tex_quarter_blur1.id,
      .SetShaderPixel r.m_ps_downsample_box,
      .SetTexture 0 tex_in.GetShaderResource,
      .SetConstantBuffer 0 .Buffer_Global .m_buffer_global,
      .DrawIndexed r.m_quad.index_count 0 0,
      .End ]
  let r := r.emit
    [ .Begin "Pass_Bloom_Luminance",
      .SetDefaultBuffer r.m_render_tex_quarter_blur2.width r.m_render_tex_quarter_blur2.height .Identity,
      .SetRenderTarget (r.m_render_tex_quarter_blur2.GetRenderTargetView 0) none,
      .SetViewport r.m_render_tex_quarter_blur2.id,
      .SetShaderPixel r.m_ps_bloom_bright,
      .SetTexture 0 r.m_render_tex_quarter_blur1.GetShaderResource,
      .SetConstantBuffer 0 .Buffer_Global .m_buffer_global,
      .DrawIndexed r.m_quad.index_count 0 0,
      .End ]
  -- Gaussian blur
  let sigma : Rat := 2
  let b := Pass_BlurGaussian r r.m_render_tex_quarter_blur2 r.m_render_tex_quarter_blur1 sigma 1
  let r := { b.r with m_render_tex_quarter_blur2 := b.tex_in, m_render_tex_quarter_blur1 := b.tex_out }
  let r := r.emit
    [ .Begin "Pass_Bloom_Additive_Blending",
      .SetDefaultBuffer tex_out.width tex_out.height .Identity,
      .SetRenderTarget (tex_out.GetRenderTargetView 0) none,
      .SetViewport tex_out.id,
      .SetShaderPixel r.m_ps_bloom_blend,
      .SetTextures 0 [tex_in.GetShaderResource, r.m_render_tex_quarter_blur1.GetShaderResource],
      .SetConstantBuffer 0 .Buffer_Global .m_buffer_global,
      .DrawIndexed r.m_quad.index_count 0 0,
      .End ]
  r.emit [.End, .Submit, .Clear]

/-- The pass `Renderer::Pass_ToneMapping`. -/
def Pass_ToneMapping (r : Renderer) (tex_in tex_out : RHI_RenderTexture) : Renderer :=
  r.emit
    [ .Begin "Pass_ToneMapping",
      .SetDefaultBuffer tex_out.width tex_out.height .Identity,
      .ClearTextures,
      .SetRenderTarget (tex_out.GetRenderTargetView 0) none,
      .SetViewport tex_out.id,
      .SetShaderPixel r.m_ps_tone_mapping,
      .SetTexture 0 tex_in.GetShaderResource,
      .SetSampler 0 .m_sampler_point_clamp,
      .SetConstantBuffer 0 .Buffer_Global .m_buffer_global,
      .DrawIndexed r.m_quad.index_count 0 0,
      .End, .Submit, .Clear ]

/-- The pass `Renderer::Pass_GammaCorrection`. -/
def Pass_GammaCorrection (r : Renderer) (tex_in tex_out : RHI_RenderTexture) : Renderer :=
  r.emit
    [ .Begin "Pass_GammaCorrection",
      .SetDefaultBuffer tex_out.width tex_out.height .Identity,
      .ClearTextures,
      .SetRenderTarget (tex_out.GetRenderTargetView 0) none,
      .SetViewport tex_out.id,
      .SetShaderPixel r.m_ps_gamma_correction,
      .SetTexture 0 tex_in.GetShaderResource,
      .SetSampler 0 .m_sampler_point_clamp,
      .SetConstantBuffer 0 .Buffer_Global .m_buffer_global,
      .DrawIndexed r.m_quad.index_count 0 0,
      .End, .Submit, .Clear ]

/-- The pass `Renderer::Pass_FXAA`; it exchanges `tex_in` and `tex_out` before returning. -/
def Pass_FXAA (r : Renderer) (tex_in tex_out : RHI_RenderTexture) : PassState :=
  let r := r.emit
    [ .Begin "Pass_FXAA",
      .SetDefaultBuffer tex_out.width tex_out.height .Identity,
      .ClearTextures,
      .SetRenderTarget (tex_out.GetRenderTargetView 0) none,
      .SetViewport tex_out.id,
      .SetSampler 0 .m_sampler_bilinear_clamp,
      .SetConstantBuffer 0 .Buffer_Global .m_buffer_global ]
  -- Luma
  let r := r.emit
    [ .SetRenderTarget (tex_out.GetRenderTargetView 0) none,
      .SetShaderPixel r.m_ps_luma,
      .SetTexture 0 tex_in.GetShaderResource,
      .DrawIndexed r.m_quad.index_count 0 0 ]
  -- FXAA
  let r := r.emit
    [ .SetRenderTarget (tex_in.GetRenderTargetView 0) none,
      .SetShaderPixel r.m_ps_fxaa,
      .SetTexture 0 tex_out.GetShaderResource,
      .DrawIndexed r.m_quad.index_count 0 0 ]
  let r := r.emit [.End, .Submit, .Clear]
  -- Swap the textures
  ⟨r, tex_out, tex_in⟩

/-- The pass `Renderer::Pass_ChromaticAberration`. -/
def Pass_ChromaticAberration (r : Renderer) (tex_in tex_out : RHI_RenderTexture) : Renderer :=
  r.emit
    [ .Begin "Pass_ChromaticAberration",
      .SetDefaultBuffer tex_out.width tex_out.height .Identity,
      .ClearTextures,
      .SetRenderTarget (tex_out.GetRenderTargetView 0) none,
      .SetViewport tex_out.id,
      .SetShaderPixel r.m_ps_chromatic_aberration,
      .SetTexture 0 tex_in.GetShaderResource,
      .SetSampler 0 .m_sampler_bilinear_clamp,
      .SetConstantBuffer 0 .Buffer_Global .m_buffer_global,
      .DrawIndexed r.m_quad.index_count 0 0,
      .End, .Submit, .Clear ]

/-- The pass `Renderer::Pass_MotionBlur`. -/
def Pass_MotionBlur (r : Renderer) (tex_in tex_out : RHI_RenderTexture) : Renderer :=
  r.emit
    [ .Begin "Pass_MotionBlur",
      .SetDefaultBuffer tex_out.width tex_out.height .Identity,
      .ClearTextures,
      .SetRenderTarget (tex_out.GetRenderTargetView 0) none,
      .SetViewport tex_out.id,
      .SetShaderPixel r.m_ps_motion_blur,
      .SetSampler 0 .m_sampler_bilinear_clamp,
      .SetTextures 0 [tex_in.GetShaderResource, r.m_g_buffer_velocity.GetShaderResource],
      .SetConstantBuffer 0 .Buffer_Global .m_buffer_global,
      .DrawIndexed r.m_quad.index_count 0 0,
      .End, .Submit, .Clear ]

/-- The pass `Renderer::Pass_Dithering`. -/
def Pass_Dithering (r : Renderer) (tex_in tex_out : RHI_RenderTexture) : Renderer :=
  r.emit
    [ .Begin "Pass_Dithering",
      .SetDefaultBuffer tex_out.width tex_out.height .Identity,
      .ClearTextures,
      .SetRenderTarget (tex_out.GetRenderTargetView 0) none,
      .SetViewport tex_out.id,
      .SetShaderPixel r.m_ps_dithering,
      .SetSampler 0 .m_sampler_point_clamp,
      .SetTexture 0 tex_in.GetShaderResource,
      .SetConstantBuffer 0 .Buffer_Global .m_buffer_global,
      .DrawIndexed r.m_quad.index_count 0 0,
      .End, .Submit, .Clear ]

/-- The pass `Renderer::Pass_Sharpening`. -/
def Pass_Sharpening (r : Renderer) (tex_in tex_out : RHI_RenderTexture) : Renderer :=
  r.emit
    [ .Begin "Pass_Sharpening",
      .SetDefaultBuffer tex_out.width tex_out.height .Identity,
      .ClearTextures,
      .SetRenderTarget (tex_out.GetRenderTargetView 0) none,
      .SetViewport tex_out.id,
      .SetShaderPixel r.m_ps_sharpening,
      .SetTexture 0 tex_in.GetShaderResource,
      .SetSampler 0 .m_sampler_bilinear_clamp,
      .SetConstantBuffer 0 .Buffer_Global .m_buffer_global,
      .DrawIndexed r.m_quad.index_count 0 0,
      .End, .Submit, .Clear ]

/-! ## Pass_PostLight -/

/-- The lambda `swap_targets` of `Pass_PostLight`:
`m_cmd_list->Submit(); tex_out.swap(tex_in);`. -/
def swap_targets (s : PassState) : PassState :=
  { r := s.r.emit [.Submit], tex_in := s.tex_out, tex_out := s.tex_in }

/-- The pass `Renderer::Pass_PostLight`; the returned `tex_in`, `tex_out` are the caller's two
references as the pass leaves them. -/
def Pass_PostLight (r : Renderer) (tex_in tex_out : RHI_RenderTexture) : PassState :=
  -- All post-process passes share the following, so set them once here
  let r := r.emit
    [ .Begin "Pass_PostLight",
      .SetDepthStencilState .m_depth_stencil_disabled,
      .SetRasterizerState .m_rasterizer_cull_back_solid,
      .SetBlendState .m_blend_disabled,
      .SetPrimitiveTopology .PrimitiveTopology_TriangleList,
      .SetBufferVertex r.m_quad.vertex_buffer,
      .SetBufferIndex r.m_quad.index_buffer,
      .SetShaderVertex r.m_vs_quad,
      .SetInputLayout r.m_vs_quad.id ]
  let s : PassState := ⟨r, tex_in, tex_out⟩
  -- TAA
  let s := if s.r.Flags_IsSet .Render_PostProcess_TAA then
      swap_targets { s with r := Pass_TAA s.r s.tex_in s.tex_out } else s
  -- Bloom
  let s := if s.r.Flags_IsSet .Render_PostProcess_Bloom then
      swap_targets { s with r := Pass_Bloom s.r s.tex_in s.tex_out } else s
  -- Motion Blur
  let s := if s.r.Flags_IsSet .Render_PostProcess_MotionBlur then
      swap_targets { s with r := Pass_MotionBlur s.r s.tex_in s.tex_out } else s
  -- Dithering
  let s := if s.r.Flags_IsSet .Render_PostProcess_Dithering then
      swap_targets { s with r := Pass_Dithering s.r s.tex_in s.tex_out } else s
  -- Tone-Mapping
  let s := if s.r.m_tonemapping ≠ .ToneMapping_Off then
      swap_targets { s with r := Pass_ToneMapping s.r s.tex_in s.tex_out } else s
  -- FXAA
  let s := if s.r.Flags_IsSet .Render_PostProcess_FXAA then
      swap_targets (Pass_FXAA s.r s.tex_in s.tex_out) else s
  -- Sharpening
  let s := if s.r.Flags_IsSet .Render_PostProcess_Sharpening then
      swap_targets { s with r := Pass_Sharpening s.r s.tex_in s.tex_out } else s
  -- Chromatic aberration
  let s := if s.r.Flags_IsSet .Render_PostProcess_ChromaticAberration then
      swap_targets { s with r := Pass_ChromaticAberration s.r s.tex_in s.tex_out } else s
  -- Gamma correction
  let r := Pass_GammaCorrection s.r s.tex_in s.tex_out
  { s with r := r.emit [.End, .Submit, .Clear] }

/-! ## Pass_ShadowMapping, Pass_SSAO, Pass_BlurBox, Pass_PreLight -/

/-- The pass `Renderer::Pass_ShadowMapping`.  The texture list is built from
`light_directional_in->GetShadowMap()->GetShaderResource()` with no test of the shadow map:
when the light has none, the pass dereferences null after its `Begin`, the default-buffer
update and the shader-buffer update (`.error` with the renderer at that point). -/
def Pass_ShadowMapping (r : Renderer) (tex_out : RHI_RenderTexture)
    (light_directional_in : Option Light) : Except Renderer Renderer :=
  match light_directional_in with
  | none => .ok r
  | some light =>
  if !light.GetCastShadows then .ok r else
  let r := r.emit
    [ .Begin "Pass_Shadowing",
      .SetDefaultBuffer tex_out.width tex_out.height .m_view_projection_orthographic,
      .UpdateBuffer r.m_vps_shadow_mapping.id 0 .Struct_ShadowMapping ]
  let constant_buffers := [ConstantBuffer.m_buffer_global, ConstantBuffer.shader r.m_vps_shadow_mapping.id 0]
  match light.GetShadowMap with
  | none => .error r
  | some shadow_map =>
  let textures : List (Option Nat) :=
    [ r.m_g_buffer_normal.GetShaderResource,
      r.m_g_buffer_depth.GetShaderResource,
      shadow_map.GetShaderResource ]
  let samplers := [Sampler.m_sampler_compare_depth, Sampler.m_sampler_bilinear_clamp]
  .ok (r.emit
    [ .SetRenderTarget (tex_out.GetRenderTargetView 0) none,
      .SetViewport tex_out.id,
      .SetShaderVertex r.m_vps_shadow_mapping,
      .SetShaderPixel r.m_vps_shadow_mapping,
      .SetInputLayout r.m_vps_shadow_mapping.id,
      .SetTextures 0 textures,
      .SetSamplers 0 samplers,
      .SetConstantBuffers 0 .Buffer_Global constant_buffers,
      .DrawIndexed r.m_quad.index_count 0 0,
      .End, .Submit, .Clear ])

/-- The pass `Renderer::Pass_SSAO`. -/
def Pass_SSAO (r : Renderer) (tex_out : RHI_RenderTexture) : Renderer :=
  let textures : List (Option Nat) :=
    [r.m_g_buffer_normal.GetShaderResource, r.m_g_buffer_depth.GetShaderResource, some r.m_tex_noise_normal]
  let samplers := [Sampler.m_sampler_bilinear_clamp, Sampler.m_sampler_bilinear_wrap]
  r.emit
    [ .Begin "Pass_SSAO",
      .SetDefaultBuffer tex_out.width tex_out.height .Identity,
      .ClearTextures,
      .SetRenderTarget (tex_out.GetRenderTargetView 0) none,
      .SetViewport tex_out.id,
      .SetShaderVertex r.m_vs_quad,
      .SetInputLayout r.m_vs_quad.id,
      .SetShaderPixel r.m_vps_ssao,
      .SetTextures 0 textures,
      .SetSamplers 0 samplers,
      .SetConstantBuffer 0 .Buffer_Global .m_buffer_global,
      .DrawIndexed r.m_quad.index_count 0 0,
      .End, .Submit, .Clear ]

/-- The pass `Renderer::Pass_BlurBox`. -/
def Pass_BlurBox (r : Renderer) (tex_in tex_out : RHI_RenderTexture) : Renderer :=
  r.emit
    [ .Begin "Pass_BlurBox",
      .SetDefaultBuffer tex_out.width tex_out.height .Identity,
      .SetRenderTarget (tex_out.GetRenderTargetView 0) none,
      .SetViewport tex_out.id,
      .SetShaderPixel r.m_ps_blur_box,
      .SetTexture 0 tex_in.GetShaderResource,
      .SetSampler 0 .m_sampler_trilinear_clamp,
      .SetConstantBuffer 0 .Buffer_Global .m_buffer_global,
      .DrawIndexed r.m_quad.index_count 0 0,
      .End, .Submit, .Clear ]

/-- Result of `Pass_PreLight` with its three texture references as it leaves them. -/
structure PreLightState where
  r : Renderer
  tex_in : RHI_RenderTexture
  tex_shadows_out : RHI_RenderTexture
  tex_ssao_out : RHI_RenderTexture
deriving DecidableEq, Repr

/-- The pass `Renderer::Pass_PreLight`; a null dereference in `Pass_ShadowMapping` ends it. -/
def Pass_PreLight (r : Renderer) (tex_in tex_shadows_out tex_ssao_out : RHI_RenderTexture) :
    Except Renderer PreLightState :=
  let r := r.emit
    [ .Begin "Pass_PreLight",
      .SetDepthStencilState .m_depth_stencil_disabled,
      .SetRasterizerState .m_rasterizer_cull_back_solid,
      .SetBlendState .m_blend_disabled,
      .SetPrimitiveTopology .PrimitiveTopology_TriangleList,
      .SetBufferVertex r.m_quad.vertex_buffer,
      .SetBufferIndex r.m_quad.index_buffer ]
  -- Shadow mapping + Blur
  let s0 : PreLightState := ⟨r, tex_in, tex_shadows_out, tex_ssao_out⟩
  let p : Except Renderer (PreLightState × Bool) :=
    match r.GetLightDirectional with
    | some light_dir =>
      if light_dir.GetCastShadows then
        match Pass_ShadowMapping r tex_in r.GetLightDirectional with
        | .error x => .error x
        | .ok r =>
          let b := Pass_BlurBilateralGaussian r tex_in tex_shadows_out 1 1
          .ok (⟨b.r, b.tex_in, b.tex_out, tex_ssao_out⟩, true)
      else .ok (s0, false)
    | none => .ok (s0, false)
  match p with
  | .error x => .error x
  | .ok p =>
  let shadow_mapped := p.2
  let s := p.1
  let s := if !shadow_mapped then
      { s with r := s.r.emit [.Texture_Clear s.tex_shadows_out.id ⟨1, 1, 1, 1⟩] }
    else s
  -- SSAO + Blur
  let s := if s.r.Flags_IsSet .Render_PostProcess_SSAO then
      let r := Pass_SSAO s.r s.tex_in
      let b := Pass_BlurBilateralGaussian r s.tex_in s.tex_ssao_out 1 1
      ⟨b.r, b.tex_in, s.tex_shadows_out, b.tex_out⟩
    else s
  .ok { s with r := s.r.emit [.End] }

/-! ## Overlay passes -/

/-- The helper `DrawLine`, declared outside these sources: taken as adding `DrawLine_vertices`
vertices to the depth-tested line list. -/
def Renderer.DrawLine (r : Renderer) : Renderer :=
  { r with m_lines_list_depth_enabled := r.m_lines_list_depth_enabled + r.DrawLine_vertices }

/-- The helper `DrawBox`, declared outside these sources: taken as adding `DrawBox_vertices`
vertices to the depth-tested line list. -/
def Renderer.DrawBox (r : Renderer) : Renderer :=
  { r with m_lines_list_depth_enabled := r.m_lines_list_depth_enabled + r.DrawBox_vertices }

/-- Body of the two AABB loops of `Pass_Lines`. -/
def Pass_Lines_aabb (r : Renderer) (entity : Entity) : Renderer :=
  match entity.renderable with
  | some _ => r.DrawBox
  | none => r

/-- The pass `Renderer::Pass_Lines`; the line lists are kept by their vertex counts. -/
def Pass_Lines (r : Renderer) (tex_out : RHI_RenderTexture) : Renderer :=
  let draw_picking_ray := r.Flags_IsSet .Render_Gizmo_PickingRay
  let draw_aabb := r.Flags_IsSet .Render_Gizmo_AABB
  let draw_grid := r.Flags_IsSet .Render_Gizmo_Grid
  let draw_lines := decide (r.m_lines_list_depth_enabled ≠ 0) || decide (r.m_lines_list_depth_disabled ≠ 0)
  let draw := draw_picking_ray || draw_aabb || draw_grid || draw_lines
  if !draw then r else
  let r := r.emit [.Begin "Pass_Lines"]
  -- Generate lines for debug primitives offered by the renderer
  let r := if draw_picking_ray then r.DrawLine else r
  let r := if draw_aabb then
      let r := r.m_entities_ObjectOpaque.foldl Pass_Lines_aabb r
      r.m_entities_ObjectTransparent.foldl Pass_Lines_aabb r
    else r
  -- Begin command list
  let r := r.emit
    [ .SetViewport tex_out.id,
      .SetRasterizerState .m_rasterizer_cull_back_wireframe,
      .SetBlendState .m_blend_disabled,
      .SetPrimitiveTopology .PrimitiveTopology_LineList,
      .SetShaderVertex r.m_vps_color,
      .SetShaderPixel r.m_vps_color,
      .SetInputLayout r.m_vps_color.id,
      .SetSampler 0 .m_sampler_point_clamp ]
  -- Draw lines that require depth
  let r := r.emit
    [ .SetDepthStencilState .m_depth_stencil_enabled,
      .SetRenderTarget (tex_out.GetRenderTargetView 0) (some r.m_g_buffer_depth.GetDepthStencilView) ]
  let r := if draw_grid then
      r.emit
        [ .SetDefaultBuffer r.m_resolution_x r.m_resolution_y .grid_world_view_projection_unjittered,
          .SetBufferIndex r.m_gizmo_grid.index_buffer,
          .SetBufferVertex r.m_gizmo_grid.vertex_buffer,
          .SetBlendState .m_blend_enabled,
          .SetConstantBuffer 0 .Buffer_Global .m_buffer_global,
          .DrawIndexed r.m_gizmo_grid.index_count 0 0 ]
    else r
  let line_vertex_buffer_size := r.m_lines_list_depth_enabled
  let r := if line_vertex_buffer_size ≠ 0 then
      -- Grow vertex buffer (if needed)
      let r := if line_vertex_buffer_size > r.m_vertex_buffer_lines_count then
          { r.emit [.VertexBuffer_CreateDynamic line_vertex_buffer_size] with
            m_vertex_buffer_lines_count := line_vertex_buffer_size }
        else r
      let r := r.emit
        [ .VertexBuffer_Update line_vertex_buffer_size,
          .SetDefaultBuffer r.m_resolution_x r.m_resolution_y .view_projection_unjittered,
          .SetBufferVertex r.m_vertex_buffer_lines,
          .SetConstantBuffer 0 .Buffer_Global .m_buffer_global,
          .Draw line_vertex_buffer_size ]
      { r with m_lines_list_depth_enabled := 0 }
    else r
  -- Draw lines that don't require depth
  let r := r.emit
    [ .SetDepthStencilState .m_depth_stencil_disabled,
      .SetRenderTarget (tex_out.GetRenderTargetView 0) none ]
  let line_vertex_buffer_size := r.m_lines_list_depth_disabled
  let r := if line_vertex_buffer_size ≠ 0 then
      let r := if line_vertex_buffer_size > r.m_vertex_buffer_lines_count then
          { r.emit [.VertexBuffer_CreateDynamic line_vertex_buffer_size] with
            m_vertex_buffer_lines_count := line_vertex_buffer_size }
        else r
      let r := r.emit
        [ .VertexBuffer_Update line_vertex_buffer_size,
          .SetBufferVertex r.m_vertex_buffer_lines,
          .SetDefaultBuffer r.m_resolution_x r.m_resolution_y .view_projection_unjittered,
          .Draw line_vertex_buffer_size ]
      { r with m_lines_list_depth_disabled := 0 }
    else r
  r.emit [.End, .Submit, .Clear]

/-- Body of the light loop of `Pass_Gizmos`. -/
def Pass_Gizmos_light (r : Renderer) (entity : LightEntity) : Renderer :=
  -- Don't bother drawing if out of view
  if entity.v_dot_l ≤ 1 / 2 then r else
  -- Choose texture based on light type
  let light_tex :=
    match entity.light_type with
    | .LightType_Directional => r.m_gizmo_tex_light_directional
    | .LightType_Point => r.m_gizmo_tex_light_point
    | .LightType_Spot => r.m_gizmo_tex_light_spot
  -- Construct appropriate rectangle
  let r := if entity.rectangle ≠ r.m_gizmo_light_rect then
      { r with m_gizmo_light_rect := entity.rectangle }.emit [.Rectangle_CreateBuffers]
    else r
  r.emit
    [ .SetDefaultBuffer entity.tex_width entity.tex_width .m_view_projection_orthographic,
      .SetShaderVertex r.m_vs_quad,
      .SetShaderPixel r.m_ps_texture,
      .SetInputLayout r.m_vs_quad.id,
      .SetSampler 0 .m_sampler_bilinear_clamp,
      .SetConstantBuffer 0 .Buffer_Global .m_buffer_global,
      .SetTexture 0 (some light_tex),
      .SetBufferIndex r.m_gizmo_light_rect_buffers.index_buffer,
      .SetBufferVertex r.m_gizmo_light_rect_buffers.vertex_buffer,
      .DrawIndexed r.m_gizmo_light_rect_buffers.index_count 0 0,
      .Submit, .Clear ]

/-- The pass `Renderer::Pass_Gizmos`. -/
def Pass_Gizmos (r : Renderer) (tex_out : RHI_RenderTexture) : Renderer :=
  let render_lights := r.Flags_IsSet .Render_Gizmo_Lights
  let render_transform := r.Flags_IsSet .Render_Gizmo_Transform
  let render := render_lights || render_transform
  if !render then r else
  let r := r.emit
    [ .Begin "Pass_Gizmos",
      .SetDepthStencilState .m_depth_stencil_disabled,
      .SetRasterizerState .m_rasterizer_cull_back_solid,
      .SetBlendState .m_blend_enabled,
      .SetPrimitiveTopology .PrimitiveTopology_TriangleList,
      .SetViewport tex_out.id,
      .SetRenderTarget (tex_out.GetRenderTargetView 0) none ]
  let lights := r.m_entities_Light
  let r := if render_lights && !lights.isEmpty then
      let r := r.emit [.Begin "Pass_Gizmos_Lights"]
      let r := lights.foldl Pass_Gizmos_light r
      r.emit [.End]
    else r
  -- Transform
  let r := if render_transform then
      let r := r.emit [.Gizmo_Update]
      if r.m_gizmo_transform.update_result then
        let r := r.emit
          [ .Begin "Pass_Gizmos_Transform",
            .SetDefaultBuffer r.m_resolution_x r.m_resolution_y .m_view_projection_orthographic,
            .SetShaderVertex r.m_vps_gizmo_transform,
            .SetShaderPixel r.m_vps_gizmo_transform,
            .SetInputLayout r.m_vps_gizmo_transform.id,
            .SetBufferIndex r.m_gizmo_transform.index_buffer,
            .SetBufferVertex r.m_gizmo_transform.vertex_buffer,
            .SetConstantBuffer 0 .Buffer_Global .m_buffer_global ]
        -- Axis - X, Y, Z
        let r := r.emit
          [ .UpdateBuffer r.m_vps_gizmo_transform.id 0 (.Struct_Matrix_Vector3 0),
            .SetConstantBuffer 1 .Buffer_Global (.shader r.m_vps_gizmo_transform.id 0),
            .DrawIndexed r.m_gizmo_transform.index_count 0 0,
            .UpdateBuffer r.m_vps_gizmo_transform.id 1 (.Struct_Matrix_Vector3 1),
            .SetConstantBuffer 1 .Buffer_Global (.shader r.m_vps_gizmo_transform.id 1),
            .DrawIndexed r.m_gizmo_transform.index_count 0 0,
            .UpdateBuffer r.m_vps_gizmo_transform.id 2 (.Struct_Matrix_Vector3 2),
            .SetConstantBuffer 1 .Buffer_Global (.shader r.m_vps_gizmo_transform.id 2),
            .DrawIndexed r.m_gizmo_transform.index_count 0 0 ]
        -- Axes - XYZ
        let r := if r.m_gizmo_transform.draw_xyz then
            r.emit
              [ .UpdateBuffer r.m_vps_gizmo_transform.id 3 (.Struct_Matrix_Vector3 3),
                .SetConstantBuffer 1 .Buffer_Global (.shader r.m_vps_gizmo_transform.id 3),
                .DrawIndexed r.m_gizmo_transform.index_count 0 0 ]
          else r
        r.emit [.End]
      else r
    else r
  r.emit [.End, .Submit, .Clear]

/-- The pass `Renderer::Pass_PerformanceMetrics`. -/
def Pass_PerformanceMetrics (r : Renderer) (tex_out : RHI_RenderTexture) : Renderer :=
  let draw := r.Flags_IsSet .Render_Gizmo_PerformanceMetrics
  if !draw then r else
  r.emit
    [ .Begin "Pass_PerformanceMetrics",
      .Font_SetText,
      .UpdateBuffer r.m_vps_font.id 0 .Struct_Matrix_Vector4,
      .SetDepthStencilState .m_depth_stencil_disabled,
      .SetRasterizerState .m_rasterizer_cull_back_solid,
      .SetPrimitiveTopology .PrimitiveTopology_TriangleList,
      .SetRenderTarget (tex_out.GetRenderTargetView 0) none,
      .SetViewport tex_out.id,
      .SetBlendState .m_blend_enabled,
      .SetTexture 0 (some r.m_font.texture),
      .SetSampler 0 .m_sampler_bilinear_clamp,
      .SetConstantBuffer 0 .Buffer_Global (.shader r.m_vps_font.id 0),
      .SetShaderVertex r.m_vps_font,
      .SetShaderPixel r.m_vps_font,
      .SetInputLayout r.m_vps_font.id,
      .SetBufferIndex r.m_font.index_buffer,
      .SetBufferVertex r.m_font.vertex_buffer,
      .DrawIndexed r.m_font.index_count 0 0,
      .End, .Submit, .Clear ]

/-- The pass `Renderer::Pass_DebugBuffer` (its result is always `true`). -/
def Pass_DebugBuffer (r : Renderer) (tex_out : RHI_RenderTexture) : Renderer :=
  if r.m_debug_buffer = .RendererDebug_None then r else
  let r := r.emit
    [ .Begin "Pass_DebugBuffer",
      .SetDefaultBuffer tex_out.width tex_out.height .m_view_projection_orthographic ]
  -- Bind correct texture & shader pass
  let r := if r.m_debug_buffer = .RendererDebug_Albedo then
      r.emit [.SetTexture 0 r.m_g_buffer_albedo.GetShaderResource, .SetShaderPixel r.m_ps_texture]
    else r
  let r := if r.m_debug_buffer = .RendererDebug_Normal then
      r.emit [.SetTexture 0 r.m_g_buffer_normal.GetShaderResource, .SetShaderPixel r.m_ps_debug_normal_]
    else r
  let r := if r.m_debug_buffer = .RendererDebug_Material then
      r.emit [.SetTexture 0 r.m_g_buffer_material.GetShaderResource, .SetShaderPixel r.m_ps_texture]
    else r
  let r := if r.m_debug_buffer = .RendererDebug_Velocity then
      r.emit [.SetTexture 0 r.m_g_buffer_velocity.GetShaderResource, .SetShaderPixel r.m_ps_debug_velocity]
    else r
  let r := if r.m_debug_buffer = .RendererDebug_Depth then
      r.emit [.SetTexture 0 r.m_g_buffer_depth.GetShaderResource, .SetShaderPixel r.m_ps_debug_depth]
    else r
  let r := if r.m_debug_buffer = .RendererDebug_SSAO then
      let r := if r.Flags_IsSet .Render_PostProcess_SSAO then
          r.emit [.SetTexture 0 r.m_render_tex_half_ssao.GetShaderResource]
        else r.emit [.SetTexture 0 (some r.m_tex_white)]
      r.emit [.SetShaderPixel r.m_ps_debug_ssao]
    else r
  r.emit
    [ .SetDepthStencilState .m_depth_stencil_disabled,
      .SetRasterizerState .m_rasterizer_cull_back_solid,
      .SetBlendState .m_blend_disabled,
      .SetPrimitiveTopology .PrimitiveTopology_TriangleList,
      .SetRenderTarget (tex_out.GetRenderTargetView 0) none,
      .SetViewport tex_out.id,
      .SetShaderVertex r.m_vs_quad,
      .SetInputLayout r.m_vs_quad.id,
      .SetSampler 0 .m_sampler_bilinear_clamp,
      .SetConstantBuffer 0 .Buffer_Global .m_buffer_global,
      .SetBufferVertex r.m_quad.vertex_buffer,
      .SetBufferIndex r.m_quad.index_buffer,
      .DrawIndexed r.m_quad.index_count 0 0,
      .End, .Submit, .Clear ]

/-! ## Pass_Main -/

/-- The frame entry point `Renderer::Pass_Main`.  The passes that take texture members by
reference hand them back, and the members are updated from what they return; a null
dereference in `Pass_PreLight` ends the frame there. -/
def Pass_Main (r : Renderer) : Except Renderer Renderer :=
  let r := r.emit [.Begin "Pass_Main"]
  let r := Pass_DepthDirectionalLight r r.GetLightDirectional
  let r := Pass_GBuffer r
  match Pass_PreLight r r.m_render_tex_half_spare r.m_render_tex_half_shadows r.m_render_tex_half_ssao with
  | .error x => .error x
  | .ok p =>
  let r := { p.r with
    m_render_tex_half_spare := p.tex_in,
    m_render_tex_half_shadows := p.tex_shadows_out,
    m_render_tex_half_ssao := p.tex_ssao_out }
  let r := Pass_Light r r.m_render_tex_half_shadows r.m_render_tex_half_ssao r.m_render_tex_full_hdr_light
  let r := Pass_Transparent r r.m_render_tex_full_hdr_light
  let s := Pass_PostLight r r.m_render_tex_full_hdr_light r.m_render_tex_full_hdr_light2
  let r := { s.r with
    m_render_tex_full_hdr_light := s.tex_in,
    m_render_tex_full_hdr_light2 := s.tex_out }
  let r := Pass_Lines r r.m_render_tex_full_hdr_light2
  let r := Pass_Gizmos r r.m_render_tex_full_hdr_light2
  let r := Pass_DebugBuffer r r.m_render_tex_full_hdr_light2
  let r := Pass_PerformanceMetrics r r.m_render_tex_full_hdr_light2
  .ok (r.emit [.End, .Submit, .Clear])

/-! ## Reading a trace -/

/-- Draw calls. -/
def Ev.isDraw : Ev → Bool
  | .Draw _ => true
  | .DrawIndexed _ _ _ => true
  | _ => false

/-- The four colour channels of the G-buffer are cleared to `Vector4::Zero` in `t`. -/
def colourChannelsClearedToZero (r : Renderer) (t : List Ev) : Prop :=
  Ev.ClearRenderTarget (r.m_g_buffer_albedo.GetRenderTargetView 0) Vector4.Zero ∈ t ∧
  Ev.ClearRenderTarget (r.m_g_buffer_normal.GetRenderTargetView 0) Vector4.Zero ∈ t ∧
  Ev.ClearRenderTarget (r.m_g_buffer_material.GetRenderTargetView 0) Vector4.Zero ∈ t ∧
  Ev.ClearRenderTarget (r.m_g_buffer_velocity.GetRenderTargetView 0) Vector4.Zero ∈ t

/-- The depth channel of the G-buffer is cleared to depth `d` in `t`. -/
def depthChannelClearedTo (r : Renderer) (d : Rat) (t : List Ev) : Prop :=
  Ev.ClearDepthStencil r.m_g_buffer_depth.GetDepthStencilView .Clear_Depth d ∈ t

/-- All five G-buffer channels (albedo, normal, material, velocity, depth) are cleared to
zero in `t`. -/
def allChannelsClearedToZero (r : Renderer) (t : List Ev) : Prop :=
  colourChannelsClearedToZero r t ∧ depthChannelClearedTo r 0 t

instance (r : Renderer) (t : List Ev) : Decidable (colourChannelsClearedToZero r t) := by
  unfold colourChannelsClearedToZero; infer_instance

instance (r : Renderer) (d : Rat) (t : List Ev) : Decidable (depthChannelClearedTo r d t) := by
  unfold depthChannelClearedTo; infer_instance

instance (r : Renderer) (t : List Ev) : Decidable (allChannelsClearedToZero r t) := by
  unfold allChannelsClearedToZero; infer_instance

/-! ## Reading the post-process chain off a trace -/

/-- The effect passes `Pass_PostLight` can call, by the name each opens its scope with. -/
def effectPassNames : List String :=
  [ "Pass_TAA", "Pass_Bloom", "Pass_MotionBlur", "Pass_Dithering", "Pass_ToneMapping",
    "Pass_FXAA", "Pass_Sharpening", "Pass_ChromaticAberration", "Pass_GammaCorrection" ]

/-- What one run of an effect pass did: its name, the textures it had bound (since its
scope began or the last `ClearTextures`) when its first draw was recorded, the render
target of its most recent draw, and its number of draws. -/
structure EffectRun where
  name : String
  reads : List Nat
  target : Option RenderTargetView
  draws : Nat
deriving DecidableEq, Repr

/-- Record a draw with the given render target and bound textures. -/
def EffectRun.draw (e : EffectRun) (target : Option RenderTargetView) (textures : List Nat) : EffectRun :=
  { e with
    reads := if e.draws = 0 then textures else e.reads,
    target := target,
    draws := e.draws + 1 }

/-- State of a left-to-right reading of a trace: current render target, textures bound
by the running effect, finished runs (oldest first) and the running effect. -/
structure ChainScan where
  target : Option RenderTargetView
  textures : List Nat
  runs : List EffectRun
  cur : Option EffectRun
deriving DecidableEq, Repr

def ChainScan.init : ChainScan := ⟨none, [], [], none⟩

/-- Read one event. -/
def ChainScan.step (st : ChainScan) : Ev → ChainScan
  | .Begin n =>
    if n ∈ effectPassNames then
      { st with textures := [], runs := st.runs ++ st.cur.toList, cur := some ⟨n, [], none, 0⟩ }
    else st
  | .SetRenderTarget rt _ => { st with target := some rt }
  | .SetTexture _ t => { st with textures := st.textures ++ t.toList }
  | .SetTextures _ l => { st with textures := st.textures ++ l.reduceOption }
  | .ClearTextures => { st with textures := [] }
  | .DrawIndexed _ _ _ => { st with cur := st.cur.map (fun e => e.draw st.target st.textures) }
  | .Draw _ => { st with cur := st.cur.map (fun e => e.draw st.target st.textures) }
  | _ => st

/-- All runs seen so far, oldest first. -/
def ChainScan.finish (st : ChainScan) : List EffectRun := st.runs ++ st.cur.toList

/-- The effect runs of a trace, in order. -/
def effectRuns (evs : List Ev) : List EffectRun := (evs.foldl ChainScan.step ChainScan.init).finish

/-- The handle holding the chain's output after the given runs, starting from `start`:
the texture of the last run's final render target. -/
def chainOut (start : Nat) : List EffectRun → Nat
  | [] => start
  | e :: rest =>
    match e.target with
    | some rt => chainOut rt.texture rest
    | none => chainOut start rest

/-- Ping-pong protocol along a list of runs: the first run reads `start`, has a final
render target, and the remaining runs follow the protocol from that target's texture. -/
def chainFrom (start : Nat) : List EffectRun → Bool
  | [] => true
  | e :: rest =>
    e.reads.contains start &&
      match e.target with
      | some rt => chainFrom rt.texture rest
      | none => false

/-- The optional effects of `Pass_PostLight`. -/
inductive PostEffect where
  | TAA
  | Bloom
  | MotionBlur
  | Dithering
  | ToneMapping
  | FXAA
  | Sharpening
  | ChromaticAberration
deriving DecidableEq, Repr

/-- The fixed declared order of the optional effects. -/
def declaredOrder : List PostEffect :=
  [.TAA, .Bloom, .MotionBlur, .Dithering, .ToneMapping, .FXAA, .Sharpening, .ChromaticAberration]

def PostEffect.passName : PostEffect → String
  | .TAA => "Pass_TAA"
  | .Bloom => "Pass_Bloom"
  | .MotionBlur => "Pass_MotionBlur"
  | .Dithering => "Pass_Dithering"
  | .ToneMapping => "Pass_ToneMapping"
  | .FXAA => "Pass_FXAA"
  | .Sharpening => "Pass_Sharpening"
  | .ChromaticAberration => "Pass_ChromaticAberration"

/-- Whether an optional effect is enabled: its flag, or for tone mapping an operator other
than `ToneMapping_Off`. -/
def Renderer.effectEnabled (r : Renderer) : PostEffect → Bool
  | .TAA => r.Flags_IsSet .Render_PostProcess_TAA
  | .Bloom => r.Flags_IsSet .Render_PostProcess_Bloom
  | .MotionBlur => r.Flags_IsSet .Render_PostProcess_MotionBlur
  | .Dithering => r.Flags_IsSet .Render_PostProcess_Dithering
  | .ToneMapping => decide (r.m_tonemapping ≠ .ToneMapping_Off)
  | .FXAA => r.Flags_IsSet .Render_PostProcess_FXAA
  | .Sharpening => r.Flags_IsSet .Render_PostProcess_Sharpening
  | .ChromaticAberration => r.Flags_IsSet .Render_PostProcess_ChromaticAberration

/-- The declared chain for a configuration: enabled effects in declared order, then gamma
correction. -/
def expectedEffects (r : Renderer) : List String :=
  (declaredOrder.filter r.effectEnabled).map PostEffect.passName ++ ["Pass_GammaCorrection"]

/-- The events a pass appended: the trace after the pass, without the trace before it. -/
def appended (before after : Renderer) : List Ev := after.trace.drop before.trace.length

/-- From `s` to `s'` the flags and tone-mapping selection are kept, the trace is only
extended, and reading the appended events adds exactly the effect runs `runs`. -/
def Seg (s s' : PassState) (runs : List EffectRun) : Prop :=
  s'.r.m_flags = s.r.m_flags ∧ s'.r.m_tonemapping = s.r.m_tonemapping ∧
  s'.r.trace = s.r.trace ++ appended s.r s'.r ∧
  ∀ st : ChainScan, ((appended s.r s'.r).foldl ChainScan.step st).finish = st.finish ++ runs

/-- A stretch of the chain from `s` to `s'`: its runs carry the names `names`, follow the
ping-pong protocol starting from the handle in `s.tex_in`, and leave the output in the
handle `out`. -/
def Link (s s' : PassState) (out : Nat) (names : List String) : Prop :=
  ∃ runs, Seg s s' runs ∧ runs.map (fun e => e.name) = names ∧
    chainFrom s.tex_in.id runs = true ∧ chainOut s.tex_in.id runs = out

/-! ### `Pass_PostLight` stage by stage -/

/-- The shared state `Pass_PostLight` sets before the first effect. -/
def PostLight_begin (r : Renderer) (tex_in tex_out : RHI_RenderTexture) : PassState :=
  ⟨r.emit
    [ .Begin "Pass_PostLight",
      .SetDepthStencilState .m_depth_stencil_disabled,
      .SetRasterizerState .m_rasterizer_cull_back_solid,
      .SetBlendState .m_blend_disabled,
      .SetPrimitiveTopology .PrimitiveTopology_TriangleList,
      .SetBufferVertex r.m_quad.vertex_buffer,
      .SetBufferIndex r.m_quad.index_buffer,
      .SetShaderVertex r.m_vs_quad,
      .SetInputLayout r.m_vs_quad.id ], tex_in, tex_out⟩

/-- The effect pass a stage of `Pass_PostLight` calls, with the references it leaves. -/
def PostEffect.run (e : PostEffect) (s : PassState) : PassState :=
  match e with
  | .TAA => { s with r := Pass_TAA s.r s.tex_in s.tex_out }
  | .Bloom => { s with r := Pass_Bloom s.r s.tex_in s.tex_out }
  | .MotionBlur => { s with r := Pass_MotionBlur s.r s.tex_in s.tex_out }
  | .Dithering => { s with r := Pass_Dithering s.r s.tex_in s.tex_out }
  | .ToneMapping => { s with r := Pass_ToneMapping s.r s.tex_in s.tex_out }
  | .FXAA => Pass_FXAA s.r s.tex_in s.tex_out
  | .Sharpening => { s with r := Pass_Sharpening s.r s.tex_in s.tex_out }
  | .ChromaticAberration => { s with r := Pass_ChromaticAberration s.r s.tex_in s.tex_out }

/-- One stage of `Pass_PostLight`: `if (enabled) { Pass_X(tex_in, tex_out); swap_targets(); }`. -/
def PostLight_stage (e : PostEffect) (s : PassState) : PassState :=
  if s.r.effectEnabled e then swap_targets (e.run s) else s

/-- The unconditional end of `Pass_PostLight`: gamma correction, End, Submit, Clear. -/
def PostLight_end (s : PassState) : PassState :=
  { s with r := (Pass_GammaCorrection s.r s.tex_in s.tex_out).emit [.End, .Submit, .Clear] }

/-! ## Example data -/

/-- A render texture of the example pool. -/
def exampleTexture (id : Nat) : RHI_RenderTexture :=
  { id := id, width := 1920, height := 1080, format := 10, array_size := 1 }

/-- An example renderer: valid device, standard depth range without reverse-Z, no flags,
empty buckets, pairwise distinct resources. -/
def exampleRenderer : Renderer :=
  { trace := [],
    m_rhi_device := true,
    reverse_z := false,
    m_viewport_max_depth := 1,
    m_resolution_x := 1920,
    m_resolution_y := 1080,
    m_flags := [],
    m_tonemapping := .ToneMapping_Off,
    m_entities_ObjectOpaque := [],
    m_entities_ObjectTransparent := [],
    m_light_directional := none,
    m_skybox := none,
    m_tex_white := 100,
    m_tex_lut_ibl := 101,
    m_quad := ⟨200, 201, 6⟩,
    m_renderer_meshes_rendered := 0,
    m_g_buffer_albedo := exampleTexture 1,
    m_g_buffer_normal := exampleTexture 2,
    m_g_buffer_material := exampleTexture 3,
    m_g_buffer_velocity := exampleTexture 4,
    m_g_buffer_depth := exampleTexture 5,
    m_render_tex_full_hdr_light2 := exampleTexture 6,
    m_render_tex_full_taa_current := exampleTexture 7,
    m_render_tex_full_taa_history := exampleTexture 8,
    m_render_tex_quarter_blur1 := { exampleTexture 9 with width := 480, height := 270 },
    m_render_tex_quarter_blur2 := { exampleTexture 10 with width := 480, height := 270 },
    m_vs_gbuffer := ⟨1, Shader_Compiled⟩,
    m_vs_quad := ⟨2, Shader_Compiled⟩,
    m_vps_depth := ⟨3, Shader_Compiled⟩,
    m_vps_light := ⟨4, Shader_Compiled⟩,
    m_vps_transparent := ⟨5, Shader_Compiled⟩,
    m_ps_taa := ⟨6, Shader_Compiled⟩,
    m_ps_texture := ⟨7, Shader_Compiled⟩,
    m_ps_downsample_box := ⟨8, Shader_Compiled⟩,
    m_ps_bloom_bright := ⟨9, Shader_Compiled⟩,
    m_ps_bloom_blend := ⟨10, Shader_Compiled⟩,
    m_ps_blur_gaussian := ⟨11, Shader_Compiled⟩,
    m_ps_blur_gaussian_bilateral := ⟨12, Shader_Compiled⟩,
    m_ps_tone_mapping := ⟨13, Shader_Compiled⟩,
    m_ps_gamma_correction := ⟨14, Shader_Compiled⟩,
    m_ps_luma := ⟨15, Shader_Compiled⟩,
    m_ps_fxaa := ⟨16, Shader_Compiled⟩,
    m_ps_chromatic_aberration := ⟨17, Shader_Compiled⟩,
    m_ps_motion_blur := ⟨18, Shader_Compiled⟩,
    m_ps_dithering := ⟨19, Shader_Compiled⟩,
    m_ps_sharpening := ⟨20, Shader_Compiled⟩,
    m_render_tex_half_spare := { exampleTexture 11 with width := 960, height := 540 },
    m_render_tex_half_shadows := { exampleTexture 12 with width := 960, height := 540 },
    m_render_tex_half_ssao := { exampleTexture 13 with width := 960, height := 540 },
    m_render_tex_full_hdr_light := exampleTexture 14,
    m_tex_noise_normal := 102,
    m_vps_shadow_mapping := ⟨21, Shader_Compiled⟩,
    m_vps_ssao := ⟨22, Shader_Compiled⟩,
    m_ps_blur_box := ⟨23, Shader_Compiled⟩,
    m_vps_color := ⟨24, Shader_Compiled⟩,
    m_vps_font := ⟨25, Shader_Compiled⟩,
    m_vps_gizmo_transform := ⟨26, Shader_Compiled⟩,
    m_ps_debug_normal_ := ⟨27, Shader_Compiled⟩,
    m_ps_debug_velocity := ⟨28, Shader_Compiled⟩,
    m_ps_debug_depth := ⟨29, Shader_Compiled⟩,
    m_ps_debug_ssao := ⟨30, Shader_Compiled⟩,
    m_entities_Light := [],
    m_debug_buffer := .RendererDebug_None,
    m_lines_list_depth_enabled := 0,
    m_lines_list_depth_disabled := 0,
    m_vertex_buffer_lines := 210,
    m_vertex_buffer_lines_count := 0,
    DrawLine_vertices := 2,
    DrawBox_vertices := 24,
    m_gizmo_grid := ⟨202, 203, 400⟩,
    m_gizmo_transform := ⟨204, 205, 36, false, false⟩,
    m_gizmo_light_rect := ⟨0, 0, 0, 0⟩,
    m_gizmo_light_rect_buffers := ⟨206, 207, 6⟩,
    m_gizmo_tex_light_directional := 103,
    m_gizmo_tex_light_point := 104,
    m_gizmo_tex_light_spot := 105,
    m_font := ⟨208, 209, 600, 106⟩ }

/-! ## Reading the G-buffer pass: draws and binds -/

/-- What `Pass_GBuffer` uses of an entity it draws. -/
structure GBufferDraw where
  entity : Nat
  renderable : Renderable
  material : Material
  shader : RHI_Shader
  model : Model
  vertex_buffer : Nat
  index_buffer : Nat
deriving DecidableEq, Repr

/-- The entity passes every test of the G-buffer loop: it has a renderable, a material, a
compiled shader, a model with both buffers, and is inside the view frustum. -/
def Entity.gbufferDraw (e : Entity) : Option GBufferDraw :=
  match e.renderable with
  | none => none
  | some renderable =>
  match renderable.material with
  | none => none
  | some material =>
  match material.shader with
  | none => none
  | some shader =>
  match renderable.model with
  | none => none
  | some model =>
  match model.vertex_buffer, model.index_buffer with
  | some vertex_buffer, some index_buffer =>
    if shader.GetCompilationState = Shader_Compiled ∧ renderable.in_view_frustum = true then
      some ⟨e.id, renderable, material, shader, model, vertex_buffer, index_buffer⟩
    else none
  | _, _ => none

/-- The material's eight texture slots in bind order. -/
def Material.textures (m : Material) : List (Option Nat) :=
  [ m.GetTextureShaderResourceByType .TextureType_Albedo,
    m.GetTextureShaderResourceByType .TextureType_Roughness,
    m.GetTextureShaderResourceByType .TextureType_Metallic,
    m.GetTextureShaderResourceByType .TextureType_Normal,
    m.GetTextureShaderResourceByType .TextureType_Height,
    m.GetTextureShaderResourceByType .TextureType_Occlusion,
    m.GetTextureShaderResourceByType .TextureType_Emission,
    m.GetTextureShaderResourceByType .TextureType_Mask ]

/-- The events one iteration of the G-buffer loop records for a drawn entity, given the
cache it starts with. -/
def GBufferDraw.events (d : GBufferDraw) (c : BindCache) : List Ev :=
  [.SetRasterizerState (.GetRasterizerState d.material.cull_mode .Fill_Solid)] ++
  (if c.currently_bound_geometry ≠ d.model.resource_id then
    [.SetBufferIndex d.index_buffer, .SetBufferVertex d.vertex_buffer] else []) ++
  (if c.currently_bound_shader ≠ d.shader.id then [.SetShaderPixel d.shader] else []) ++
  (if c.currently_bound_material ≠ d.material.resource_id then
    [ .SetTextures 0 d.material.textures,
      .Material_UpdateConstantBuffer d.material.resource_id,
      .SetConstantBuffer 1 .Buffer_PixelShader (.material d.material.resource_id) ] else []) ++
  [ .Transform_UpdateConstantBuffer d.entity,
    .SetConstantBuffer 2 .Buffer_VertexShader (.transform d.entity),
    .DrawIndexed d.renderable.index_count d.renderable.index_offset d.renderable.vertex_offset ]

/-- The cache after drawing `d`. -/
def GBufferDraw.cache (d : GBufferDraw) : BindCache :=
  ⟨d.model.resource_id, d.shader.id, d.material.resource_id⟩

/-- The events of the G-buffer loop over the drawn entities, starting from cache `c`. -/
def gbufferLoop : BindCache → List GBufferDraw → List Ev
  | _, [] => []
  | c, d :: ds => d.events c ++ gbufferLoop d.cache ds

/-- The entities of the opaque bucket that `Pass_GBuffer` draws, in bucket order. -/
def Renderer.gbufferDrawn (r : Renderer) : List GBufferDraw :=
  r.m_entities_ObjectOpaque.filterMap Entity.gbufferDraw

/-- The events `Pass_GBuffer` records before its entity loop (non-empty bucket). -/
def Pass_GBuffer_header (r : Renderer) : List Ev :=
  [ .Begin "Pass_GBuffer",
    .SetDefaultBuffer r.m_resolution_x r.m_resolution_y .Identity,
    .SetRasterizerState .m_rasterizer_cull_back_solid,
    .SetBlendState .m_blend_disabled,
    .SetPrimitiveTopology .PrimitiveTopology_TriangleList,
    .SetDepthStencilState .m_depth_stencil_enabled,
    .SetRenderTargets
      [ r.m_g_buffer_albedo.GetRenderTargetView 0,
        r.m_g_buffer_normal.GetRenderTargetView 0,
        r.m_g_buffer_material.GetRenderTargetView 0,
        r.m_g_buffer_velocity.GetRenderTargetView 0,
        r.m_g_buffer_depth.GetRenderTargetView 0 ]
      (some r.m_g_buffer_depth.GetDepthStencilView),
    .SetViewport r.m_g_buffer_albedo.id,
    .ClearRenderTarget (r.m_g_buffer_albedo.GetRenderTargetView 0) Vector4.Zero,
    .ClearRenderTarget (r.m_g_buffer_normal.GetRenderTargetView 0) Vector4.Zero,
    .ClearRenderTarget (r.m_g_buffer_material.GetRenderTargetView 0) Vector4.Zero,
    .ClearRenderTarget (r.m_g_buffer_velocity.GetRenderTargetView 0) Vector4.Zero,
    .ClearDepthStencil r.m_g_buffer_depth.GetDepthStencilView .Clear_Depth r.clear_depth,
    .SetShaderVertex r.m_vs_gbuffer,
    .SetInputLayout r.m_vs_gbuffer.id,
    .SetConstantBuffer 0 .Buffer_Global .m_buffer_global,
    .SetSampler 0 .m_sampler_anisotropic_wrap ]

/-- Split a trace into the stretches that end with each draw call (what follows the last
draw is left out). -/
def drawSegments.go (cur : List Ev) : List Ev → List (List Ev)
  | [] => []
  | e :: t => if e.isDraw then (cur ++ [e]) :: drawSegments.go [] t else drawSegments.go (cur ++ [e]) t

def drawSegments (evs : List Ev) : List (List Ev) := drawSegments.go [] evs

def Ev.isSetBufferIndex : Ev → Bool
  | .SetBufferIndex _ => true
  | _ => false

def Ev.isSetBufferVertex : Ev → Bool
  | .SetBufferVertex _ => true
  | _ => false

def Ev.isSetShaderPixel : Ev → Bool
  | .SetShaderPixel _ => true
  | _ => false

def Ev.isSetTextures : Ev → Bool
  | .SetTextures _ _ => true
  | _ => false

def Ev.isMaterialBuffer : Ev → Bool
  | .SetConstantBuffer _ .Buffer_PixelShader (.material _) => true
  | _ => false

/-- A geometry bind: `SetBufferIndex` and `SetBufferVertex` are both recorded. -/
def bindsGeometry (seg : List Ev) : Bool := seg.any Ev.isSetBufferIndex && seg.any Ev.isSetBufferVertex

/-- A pixel-shader bind. -/
def bindsShader (seg : List Ev) : Bool := seg.any Ev.isSetShaderPixel

/-- A material bind: textures and the material constant buffer. -/
def bindsMaterial (seg : List Ev) : Bool := seg.any Ev.isSetTextures && seg.any Ev.isMaterialBuffer

/-- For ids `g_1 .. g_n` and `g_0 = prev`: whether `g_i` differs from `g_(i-1)`. -/
def idChanges (prev : Nat) : List Nat → List Bool
  | [] => []
  | g :: rest => decide (g ≠ prev) :: idChanges g rest

/-- Number of runs of equal consecutive ids. -/
def countRuns : List Nat → Nat
  | [] => 0
  | [_] => 1
  | a :: b :: t => (if a = b then 0 else 1) + countRuns (b :: t)

/-- The 1-based positions at which a flag is set. -/
def positions (flags : List Bool) : List Nat :=
  ((List.range flags.length).filter (fun i => flags.getD i false)).map (fun i => i + 1)

/-- An opaque entity with complete, visible geometry `g`, shader `sh` and material `m`. -/
def exampleEntity (id g sh m : Nat) : Entity :=
  { id := id,
    renderable := some
      { material := some
          { resource_id := m, shader := some ⟨sh, Shader_Compiled⟩, cull_mode := .Cull_Back,
            color_albedo := ⟨1, 1, 1, 1⟩,
            tex_albedo := some (1000 + m), tex_roughness := none, tex_metallic := none,
            tex_normal := some (2000 + m), tex_height := none, tex_occlusion := none,
            tex_emission := none, tex_mask := none },
        model := some { resource_id := g, vertex_buffer := some (3000 + g), index_buffer := some (4000 + g) },
        cast_shadows := true, index_count := 36, index_offset := 0, vertex_offset := 0,
        in_view_frustum := true } }

/-- The example renderer with five opaque entities of geometry ids 1,1,2,2,1, shader ids
7,7,7,8,8 and material ids 5,6,6,6,5. -/
def exampleScene : Renderer :=
  { exampleRenderer with
    m_entities_ObjectOpaque :=
      [ exampleEntity 1 1 7 5, exampleEntity 2 1 7 6, exampleEntity 3 2 7 6,
        exampleEntity 4 2 8 6, exampleEntity 5 1 8 5 ] }

/-- The per-draw stretches of the events `Pass_GBuffer` appends. -/
def gbufferSegments (r : Renderer) : List (List Ev) := drawSegments (appended r (Pass_GBuffer r))

def GBufferDraw.geometryId (d : GBufferDraw) : Nat := d.model.GetResourceId

def GBufferDraw.shaderId (d : GBufferDraw) : Nat := d.shader.RHI_GetID

def GBufferDraw.materialId (d : GBufferDraw) : Nat := d.material.GetResourceId

/-! ## Effective bound state at a draw -/

/-- The bindings the G-buffer caches govern: index and vertex buffer, pixel shader, the
texture array most recently bound from slot 0, and the pixel-shader constant buffer at
slot 1. -/
structure BoundState where
  index_buffer : Option Nat
  vertex_buffer : Option Nat
  shader_pixel : Option RHI_Shader
  textures : Option (List (Option Nat))
  material_buffer : Option ConstantBuffer
deriving DecidableEq, Repr

def BoundState.unbound : BoundState := ⟨none, none, none, none, none⟩

/-- Effect of one recorded call on the bindings. -/
def BoundState.step (b : BoundState) : Ev → BoundState
  | .SetBufferIndex i => { b with index_buffer := some i }
  | .SetBufferVertex v => { b with vertex_buffer := some v }
  | .SetShaderPixel sh => { b with shader_pixel := some sh }
  | .SetTextures 0 l => { b with textures := some l }
  | .SetConstantBuffer 1 .Buffer_PixelShader cb => { b with material_buffer := some cb }
  | _ => b

/-- The bindings in effect at each draw call of a trace, in order. -/
def boundAtDraws.go (b : BoundState) : List Ev → List BoundState
  | [] => []
  | e :: t => if e.isDraw then b :: boundAtDraws.go b t else boundAtDraws.go (b.step e) t

def boundAtDraws (evs : List Ev) : List BoundState := boundAtDraws.go BoundState.unbound evs

/-- The bindings a drawn entity needs: its own buffers, shader and material. -/
def GBufferDraw.bound (d : GBufferDraw) : BoundState :=
  ⟨some d.index_buffer, some d.vertex_buffer, some d.shader, some d.material.textures,
    some (.material d.material.resource_id)⟩

/-- The naive loop iteration: every drawn entity rebinds geometry, shader and material. -/
def GBufferDraw.eventsNaive (d : GBufferDraw) : List Ev :=
  [ .SetRasterizerState (.GetRasterizerState d.material.cull_mode .Fill_Solid),
    .SetBufferIndex d.index_buffer,
    .SetBufferVertex d.vertex_buffer,
    .SetShaderPixel d.shader,
    .SetTextures 0 d.material.textures,
    .Material_UpdateConstantBuffer d.material.resource_id,
    .SetConstantBuffer 1 .Buffer_PixelShader (.material d.material.resource_id),
    .Transform_UpdateConstantBuffer d.entity,
    .SetConstantBuffer 2 .Buffer_VertexShader (.transform d.entity),
    .DrawIndexed d.renderable.index_count d.renderable.index_offset d.renderable.vertex_offset ]

/-- The events of the naive G-buffer pass: as `Pass_GBuffer` on a non-empty bucket, but
without the caches. -/
def Pass_GBuffer_naive (r : Renderer) : List Ev :=
  Pass_GBuffer_header r ++ (r.gbufferDrawn.flatMap GBufferDraw.eventsNaive ++ [.End, .Submit, .Clear])

/-- Resource ids identify resources: two drawn entities with the same geometry id use the
same buffers, and with the same material id the same textures. -/
def ResourceIdsIdentify (ds : List GBufferDraw) : Prop :=
  ∀ d ∈ ds, ∀ d' ∈ ds,
    (d.geometryId = d'.geometryId →
      d.index_buffer = d'.index_buffer ∧ d.vertex_buffer = d'.vertex_buffer) ∧
    (d.materialId = d'.materialId → d.material.textures = d'.material.textures)

instance (ds : List GBufferDraw) : Decidable (ResourceIdsIdentify ds) := by
  unfold ResourceIdsIdentify; infer_instance

/-! ## Reading the shadow depth pass -/

/-- What `Pass_DepthDirectionalLight` uses of an entity it draws. -/
structure DepthDraw where
  entity : Nat
  renderable : Renderable
  material : Material
  model : Model
  vertex_buffer : Nat
  index_buffer : Nat
deriving DecidableEq, Repr

/-- The entity passes every test of the shadow depth loop: renderable, material, a model
with both buffers, casts shadows, albedo alpha not below 1. -/
def Entity.depthDraw (e : Entity) : Option DepthDraw :=
  match e.renderable with
  | none => none
  | some renderable =>
  match renderable.material with
  | none => none
  | some material =>
  match renderable.model with
  | none => none
  | some model =>
  match model.vertex_buffer, model.index_buffer with
  | some vertex_buffer, some index_buffer =>
    if renderable.cast_shadows = true ∧ ¬ material.color_albedo.w < 1 then
      some ⟨e.id, renderable, material, model, vertex_buffer, index_buffer⟩
    else none
  | _, _ => none

/-- The events one iteration of the shadow depth loop records for a drawn entity in
cascade `cascade_index`, given the cached geometry id. -/
def DepthDraw.events (d : DepthDraw) (cascade_index : Nat) (currently_bound_geometry : Nat) : List Ev :=
  (if currently_bound_geometry ≠ d.model.resource_id then
    [.SetBufferIndex d.index_buffer, .SetBufferVertex d.vertex_buffer] else []) ++
  [ .Transform_UpdateConstantBufferLight d.entity cascade_index,
    .SetConstantBuffer 1 .Buffer_VertexShader (.transformLight d.entity cascade_index),
    .DrawIndexed d.renderable.index_count d.renderable.index_offset d.renderable.vertex_offset ]

/-- The events of the entity loop of one cascade. -/
def depthLoop (cascade_index : Nat) : Nat → List DepthDraw → List Ev
  | _, [] => []
  | c, d :: ds => d.events cascade_index c ++ depthLoop cascade_index d.model.resource_id ds

/-- The cached geometry id after the entity loop. -/
def depthLoopCache : Nat → List DepthDraw → Nat
  | c, [] => c
  | _, d :: ds => depthLoopCache d.model.resource_id ds

/-- The labelled sub-scope of cascade `i` around the entity events `body`. -/
def cascadeBlock (shadow_map : RHI_RenderTexture) (clear_depth : Rat) (i : Nat) (body : List Ev) :
    List Ev :=
  [ .Begin ("Cascade_" ++ toString (i + 1)),
    .SetRenderTarget (shadow_map.GetRenderTargetView i) (some shadow_map.GetDepthStencilView),
    .ClearDepthStencil shadow_map.GetDepthStencilView .Clear_Depth clear_depth ] ++ body ++ [.End]

/-- The events of cascades `i, i+1, .., i+n-1`, the cache being `c` before cascade `i`. -/
def cascades (shadow_map : RHI_RenderTexture) (clear_depth : Rat) (ds : List DepthDraw) :
    Nat → Nat → Nat → List Ev
  | _, 0, _ => []
  | i, n + 1, c =>
    cascadeBlock shadow_map clear_depth i (depthLoop i c ds) ++
      cascades shadow_map clear_depth ds (i + 1) n (depthLoopCache c ds)

/-- The entities of the opaque bucket the shadow depth pass draws, in bucket order. -/
def Renderer.depthDrawn (r : Renderer) : List DepthDraw :=
  r.m_entities_ObjectOpaque.filterMap Entity.depthDraw

/-- The events `Pass_DepthDirectionalLight` records before its cascade loop. -/
def Pass_DepthDirectionalLight_header (r : Renderer) (shadow_map : RHI_RenderTexture) : List Ev :=
  [ .Begin "Pass_DepthDirectionalLight",
    .SetDepthStencilState .m_depth_stencil_enabled,
    .SetRasterizerState .m_rasterizer_cull_back_solid,
    .SetBlendState .m_blend_disabled,
    .SetPrimitiveTopology .PrimitiveTopology_TriangleList,
    .SetShaderVertex r.m_vps_depth,
    .SetShaderPixel r.m_vps_depth,
    .SetInputLayout r.m_vps_depth.id,
    .SetViewport shadow_map.id,
    .ClearRenderTarget (shadow_map.GetRenderTargetView 0) Vector4.Zero,
    .ClearRenderTarget (shadow_map.GetRenderTargetView 1) Vector4.Zero,
    .ClearRenderTarget (shadow_map.GetRenderTargetView 2) Vector4.Zero ]

/-- The scopes opened directly inside the outermost scope of a trace, each from its
`Begin` to its matching `End`; `depth` is the current nesting depth and `cur` the
sub-scope being collected. -/
def subScopes.go (depth : Nat) (cur : List Ev) : List Ev → List (List Ev)
  | [] => []
  | .Begin n :: t =>
    if depth = 0 then subScopes.go 1 [] t
    else if depth = 1 then subScopes.go 2 [.Begin n] t
    else subScopes.go (depth + 1) (cur ++ [.Begin n]) t
  | .End :: t =>
    if depth ≤ 1 then subScopes.go 0 [] t
    else if depth = 2 then (cur ++ [.End]) :: subScopes.go 1 [] t
    else subScopes.go (depth - 1) (cur ++ [.End]) t
  | e :: t =>
    if depth ≤ 1 then subScopes.go depth [] t else subScopes.go depth (cur ++ [e]) t

def subScopes (evs : List Ev) : List (List Ev) := subScopes.go 0 [] evs

/-- Events the entity loop of cascade `i` may record: geometry binds, draws, and updates
and binds of the light constant buffer of cascade `i` only. -/
def Ev.inCascadeBody (i : Nat) : Ev → Bool
  | .SetBufferIndex _ => true
  | .SetBufferVertex _ => true
  | .DrawIndexed _ _ _ => true
  | .Transform_UpdateConstantBufferLight _ j => j == i
  | .SetConstantBuffer 1 .Buffer_VertexShader (.transformLight _ j) => j == i
  | _ => false

/-- Scope delimiters. -/
def Ev.isScope : Ev → Bool
  | .Begin _ => true
  | .End => true
  | _ => false

/-- A light casting shadows into a map of `n` cascades. -/
def exampleLight (n : Nat) : Light :=
  { cast_shadows := true, shadow_map := some { exampleTexture 50 with array_size := n } }

/-! ## Shaders in effect at a draw -/

/-- The vertex and pixel shader in effect at each draw call of a trace, in order. -/
def shadersAtDraws.go (vs ps : Option RHI_Shader) : List Ev → List (Option RHI_Shader × Option RHI_Shader)
  | [] => []
  | .SetShaderVertex s :: t => shadersAtDraws.go (some s) ps t
  | .SetShaderPixel s :: t => shadersAtDraws.go vs (some s) t
  | .Draw _ :: t => (vs, ps) :: shadersAtDraws.go vs ps t
  | .DrawIndexed _ _ _ :: t => (vs, ps) :: shadersAtDraws.go vs ps t
  | _ :: t => shadersAtDraws.go vs ps t

def shadersAtDraws (evs : List Ev) : List (Option RHI_Shader × Option RHI_Shader) :=
  shadersAtDraws.go none none evs

/-- A bound shader that is not compiled. -/
def notCompiled : Option RHI_Shader → Bool
  | some s => decide (s.GetCompilationState ≠ Shader_Compiled)
  | none => false

/-- Some draw of the trace is recorded with a vertex or pixel shader bound that is not
compiled. -/
def drawsWithUncompiledShader (evs : List Ev) : Bool :=
  (shadersAtDraws evs).any (fun p => notCompiled p.1 || notCompiled p.2)

/-- The draw call of a drawn entity. -/
def GBufferDraw.drawCall (d : GBufferDraw) : Ev :=
  .DrawIndexed d.renderable.index_count d.renderable.index_offset d.renderable.vertex_offset

/-- The example scene with a directional light, one transparent entity, and the G-buffer
vertex shader, the depth, transparency and gamma-correction shaders not compiled. -/
def exampleSceneUncompiled : Renderer :=
  { exampleScene with
    m_light_directional := some (exampleLight 1),
    m_entities_ObjectTransparent := [exampleEntity 9 3 7 5],
    m_vs_gbuffer := ⟨1, .Shader_Failed⟩,
    m_vps_depth := ⟨3, .Shader_Failed⟩,
    m_vps_transparent := ⟨5, .Shader_Compiling⟩,
    m_ps_gamma_correction := ⟨14, .Shader_Compiling⟩ }

/-! ## Reading Pass_Light, Pass_Transparent and the G-buffer tests -/

/-- The render target in effect at each draw call of a trace (as set by `SetRenderTarget`). -/
def targetsAtDraws.go (rt : Option RenderTargetView) : List Ev → List (Option RenderTargetView)
  | [] => []
  | .SetRenderTarget t _ :: rest => targetsAtDraws.go (some t) rest
  | .Draw _ :: rest => rt :: targetsAtDraws.go rt rest
  | .DrawIndexed _ _ _ :: rest => rt :: targetsAtDraws.go rt rest
  | _ :: rest => targetsAtDraws.go rt rest

def targetsAtDraws (evs : List Ev) : List (Option RenderTargetView) := targetsAtDraws.go none evs

/-- The texture arrays in effect (bound from slot 0) at each draw call of a trace. -/
def texturesAtDraws (evs : List Ev) : List (Option (List (Option Nat))) :=
  (boundAtDraws evs).map (fun b => b.textures)

/-- What `Pass_Transparent` uses of an entity it draws. -/
structure TransparentDraw where
  entity : Nat
  renderable : Renderable
  material : Material
  model : Model
  vertex_buffer : Nat
  index_buffer : Nat
deriving DecidableEq, Repr

/-- The entity has a renderable, a material, a model with vertex and index buffer, and
lies inside the view frustum. -/
def Entity.transparentDraw (e : Entity) : Option TransparentDraw :=
  match e.renderable with
  | none => none
  | some renderable =>
  match renderable.material with
  | none => none
  | some material =>
  match renderable.model with
  | none => none
  | some model =>
  match model.vertex_buffer, model.index_buffer with
  | some vertex_buffer, some index_buffer =>
    if renderable.in_view_frustum = true then
      some ⟨e.id, renderable, material, model, vertex_buffer, index_buffer⟩
    else none
  | _, _ => none

/-- The events one iteration of the transparent loop records for a drawn entity. -/
def TransparentDraw.events (d : TransparentDraw) (shader : Nat) : List Ev :=
  [ .SetRasterizerState (.GetRasterizerState d.material.cull_mode .Fill_Solid),
    .SetBufferIndex d.index_buffer,
    .SetBufferVertex d.vertex_buffer,
    .UpdateBuffer shader 0 (.Struct_Transparency d.entity),
    .SetConstantBuffer 1 .Buffer_Global (.shader shader 0),
    .DrawIndexed d.renderable.index_count d.renderable.index_offset d.renderable.vertex_offset ]

def TransparentDraw.drawCall (d : TransparentDraw) : Ev :=
  .DrawIndexed d.renderable.index_count d.renderable.index_offset d.renderable.vertex_offset

/-- The entities of the transparent bucket that `Pass_Transparent` draws, in bucket order. -/
def Renderer.transparentDrawn (r : Renderer) : List TransparentDraw :=
  r.m_entities_ObjectTransparent.filterMap Entity.transparentDraw

/-- The events `Pass_Transparent` records before its entity loop. -/
def Pass_Transparent_header (r : Renderer) (tex_out : RHI_RenderTexture) : List Ev :=
  [ .Begin "Pass_Transparent",
    .SetPrimitiveTopology .PrimitiveTopology_TriangleList,
    .SetBlendState .m_blend_enabled,
    .SetDepthStencilState .m_depth_stencil_enabled,
    .SetRenderTarget (tex_out.GetRenderTargetView 0) (some r.m_g_buffer_depth.GetDepthStencilView),
    .SetViewport tex_out.id,
    .SetTextures 0 [r.m_g_buffer_depth.GetShaderResource, r.m_skybox],
    .SetSampler 0 .m_sampler_bilinear_clamp,
    .SetShaderVertex r.m_vps_transparent,
    .SetInputLayout r.m_vps_transparent.id,
    .SetShaderPixel r.m_vps_transparent ]

def Ev.isSetBlendState : Ev → Bool
  | .SetBlendState _ => true
  | _ => false

/-- The tests of the transparent loop, in the claim's words: a renderable, a material,
complete geometry (model, vertex and index buffer), inside the camera frustum. -/
def Entity.passesTransparentTests (e : Entity) : Bool :=
  match e.renderable with
  | none => false
  | some ren =>
    ren.material.isSome &&
    (match ren.model with
      | none => false
      | some m => m.vertex_buffer.isSome && m.index_buffer.isSome) &&
    ren.in_view_frustum

/-- The tests of the G-buffer loop, in the claim's words: a renderable, a material, a
compiled shader, complete geometry (model, vertex and index buffer), inside the camera
frustum. -/
def Entity.passesGBufferTests (e : Entity) : Bool :=
  match e.renderable with
  | none => false
  | some ren =>
    (match ren.material with
      | none => false
      | some mat =>
        match mat.shader with
        | none => false
        | some sh => decide (sh.GetCompilationState = Shader_Compiled)) &&
    (match ren.model with
      | none => false
      | some m => m.vertex_buffer.isSome && m.index_buffer.isSome) &&
    ren.in_view_frustum

/-- The draw call `Pass_GBuffer` and `Pass_Transparent` record for an entity: its
renderable's index count, index offset and vertex offset. -/
def Entity.drawCall (e : Entity) : Option Ev :=
  e.renderable.map (fun ren => .DrawIndexed ren.index_count ren.index_offset ren.vertex_offset)

/-- The example scene with a directional light and three transparent entities, the second
outside the view frustum. -/
def exampleTransparentScene : Renderer :=
  { exampleScene with
    m_light_directional := some (exampleLight 1),
    m_entities_ObjectTransparent :=
      [ exampleEntity 11 3 7 5,
        { id := 12, renderable := (exampleEntity 12 4 7 5).renderable.map
            (fun ren => { ren with in_view_frustum := false }) },
        exampleEntity 13 5 7 6 ] }

/-! ## RHI_Command (RHI_CommandList.h) -/

inductive RHI_Cmd_Type where
  | RHI_Cmd_Begin
  | RHI_Cmd_End
  | RHI_Cmd_Draw
  | RHI_Cmd_DrawIndexed
  | RHI_Cmd_SetViewport
  | RHI_Cmd_SetScissorRectangle
  | RHI_Cmd_SetPrimitiveTopology
  | RHI_Cmd_SetInputLayout
  | RHI_Cmd_SetDepthStencilState
  | RHI_Cmd_SetRasterizerState
  | RHI_Cmd_SetBlendState
  | RHI_Cmd_SetVertexBuffer
  | RHI_Cmd_SetIndexBuffer
  | RHI_Cmd_SetVertexShader
  | RHI_Cmd_SetPixelShader
  | RHI_Cmd_SetConstantBuffers
  | RHI_Cmd_SetSamplers
  | RHI_Cmd_SetTextures
  | RHI_Cmd_SetRenderTargets
  | RHI_Cmd_ClearRenderTarget
  | RHI_Cmd_ClearDepthStencil
deriving DecidableEq, Repr

/-- A `std::vector<void*>`: its elements (a null pointer is `none`) and its capacity. -/
structure SlotVector where
  elems : List (Option Nat)
  capacity : Nat
deriving DecidableEq, Repr

/-- A default-constructed vector. -/
def SlotVector.empty : SlotVector := ⟨[], 0⟩

def SlotVector.size (v : SlotVector) : Nat := v.elems.length

/-- The call `reserve(n)`: the capacity becomes at least `n`, the elements stay. -/
def SlotVector.reserve (v : SlotVector) (n : Nat) : SlotVector :=
  { v with capacity := max v.capacity n }

/-- The call `resize(n)`: cut or pad with null pointers to `n` elements. -/
def SlotVector.resize (v : SlotVector) (n : Nat) : SlotVector :=
  { elems := v.elems.take n ++ List.replicate (n - v.elems.length) none,
    capacity := max v.capacity n }

/-- The call `clear()`: all elements are removed, the capacity is left as it is. -/
def SlotVector.clear (v : SlotVector) : SlotVector :=
  { v with elems := [] }

/-- The struct `RHI_Command`; pointer members are `none` when null. -/
structure RHI_Command where
  type : RHI_Cmd_Type
  render_target_count : Nat
  render_targets : SlotVector
  render_target_clear : Option Nat
  render_target_clear_color : Vector4
  textures_start_slot : Nat
  texture_count : Nat
  textures : SlotVector
  samplers_start_slot : Nat
  sampler_count : Nat
  samplers : SlotVector
  constant_buffers_start_slot : Nat
  constant_buffer_count : Nat
  constant_buffers_scope : RHI_Buffer_Scope
  constant_buffers : SlotVector
  depth_stencil_state : Option Nat
  depth_stencil : Option Nat
  depth_clear : Rat
  depth_clear_stencil : Nat
  depth_clear_flags : Nat
  pass_name : String
  primitive_topology : RHI_PrimitiveTopology_Mode
  vertex_count : Nat
  vertex_offset : Nat
  index_count : Nat
  index_offset : Nat
  viewport : Nat
  scissor_rectangle : Rectangle
  input_layout : Option Nat
  rasterizer_state : Option Nat
  blend_state : Option Nat
  buffer_index : Option Nat
  buffer_vertex : Option Nat
  shader_vertex : Option Nat
  shader_pixel : Option Nat
deriving DecidableEq, Repr

/-- The method `RHI_Command::Clear`.  Its line
`RHI_DepthStencilState* depth_stencil_state = nullptr;` declares a local variable, so the
member `depth_stencil_state` is not assigned. -/
def RHI_Command.Clear (c : RHI_Command) : RHI_Command :=
  { c with
    -- Render targets
    render_target_count := 0,
    render_targets := c.render_targets.clear,
    -- Textures
    textures_start_slot := 0,
    texture_count := 0,
    textures := c.textures.clear,
    -- Samplers
    samplers_start_slot := 0,
    sampler_count := 0,
    samplers := c.samplers.clear,
    -- Constant buffers
    constant_buffers_start_slot := 0,
    constant_buffer_count := 0,
    constant_buffers_scope := .Buffer_NotAssigned,
    constant_buffers := c.constant_buffers.clear,
    -- Depth-stencil
    depth_stencil := none,
    depth_clear := 0,
    depth_clear_stencil := 0,
    depth_clear_flags := 0,
    -- Misc
    pass_name := "N/A",
    primitive_topology := .PrimitiveTopology_NotAssigned,
    vertex_count := 0,
    vertex_offset := 0,
    index_count := 0,
    index_offset := 0,
    input_layout := none,
    rasterizer_state := none,
    blend_state := none,
    buffer_index := none,
    buffer_vertex := none,
    shader_vertex := none,
    shader_pixel := none }

/-- The constructor `RHI_Command::RHI_Command`.  Members without a default initializer
(`type`, the counts and start slots, `constant_buffers_scope`, `render_target_clear`,
`render_target_clear_color`, `viewport`, `scissor_rectangle`) start with whatever
`indeterminate` holds; the others start with their default member initializers and the
vectors empty.  The body reserves and resizes the four vectors to 10 and calls `Clear`. -/
def RHI_Command.new (indeterminate : RHI_Command) : RHI_Command :=
  let c : RHI_Command :=
    { indeterminate with
      render_targets := SlotVector.empty,
      textures := SlotVector.empty,
      samplers := SlotVector.empty,
      constant_buffers := SlotVector.empty,
      depth_stencil_state := none,
      depth_stencil := none,
      depth_clear := 0,
      depth_clear_stencil := 0,
      depth_clear_flags := 0,
      pass_name := "N/A",
      primitive_topology := .PrimitiveTopology_NotAssigned,
      vertex_count := 0,
      vertex_offset := 0,
      index_count := 0,
      index_offset := 0,
      input_layout := none,
      rasterizer_state := none,
      blend_state := none,
      buffer_index := none,
      buffer_vertex := none,
      shader_vertex := none,
      shader_pixel := none }
  let c := { c with render_targets := (c.render_targets.reserve 10).resize 10 }
  let c := { c with textures := (c.textures.reserve 10).resize 10 }
  let c := { c with samplers := (c.samplers.reserve 10).resize 10 }
  let c := { c with constant_buffers := (c.constant_buffers.reserve 10).resize 10 }
  c.Clear

/-- The defaults the listed slots of a command are to hold: all counts and start slots 0,
the constant-buffer scope not assigned, `pass_name` "N/A", the topology not assigned, and
every pointer slot null. -/
def RHI_Command.slotsDefault (c : RHI_Command) : Prop :=
  c.render_target_count = 0 ∧ c.textures_start_slot = 0 ∧ c.texture_count = 0 ∧
  c.samplers_start_slot = 0 ∧ c.sampler_count = 0 ∧
  c.constant_buffers_start_slot = 0 ∧ c.constant_buffer_count = 0 ∧
  c.vertex_count = 0 ∧ c.vertex_offset = 0 ∧ c.index_count = 0 ∧ c.index_offset = 0 ∧
  c.constant_buffers_scope = .Buffer_NotAssigned ∧ c.pass_name = "N/A" ∧
  c.primitive_topology = .PrimitiveTopology_NotAssigned ∧
  c.depth_stencil_state = none ∧ c.depth_stencil = none ∧ c.input_layout = none ∧
  c.rasterizer_state = none ∧ c.blend_state = none ∧ c.buffer_index = none ∧
  c.buffer_vertex = none ∧ c.shader_vertex = none ∧ c.shader_pixel = none

instance (c : RHI_Command) : Decidable c.slotsDefault := by
  unfold RHI_Command.slotsDefault; infer_instance

/-- Each of the four slot arrays holds 10 elements. -/
def RHI_Command.arraysSized10 (c : RHI_Command) : Prop :=
  c.render_targets.size = 10 ∧ c.textures.size = 10 ∧ c.samplers.size = 10 ∧
  c.constant_buffers.size = 10

instance (c : RHI_Command) : Decidable c.arraysSized10 := by
  unfold RHI_Command.arraysSized10; infer_instance

/-- Each of the four slot arrays is empty and has room for at least 10 elements. -/
def RHI_Command.arraysReserved10 (c : RHI_Command) : Prop :=
  (c.render_targets.size = 0 ∧ 10 ≤ c.render_targets.capacity) ∧
  (c.textures.size = 0 ∧ 10 ≤ c.textures.capacity) ∧
  (c.samplers.size = 0 ∧ 10 ≤ c.samplers.capacity) ∧
  (c.constant_buffers.size = 0 ∧ 10 ≤ c.constant_buffers.capacity)

instance (c : RHI_Command) : Decidable c.arraysReserved10 := by
  unfold RHI_Command.arraysReserved10; infer_instance

/-- A command as a pass left it: a depth-stencil state set, three textures bound. -/
def exampleCommand : RHI_Command :=
  { type := .RHI_Cmd_SetDepthStencilState,
    render_target_count := 1,
    render_targets := ⟨[some 14], 10⟩,
    render_target_clear := none,
    render_target_clear_color := Vector4.Zero,
    textures_start_slot := 0,
    texture_count := 3,
    textures := ⟨[some 1, some 2, some 5], 10⟩,
    samplers_start_slot := 0,
    sampler_count := 0,
    samplers := ⟨[], 10⟩,
    constant_buffers_start_slot := 0,
    constant_buffer_count := 0,
    constant_buffers_scope := .Buffer_Global,
    constant_buffers := ⟨[], 10⟩,
    depth_stencil_state := some 77,
    depth_stencil := some 5,
    depth_clear := 1,
    depth_clear_stencil := 0,
    depth_clear_flags := 1,
    pass_name := "Pass_GBuffer",
    primitive_topology := .PrimitiveTopology_TriangleList,
    vertex_count := 0,
    vertex_offset := 0,
    index_count := 36,
    index_offset := 0,
    viewport := 0,
    scissor_rectangle := ⟨0, 0, 0, 0⟩,
    input_layout := some 1,
    rasterizer_state := some 2,
    blend_state := some 3,
    buffer_index := some 4001,
    buffer_vertex := some 3001,
    shader_vertex := some 1,
    shader_pixel := some 7 }

/-! ## Shader compilation (Engine/RHI/RHI_Shader.h) -/

namespace Engine

/-- What a compile call does outside the shader object, in order: the two API compile
calls and the lines of `LOG_STATE`. -/
inductive ShaderEv where
  | API_CompileVertex (shader : String) (input_layout : Nat)
  | API_CompilePixel (shader : String)
  | LOGF_INFO (fmt : String) (file_path : String)
  | LOGF_ERROR (fmt : String) (file_path : String)
deriving DecidableEq, Repr

def ShaderEv.isApiCall : ShaderEv → Bool
  | .API_CompileVertex _ _ => true
  | .API_CompilePixel _ => true
  | _ => false

/-- The data members of class `RHI_Shader` that the header declares with a value. -/
structure RHI_Shader where
  m_hasVertexShader : Bool
  m_hasPixelShader : Bool
  m_buffer_size : Nat
  m_shaderState : Shader_State
  m_vertex_shader : Option Nat
  m_pixel_shader : Option Nat
deriving DecidableEq, Repr

/-- The default member initializers of class `RHI_Shader`. -/
def RHI_Shader.new : RHI_Shader :=
  { m_hasVertexShader := false,
    m_hasPixelShader := false,
    m_buffer_size := 0,
    m_shaderState := .Shader_Uninitialized,
    m_vertex_shader := none,
    m_pixel_shader := none }

def RHI_Shader.GetState (s : RHI_Shader) : Shader_State := s.m_shaderState

/-- The two private virtual functions `API_CompileVertex` and `API_CompilePixel`, which
the header only declares: any functions that may change the object and return a `bool`. -/
structure ShaderApi where
  API_CompileVertex : RHI_Shader → String → Nat → RHI_Shader × Bool
  API_CompilePixel : RHI_Shader → String → RHI_Shader × Bool

/-- The macro `LOG_STATE`. -/
def LOG_STATE (state : Shader_State) (filePath : String) : List ShaderEv :=
  if state = .Shader_Built then [.LOGF_INFO "Successfully compiled %s" filePath]
  else if state = .Shader_Failed then [.LOGF_ERROR "Failed to compile %s" filePath]
  else []

/-- The method `RHI_Shader::CompileVertex`. -/
def RHI_Shader.CompileVertex (api : ShaderApi) (s : RHI_Shader) (shader : String)
    (input_layout : Nat) : RHI_Shader × List ShaderEv :=
  let s := { s with m_shaderState := .Shader_Compiling }
  let (s, vertex) := api.API_CompileVertex s shader input_layout
  let s := { s with m_shaderState := if vertex then .Shader_Built else .Shader_Failed }
  (s, [.API_CompileVertex shader input_layout] ++ LOG_STATE s.m_shaderState shader)

/-- The method `RHI_Shader::CompilePixel`. -/
def RHI_Shader.CompilePixel (api : ShaderApi) (s : RHI_Shader) (shader : String) :
    RHI_Shader × List ShaderEv :=
  let s := { s with m_shaderState := .Shader_Compiling }
  let (s, pixel) := api.API_CompilePixel s shader
  let s := { s with m_shaderState := if pixel then .Shader_Built else .Shader_Failed }
  (s, [.API_CompilePixel shader] ++ LOG_STATE s.m_shaderState shader)

/-- The method `RHI_Shader::CompileVertexPixel`: both results are taken into constants
before they are combined. -/
def RHI_Shader.CompileVertexPixel (api : ShaderApi) (s : RHI_Shader) (shader : String)
    (input_layout : Nat) : RHI_Shader × List ShaderEv :=
  let s := { s with m_shaderState := .Shader_Compiling }
  let (s, vertex) := api.API_CompileVertex s shader input_layout
  let (s, pixel) := api.API_CompilePixel s shader
  let s := { s with m_shaderState := if vertex && pixel then .Shader_Built else .Shader_Failed }
  (s, [.API_CompileVertex shader input_layout, .API_CompilePixel shader] ++
    LOG_STATE s.m_shaderState shader)

/-- The result the vertex compile returns when called by a compile method on `s`. -/
def vertexResult (api : ShaderApi) (s : RHI_Shader) (shader : String) (input_layout : Nat) :
    Bool :=
  (api.API_CompileVertex { s with m_shaderState := .Shader_Compiling } shader input_layout).2

/-- The result the pixel compile returns when called by `CompilePixel` on `s`. -/
def pixelResult (api : ShaderApi) (s : RHI_Shader) (shader : String) : Bool :=
  (api.API_CompilePixel { s with m_shaderState := .Shader_Compiling } shader).2

/-- The result the pixel compile returns when called by `CompileVertexPixel` on `s`,
that is on the object as the vertex compile left it. -/
def pixelResultAfterVertex (api : ShaderApi) (s : RHI_Shader) (shader : String)
    (input_layout : Nat) : Bool :=
  (api.API_CompilePixel
    (api.API_CompileVertex { s with m_shaderState := .Shader_Compiling } shader input_layout).1
    shader).2

end Engine

/-! ## RHI_SwapChain (D3D11_SwapChain.cpp) -/

/-- What the swap chain does outside its own members, in order: calls into the device and
DXGI, and log lines. -/
inductive SwapEv where
  | IsWindow
  | GetDevicePhysical
  | GetPrimaryAdapter
  | GetParent
  | CreateSwapChain (width height buffer_count : Nat)
  | GetBuffer
  | CreateRenderTargetView (backbuffer : Nat)
  | Release_backbuffer (backbuffer : Nat)
  | Release_render_target_view (view : Nat)
  | GetDidsplayModeFastest
  | ResizeTarget (width height : Nat)
  | ResizeBuffers (buffer_count width height : Nat)
  | Present (mode flags : Nat)
  | LOG_ERROR (msg : String)
  | LOGF_ERROR (fmt : String)
  | LOGF_WARNING (fmt : String) (args : List Nat)
deriving DecidableEq, Repr

/-- Whether an event is a call into the device or DXGI, as opposed to a log line. -/
def SwapEv.isDeviceCall : SwapEv → Bool
  | .LOG_ERROR _ => false
  | .LOGF_ERROR _ => false
  | .LOGF_WARNING _ _ => false
  | _ => true

/-- The data members of `RHI_SwapChain` that `D3D11_SwapChain.cpp` reads and writes. -/
structure RHI_SwapChain where
  m_swap_chain : Option Nat
  m_render_target_view : Option Nat
  m_initialized : Bool
  m_max_resolution : Nat
  m_format : Nat
  m_rhi_device : Option Nat
  m_flags : Nat
  m_buffer_count : Nat
  m_windowed : Bool
  m_tearing : Bool
deriving DecidableEq, Repr

/-- The outcomes of the calls into Windows, the device and DXGI during one operation; a
call that fails, or returns a null pointer, gives `none` or `false`. -/
structure D3D11_Results where
  IsWindow : Bool
  GetDevicePhysical : Option Nat
  GetPrimaryAdapter : Option Nat
  GetParent : Option Nat
  FilterSwapChainFlags : Nat → Nat
  CreateSwapChain : Option Nat
  GetBuffer : Option Nat
  CreateRenderTargetView : Option Nat
  GetDidsplayModeFastest : Bool
  ResizeTarget : Bool
  ResizeBuffers : Bool

def DXGI_SWAP_CHAIN_FLAG_ALLOW_TEARING : Nat := 2048

def DXGI_PRESENT_ALLOW_TEARING : Nat := 512

/-- The constructor `RHI_SwapChain::RHI_SwapChain`, run on the object `init` as its member
initializers left it. -/
def RHI_SwapChain.new (init : RHI_SwapChain) (env : D3D11_Results)
    (window_handle device : Option Nat) (width height format flags buffer_count : Nat) :
    RHI_SwapChain × List SwapEv :=
  if window_handle.isNone || device.isNone then (init, [.LOG_ERROR "Invalid parameter"])
  else if !env.IsWindow then (init, [.IsWindow, .LOG_ERROR "Invalid parameter"])
  else
    match env.GetDevicePhysical with
    | none => (init, [.IsWindow, .GetDevicePhysical, .LOG_ERROR "Invalid device."])
    | some _ =>
      let evs : List SwapEv := [.IsWindow, .GetDevicePhysical, .GetPrimaryAdapter]
      match env.GetPrimaryAdapter with
      | none => (init, evs ++ [.LOG_ERROR "Invalid primary adapter"])
      | some _ =>
        let evs := evs ++ [.GetParent]
        match env.GetParent with
        | none => (init, evs ++ [.LOG_ERROR "Failed to get adapter's factory"])
        | some _ =>
          -- Save parameters
          let s := { init with
            m_format := format, m_rhi_device := device, m_flags := flags,
            m_buffer_count := buffer_count, m_windowed := true }
          -- Create swap chain
          let s := { s with
            m_tearing := Nat.land (env.FilterSwapChainFlags flags)
              DXGI_SWAP_CHAIN_FLAG_ALLOW_TEARING != 0 }
          let evs := evs ++ [.CreateSwapChain width height buffer_count]
          match env.CreateSwapChain with
          | none => (s, evs ++ [.LOGF_ERROR "%s"])
          | some swap_chain =>
            let s := { s with m_swap_chain := some swap_chain }
            -- Create the render target
            let evs := evs ++ [.GetBuffer]
            match env.GetBuffer with
            | none => (s, evs ++ [.LOGF_ERROR "%s"])
            | some backbuffer =>
              let evs := evs ++ [.GetDevicePhysical, .CreateRenderTargetView backbuffer,
                .Release_backbuffer backbuffer]
              match env.CreateRenderTargetView with
              | none => (s, evs ++ [.LOGF_ERROR "%s"])
              | some render_target_view =>
                let s := { s with m_render_target_view := some render_target_view }
                ({ s with m_initialized := true }, evs)

/-- The helper `safe_release` on the local copy of the render-target-view pointer: the
view is released when the pointer is not null; the member keeps its value. -/
def safe_release_view (view : Option Nat) : List SwapEv :=
  match view with
  | some v => [.Release_render_target_view v]
  | none => []

/-- The method `RHI_SwapChain::Resize`: the value returned, the object afterwards and
what was done outside it. -/
def RHI_SwapChain.Resize (s : RHI_SwapChain) (env : D3D11_Results) (width height : Nat) :
    Bool × RHI_SwapChain × List SwapEv :=
  if s.m_swap_chain.isNone then (false, s, [.LOG_ERROR "Invalid internals"])
  -- Return if resolution is invalid
  else if width = 0 ∨ width > s.m_max_resolution ∨ height = 0 ∨ height > s.m_max_resolution then
    (false, s, [.LOGF_WARNING "%dx%d is an invalid resolution" [width, height]])
  else
    -- Release previous stuff
    let evs := safe_release_view s.m_render_target_view
    let evs := evs ++ [.GetDidsplayModeFastest]
    if !env.GetDidsplayModeFastest then (false, s, evs ++ [.LOG_ERROR "Failed to get a display mode"])
    else
      -- Resize swapchain target
      let evs := evs ++ [.ResizeTarget width height]
      if !env.ResizeTarget then
        (false, s, evs ++ [.LOGF_ERROR "Failed to resize swapchain target, %s."])
      else
        -- Resize swapchain buffers
        let evs := evs ++ [.ResizeBuffers s.m_buffer_count width height]
        if !env.ResizeBuffers then
          (false, s, evs ++ [.LOGF_ERROR "Failed to resize swapchain buffers, %s."])
        else
          -- Get swapchain back-buffer
          let evs := evs ++ [.GetBuffer]
          match env.GetBuffer with
          | none => (false, s, evs ++ [.LOGF_ERROR "Failed to get swapchain buffer, %s."])
          | some backbuffer =>
            -- Create render target view
            let evs := evs ++ [.GetDevicePhysical, .CreateRenderTargetView backbuffer,
              .Release_backbuffer backbuffer]
            match env.CreateRenderTargetView with
            | none => (false, s, evs ++ [.LOGF_ERROR "Failed to create render target view, %s."])
            | some render_target_view =>
              (true, { s with m_render_target_view := some render_target_view }, evs)

/-- The method `RHI_SwapChain::Present` (a const method): the value returned and what was
done outside the object. -/
def RHI_SwapChain.Present (s : RHI_SwapChain) (mode : Nat) : Bool × List SwapEv :=
  if s.m_swap_chain.isNone then (false, [.LOG_ERROR "Invalid internals"])
  else
    let flags := if s.m_tearing && s.m_windowed then DXGI_PRESENT_ALLOW_TEARING else 0
    (true, [.Present mode flags])

/-- Every step of the construction succeeds: the window handle and the device are given,
the window exists, and each call into the device and DXGI returns its object. -/
def ConstructionSucceeds (env : D3D11_Results) (window_handle device : Option Nat) : Prop :=
  window_handle.isSome = true ∧ device.isSome = true ∧ env.IsWindow = true ∧
  env.GetDevicePhysical.isSome = true ∧ env.GetPrimaryAdapter.isSome = true ∧
  env.GetParent.isSome = true ∧ env.CreateSwapChain.isSome = true ∧
  env.GetBuffer.isSome = true ∧ env.CreateRenderTargetView.isSome = true

instance (env : D3D11_Results) (w d : Option Nat) : Decidable (ConstructionSucceeds env w d) := by
  unfold ConstructionSucceeds; infer_instance

/-- The construction gets as far as creating the swap chain. -/
def SwapChainCreated (env : D3D11_Results) (window_handle device : Option Nat) : Prop :=
  window_handle.isSome = true ∧ device.isSome = true ∧ env.IsWindow = true ∧
  env.GetDevicePhysical.isSome = true ∧ env.GetPrimaryAdapter.isSome = true ∧
  env.GetParent.isSome = true ∧ env.CreateSwapChain.isSome = true

instance (env : D3D11_Results) (w d : Option Nat) : Decidable (SwapChainCreated env w d) := by
  unfold SwapChainCreated; infer_instance

/-- A swap chain object before its constructor body runs: null pointers, not
initialized, at most 16384 pixels a side. -/
def exampleSwapChainInit : RHI_SwapChain :=
  { m_swap_chain := none, m_render_target_view := none, m_initialized := false,
    m_max_resolution := 16384, m_format := 0, m_rhi_device := none, m_flags := 0,
    m_buffer_count := 0, m_windowed := false, m_tearing := false }

/-- Results where every call succeeds. -/
def exampleResults : D3D11_Results :=
  { IsWindow := true, GetDevicePhysical := some 1, GetPrimaryAdapter := some 2,
    GetParent := some 3, FilterSwapChainFlags := fun f => f, CreateSwapChain := some 4,
    GetBuffer := some 5, CreateRenderTargetView := some 6, GetDidsplayModeFastest := true,
    ResizeTarget := true, ResizeBuffers := true }

/-- Results where the swap chain is created and getting its back buffer fails. -/
def exampleResultsNoBackbuffer : D3D11_Results :=
  { exampleResults with GetBuffer := none }

/-- Results where the swap chain is created and creating the render-target view fails. -/
def exampleResultsNoView : D3D11_Results :=
  { exampleResults with CreateRenderTargetView := none }

/-- A fully constructed 1280x720 swap chain. -/
def exampleSwapChain : RHI_SwapChain :=
  (RHI_SwapChain.new exampleSwapChainInit exampleResults (some 100) (some 200) 1280 720 0 0 2).1

/-- A swap chain whose construction stopped at the back buffer. -/
def exampleSwapChainNoBackbuffer : RHI_SwapChain :=
  (RHI_SwapChain.new exampleSwapChainInit exampleResultsNoBackbuffer (some 100) (some 200)
    1280 720 0 0 2).1

/-- A swap chain whose construction stopped at the render-target view. -/
def exampleSwapChainNoView : RHI_SwapChain :=
  (RHI_SwapChain.new exampleSwapChainInit exampleResultsNoView (some 100) (some 200)
    1280 720 0 0 2).1

/-! ## Reading Pass_PreLight -/

/-- Whether two textures agree in width, height and format, which is what the blur
passes require of their two textures. -/
def texturesMatch (a b : RHI_RenderTexture) : Bool :=
  decide (a.width = b.width ∧ a.height = b.height ∧ a.format = b.format)

/-- The steps of `Pass_PreLight` as a trace shows them: the shadow-mapping pass, a call
of the bilateral blur (with whether it went on to draw or stopped at its parameter
check), the clear of a texture to a colour, the SSAO pass. -/
inductive PreLightStep where
  | ShadowMapping
  | Blur (drew : Bool)
  | Clear (texture : Nat) (color : Vector4)
  | SSAO
deriving DecidableEq, Repr

/-- The step an event opens, if any. -/
def Ev.preLightStep : Ev → Option PreLightStep
  | .Begin name =>
    if name = "Pass_Shadowing" then some .ShadowMapping
    else if name = "Pass_BlurBilateralGaussian" then some (.Blur true)
    else if name = "Pass_SSAO" then some .SSAO
    else none
  | .LOG_ERROR msg =>
    if msg = "Invalid parameters, textures must match because they will get swapped." then
      some (.Blur false)
    else none
  | .Texture_Clear texture color => some (.Clear texture color)
  | _ => none

def preLightSteps (evs : List Ev) : List PreLightStep := evs.filterMap Ev.preLightStep

/-- A directional light exists and casts shadows. -/
def Renderer.castsShadows (r : Renderer) : Bool :=
  match r.GetLightDirectional with
  | some light => light.GetCastShadows
  | none => false

/-- Renderer `r'` is `r` after recording some events whose pre-light steps are `st`. -/
def RecordsSteps (r r' : Renderer) (st : List PreLightStep) : Prop :=
  ∃ evs, r' = r.emit evs ∧ preLightSteps evs = st

/-! ## Reading scopes -/

/-- The nesting depth after an event recorded at depth `d`; `none` when the event is an
`End` with no scope open. -/
def scopeStep (d : Nat) : Ev → Option Nat
  | .Begin _ => some (d + 1)
  | .End => if d = 0 then none else some (d - 1)
  | _ => some d

/-- The nesting depth after a list of events recorded from depth `d` on; `none` when at
some point an `End` is recorded with no scope open. -/
def scopeDepth (d : Nat) : List Ev → Option Nat
  | [] => some d
  | e :: t => (scopeStep d e).bind fun d' => scopeDepth d' t

/-- The name of the scope an event opens, when it is recorded at depth `d` and `d = k`. -/
def Ev.nameAt (k d : Nat) : Ev → List String
  | .Begin n => if d = k then [n] else []
  | _ => []

/-- The depth after an event recorded at depth `d` (an `End` at depth 0 stays at 0). -/
def Ev.depthAfter (d : Nat) : Ev → Nat
  | .Begin _ => d + 1
  | .End => d - 1
  | _ => d

/-- The names of the scopes opened at nesting depth `k`, in the order they are opened,
in a list of events recorded from depth `d` on. -/
def scopeNamesAt (k : Nat) : Nat → List Ev → List String
  | _, [] => []
  | d, e :: t => e.nameAt k d ++ scopeNamesAt k (e.depthAfter d) t

/-- The scopes opened directly inside the outermost scope of a frame. -/
def topLevelPasses (evs : List Ev) : List String := scopeNamesAt 1 0 evs

/-- The passes of a frame in the order `Pass_Main` calls them. -/
def passOrder : List String :=
  [ "Pass_DepthDirectionalLight", "Pass_GBuffer", "Pass_PreLight", "Pass_Light",
    "Pass_Transparent", "Pass_PostLight", "Pass_Lines", "Pass_Gizmos", "Pass_DebugBuffer",
    "Pass_PerformanceMetrics" ]

/-- Renderer `r'` is `r` after recording events in which every `End` closes a scope opened
among them and every scope opened is closed. -/
def Nested (r r' : Renderer) : Prop :=
  ∃ evs, r'.trace = r.trace ++ evs ∧ scopeDepth 0 evs = some 0

/-- Renderer `r'` is `r` after recording well-nested events whose outermost scopes are
`names`. -/
def Scoped (r r' : Renderer) (names : List String) : Prop :=
  ∃ evs, r'.trace = r.trace ++ evs ∧ scopeDepth 0 evs = some 0 ∧ scopeNamesAt 0 0 evs = names

/-- A pass called `name` either records no scope of its own or exactly the scope `name`. -/
def ScopedPass (name : String) (r r' : Renderer) : Prop :=
  Scoped r r' [] ∨ Scoped r r' [name]

/-! ## Counting Begin and End -/

def Ev.isBegin : Ev → Bool
  | .Begin _ => true
  | _ => false

def Ev.isEnd : Ev → Bool
  | .End => true
  | _ => false

/-- The number of `Begin` calls in a list of events. -/
def countBegin (evs : List Ev) : Nat := (evs.filter Ev.isBegin).length

/-- The number of `End` calls in a list of events. -/
def countEnd (evs : List Ev) : Nat := (evs.filter Ev.isEnd).length

/-- As many `End` calls as `Begin` calls, and at no point more `End` calls than `Begin`
calls. -/
def BeginEndBalanced (evs : List Ev) : Prop :=
  countEnd evs = countBegin evs ∧ ∀ n, countEnd (evs.take n) ≤ countBegin (evs.take n)

/-- Going from renderer `r` to `r'` only records events, and these are balanced. -/
def RecordsBalanced (r r' : Renderer) : Prop :=
  r'.trace = r.trace ++ appended r r' ∧ BeginEndBalanced (appended r r')

/-! ## Reading the first draw of a pass -/

/-- Neither `SetBufferIndex` nor `SetBufferVertex` occurs among the events. -/
def noGeometryBind (seg : List Ev) : Bool :=
  seg.all fun e => !e.isSetBufferIndex && !e.isSetBufferVertex

/-- No `SetShaderPixel` occurs among the events. -/
def noShaderBind (seg : List Ev) : Bool := seg.all fun e => !e.isSetShaderPixel

/-- Neither `SetTextures` nor a material constant-buffer call occurs among the events. -/
def noMaterialBind (seg : List Ev) : Bool :=
  seg.all fun e => !e.isSetTextures && !e.isMaterialBuffer

def DepthDraw.drawCall (d : DepthDraw) : Ev :=
  .DrawIndexed d.renderable.index_count d.renderable.index_offset d.renderable.vertex_offset

/-- The example renderer with a shadow-casting light and two opaque entities, the first
with geometry, shader and material id 0. -/
def exampleSceneZero : Renderer :=
  { exampleRenderer with
    m_light_directional := some (exampleLight 3),
    m_entities_ObjectOpaque := [exampleEntity 1 0 0 0, exampleEntity 2 1 7 5] }

/-! ## Reading the cascades of the shadow depth pass -/

/-- The tests of the shadow depth loop: a renderable, a material, complete geometry (model,
vertex and index buffer), the cast-shadows flag, and albedo alpha not below 1 (the
comparison `alpha < 1.0f` is false, as it also is for a NaN alpha). -/
def Entity.passesDepthTests (e : Entity) : Bool :=
  match e.renderable with
  | none => false
  | some ren =>
    (match ren.material with
      | none => false
      | some mat => !(mat.color_albedo.w.lt 1)) &&
    (match ren.model with
      | none => false
      | some m => m.vertex_buffer.isSome && m.index_buffer.isSome) &&
    ren.cast_shadows

/-- The tests in the words of the claim about the cascades: as `passesDepthTests`, with
"albedo alpha >= 1.0" for the last one. -/
def Entity.passesClaimedDepthTests (e : Entity) : Bool :=
  match e.renderable with
  | none => false
  | some ren =>
    (match ren.material with
      | none => false
      | some mat => decide (mat.color_albedo.w ≥ 1)) &&
    (match ren.model with
      | none => false
      | some m => m.vertex_buffer.isSome && m.index_buffer.isSome) &&
    ren.cast_shadows

/-- A draw, or a constant-buffer bind at vertex-shader slot 1. -/
def Ev.isDrawOrVsSlot1 : Ev → Bool
  | .Draw _ => true
  | .DrawIndexed _ _ _ => true
  | .SetConstantBuffer 1 .Buffer_VertexShader _ => true
  | _ => false

/-- The bind of an entity's light constant buffer of cascade `i` at vertex-shader slot 1,
followed by the entity's draw. -/
def Entity.lightBindAndDraw (i : Nat) (e : Entity) : List Ev :=
  [.SetConstantBuffer 1 .Buffer_VertexShader (.transformLight e.id i)] ++ e.drawCall.toList

/-- An entity as `exampleEntity`, with the given cast-shadows flag and albedo alpha. -/
def exampleShadowEntity (id g : Nat) (cast_shadows : Bool) (alpha : Float32) : Entity :=
  { id := id,
    renderable := some
      { material := some
          { resource_id := 5, shader := some ⟨7, Shader_Compiled⟩, cull_mode := .Cull_Back,
            color_albedo := ⟨1, 1, 1, alpha⟩,
            tex_albedo := none, tex_roughness := none, tex_metallic := none,
            tex_normal := none, tex_height := none, tex_occlusion := none,
            tex_emission := none, tex_mask := none },
        model := some { resource_id := g, vertex_buffer := some (3000 + g), index_buffer := some (4000 + g) },
        cast_shadows := cast_shadows, index_count := 36, index_offset := 0, vertex_offset := 0,
        in_view_frustum := true } }

/-- The example scene with a light of three cascades; the third entity casts no shadow
and the fourth has albedo alpha 0. -/
def exampleShadowScene : Renderer :=
  { exampleRenderer with
    m_light_directional := some (exampleLight 3),
    m_entities_ObjectOpaque :=
      [ exampleShadowEntity 1 1 true 1, exampleShadowEntity 2 2 true 1,
        exampleShadowEntity 3 3 false 1, exampleShadowEntity 4 4 true 0 ] }

/-! ## Render-target views a pass asks for -/

/-- The render-target views an event names: each comes from a `GetRenderTargetView` call
made for that event. -/
def Ev.views : Ev → List RenderTargetView
  | .SetRenderTargets render_targets _ => render_targets
  | .SetRenderTarget render_target _ => [render_target]
  | .ClearRenderTarget render_target _ => [render_target]
  | _ => []

/-- The render-target views asked for in a list of events, in order. -/
def requestedViews (evs : List Ev) : List RenderTargetView := evs.flatMap Ev.views

/-- The example scene with opaque entities and a shadow-casting light whose shadow map
has a single cascade. -/
def exampleSceneOneCascade : Renderer :=
  { exampleScene with m_light_directional := some (exampleLight 1) }

/-! ## Reading the blur passes -/

/-- The events that matter for a blur direction: the update of a shader's constant
buffer, the bind of a constant buffer at pixel-shader slot 1, and the draw. -/
def Ev.isBlurStep : Ev → Bool
  | .UpdateBuffer _ _ _ => true
  | .SetConstantBuffer 1 .Buffer_PixelShader _ => true
  | .DrawIndexed _ _ _ => true
  | _ => false

/-- The shader whose constant buffer a bind at pixel-shader slot 1 names. -/
def Ev.psSlot1Shader : Ev → Option Nat
  | .SetConstantBuffer 1 .Buffer_PixelShader (.shader shader_id _) => some shader_id
  | _ => none

/-- The shader whose constant buffer an update writes. -/
def Ev.updatedShader : Ev → Option Nat
  | .UpdateBuffer shader _ _ => some shader
  | _ => none

/-- The pixel shader an event sets. -/
def Ev.pixelShaderSet : Ev → Option RHI_Shader
  | .SetShaderPixel shader => some shader
  | _ => none

/-! ## Texture slots and render target along a trace -/

/-- Write `textures` into `slots` from `start_slot` on; slots never written hold nothing. -/
def writeSlots (slots : List (Option Nat)) (start_slot : Nat) (textures : List (Option Nat)) :
    List (Option Nat) :=
  let padded := slots ++ List.replicate (start_slot + textures.length - slots.length) none
  padded.take start_slot ++ textures ++ padded.drop (start_slot + textures.length)

/-- What a draw reads and writes: the texture slots and the render target set by the
commands recorded so far. -/
structure SlotState where
  slots : List (Option Nat)
  target : Option RenderTargetView
deriving DecidableEq, Repr

/-- Nothing bound, no render target set. -/
def SlotState.unbound : SlotState := ⟨[], none⟩

/-- Effect of one command on the texture slots and the render target. -/
def SlotState.step (s : SlotState) : Ev → SlotState
  | .SetTextures start_slot textures => { s with slots := writeSlots s.slots start_slot textures }
  | .SetTexture start_slot texture => { s with slots := writeSlots s.slots start_slot [texture] }
  | .ClearTextures => { s with slots := [] }
  | .SetRenderTarget render_target _ => { s with target := some render_target }
  | .SetRenderTargets render_targets _ => { s with target := render_targets.head? }
  | _ => s

/-- Slot state at each draw of a trace, starting from `s`. -/
def drawReadsFrom (s : SlotState) : List Ev → List SlotState
  | [] => []
  | e :: t => if e.isDraw then s :: drawReadsFrom s t else drawReadsFrom (s.step e) t

/-- Slot state at each draw of a trace that starts with nothing bound. -/
def drawReads (evs : List Ev) : List SlotState := drawReadsFrom SlotState.unbound evs

/-- A draw that reads the textures `reads` (slots in order) and writes render target
view 0 of `writes`. -/
def readsWrites (reads : List RHI_RenderTexture) (writes : RHI_RenderTexture) : SlotState :=
  ⟨reads.map RHI_RenderTexture.GetShaderResource, some (writes.GetRenderTargetView 0)⟩

/-! ## Render targets and bound textures -/

/-- The render target set at a draw is the texture of one of the slots. -/
def SlotState.writesBoundTexture (s : SlotState) : Bool :=
  match s.target with
  | some render_target => s.slots.contains (some render_target.texture)
  | none => false

/-- No draw of the trace writes a render target whose texture is in a slot at that draw,
slots and target being those set since the start of the trace. -/
def drawsAvoidInputs (evs : List Ev) : Prop :=
  ∀ s ∈ drawReads evs, s.writesBoundTexture = false

/-- The render-target views set while their texture is in a slot, from slot state `s`: a
`ClearTextures` since the texture was bound empties the slots. -/
def reboundFrom (s : SlotState) : List Ev → List RenderTargetView
  | [] => []
  | e :: t =>
    (match e with
      | .SetRenderTarget render_target _ =>
        if s.slots.contains (some render_target.texture) then [render_target] else []
      | .SetRenderTargets render_targets _ =>
        render_targets.filter (fun v => s.slots.contains (some v.texture))
      | _ => []) ++ reboundFrom (s.step e) t

/-- The render-target views a trace sets while their texture is bound in a slot by an
earlier command of the trace, no `ClearTextures` in between. -/
def reboundWhileBound (evs : List Ev) : List RenderTargetView := reboundFrom SlotState.unbound evs

/-- The handles a post-process pass can touch are pairwise distinct: its two arguments, the
TAA pair, the quarter-size blur pair and the G-buffer textures it reads. -/
def PoolDistinct (r : Renderer) (tex_in tex_out : RHI_RenderTexture) : Prop :=
  [ tex_in.id, tex_out.id, r.m_render_tex_full_taa_current.id, r.m_render_tex_full_taa_history.id,
    r.m_render_tex_quarter_blur1.id, r.m_render_tex_quarter_blur2.id, r.m_g_buffer_velocity.id,
    r.m_g_buffer_depth.id, r.m_g_buffer_normal.id ].Nodup

instance (r : Renderer) (tex_in tex_out : RHI_RenderTexture) : Decidable (PoolDistinct r tex_in tex_out) := by
  unfold PoolDistinct; infer_instance

/-! ## Exchanges of the caller's pair in Pass_PostLight -/

/-- The effects after which `Pass_PostLight` leaves its two references exchanged; `Pass_FXAA`
exchanges them itself before the `swap_targets` of its stage. -/
def swappingEffects : List PostEffect :=
  [.TAA, .Bloom, .MotionBlur, .Dithering, .ToneMapping, .Sharpening, .ChromaticAberration]

/-- How many of the exchanging effects are enabled. -/
def Renderer.enabledSwaps (r : Renderer) : Nat := swappingEffects.countP r.effectEnabled

/-- After some stages: configuration kept, and the pair is `(A, B)` exchanged `n` times. -/
def PairAfter (r : Renderer) (A B : RHI_RenderTexture) (s : PassState) (n : Nat) : Prop :=
  s.r.m_flags = r.m_flags ∧ s.r.m_tonemapping = r.m_tonemapping ∧
  s.tex_in = (if n % 2 = 1 then B else A) ∧ s.tex_out = (if n % 2 = 1 then A else B)

/-- The part of `Pass_Main` before its call of `Pass_PostLight`: the renderer as that call
finds it, when `Pass_PreLight` has returned. -/
def Pass_Main_lit (r : Renderer) : Except Renderer Renderer :=
  let r := r.emit [.Begin "Pass_Main"]
  let r := Pass_DepthDirectionalLight r r.GetLightDirectional
  let r := Pass_GBuffer r
  match Pass_PreLight r r.m_render_tex_half_spare r.m_render_tex_half_shadows r.m_render_tex_half_ssao with
  | .error x => .error x
  | .ok p =>
  let r := { p.r with
    m_render_tex_half_spare := p.tex_in,
    m_render_tex_half_shadows := p.tex_shadows_out,
    m_render_tex_half_ssao := p.tex_ssao_out }
  let r := Pass_Light r r.m_render_tex_half_shadows r.m_render_tex_half_ssao r.m_render_tex_full_hdr_light
  .ok (Pass_Transparent r r.m_render_tex_full_hdr_light)

/-- The four overlay passes of `Pass_Main` and its closing calls, all drawing onto `tex`. -/
def Pass_Main_overlays (r : Renderer) (tex : RHI_RenderTexture) : Renderer :=
  (Pass_PerformanceMetrics (Pass_DebugBuffer (Pass_Gizmos (Pass_Lines r tex) tex) tex) tex).emit
    [.End, .Submit, .Clear]

/-! ## ModelImporter::ReadAnimations -/

/-- Assimp's `aiVector3D`. -/
structure aiVector3D where
  x : Rat
  y : Rat
  z : Rat
deriving DecidableEq, Repr

/-- Assimp's `aiQuaternion`. -/
structure aiQuaternion where
  w : Rat
  x : Rat
  y : Rat
  z : Rat
deriving DecidableEq, Repr

/-- Assimp's `aiVectorKey`. -/
structure aiVectorKey where
  mTime : Rat
  mValue : aiVector3D
deriving DecidableEq, Repr

/-- Assimp's `aiQuatKey`. -/
structure aiQuatKey where
  mTime : Rat
  mValue : aiQuaternion
deriving DecidableEq, Repr

/-- Assimp's `aiNodeAnim`: each key array with its count (`unsigned int`). -/
structure aiNodeAnim where
  mNodeName : String
  mNumPositionKeys : Nat
  mPositionKeys : List aiVectorKey
  mNumRotationKeys : Nat
  mRotationKeys : List aiQuatKey
  mNumScalingKeys : Nat
  mScalingKeys : List aiVectorKey
deriving DecidableEq, Repr

/-- Assimp's `aiAnimation`; `mNumChannels` is an `unsigned int`. -/
structure aiAnimation where
  mName : String
  mDuration : Rat
  mTicksPerSecond : Rat
  mNumChannels : Nat
  mChannels : List aiNodeAnim
deriving DecidableEq, Repr

/-- Assimp's `aiScene`, as far as `ReadAnimations` reads it. -/
structure aiScene where
  mNumAnimations : Nat
  mAnimations : List aiAnimation
deriving DecidableEq, Repr

/-- Engine vector (`Directus::Math::Vector3`). -/
structure Vector3 where
  x : Rat
  y : Rat
  z : Rat
deriving DecidableEq, Repr

/-- Engine quaternion (`Directus::Math::Quaternion`). -/
structure Quaternion where
  x : Rat
  y : Rat
  z : Rat
  w : Rat
deriving DecidableEq, Repr

structure KeyVector where
  time : Rat
  value : Vector3
deriving DecidableEq, Repr

structure KeyQuaternion where
  time : Rat
  value : Quaternion
deriving DecidableEq, Repr

/-- The local `AnimationNode` the channel loop fills. -/
structure AnimationNode where
  name : String
  positionFrames : List KeyVector
  rotationFrames : List KeyQuaternion
  scaleFrames : List KeyVector
deriving DecidableEq, Repr

/-- The conversions of `AssimpHelper.h`, which these sources only call. -/
structure AssimpHelper where
  to_vector3 : aiVector3D → Vector3
  to_quaternion : aiQuaternion → Quaternion

/-- A setter call on an `Animation`. -/
inductive AnimationCall where
  | SetName (name : String)
  | SetDuration (duration : Rat)
  | SetTicksPerSec (ticks_per_sec : Rat)
deriving DecidableEq, Repr

/-- An `Animation` object, known by the setter calls made on it since
`make_shared<Animation>(m_context)`, in order. -/
structure Animation where
  calls : List AnimationCall
deriving DecidableEq, Repr

/-- The position-key loop: `k` from 0 while `k < mNumPositionKeys`; reading past an array has
no result. -/
def ReadAnimations_positionKeys (helper : AssimpHelper) (node_anim : aiNodeAnim) :
    Option (List KeyVector) :=
  (List.range node_anim.mNumPositionKeys).mapM fun k =>
    match node_anim.mPositionKeys[k]? with
    | some key => some ⟨key.mTime, helper.to_vector3 key.mValue⟩
    | none => none

/-- The rotation-key loop; the time is read from `mPositionKeys[k]`. -/
def ReadAnimations_rotationKeys (helper : AssimpHelper) (node_anim : aiNodeAnim) :
    Option (List KeyQuaternion) :=
  (List.range node_anim.mNumRotationKeys).mapM fun k =>
    match node_anim.mPositionKeys[k]?, node_anim.mRotationKeys[k]? with
    | some time_key, some key => some ⟨time_key.mTime, helper.to_quaternion key.mValue⟩
    | _, _ => none

/-- The scaling-key loop; the time is read from `mPositionKeys[k]`. -/
def ReadAnimations_scalingKeys (helper : AssimpHelper) (node_anim : aiNodeAnim) :
    Option (List KeyVector) :=
  (List.range node_anim.mNumScalingKeys).mapM fun k =>
    match node_anim.mPositionKeys[k]?, node_anim.mScalingKeys[k]? with
    | some time_key, some key => some ⟨time_key.mTime, helper.to_vector3 key.mValue⟩
    | _, _ => none

/-- Body of the channel loop: the `animation_node` built from channel `j`. -/
def ReadAnimations_channel (helper : AssimpHelper) (node_anim : aiNodeAnim) : Option AnimationNode :=
  match ReadAnimations_positionKeys helper node_anim, ReadAnimations_rotationKeys helper node_anim,
    ReadAnimations_scalingKeys helper node_anim with
  | some positions, some rotations, some scales =>
    some ⟨node_anim.mNodeName, positions, rotations, scales⟩
  | _, _, _ => none

/-- The channel loop `for (unsigned int j = 0; j > mNumChannels; j++)` from counter `j`, with
the nodes built so far; `fuel` bounds the number of condition tests, and the result lists
one node per execution of the body. -/
def ReadAnimations_channels (helper : AssimpHelper) (assimp_animation : aiAnimation) :
    Nat → Nat → List AnimationNode → Option (List AnimationNode)
  | 0, _, _ => none
  | fuel + 1, j, built =>
    if j > assimp_animation.mNumChannels then
      match assimp_animation.mChannels[j]? with
      | none => none
      | some node_anim =>
        match ReadAnimations_channel helper node_anim with
        | none => none
        | some animation_node =>
          ReadAnimations_channels helper assimp_animation fuel ((j + 1) % 2 ^ 32)
            (built ++ [animation_node])
    else some built

/-- Body of the animation loop: the `animation` handed to `model->AddAnimation`. -/
def ReadAnimations_animation (helper : AssimpHelper) (fuel : Nat) (assimp_animation : aiAnimation) :
    Option Animation :=
  let animation : Animation := ⟨[]⟩
  -- Basic properties
  let animation : Animation := ⟨animation.calls ++ [.SetName assimp_animation.mName]⟩
  let animation : Animation := ⟨animation.calls ++ [.SetDuration assimp_animation.mDuration]⟩
  let animation : Animation := ⟨animation.calls ++
    [.SetTicksPerSec
      (if assimp_animation.mTicksPerSecond ≠ 0 then assimp_animation.mTicksPerSecond else 25)]⟩
  -- Animation channels
  match ReadAnimations_channels helper assimp_animation fuel 0 [] with
  | none => none
  | some _ => some animation

/-- The animation loop `for (unsigned int i = 0; i < scene->mNumAnimations; i++)` with
`remaining` iterations left from counter `i`; `added` lists the arguments of the
`model->AddAnimation` calls made so far. -/
def ReadAnimations_from (helper : AssimpHelper) (fuel : Nat) (scene : aiScene) :
    Nat → Nat → List Animation → Option (List Animation)
  | 0, _, added => some added
  | remaining + 1, i, added =>
    match scene.mAnimations[i]? with
    | none => none
    | some assimp_animation =>
      match ReadAnimations_animation helper fuel assimp_animation with
      | none => none
      | some animation => ReadAnimations_from helper fuel scene remaining (i + 1) (added ++ [animation])

/-- The function `ModelImporter::ReadAnimations`: the animations added to the model, in
order. -/
def ReadAnimations (helper : AssimpHelper) (fuel : Nat) (scene : aiScene) : Option (List Animation) :=
  ReadAnimations_from helper fuel scene scene.mNumAnimations 0 []

/-- What the claim says of an imported animation: source name, source duration, and the
source ticks per second or 25 when that is 0. -/
def importedAnimation (assimp_animation : aiAnimation) : Animation :=
  ⟨[ .SetName assimp_animation.mName,
     .SetDuration assimp_animation.mDuration,
     .SetTicksPerSec
       (if assimp_animation.mTicksPerSecond = 0 then 25 else assimp_animation.mTicksPerSecond) ]⟩

/-- Conversions that copy the components. -/
def exampleHelper : AssimpHelper :=
  { to_vector3 := fun v => ⟨v.x, v.y, v.z⟩,
    to_quaternion := fun q => ⟨q.x, q.y, q.z, q.w⟩ }

/-- A channel with two position keys. -/
def exampleNodeAnim : aiNodeAnim :=
  { mNodeName := "bone",
    mNumPositionKeys := 2,
    mPositionKeys := [⟨0, ⟨0, 0, 0⟩⟩, ⟨1, ⟨1, 0, 0⟩⟩],
    mNumRotationKeys := 0,
    mRotationKeys := [],
    mNumScalingKeys := 0,
    mScalingKeys := [] }

/-- A scene of two animations, each with channels; the second has no tick rate. -/
def exampleAnimScene : aiScene :=
  { mNumAnimations := 2,
    mAnimations :=
      [ { mName := "walk", mDuration := 40, mTicksPerSecond := 30, mNumChannels := 2,
          mChannels := [exampleNodeAnim, exampleNodeAnim] },
        { mName := "idle", mDuration := 10, mTicksPerSecond := 0, mNumChannels := 1,
          mChannels := [exampleNodeAnim] } ] }

/-! ## The unguarded shadow map of Pass_ShadowMapping -/

/-- The directional light casts shadows and has no shadow map: the state in which
`Pass_ShadowMapping`, called by `Pass_PreLight`, dereferences null. -/
def Renderer.shadowMapMissing (r : Renderer) : Bool :=
  match r.GetLightDirectional with
  | some light => light.GetCastShadows && light.GetShadowMap.isNone
  | none => false

/-- The events `Pass_ShadowMapping` has recorded when it reads the shadow map. -/
def Pass_ShadowMapping_begun (r : Renderer) (tex_out : RHI_RenderTexture) : List Ev :=
  [ .Begin "Pass_Shadowing",
    .SetDefaultBuffer tex_out.width tex_out.height .m_view_projection_orthographic,
    .UpdateBuffer r.m_vps_shadow_mapping.id 0 .Struct_ShadowMapping ]

/-- The events `Pass_ShadowMapping` records for a light that casts shadows into
`shadow_map`. -/
def Pass_ShadowMapping_events (r : Renderer) (tex_out shadow_map : RHI_RenderTexture) : List Ev :=
  Pass_ShadowMapping_begun r tex_out ++
  [ .SetRenderTarget (tex_out.GetRenderTargetView 0) none,
    .SetViewport tex_out.id,
    .SetShaderVertex r.m_vps_shadow_mapping,
    .SetShaderPixel r.m_vps_shadow_mapping,
    .SetInputLayout r.m_vps_shadow_mapping.id,
    .SetTextures 0
      [ r.m_g_buffer_normal.GetShaderResource, r.m_g_buffer_depth.GetShaderResource,
        shadow_map.GetShaderResource ],
    .SetSamplers 0 [Sampler.m_sampler_compare_depth, Sampler.m_sampler_bilinear_clamp],
    .SetConstantBuffers 0 .Buffer_Global
      [ConstantBuffer.m_buffer_global, ConstantBuffer.shader r.m_vps_shadow_mapping.id 0],
    .DrawIndexed r.m_quad.index_count 0 0,
    .End, .Submit, .Clear ]

/-- The events `Pass_PreLight` records before its shadow-mapping step. -/
def Pass_PreLight_header (r : Renderer) : List Ev :=
  [ .Begin "Pass_PreLight",
    .SetDepthStencilState .m_depth_stencil_disabled,
    .SetRasterizerState .m_rasterizer_cull_back_solid,
    .SetBlendState .m_blend_disabled,
    .SetPrimitiveTopology .PrimitiveTopology_TriangleList,
    .SetBufferVertex r.m_quad.vertex_buffer,
    .SetBufferIndex r.m_quad.index_buffer ]

/-- The example scene with a directional light that casts shadows and has no shadow map. -/
def exampleSceneNoShadowMap : Renderer :=
  { exampleScene with m_light_directional := some { cast_shadows := true, shadow_map := none } }

/-! ## The entry tests of the passes of a frame -/

/-- `Pass_DepthDirectionalLight` goes past its early returns: the light casts shadows, has a
shadow map, and the opaque bucket is not empty. -/
def Renderer.depthPassRuns (r : Renderer) (light_directional : Option Light) : Bool :=
  match light_directional with
  | some light => light.GetCastShadows && light.GetShadowMap.isSome && !r.m_entities_ObjectOpaque.isEmpty
  | none => false

/-- `Pass_Light` goes past its early return: the lighting shader is compiled. -/
def Renderer.lightPassRuns (r : Renderer) : Bool :=
  decide (r.m_vps_light.GetCompilationState = Shader_Compiled)

/-- `Pass_Transparent` goes past its early returns: there is a directional light and the
transparent bucket is not empty. -/
def Renderer.transparentPassRuns (r : Renderer) : Bool :=
  r.GetLightDirectional.isSome && !r.m_entities_ObjectTransparent.isEmpty

/-- `Pass_Lines` goes past its early return: one of its three flags is set or a line list is
not empty. -/
def Renderer.linesPassRuns (r : Renderer) : Bool :=
  r.Flags_IsSet .Render_Gizmo_PickingRay || r.Flags_IsSet .Render_Gizmo_AABB ||
    r.Flags_IsSet .Render_Gizmo_Grid ||
    (decide (r.m_lines_list_depth_enabled ≠ 0) || decide (r.m_lines_list_depth_disabled ≠ 0))

/-- `Pass_Gizmos` goes past its early return: one of its two flags is set. -/
def Renderer.gizmosPassRuns (r : Renderer) : Bool :=
  r.Flags_IsSet .Render_Gizmo_Lights || r.Flags_IsSet .Render_Gizmo_Transform

/-- `Pass_DebugBuffer` goes past its early return: a debug buffer is selected. -/
def Renderer.debugPassRuns (r : Renderer) : Bool :=
  decide (r.m_debug_buffer ≠ .RendererDebug_None)

/-- The passes of a frame that go past their early returns, in the order `Pass_Main` calls
them; `Pass_PreLight` and `Pass_PostLight` have no early return. -/
def Renderer.framePasses (r : Renderer) : List String :=
  (if r.depthPassRuns r.GetLightDirectional then ["Pass_DepthDirectionalLight"] else []) ++
  (if r.m_rhi_device then ["Pass_GBuffer"] else []) ++
  ["Pass_PreLight"] ++
  (if r.lightPassRuns then ["Pass_Light"] else []) ++
  (if r.transparentPassRuns then ["Pass_Transparent"] else []) ++
  ["Pass_PostLight"] ++
  (if r.linesPassRuns then ["Pass_Lines"] else []) ++
  (if r.gizmosPassRuns then ["Pass_Gizmos"] else []) ++
  (if r.debugPassRuns then ["Pass_DebugBuffer"] else []) ++
  (if r.Flags_IsSet .Render_Gizmo_PerformanceMetrics then ["Pass_PerformanceMetrics"] else [])

/-- The passes of a frame whose scope is recorded before `Pass_PreLight` is called. -/
def Renderer.geometryPasses (r : Renderer) : List String :=
  (if r.depthPassRuns r.GetLightDirectional then ["Pass_DepthDirectionalLight"] else []) ++
  (if r.m_rhi_device then ["Pass_GBuffer"] else [])

/-- Renderer `r'` has what the entry tests of the passes read as `r` has it. -/
def SameGuards (r r' : Renderer) : Prop :=
  r'.m_flags = r.m_flags ∧ r'.m_light_directional = r.m_light_directional ∧
  r'.m_rhi_device = r.m_rhi_device ∧ r'.m_vps_light = r.m_vps_light ∧
  r'.m_entities_ObjectOpaque = r.m_entities_ObjectOpaque ∧
  r'.m_entities_ObjectTransparent = r.m_entities_ObjectTransparent ∧
  r'.m_debug_buffer = r.m_debug_buffer ∧
  r'.m_lines_list_depth_enabled = r.m_lines_list_depth_enabled ∧
  r'.m_lines_list_depth_disabled = r.m_lines_list_depth_disabled

/-- Renderer `r'` has the flags and the debug-buffer selection of `r`. -/
def SameFlags (r r' : Renderer) : Prop :=
  r'.m_flags = r.m_flags ∧ r'.m_debug_buffer = r.m_debug_buffer

/-- The light handed to `Pass_ShadowMapping` casts shadows and has no shadow map. -/
def lightShadowMapMissing (light : Option Light) : Bool :=
  match light with
  | some l => l.GetCastShadows && l.GetShadowMap.isNone
  | none => false

/-- The example scene with a shadow-casting light that has a shadow map, transparent
entities, the gizmo flags set and the albedo debug buffer selected: every pass of the
frame goes past its early returns. -/
def exampleSceneAllPasses : Renderer :=
  { exampleTransparentScene with
    m_flags := [.Render_Gizmo_Grid, .Render_Gizmo_Lights, .Render_Gizmo_PerformanceMetrics],
    m_debug_buffer := .RendererDebug_Albedo }

/-- An opaque bucket of two entities whose models have the same resource id 1 and different
buffers. -/
def exampleSceneSharedId : Renderer :=
  { exampleRenderer with
    m_entities_ObjectOpaque :=
      [ exampleEntity 1 1 7 5,
        { id := 2, renderable := (exampleEntity 2 1 7 5).renderable.map
            (fun ren => { ren with
              model := some { resource_id := 1, vertex_buffer := some 9999, index_buffer := some 8888 } }) } ] }

/-- Updates of a light constant buffer, constant-buffer binds at vertex-shader slot 1, and
draws. -/
def Ev.isLightBufferOrDraw : Ev → Bool
  | .Transform_UpdateConstantBufferLight _ _ => true
  | .SetConstantBuffer 1 .Buffer_VertexShader _ => true
  | .Draw _ => true
  | .DrawIndexed _ _ _ => true
  | _ => false

/-- What cascade `i` does with the light constant buffer of a drawn entity: the buffer of
index `i` is updated, bound at vertex-shader slot 1, and the entity is drawn. -/
def DepthDraw.lightBufferUse (d : DepthDraw) (i : Nat) : List Ev :=
  [ .Transform_UpdateConstantBufferLight d.entity i,
    .SetConstantBuffer 1 .Buffer_VertexShader (.transformLight d.entity i),
    d.drawCall ]

/-- Depth clears. -/
def Ev.isClearDepthStencil : Ev → Bool
  | .ClearDepthStencil _ _ _ => true
  | _ => false

/-- The example scene without a device. -/
def exampleSceneNoDevice : Renderer :=
  { exampleScene with m_rhi_device := false }

/-- The example renderer with a light of three cascades and two opaque entities that cast
shadows, the second with a NaN albedo alpha. -/
def exampleSceneNaN : Renderer :=
  { exampleRenderer with
    m_light_directional := some (exampleLight 3),
    m_entities_ObjectOpaque :=
      [ exampleShadowEntity 1 1 true 1, exampleShadowEntity 2 2 true .NaN ] }

/-! # Theorems -/

@[simp] theorem emit_trace (r : Renderer) (evs : List Ev) : (r.emit evs).trace = r.trace ++ evs := rfl

theorem emit_emit (r : Renderer) (a b : List Ev) : (r.emit a).emit b = r.emit (a ++ b) := by
  simp [Renderer.emit, List.append_assoc]

/-- What `Pass_GBuffer` does on an empty bucket: the clear-only path. -/
theorem Pass_GBuffer_clear_only (r : Renderer) (hdev : r.m_rhi_device = true)
    (hempty : r.m_entities_ObjectOpaque = []) :
    Pass_GBuffer r = r.emit
      [ .Begin "Pass_GBuffer",
        .ClearRenderTarget (r.m_g_buffer_albedo.GetRenderTargetView 0) Vector4.Zero,
        .ClearRenderTarget (r.m_g_buffer_normal.GetRenderTargetView 0) Vector4.Zero,
        .ClearRenderTarget (r.m_g_buffer_material.GetRenderTargetView 0) Vector4.Zero,
        .ClearRenderTarget (r.m_g_buffer_velocity.GetRenderTargetView 0) Vector4.Zero,
        .ClearDepthStencil r.m_g_buffer_depth.GetDepthStencilView .Clear_Depth r.clear_depth,
        .End, .Submit, .Clear ] := by
  simp [Pass_GBuffer, hdev, hempty, Renderer.emit, Renderer.clear_depth]

/-- C1 (as stated, refuted): on the example renderer (valid device, empty opaque bucket,
depth range [0,1] without reverse-Z) `Pass_GBuffer` does not clear all five channels to zero:
the depth channel is cleared to 1. -/
theorem C1_depth_not_cleared_to_zero :
    exampleRenderer.m_rhi_device = true ∧ exampleRenderer.m_entities_ObjectOpaque = [] ∧
    ¬ allChannelsClearedToZero exampleRenderer (appended exampleRenderer (Pass_GBuffer exampleRenderer)) ∧
    depthChannelClearedTo exampleRenderer 1 (appended exampleRenderer (Pass_GBuffer exampleRenderer)) := by
  decide

/-- C1 (amended): with a valid device and an empty opaque bucket, `Pass_GBuffer` changes
nothing but the trace, to which it appends exactly Begin, the four colour clears to
`Vector4::Zero`, the depth clear to the configured clear depth, End, Submit, Clear; so the
colour channels are cleared to zero, the depth channel to `clear_depth`, and no draw is
recorded. -/
theorem C1_GBuffer_empty_bucket (r : Renderer) (hdev : r.m_rhi_device = true)
    (hempty : r.m_entities_ObjectOpaque = []) :
    Pass_GBuffer r = r.emit
      [ .Begin "Pass_GBuffer",
        .ClearRenderTarget (r.m_g_buffer_albedo.GetRenderTargetView 0) Vector4.Zero,
        .ClearRenderTarget (r.m_g_buffer_normal.GetRenderTargetView 0) Vector4.Zero,
        .ClearRenderTarget (r.m_g_buffer_material.GetRenderTargetView 0) Vector4.Zero,
        .ClearRenderTarget (r.m_g_buffer_velocity.GetRenderTargetView 0) Vector4.Zero,
        .ClearDepthStencil r.m_g_buffer_depth.GetDepthStencilView .Clear_Depth r.clear_depth,
        .End, .Submit, .Clear ] ∧
    colourChannelsClearedToZero r (appended r (Pass_GBuffer r)) ∧
    depthChannelClearedTo r r.clear_depth (appended r (Pass_GBuffer r)) ∧
    ∀ e ∈ appended r (Pass_GBuffer r), e.isDraw = false := by
  have h := Pass_GBuffer_clear_only r hdev hempty
  refine ⟨h, ?_⟩
  rw [h]
  simp [appended, colourChannelsClearedToZero, depthChannelClearedTo, Ev.isDraw]

theorem C1_GBuffer_empty_bucket_witness :
    Pass_GBuffer exampleRenderer = exampleRenderer.emit
      [ .Begin "Pass_GBuffer",
        .ClearRenderTarget ⟨1, 0⟩ Vector4.Zero,
        .ClearRenderTarget ⟨2, 0⟩ Vector4.Zero,
        .ClearRenderTarget ⟨3, 0⟩ Vector4.Zero,
        .ClearRenderTarget ⟨4, 0⟩ Vector4.Zero,
        .ClearDepthStencil 5 .Clear_Depth 1,
        .End, .Submit, .Clear ] :=
  (C1_GBuffer_empty_bucket exampleRenderer rfl rfl).1

/-! ### The post-process chain -/

theorem chainOut_append (a : Nat) (l₁ l₂ : List EffectRun) :
    chainOut a (l₁ ++ l₂) = chainOut (chainOut a l₁) l₂ := by
  induction l₁ generalizing a with
  | nil => rfl
  | cons e rest ih =>
    cases h : e.target with
    | none => simp [chainOut, h, ih]
    | some rt => simp [chainOut, h, ih]

theorem chainFrom_append (a : Nat) (l₁ l₂ : List EffectRun) :
    chainFrom a (l₁ ++ l₂) = (chainFrom a l₁ && chainFrom (chainOut a l₁) l₂) := by
  induction l₁ generalizing a with
  | nil => simp [chainFrom, chainOut]
  | cons e rest ih =>
    cases h : e.target with
    | none => simp [chainFrom, chainOut, h]
    | some rt => simp [chainFrom, chainOut, h, ih, Bool.and_assoc]

theorem appended_emit (r : Renderer) (evs : List Ev) : appended r (r.emit evs) = evs := by
  simp [appended, Renderer.emit]

theorem seg_refl (s : PassState) : Seg s s [] := by
  refine ⟨rfl, rfl, ?_, ?_⟩ <;> simp [appended]

theorem seg_trans {s s' s'' : PassState} {r₁ r₂ : List EffectRun}
    (h₁ : Seg s s' r₁) (h₂ : Seg s' s'' r₂) : Seg s s'' (r₁ ++ r₂) := by
  obtain ⟨f₁, t₁, p₁, c₁⟩ := h₁
  obtain ⟨f₂, t₂, p₂, c₂⟩ := h₂
  have happ : appended s.r s''.r = appended s.r s'.r ++ appended s'.r s''.r := by
    have h : s''.r.trace = s.r.trace ++ (appended s.r s'.r ++ appended s'.r s''.r) := by
      rw [← List.append_assoc, ← p₁, ← p₂]
    conv_lhs => rw [appended, h]
    simp
  refine ⟨f₂.trans f₁, t₂.trans t₁, ?_, ?_⟩
  · rw [happ, ← List.append_assoc, ← p₁, ← p₂]
  · intro st
    rw [happ, List.foldl_append, c₂, c₁, List.append_assoc]

theorem link_refl (s : PassState) : Link s s s.tex_in.id [] :=
  ⟨[], seg_refl s, rfl, rfl, rfl⟩

theorem link_trans {s s' s'' : PassState} {out : Nat} {n₁ n₂ : List String}
    (h₁ : Link s s' s'.tex_in.id n₁) (h₂ : Link s' s'' out n₂) : Link s s'' out (n₁ ++ n₂) := by
  obtain ⟨r₁, g₁, m₁, c₁, o₁⟩ := h₁
  obtain ⟨r₂, g₂, m₂, c₂, o₂⟩ := h₂
  refine ⟨r₁ ++ r₂, seg_trans g₁ g₂, by simp [m₁, m₂], ?_, ?_⟩
  · rw [chainFrom_append, c₁, o₁, c₂]; rfl
  · rw [chainOut_append, o₁, o₂]

theorem link_ToneMapping (s : PassState) :
    Link s (swap_targets (PostEffect.ToneMapping.run s)) s.tex_out.id ["Pass_ToneMapping"] := by
  refine ⟨[⟨"Pass_ToneMapping", [s.tex_in.id], some ⟨s.tex_out.id, 0⟩, 1⟩], ⟨rfl, rfl, ?_, ?_⟩,
    rfl, ?_, ?_⟩
  · simp [appended, swap_targets, PostEffect.run, Pass_ToneMapping, Renderer.emit]
  · intro st
    simp [appended, swap_targets, PostEffect.run, Pass_ToneMapping, Renderer.emit, ChainScan.step,
      ChainScan.finish, EffectRun.draw, effectPassNames, RHI_RenderTexture.GetShaderResource,
      RHI_RenderTexture.GetRenderTargetView]
  · simp [chainFrom]
  · simp [chainOut]

theorem link_MotionBlur (s : PassState) :
    Link s (swap_targets (PostEffect.MotionBlur.run s)) s.tex_out.id ["Pass_MotionBlur"] := by
  refine ⟨[⟨"Pass_MotionBlur", [s.tex_in.id, s.r.m_g_buffer_velocity.id], some ⟨s.tex_out.id, 0⟩, 1⟩], ⟨rfl, rfl, ?_, ?_⟩,
    rfl, ?_, ?_⟩
  · simp [appended, swap_targets, PostEffect.run, Pass_MotionBlur, Renderer.emit]
  · intro st
    simp [appended, swap_targets, PostEffect.run, Pass_MotionBlur, Renderer.emit, ChainScan.step,
      ChainScan.finish, EffectRun.draw, effectPassNames, RHI_RenderTexture.GetShaderResource,
      RHI_RenderTexture.GetRenderTargetView]
  · simp [chainFrom]
  · simp [chainOut]

theorem link_Dithering (s : PassState) :
    Link s (swap_targets (PostEffect.Dithering.run s)) s.tex_out.id ["Pass_Dithering"] := by
  refine ⟨[⟨"Pass_Dithering", [s.tex_in.id], some ⟨s.tex_out.id, 0⟩, 1⟩], ⟨rfl, rfl, ?_, ?_⟩,
    rfl, ?_, ?_⟩
  · simp [appended, swap_targets, PostEffect.run, Pass_Dithering, Renderer.emit]
  · intro st
    simp [appended, swap_targets, PostEffect.run, Pass_Dithering, Renderer.emit, ChainScan.step,
      ChainScan.finish, EffectRun.draw, effectPassNames, RHI_RenderTexture.GetShaderResource,
      RHI_RenderTexture.GetRenderTargetView]
  · simp [chainFrom]
  · simp [chainOut]

theorem link_Sharpening (s : PassState) :
    Link s (swap_targets (PostEffect.Sharpening.run s)) s.tex_out.id ["Pass_Sharpening"] := by
  refine ⟨[⟨"Pass_Sharpening", [s.tex_in.id], some ⟨s.tex_out.id, 0⟩, 1⟩], ⟨rfl, rfl, ?_, ?_⟩,
    rfl, ?_, ?_⟩
  · simp [appended, swap_targets, PostEffect.run, Pass_Sharpening, Renderer.emit]
  · intro st
    simp [appended, swap_targets, PostEffect.run, Pass_Sharpening, Renderer.emit, ChainScan.step,
      ChainScan.finish, EffectRun.draw, effectPassNames, RHI_RenderTexture.GetShaderResource,
      RHI_RenderTexture.GetRenderTargetView]
  · simp [chainFrom]
  · simp [chainOut]

theorem link_ChromaticAberration (s : PassState) :
    Link s (swap_targets (PostEffect.ChromaticAberration.run s)) s.tex_out.id ["Pass_ChromaticAberration"] := by
  refine ⟨[⟨"Pass_ChromaticAberration", [s.tex_in.id], some ⟨s.tex_out.id, 0⟩, 1⟩], ⟨rfl, rfl, ?_, ?_⟩,
    rfl, ?_, ?_⟩
  · simp [appended, swap_targets, PostEffect.run, Pass_ChromaticAberration, Renderer.emit]
  · intro st
    simp [appended, swap_targets, PostEffect.run, Pass_ChromaticAberration, Renderer.emit, ChainScan.step,
      ChainScan.finish, EffectRun.draw, effectPassNames, RHI_RenderTexture.GetShaderResource,
      RHI_RenderTexture.GetRenderTargetView]
  · simp [chainFrom]
  · simp [chainOut]

theorem link_TAA (s : PassState) :
    Link s (swap_targets (PostEffect.TAA.run s)) s.tex_out.id ["Pass_TAA"] := by
  refine ⟨[⟨"Pass_TAA", [s.r.m_render_tex_full_taa_history.id, s.tex_in.id,
      s.r.m_g_buffer_velocity.id, s.r.m_g_buffer_depth.id], some ⟨s.tex_out.id, 0⟩, 2⟩],
    ⟨rfl, rfl, ?_, ?_⟩, rfl, ?_, ?_⟩
  · simp [appended, swap_targets, PostEffect.run, Pass_TAA, Renderer.emit]
  · intro st
    simp [appended, swap_targets, PostEffect.run, Pass_TAA, Renderer.emit, ChainScan.step,
      ChainScan.finish, EffectRun.draw, effectPassNames, RHI_RenderTexture.GetShaderResource,
      RHI_RenderTexture.GetRenderTargetView]
  · simp [chainFrom]
  · simp [chainOut]

theorem link_FXAA (s : PassState) :
    Link s (swap_targets (PostEffect.FXAA.run s)) s.tex_in.id ["Pass_FXAA"] := by
  refine ⟨[⟨"Pass_FXAA", [s.tex_in.id], some ⟨s.tex_in.id, 0⟩, 2⟩], ⟨rfl, rfl, ?_, ?_⟩,
    rfl, ?_, ?_⟩
  · simp [appended, swap_targets, PostEffect.run, Pass_FXAA, Renderer.emit]
  · intro st
    simp [appended, swap_targets, PostEffect.run, Pass_FXAA, Renderer.emit, ChainScan.step,
      ChainScan.finish, EffectRun.draw, effectPassNames, RHI_RenderTexture.GetShaderResource,
      RHI_RenderTexture.GetRenderTargetView]
  · simp [chainFrom]
  · simp [chainOut]

theorem link_Bloom (s : PassState) :
    Link s (swap_targets (PostEffect.Bloom.run s)) s.tex_out.id ["Pass_Bloom"] := by
  by_cases hm : s.r.m_render_tex_quarter_blur2.width ≠ s.r.m_render_tex_quarter_blur1.width ∨
      s.r.m_render_tex_quarter_blur2.height ≠ s.r.m_render_tex_quarter_blur1.height ∨
      s.r.m_render_tex_quarter_blur2.format ≠ s.r.m_render_tex_quarter_blur1.format
  · refine ⟨[⟨"Pass_Bloom", [s.tex_in.id], some ⟨s.tex_out.id, 0⟩, 3⟩], ⟨?_, ?_, ?_, ?_⟩,
      rfl, ?_, ?_⟩
    · simp [swap_targets, PostEffect.run, Pass_Bloom, Pass_BlurGaussian, Renderer.emit, hm]
    · simp [swap_targets, PostEffect.run, Pass_Bloom, Pass_BlurGaussian, Renderer.emit, hm]
    · simp [appended, swap_targets, PostEffect.run, Pass_Bloom, Pass_BlurGaussian, Renderer.emit, hm]
    · intro st
      simp [appended, swap_targets, PostEffect.run, Pass_Bloom, Pass_BlurGaussian, Renderer.emit,
        hm, ChainScan.step, ChainScan.finish, EffectRun.draw, effectPassNames,
        RHI_RenderTexture.GetShaderResource, RHI_RenderTexture.GetRenderTargetView]
    · simp [chainFrom]
    · simp [chainOut]
  · refine ⟨[⟨"Pass_Bloom", [s.tex_in.id], some ⟨s.tex_out.id, 0⟩, 5⟩], ⟨?_, ?_, ?_, ?_⟩,
      rfl, ?_, ?_⟩
    · simp [swap_targets, PostEffect.run, Pass_Bloom, Pass_BlurGaussian, Renderer.emit, hm]
    · simp [swap_targets, PostEffect.run, Pass_Bloom, Pass_BlurGaussian, Renderer.emit, hm]
    · simp [appended, swap_targets, PostEffect.run, Pass_Bloom, Pass_BlurGaussian, Renderer.emit, hm]
    · intro st
      simp [appended, swap_targets, PostEffect.run, Pass_Bloom, Pass_BlurGaussian, Renderer.emit,
        hm, ChainScan.step, ChainScan.finish, EffectRun.draw, effectPassNames,
        RHI_RenderTexture.GetShaderResource, RHI_RenderTexture.GetRenderTargetView]
    · simp [chainFrom]
    · simp [chainOut]

/-- Every enabled stage is a link of the chain whose output the next stage reads. -/
theorem link_run (e : PostEffect) (s : PassState) :
    Link s (swap_targets (e.run s)) (swap_targets (e.run s)).tex_in.id [e.passName] := by
  cases e
  · exact link_TAA s
  · exact link_Bloom s
  · exact link_MotionBlur s
  · exact link_Dithering s
  · exact link_ToneMapping s
  · exact link_FXAA s
  · exact link_Sharpening s
  · exact link_ChromaticAberration s

theorem link_stage (e : PostEffect) (s : PassState) :
    Link s (PostLight_stage e s) (PostLight_stage e s).tex_in.id
      (if s.r.effectEnabled e then [e.passName] else []) := by
  unfold PostLight_stage
  by_cases h : s.r.effectEnabled e = true
  · simp only [h, if_true]; exact link_run e s
  · simp only [h]; exact link_refl s

theorem link_begin (r : Renderer) (a b : RHI_RenderTexture) :
    Link ⟨r, a, b⟩ (PostLight_begin r a b) (PostLight_begin r a b).tex_in.id [] := by
  refine ⟨[], ⟨rfl, rfl, ?_, ?_⟩, rfl, rfl, rfl⟩
  · simp [appended, PostLight_begin, Renderer.emit]
  · intro st
    simp [appended, PostLight_begin, Renderer.emit, ChainScan.step, ChainScan.finish,
      effectPassNames]

theorem link_end (s : PassState) :
    Link s (PostLight_end s) s.tex_out.id ["Pass_GammaCorrection"] := by
  refine ⟨[⟨"Pass_GammaCorrection", [s.tex_in.id], some ⟨s.tex_out.id, 0⟩, 1⟩], ⟨rfl, rfl, ?_, ?_⟩,
    rfl, ?_, ?_⟩
  · simp [appended, PostLight_end, Pass_GammaCorrection, Renderer.emit]
  · intro st
    simp [appended, PostLight_end, Pass_GammaCorrection, Renderer.emit, ChainScan.step,
      ChainScan.finish, EffectRun.draw, effectPassNames, RHI_RenderTexture.GetShaderResource,
      RHI_RenderTexture.GetRenderTargetView]
  · simp [chainFrom]
  · simp [chainOut]

theorem Pass_PostLight_eq_stages (r : Renderer) (a b : RHI_RenderTexture) :
    Pass_PostLight r a b =
      PostLight_end (PostLight_stage .ChromaticAberration (PostLight_stage .Sharpening
        (PostLight_stage .FXAA (PostLight_stage .ToneMapping (PostLight_stage .Dithering
          (PostLight_stage .MotionBlur (PostLight_stage .Bloom (PostLight_stage .TAA
            (PostLight_begin r a b))))))))) := by
  simp only [Pass_PostLight, PostLight_end, PostLight_stage, PostLight_begin, PostEffect.run,
    Renderer.effectEnabled, decide_eq_true_eq]

theorem effectEnabled_congr {r r' : Renderer} (hf : r'.m_flags = r.m_flags)
    (ht : r'.m_tonemapping = r.m_tonemapping) (e : PostEffect) :
    r'.effectEnabled e = r.effectEnabled e := by
  cases e <;> simp [Renderer.effectEnabled, Renderer.Flags_IsSet, hf, ht]

theorem link_step {s₀ s : PassState} {names : List String} (h : Link s₀ s s.tex_in.id names)
    (e : PostEffect) :
    Link s₀ (PostLight_stage e s) (PostLight_stage e s).tex_in.id
      (names ++ if s₀.r.effectEnabled e then [e.passName] else []) := by
  have hs := link_stage e s
  have hk := h
  obtain ⟨_, ⟨hf, ht, _, _⟩, _, _, _⟩ := hk
  rw [effectEnabled_congr hf ht e] at hs
  exact link_trans h hs

theorem filter_map_cons {α β : Type} (p : α → Bool) (f : α → β) (a : α) (l : List α) :
    ((a :: l).filter p).map f = (if p a then [f a] else []) ++ (l.filter p).map f := by
  by_cases h : p a <;> simp [h]

/-- The whole of `Pass_PostLight` as one stretch of the chain. -/
theorem Pass_PostLight_link (r : Renderer) (a b : RHI_RenderTexture) :
    Link ⟨r, a, b⟩ (Pass_PostLight r a b) (Pass_PostLight r a b).tex_out.id (expectedEffects r) := by
  have h := link_step (link_step (link_step (link_step (link_step (link_step (link_step
    (link_step (link_begin r a b) .TAA) .Bloom) .MotionBlur) .Dithering) .ToneMapping) .FXAA)
    .Sharpening) .ChromaticAberration
  have h' := link_trans h (link_end _)
  rw [Pass_PostLight_eq_stages]
  convert h' using 1
  simp [expectedEffects, declaredOrder, filter_map_cons]

theorem effectRuns_of_link {r : Renderer} {a b : RHI_RenderTexture} {s' : PassState} {out : Nat}
    {names : List String} (h : Link ⟨r, a, b⟩ s' out names) :
    (effectRuns (appended r s'.r)).map (fun e => e.name) = names ∧
    chainFrom a.id (effectRuns (appended r s'.r)) = true ∧
    chainOut a.id (effectRuns (appended r s'.r)) = out := by
  obtain ⟨runs, ⟨_, _, _, hscan⟩, hn, hc, ho⟩ := h
  have : effectRuns (appended r s'.r) = runs := by
    have := hscan ChainScan.init
    simpa [effectRuns, ChainScan.finish, ChainScan.init] using this
  rw [this]
  exact ⟨hn, hc, ho⟩

theorem passName_ne_gamma (e : PostEffect) : e.passName ≠ "Pass_GammaCorrection" := by
  cases e <;> decide

theorem effectEnabled_emit (r : Renderer) (evs : List Ev) (e : PostEffect) :
    (r.emit evs).effectEnabled e = r.effectEnabled e := by
  cases e <;> rfl

/-- C2: for every configuration the effect passes run by `Pass_PostLight`, read off the
events it appends, are the declared list [TAA, Bloom, MotionBlur, Dithering, ToneMapping,
FXAA, Sharpening, ChromaticAberration] filtered to the enabled ones (tone mapping enabled
iff the operator is not `ToneMapping_Off`) followed by GammaCorrection, which occurs
exactly once and last; and when every optional effect is disabled the pass records a
single draw, in GammaCorrection, reading the original `tex_in`, and returns the references
unswapped. -/
theorem C2_PostLight_effect_order (r : Renderer) (tex_in tex_out : RHI_RenderTexture) :
    (effectRuns (appended r (Pass_PostLight r tex_in tex_out).r)).map (fun e => e.name) =
        (declaredOrder.filter r.effectEnabled).map PostEffect.passName ++ ["Pass_GammaCorrection"] ∧
    ((effectRuns (appended r (Pass_PostLight r tex_in tex_out).r)).map (fun e => e.name)).getLast? =
        some "Pass_GammaCorrection" ∧
    ((effectRuns (appended r (Pass_PostLight r tex_in tex_out).r)).map (fun e => e.name)).count
        "Pass_GammaCorrection" = 1 ∧
    ((∀ e, r.effectEnabled e = false) →
      effectRuns (appended r (Pass_PostLight r tex_in tex_out).r) =
          [⟨"Pass_GammaCorrection", [tex_in.id], some ⟨tex_out.id, 0⟩, 1⟩] ∧
      ((appended r (Pass_PostLight r tex_in tex_out).r).filter Ev.isDraw).length = 1 ∧
      (Pass_PostLight r tex_in tex_out).tex_in = tex_in ∧
      (Pass_PostLight r tex_in tex_out).tex_out = tex_out) := by
  have hn := (effectRuns_of_link (Pass_PostLight_link r tex_in tex_out)).1
  rw [expectedEffects] at hn
  refine ⟨hn, ?_, ?_, ?_⟩
  · rw [hn]; simp
  · rw [hn, List.count_append]
    have h0 : ((declaredOrder.filter r.effectEnabled).map PostEffect.passName).count
        "Pass_GammaCorrection" = 0 := by
      rw [List.count_eq_zero]
      intro hmem
      obtain ⟨e, _, he⟩ := List.mem_map.1 hmem
      exact passName_ne_gamma e he
    rw [h0]; rfl
  · intro hoff
    have hst : ∀ (e : PostEffect) (evs : List Ev),
        PostLight_stage e ⟨r.emit evs, tex_in, tex_out⟩ = ⟨r.emit evs, tex_in, tex_out⟩ := by
      intro e evs
      simp [PostLight_stage, effectEnabled_emit, hoff]
    have heq : Pass_PostLight r tex_in tex_out = PostLight_end (PostLight_begin r tex_in tex_out) := by
      rw [Pass_PostLight_eq_stages]
      simp only [PostLight_begin, hst]
    rw [heq]
    simp [effectRuns, appended, PostLight_end, PostLight_begin, Pass_GammaCorrection, Renderer.emit,
      ChainScan.step, ChainScan.finish, ChainScan.init, EffectRun.draw, effectPassNames,
      RHI_RenderTexture.GetShaderResource, RHI_RenderTexture.GetRenderTargetView, Ev.isDraw]

/-- The example renderer has every optional effect disabled. -/
theorem exampleRenderer_effects_off : ∀ e, exampleRenderer.effectEnabled e = false := by
  intro e; cases e <;> decide

theorem C2_PostLight_effect_order_witness :
    effectRuns (appended exampleRenderer
        (Pass_PostLight exampleRenderer (exampleTexture 20) (exampleTexture 6)).r) =
      [⟨"Pass_GammaCorrection", [20], some ⟨6, 0⟩, 1⟩] :=
  ((C2_PostLight_effect_order exampleRenderer (exampleTexture 20) (exampleTexture 6)).2.2.2
    exampleRenderer_effects_off).1

/-- C3: for every configuration and every pair of handles (A, B) given to
`Pass_PostLight`, the effect runs follow the ping-pong protocol from A: the first run
reads A, and each later run, the final GammaCorrection included, reads the handle that
was the render target of the previous run's last draw (for `Pass_FXAA` that is the
handle it was given as `tex_in`, its two swaps cancelling); the last run's target is the
handle the pass leaves in `tex_out`. -/
theorem C3_PostLight_ping_pong (r : Renderer) (A B : RHI_RenderTexture) :
    chainFrom A.id (effectRuns (appended r (Pass_PostLight r A B).r)) = true ∧
    chainOut A.id (effectRuns (appended r (Pass_PostLight r A B).r)) =
      (Pass_PostLight r A B).tex_out.id ∧
    effectRuns (appended r (Pass_PostLight r A B).r) ≠ [] := by
  have h := effectRuns_of_link (Pass_PostLight_link r A B)
  refine ⟨h.2.1, h.2.2, ?_⟩
  intro hnil
  have hn := h.1
  rw [hnil, expectedEffects] at hn
  simp at hn

/-- C4: `swap_targets` exchanges the two references and nothing else (the renderer only
gains the `Submit` call, so no texture of the pool changes), and applying it twice
restores the original pair. -/
theorem C4_swap_targets_involution (s : PassState) :
    (swap_targets s).tex_in = s.tex_out ∧ (swap_targets s).tex_out = s.tex_in ∧
    (swap_targets s).r = s.r.emit [.Submit] ∧
    (swap_targets (swap_targets s)).tex_in = s.tex_in ∧
    (swap_targets (swap_targets s)).tex_out = s.tex_out ∧
    (swap_targets (swap_targets s)).r = s.r.emit [.Submit, .Submit] := by
  refine ⟨rfl, rfl, rfl, rfl, rfl, ?_⟩
  simp [swap_targets, Renderer.emit]

/-! ### The G-buffer loop -/

/-- One iteration of the G-buffer loop: nothing for an entity that fails a test, the
events of `GBufferDraw.events` for one that passes. -/
theorem Pass_GBuffer_entity_eq (r : Renderer) (c : BindCache) (e : Entity) :
    Pass_GBuffer_entity (r, c) e =
      match e.gbufferDraw with
      | none => (r, c)
      | some d =>
        ({ r.emit (d.events c) with m_renderer_meshes_rendered := r.m_renderer_meshes_rendered + 1 },
          d.cache) := by
  unfold Pass_GBuffer_entity Entity.gbufferDraw
  cases hren : e.renderable with
  | none => rfl
  | some ren =>
    cases hmat : ren.material with
    | none => simp [hmat]
    | some mat =>
      cases hsh : mat.shader with
      | none => simp [hmat, hsh]
      | some sh =>
        cases hmod : ren.model with
        | none => by_cases hc : sh.GetCompilationState = Shader_Compiled <;> simp [hmat, hsh, hmod, hc]
        | some mod =>
          cases hvb : mod.vertex_buffer with
          | none =>
            by_cases hc : sh.GetCompilationState = Shader_Compiled <;>
              simp [hmat, hsh, hmod, hvb, hc]
          | some vb =>
            cases hib : mod.index_buffer with
            | none =>
              by_cases hc : sh.GetCompilationState = Shader_Compiled <;>
                simp [hmat, hsh, hmod, hvb, hib, hc]
            | some ib =>
              by_cases hc : sh.GetCompilationState = Shader_Compiled
              · by_cases hf : ren.in_view_frustum = true
                · by_cases hg : c.currently_bound_geometry = mod.GetResourceId <;>
                  by_cases hs : c.currently_bound_shader = sh.RHI_GetID <;>
                  by_cases hm : c.currently_bound_material = mat.GetResourceId <;>
                  simp [hmat, hsh, hmod, hvb, hib, hc, hf, hg, hs, hm, GBufferDraw.events,
                    GBufferDraw.cache, Renderer.emit, Material.textures] <;>
                  first
                    | (simp_all [Model.GetResourceId, RHI_Shader.RHI_GetID, Material.GetResourceId]; done)
                    | (simp_all [Model.GetResourceId, RHI_Shader.RHI_GetID, Material.GetResourceId]
                       cases c; simp_all)
                · simp [hmat, hsh, hmod, hvb, hib, hc, hf]
              · simp [hmat, hsh, hmod, hvb, hib, hc]

/-- The whole entity loop of `Pass_GBuffer`: it records the loop events of the drawn
entities and counts them; nothing else changes. -/
theorem Pass_GBuffer_loop_eq (es : List Entity) (r : Renderer) (c : BindCache) :
    (es.foldl Pass_GBuffer_entity (r, c)).1 =
      { r.emit (gbufferLoop c (es.filterMap Entity.gbufferDraw)) with
        m_renderer_meshes_rendered :=
          r.m_renderer_meshes_rendered + (es.filterMap Entity.gbufferDraw).length } := by
  induction es generalizing r c with
  | nil => simp [gbufferLoop, Renderer.emit]
  | cons e es ih =>
    rw [List.foldl_cons, Pass_GBuffer_entity_eq]
    cases hd : e.gbufferDraw with
    | none => simp [ih, hd]
    | some d =>
      simp only [ih, hd, List.filterMap_cons, gbufferLoop, List.length_cons]
      simp only [Renderer.emit, List.append_assoc, Renderer.mk.injEq, true_and, and_true]
      omega

/-- The pass `Pass_GBuffer` on a non-empty bucket: header, loop, End, Submit, Clear. -/
theorem Pass_GBuffer_nonempty (r : Renderer) (hdev : r.m_rhi_device = true)
    (hne : r.m_entities_ObjectOpaque ≠ []) :
    Pass_GBuffer r =
      { r.emit (Pass_GBuffer_header r ++ (gbufferLoop ⟨0, 0, 0⟩ r.gbufferDrawn ++ [.End, .Submit, .Clear])) with
        m_renderer_meshes_rendered := r.m_renderer_meshes_rendered + r.gbufferDrawn.length } := by
  have hemp : r.m_entities_ObjectOpaque.isEmpty = false := by
    cases h : r.m_entities_ObjectOpaque with
    | nil => exact absurd h hne
    | cons _ _ => rfl
  unfold Pass_GBuffer
  simp only [hdev, Bool.not_true, Bool.false_eq_true, if_false, hemp, Renderer.emit]
  rw [Pass_GBuffer_loop_eq]
  simp [Renderer.emit, Pass_GBuffer_header, Renderer.gbufferDrawn, Renderer.clear_depth,
    List.append_assoc]

theorem appended_Pass_GBuffer (r : Renderer) (hdev : r.m_rhi_device = true)
    (hne : r.m_entities_ObjectOpaque ≠ []) :
    appended r (Pass_GBuffer r) =
      Pass_GBuffer_header r ++ (gbufferLoop ⟨0, 0, 0⟩ r.gbufferDrawn ++ [.End, .Submit, .Clear]) := by
  rw [Pass_GBuffer_nonempty r hdev hne]
  simp [appended, Renderer.emit]

theorem drawSegments_go_nodraw (pre : List Ev) (h : ∀ e ∈ pre, e.isDraw = false)
    (cur rest : List Ev) :
    drawSegments.go cur (pre ++ rest) = drawSegments.go (cur ++ pre) rest := by
  induction pre generalizing cur with
  | nil => simp
  | cons e pre ih =>
    have he : e.isDraw = false := h e (List.mem_cons_self _ _)
    have hp : ∀ x ∈ pre, x.isDraw = false := fun x hx => h x (List.mem_cons_of_mem _ hx)
    simp [drawSegments.go, he, ih hp, List.append_assoc]

theorem drawSegments_go_events (d : GBufferDraw) (c : BindCache) (cur rest : List Ev) :
    drawSegments.go cur (d.events c ++ rest) = (cur ++ d.events c) :: drawSegments.go [] rest := by
  by_cases hg : c.currently_bound_geometry = d.model.resource_id <;>
  by_cases hs : c.currently_bound_shader = d.shader.id <;>
  by_cases hm : c.currently_bound_material = d.material.resource_id <;>
  simp [GBufferDraw.events, hg, hs, hm, drawSegments.go, Ev.isDraw]

theorem segment_flags (d : GBufferDraw) (c : BindCache) (cur : List Ev)
    (hcur : ∀ e ∈ cur, e.isSetBufferIndex = false ∧ e.isSetBufferVertex = false ∧
      e.isSetShaderPixel = false ∧ e.isSetTextures = false ∧ e.isMaterialBuffer = false) :
    bindsGeometry (cur ++ d.events c) = decide (d.model.resource_id ≠ c.currently_bound_geometry) ∧
    bindsShader (cur ++ d.events c) = decide (d.shader.id ≠ c.currently_bound_shader) ∧
    bindsMaterial (cur ++ d.events c) = decide (d.material.resource_id ≠ c.currently_bound_material) := by
  have h1 : cur.any Ev.isSetBufferIndex = false := by
    rw [List.any_eq_false]; intro e he; simp [(hcur e he).1]
  have h2 : cur.any Ev.isSetBufferVertex = false := by
    rw [List.any_eq_false]; intro e he; simp [(hcur e he).2.1]
  have h3 : cur.any Ev.isSetShaderPixel = false := by
    rw [List.any_eq_false]; intro e he; simp [(hcur e he).2.2.1]
  have h4 : cur.any Ev.isSetTextures = false := by
    rw [List.any_eq_false]; intro e he; simp [(hcur e he).2.2.2.1]
  have h5 : cur.any Ev.isMaterialBuffer = false := by
    rw [List.any_eq_false]; intro e he; simp [(hcur e he).2.2.2.2]
  have eg : (d.model.resource_id = c.currently_bound_geometry) =
      (c.currently_bound_geometry = d.model.resource_id) := propext eq_comm
  have es : (d.shader.id = c.currently_bound_shader) =
      (c.currently_bound_shader = d.shader.id) := propext eq_comm
  have em : (d.material.resource_id = c.currently_bound_material) =
      (c.currently_bound_material = d.material.resource_id) := propext eq_comm
  by_cases hg : c.currently_bound_geometry = d.model.resource_id <;>
  by_cases hs : c.currently_bound_shader = d.shader.id <;>
  by_cases hm : c.currently_bound_material = d.material.resource_id <;>
  simp [bindsGeometry, bindsShader, bindsMaterial, GBufferDraw.events, eg, es, em, hg, hs, hm,
    h1, h2, h3, h4, h5, Ev.isSetBufferIndex, Ev.isSetBufferVertex, Ev.isSetShaderPixel,
    Ev.isSetTextures, Ev.isMaterialBuffer]

theorem header_clean (r : Renderer) : ∀ e ∈ Pass_GBuffer_header r,
    e.isSetBufferIndex = false ∧ e.isSetBufferVertex = false ∧ e.isSetShaderPixel = false ∧
      e.isSetTextures = false ∧ e.isMaterialBuffer = false := by
  intro e he
  simp only [Pass_GBuffer_header, List.mem_cons, List.mem_singleton, List.not_mem_nil, or_false] at he
  rcases he with h | h | h | h | h | h | h | h | h | h | h | h | h | h | h | h | h <;>
    subst h <;> exact ⟨rfl, rfl, rfl, rfl, rfl⟩

theorem header_nodraw (r : Renderer) : ∀ e ∈ Pass_GBuffer_header r, e.isDraw = false := by
  intro e he
  simp only [Pass_GBuffer_header, List.mem_cons, List.mem_singleton, List.not_mem_nil, or_false] at he
  rcases he with h | h | h | h | h | h | h | h | h | h | h | h | h | h | h | h | h <;>
    subst h <;> rfl

/-- Bind flags of the loop, draw by draw: a bind is recorded exactly when the id differs
from the cached one. -/
theorem loop_flags (ds : List GBufferDraw) (c : BindCache) (cur : List Ev)
    (hcur : ∀ e ∈ cur, e.isSetBufferIndex = false ∧ e.isSetBufferVertex = false ∧
      e.isSetShaderPixel = false ∧ e.isSetTextures = false ∧ e.isMaterialBuffer = false) :
    (drawSegments.go cur (gbufferLoop c ds ++ [.End, .Submit, .Clear])).length = ds.length ∧
    (drawSegments.go cur (gbufferLoop c ds ++ [.End, .Submit, .Clear])).map bindsGeometry =
      idChanges c.currently_bound_geometry (ds.map GBufferDraw.geometryId) ∧
    (drawSegments.go cur (gbufferLoop c ds ++ [.End, .Submit, .Clear])).map bindsShader =
      idChanges c.currently_bound_shader (ds.map GBufferDraw.shaderId) ∧
    (drawSegments.go cur (gbufferLoop c ds ++ [.End, .Submit, .Clear])).map bindsMaterial =
      idChanges c.currently_bound_material (ds.map GBufferDraw.materialId) := by
  induction ds generalizing c cur with
  | nil => simp [gbufferLoop, drawSegments.go, Ev.isDraw, idChanges]
  | cons d ds ih =>
    have hnil : ∀ e ∈ ([] : List Ev), e.isSetBufferIndex = false ∧ e.isSetBufferVertex = false ∧
        e.isSetShaderPixel = false ∧ e.isSetTextures = false ∧ e.isMaterialBuffer = false := by
      intro e he; cases he
    obtain ⟨i0, i1, i2, i3⟩ := ih d.cache [] hnil
    obtain ⟨f1, f2, f3⟩ := segment_flags d c cur hcur
    simp only [gbufferLoop, List.append_assoc, drawSegments_go_events, List.map_cons,
      List.length_cons, idChanges, i0, i1, i2, i3, f1, f2, f3]
    simp [GBufferDraw.cache, GBufferDraw.geometryId, GBufferDraw.shaderId,
      GBufferDraw.materialId, Model.GetResourceId, RHI_Shader.RHI_GetID, Material.GetResourceId]

theorem count_idChanges (prev : Nat) (ids : List Nat) :
    (idChanges prev ids).count true + 1 = countRuns (prev :: ids) := by
  induction ids generalizing prev with
  | nil => simp [idChanges, countRuns]
  | cons g rest ih =>
    have := ih g
    by_cases h : prev = g
    · subst h; simp [idChanges, countRuns] at this ⊢; omega
    · have h' : ¬ g = prev := fun e => h e.symm
      simp [idChanges, countRuns, h, h', List.count_cons] at this ⊢; omega

theorem count_idChanges_nonzero (ids : List Nat) (hnz : ∀ g ∈ ids, g ≠ 0) :
    (idChanges 0 ids).count true = countRuns ids := by
  cases ids with
  | nil => rfl
  | cons g rest =>
    have h := count_idChanges 0 (g :: rest)
    have hg : ¬ 0 = g := fun e => hnz g (List.mem_cons_self _ _) e.symm
    simp only [countRuns, hg, if_false] at h
    omega

/-- The bind flags of `Pass_GBuffer`, draw by draw. -/
theorem gbufferSegments_flags (r : Renderer) (hdev : r.m_rhi_device = true)
    (hne : r.m_entities_ObjectOpaque ≠ []) :
    (gbufferSegments r).length = r.gbufferDrawn.length ∧
    (gbufferSegments r).map bindsGeometry = idChanges 0 (r.gbufferDrawn.map GBufferDraw.geometryId) ∧
    (gbufferSegments r).map bindsShader = idChanges 0 (r.gbufferDrawn.map GBufferDraw.shaderId) ∧
    (gbufferSegments r).map bindsMaterial = idChanges 0 (r.gbufferDrawn.map GBufferDraw.materialId) := by
  unfold gbufferSegments drawSegments
  rw [appended_Pass_GBuffer r hdev hne, drawSegments_go_nodraw _ (header_nodraw r)]
  exact loop_flags r.gbufferDrawn ⟨0, 0, 0⟩ _ (by simpa using header_clean r)

/-- C5: in `Pass_GBuffer` (valid device, non-empty bucket) there is one stretch of trace
per drawn entity, and the stretch of entity i records a geometry bind (`SetBufferIndex`
and `SetBufferVertex`) exactly when its geometry id differs from that of the previously
drawn entity (from 0 for the first); when the geometry ids are non-zero the number of
geometry binds is the number of runs of equal consecutive ids.  The same holds, each on
its own ids, for the pixel-shader bind and the material bind. -/
theorem C5_bind_caches (r : Renderer) (hdev : r.m_rhi_device = true)
    (hne : r.m_entities_ObjectOpaque ≠ []) :
    (gbufferSegments r).length = r.gbufferDrawn.length ∧
    ((gbufferSegments r).map bindsGeometry = idChanges 0 (r.gbufferDrawn.map GBufferDraw.geometryId) ∧
      ((∀ d ∈ r.gbufferDrawn, d.geometryId ≠ 0) →
        ((gbufferSegments r).map bindsGeometry).count true =
          countRuns (r.gbufferDrawn.map GBufferDraw.geometryId))) ∧
    ((gbufferSegments r).map bindsShader = idChanges 0 (r.gbufferDrawn.map GBufferDraw.shaderId) ∧
      ((∀ d ∈ r.gbufferDrawn, d.shaderId ≠ 0) →
        ((gbufferSegments r).map bindsShader).count true =
          countRuns (r.gbufferDrawn.map GBufferDraw.shaderId))) ∧
    ((gbufferSegments r).map bindsMaterial = idChanges 0 (r.gbufferDrawn.map GBufferDraw.materialId) ∧
      ((∀ d ∈ r.gbufferDrawn, d.materialId ≠ 0) →
        ((gbufferSegments r).map bindsMaterial).count true =
          countRuns (r.gbufferDrawn.map GBufferDraw.materialId))) := by
  obtain ⟨h0, h1, h2, h3⟩ := gbufferSegments_flags r hdev hne
  refine ⟨h0, ⟨h1, fun hz => ?_⟩, ⟨h2, fun hz => ?_⟩, ⟨h3, fun hz => ?_⟩⟩
  · rw [h1]; apply count_idChanges_nonzero
    intro g hg; obtain ⟨d, hd, rfl⟩ := List.mem_map.1 hg; exact hz d hd
  · rw [h2]; apply count_idChanges_nonzero
    intro g hg; obtain ⟨d, hd, rfl⟩ := List.mem_map.1 hg; exact hz d hd
  · rw [h3]; apply count_idChanges_nonzero
    intro g hg; obtain ⟨d, hd, rfl⟩ := List.mem_map.1 hg; exact hz d hd

/-- The example scene: geometry ids 1,1,2,2,1 give exactly 3 geometry binds, at positions
1, 3 and 5. -/
theorem C5_bind_caches_witness :
    exampleScene.gbufferDrawn.map GBufferDraw.geometryId = [1, 1, 2, 2, 1] ∧
    (gbufferSegments exampleScene).map bindsGeometry = [true, false, true, false, true] ∧
    positions ((gbufferSegments exampleScene).map bindsGeometry) = [1, 3, 5] ∧
    ((gbufferSegments exampleScene).map bindsGeometry).count true = 3 := by
  have h := C5_bind_caches exampleScene rfl (by decide)
  have hflags : (gbufferSegments exampleScene).map bindsGeometry = [true, false, true, false, true] :=
    h.2.1.1.trans (by decide)
  refine ⟨by decide, hflags, ?_, ?_⟩
  · rw [hflags]; decide
  · rw [hflags]; decide

/-! ### Soundness of the bind caches -/

theorem bound_go_header (r : Renderer) (b : BoundState) (rest : List Ev) :
    boundAtDraws.go b (Pass_GBuffer_header r ++ rest) = boundAtDraws.go b rest := by
  simp [Pass_GBuffer_header, boundAtDraws.go, Ev.isDraw, BoundState.step]

theorem bound_go_naive (d : GBufferDraw) (b : BoundState) (rest : List Ev) :
    boundAtDraws.go b (d.eventsNaive ++ rest) = d.bound :: boundAtDraws.go d.bound rest := by
  simp [GBufferDraw.eventsNaive, boundAtDraws.go, Ev.isDraw, BoundState.step, GBufferDraw.bound]

theorem bound_naive_loop (ds : List GBufferDraw) (b : BoundState) :
    boundAtDraws.go b (ds.flatMap GBufferDraw.eventsNaive ++ [.End, .Submit, .Clear]) =
      ds.map GBufferDraw.bound := by
  induction ds generalizing b with
  | nil => simp [boundAtDraws.go, Ev.isDraw, BoundState.step]
  | cons d ds ih => simp [List.flatMap_cons, List.append_assoc, bound_go_naive, ih]

/-- One cached iteration leaves the drawn entity's own resources bound, provided each
cache entry that equals the entity's id stands for a binding of that entity's resource. -/
theorem bound_go_events (d : GBufferDraw) (c : BindCache) (b : BoundState) (rest : List Ev)
    (hg : c.currently_bound_geometry = d.model.resource_id →
      b.index_buffer = some d.index_buffer ∧ b.vertex_buffer = some d.vertex_buffer)
    (hs : c.currently_bound_shader = d.shader.id → b.shader_pixel = some d.shader)
    (hm : c.currently_bound_material = d.material.resource_id →
      b.textures = some d.material.textures ∧
        b.material_buffer = some (.material d.material.resource_id)) :
    boundAtDraws.go b (d.events c ++ rest) = d.bound :: boundAtDraws.go d.bound rest := by
  have key : List.foldl BoundState.step b ((d.events c).dropLast) = d.bound := by
    cases b
    by_cases h1 : c.currently_bound_geometry = d.model.resource_id <;>
    by_cases h2 : c.currently_bound_shader = d.shader.id <;>
    by_cases h3 : c.currently_bound_material = d.material.resource_id <;>
    simp_all [GBufferDraw.events, BoundState.step, GBufferDraw.bound]
  by_cases h1 : c.currently_bound_geometry = d.model.resource_id <;>
  by_cases h2 : c.currently_bound_shader = d.shader.id <;>
  by_cases h3 : c.currently_bound_material = d.material.resource_id <;>
  simp [GBufferDraw.events, h1, h2, h3, boundAtDraws.go, Ev.isDraw] <;>
  simp [GBufferDraw.events, h1, h2, h3] at key <;>
  simp [key]

theorem gbufferDraw_compiled {e : Entity} {d : GBufferDraw} (h : e.gbufferDraw = some d) :
    d.shader.state = Shader_Compiled := by
  unfold Entity.gbufferDraw at h
  split at h
  · cases h
  · split at h
    · cases h
    · split at h
      · cases h
      · split at h
        · cases h
        · split at h
          · split at h
            · rename_i hc
              cases h
              exact hc.1
            · cases h
          · cases h

theorem gbufferDrawn_compiled (r : Renderer) : ∀ d ∈ r.gbufferDrawn, d.shader.state = Shader_Compiled := by
  intro d hd
  obtain ⟨e, _, he⟩ := List.mem_filterMap.1 hd
  exact gbufferDraw_compiled he

theorem bound_loop (all : List GBufferDraw) (hid : ResourceIdsIdentify all)
    (hsh : ∀ d ∈ all, d.shader.state = Shader_Compiled)
    (ds : List GBufferDraw) (hsub : ∀ d ∈ ds, d ∈ all) (c : BindCache) (b : BoundState)
    (hg : ∀ d ∈ all, c.currently_bound_geometry = d.model.resource_id →
      b.index_buffer = some d.index_buffer ∧ b.vertex_buffer = some d.vertex_buffer)
    (hs : ∀ d ∈ all, c.currently_bound_shader = d.shader.id → b.shader_pixel = some d.shader)
    (hm : ∀ d ∈ all, c.currently_bound_material = d.material.resource_id →
      b.textures = some d.material.textures ∧
        b.material_buffer = some (.material d.material.resource_id)) :
    boundAtDraws.go b (gbufferLoop c ds ++ [.End, .Submit, .Clear]) = ds.map GBufferDraw.bound := by
  induction ds generalizing c b with
  | nil => simp [gbufferLoop, boundAtDraws.go, Ev.isDraw, BoundState.step]
  | cons d ds ih =>
    have hd : d ∈ all := hsub d (List.mem_cons_self _ _)
    rw [gbufferLoop, List.append_assoc,
      bound_go_events d c b _ (hg d hd) (hs d hd) (hm d hd), List.map_cons]
    congr 1
    apply ih (fun x hx => hsub x (List.mem_cons_of_mem _ hx))
    · intro d' hd' heq
      have := (hid d hd d' hd').1 heq
      simp [GBufferDraw.bound, this.1, this.2]
    · intro d' hd' heq
      have h1 := hsh d hd
      have h2 := hsh d' hd'
      have : d.shader = d'.shader := by
        cases hx : d.shader; cases hy : d'.shader
        simp_all [GBufferDraw.cache]
      simp [GBufferDraw.bound, this]
    · intro d' hd' heq
      have h1 := (hid d hd d' hd').2 heq
      have h2 : d.material.resource_id = d'.material.resource_id := heq
      simp [GBufferDraw.bound, h1, h2]

/-- One iteration of the shadow depth entity loop. -/
theorem Pass_DepthDirectionalLight_entity_eq (ci : Nat) (r : Renderer) (c : Nat) (e : Entity) :
    Pass_DepthDirectionalLight_entity ci (r, c) e =
      match e.depthDraw with
      | none => (r, c)
      | some d => (r.emit (d.events ci c), d.model.resource_id) := by
  unfold Pass_DepthDirectionalLight_entity Entity.depthDraw
  cases hren : e.renderable with
  | none => rfl
  | some ren =>
    cases hmat : ren.material with
    | none => simp [hmat]
    | some mat =>
      cases hmod : ren.model with
      | none => simp [hmat, hmod]
      | some mod =>
        cases hvb : mod.vertex_buffer with
        | none => simp [hmat, hmod, hvb]
        | some vb =>
          cases hib : mod.index_buffer with
          | none => simp [hmat, hmod, hvb, hib]
          | some ib =>
            by_cases hcs : ren.cast_shadows = true
            · by_cases ha : mat.color_albedo.w < 1
              · simp [hmat, hmod, hvb, hib, hcs, ha]
              · by_cases hg : c = mod.GetResourceId
                · simp [hmat, hmod, hvb, hib, hcs, ha, hg, DepthDraw.events, Renderer.emit,
                    Model.GetResourceId]
                · have hg' : ¬ c = mod.resource_id := hg
                  simp [hmat, hmod, hvb, hib, hcs, ha, hg, hg', DepthDraw.events, Renderer.emit,
                    Model.GetResourceId]
            · simp [hmat, hmod, hvb, hib, hcs]

theorem Pass_DepthDirectionalLight_loop_eq (ci : Nat) (es : List Entity) (r : Renderer) (c : Nat) :
    es.foldl (Pass_DepthDirectionalLight_entity ci) (r, c) =
      (r.emit (depthLoop ci c (es.filterMap Entity.depthDraw)),
        depthLoopCache c (es.filterMap Entity.depthDraw)) := by
  induction es generalizing r c with
  | nil => simp [depthLoop, depthLoopCache, Renderer.emit]
  | cons e es ih =>
    rw [List.foldl_cons, Pass_DepthDirectionalLight_entity_eq]
    cases hd : e.depthDraw with
    | none => simp [ih, hd]
    | some d => simp [ih, hd, depthLoop, depthLoopCache, Renderer.emit, List.append_assoc]

theorem Pass_DepthDirectionalLight_cascade_eq (sm : RHI_RenderTexture) (es : List Entity)
    (depth : Rat) (r : Renderer) (c i : Nat) :
    Pass_DepthDirectionalLight_cascade sm es depth (r, c) i =
      (r.emit (cascadeBlock sm depth i (depthLoop i c (es.filterMap Entity.depthDraw))),
        depthLoopCache c (es.filterMap Entity.depthDraw)) := by
  simp [Pass_DepthDirectionalLight_cascade, Pass_DepthDirectionalLight_loop_eq, cascadeBlock,
    Renderer.emit, List.append_assoc]

theorem Pass_DepthDirectionalLight_cascades_eq (sm : RHI_RenderTexture) (es : List Entity)
    (depth : Rat) (n : Nat) (i : Nat) (r : Renderer) (c : Nat) :
    ((List.range' i n).foldl (Pass_DepthDirectionalLight_cascade sm es depth) (r, c)).1 =
      r.emit (cascades sm depth (es.filterMap Entity.depthDraw) i n c) := by
  induction n generalizing i r c with
  | zero => simp [cascades, Renderer.emit]
  | succ n ih =>
    rw [List.range'_succ, List.foldl_cons, Pass_DepthDirectionalLight_cascade_eq, ih, cascades]
    simp [Renderer.emit, List.append_assoc]

/-- The pass `Pass_DepthDirectionalLight` when it runs: header, the cascades, End, Submit, Clear. -/
theorem Pass_DepthDirectionalLight_runs (r : Renderer) (light : Light) (sm : RHI_RenderTexture)
    (hcast : light.cast_shadows = true) (hmap : light.shadow_map = some sm)
    (hne : r.m_entities_ObjectOpaque ≠ []) :
    Pass_DepthDirectionalLight r (some light) =
      r.emit (Pass_DepthDirectionalLight_header r sm ++
        (cascades sm r.clear_depth r.depthDrawn 0 sm.array_size 0 ++ [.End, .Submit, .Clear])) := by
  have hemp : r.m_entities_ObjectOpaque.isEmpty = false := by
    cases h : r.m_entities_ObjectOpaque with
    | nil => exact absurd h hne
    | cons _ _ => rfl
  unfold Pass_DepthDirectionalLight
  simp only [Light.GetCastShadows, Light.GetShadowMap, hcast, hmap, hemp, Bool.not_true,
    Bool.false_eq_true, if_false, List.range_eq_range']
  rw [Pass_DepthDirectionalLight_cascades_eq]
  simp [Renderer.emit, Renderer.depthDrawn, Renderer.clear_depth, List.append_assoc,
    Pass_DepthDirectionalLight_header]

theorem inCascadeBody_not_scope {i : Nat} {e : Ev} (h : e.inCascadeBody i = true) :
    e.isScope = false := by
  cases e <;> first | rfl | (simp [Ev.inCascadeBody] at h)

theorem subScopes_go_body (body : List Ev) (h : ∀ e ∈ body, e.isScope = false)
    (cur rest : List Ev) :
    subScopes.go 2 cur (body ++ rest) = subScopes.go 2 (cur ++ body) rest := by
  induction body generalizing cur with
  | nil => simp
  | cons e body ih =>
    have he : e.isScope = false := h e (List.mem_cons_self _ _)
    have hb : ∀ x ∈ body, x.isScope = false := fun x hx => h x (List.mem_cons_of_mem _ hx)
    have := ih hb (cur ++ [e])
    cases e <;> first
      | (simp [Ev.isScope] at he; done)
      | (simpa [subScopes.go, List.append_assoc] using this)

theorem depthEvents_inCascadeBody (d : DepthDraw) (i c : Nat) :
    ∀ e ∈ d.events i c, e.inCascadeBody i = true := by
  intro e he
  by_cases hg : c = d.model.resource_id
  · simp [DepthDraw.events, hg] at he
    rcases he with h | h | h <;> subst h <;> simp [Ev.inCascadeBody]
  · simp [DepthDraw.events, hg] at he
    rcases he with h | h | h | h | h <;> subst h <;> simp [Ev.inCascadeBody]

theorem depthLoop_inCascadeBody (ds : List DepthDraw) (i c : Nat) :
    ∀ e ∈ depthLoop i c ds, e.inCascadeBody i = true := by
  induction ds generalizing c with
  | nil => intro e he; simp [depthLoop] at he
  | cons d ds ih =>
    intro e he
    rw [depthLoop, List.mem_append] at he
    rcases he with h | h
    · exact depthEvents_inCascadeBody d i c e h
    · exact ih _ e h

theorem subScopes_go_cascadeBlock (sm : RHI_RenderTexture) (depth : Rat) (i : Nat)
    (body : List Ev) (h : ∀ e ∈ body, e.inCascadeBody i = true) (rest : List Ev) :
    subScopes.go 1 [] (cascadeBlock sm depth i body ++ rest) =
      cascadeBlock sm depth i body :: subScopes.go 1 [] rest := by
  have hb : ∀ e ∈ body, e.isScope = false := fun e he => inCascadeBody_not_scope (h e he)
  simp only [cascadeBlock, List.append_assoc, List.cons_append, List.nil_append, subScopes.go]
  simp [subScopes_go_body body hb, subScopes.go]

/-- The sub-scopes of a run of cascades. -/
theorem subScopes_go_cascades (sm : RHI_RenderTexture) (depth : Rat) (ds : List DepthDraw)
    (n i c : Nat) :
    (subScopes.go 1 [] (cascades sm depth ds i n c ++ [.End, .Submit, .Clear])).length = n ∧
    ∀ k, k < n → ∃ body,
      (subScopes.go 1 [] (cascades sm depth ds i n c ++ [.End, .Submit, .Clear]))[k]? =
        some (cascadeBlock sm depth (i + k) body) ∧
      ∀ e ∈ body, e.inCascadeBody (i + k) = true := by
  induction n generalizing i c with
  | zero => simp [cascades, subScopes.go]
  | succ n ih =>
    obtain ⟨hl, hk⟩ := ih (i + 1) (depthLoopCache c ds)
    rw [cascades, List.append_assoc,
      subScopes_go_cascadeBlock sm depth i _ (depthLoop_inCascadeBody ds i c)]
    refine ⟨by simp [hl], ?_⟩
    intro k hkn
    cases k with
    | zero => exact ⟨depthLoop i c ds, by simp, depthLoop_inCascadeBody ds i c⟩
    | succ k =>
      obtain ⟨body, hb, he⟩ := hk k (by omega)
      refine ⟨body, ?_, ?_⟩
      · simpa [Nat.add_assoc, Nat.add_comm 1 k] using hb
      · simpa [Nat.add_assoc, Nat.add_comm 1 k] using he

/-! ### Early returns -/

/-- C8: `Pass_DepthDirectionalLight` returns the renderer unchanged, so with no command
recorded at all, when the directional light is absent, does not cast shadows, has no
shadow map, or the opaque bucket is empty. -/
theorem C8_depth_pass_returns_immediately (r : Renderer) (light_directional : Option Light)
    (h : light_directional = none ∨
      (∃ l, light_directional = some l ∧ l.cast_shadows = false) ∨
      (∃ l, light_directional = some l ∧ l.shadow_map = none) ∨
      r.m_entities_ObjectOpaque = []) :
    Pass_DepthDirectionalLight r light_directional = r ∧
    appended r (Pass_DepthDirectionalLight r light_directional) = [] := by
  have key : Pass_DepthDirectionalLight r light_directional = r := by
    rcases h with h | ⟨l, h, hc⟩ | ⟨l, h, hm⟩ | h
    · subst h; rfl
    · subst h; simp [Pass_DepthDirectionalLight, Light.GetCastShadows, hc]
    · subst h
      cases hcs : l.cast_shadows <;>
        simp [Pass_DepthDirectionalLight, Light.GetCastShadows, Light.GetShadowMap, hcs, hm]
    · cases light_directional with
      | none => rfl
      | some l =>
        cases hcs : l.cast_shadows <;> cases hm : l.shadow_map <;>
          simp [Pass_DepthDirectionalLight, Light.GetCastShadows, Light.GetShadowMap, hcs, hm, h]
  rw [key]
  exact ⟨rfl, by simp [appended]⟩

theorem C8_depth_pass_returns_immediately_witness :
    Pass_DepthDirectionalLight exampleScene (some { exampleLight 3 with cast_shadows := false }) =
      exampleScene :=
  (C8_depth_pass_returns_immediately exampleScene (some { exampleLight 3 with cast_shadows := false })
    (Or.inr (Or.inl ⟨_, rfl, rfl⟩))).1

/-- C9: when `tex_in` and `tex_out` differ in width, height or format, both Gaussian blur
passes only log the error: no command is recorded, the default buffer is not updated,
nothing else of the renderer changes, and the two references come back unswapped. -/
theorem C9_blur_mismatch_aborts (r : Renderer) (tex_in tex_out : RHI_RenderTexture)
    (sigma pixel_stride : Rat)
    (h : tex_in.width ≠ tex_out.width ∨ tex_in.height ≠ tex_out.height ∨
      tex_in.format ≠ tex_out.format) :
    Pass_BlurBilateralGaussian r tex_in tex_out sigma pixel_stride =
      ⟨r.emit [.LOG_ERROR "Invalid parameters, textures must match because they will get swapped."],
        tex_in, tex_out⟩ ∧
    Pass_BlurGaussian r tex_in tex_out sigma pixel_stride =
      ⟨r.emit [.LOG_ERROR "Invalid parameters, textures must match because they will get swapped"],
        tex_in, tex_out⟩ := by
  constructor
  · unfold Pass_BlurBilateralGaussian; rw [if_pos h]
  · unfold Pass_BlurGaussian; rw [if_pos h]

/-- A 512x512 input against a 256x256 output of the same format. -/
theorem C9_blur_mismatch_aborts_witness :
    Pass_BlurBilateralGaussian exampleRenderer
        { id := 30, width := 512, height := 512, format := 10, array_size := 1 }
        { id := 31, width := 256, height := 256, format := 10, array_size := 1 } 1 1 =
      ⟨exampleRenderer.emit
          [.LOG_ERROR "Invalid parameters, textures must match because they will get swapped."],
        { id := 30, width := 512, height := 512, format := 10, array_size := 1 },
        { id := 31, width := 256, height := 256, format := 10, array_size := 1 }⟩ :=
  (C9_blur_mismatch_aborts exampleRenderer _ _ 1 1 (Or.inl (by decide))).1

/-! ### Shader state -/

theorem filter_isDraw_events (d : GBufferDraw) (c : BindCache) :
    (d.events c).filter Ev.isDraw = [d.drawCall] := by
  by_cases hg : c.currently_bound_geometry = d.model.resource_id <;>
  by_cases hs : c.currently_bound_shader = d.shader.id <;>
  by_cases hm : c.currently_bound_material = d.material.resource_id <;>
  simp [GBufferDraw.events, hg, hs, hm, Ev.isDraw, GBufferDraw.drawCall]

theorem filter_isDraw_loop (ds : List GBufferDraw) (c : BindCache) :
    (gbufferLoop c ds).filter Ev.isDraw = ds.map GBufferDraw.drawCall := by
  induction ds generalizing c with
  | nil => rfl
  | cons d ds ih => simp [gbufferLoop, List.filter_append, filter_isDraw_events, ih]

/-- The draws of `Pass_GBuffer` are those of the drawn entities, in bucket order. -/
theorem Pass_GBuffer_draws (r : Renderer) (hdev : r.m_rhi_device = true)
    (hne : r.m_entities_ObjectOpaque ≠ []) :
    (appended r (Pass_GBuffer r)).filter Ev.isDraw = r.gbufferDrawn.map GBufferDraw.drawCall := by
  rw [appended_Pass_GBuffer r hdev hne]
  simp [List.filter_append, filter_isDraw_loop, Pass_GBuffer_header, Ev.isDraw]

theorem guarded_entity_skips (r : Renderer) (c : BindCache) (e : Entity) (ren : Renderable)
    (mat : Material) (hren : e.renderable = some ren) (hmat : ren.material = some mat)
    (hsh : mat.shader = none ∨
      ∃ sh, mat.shader = some sh ∧ sh.GetCompilationState ≠ Shader_Compiled) :
    Pass_GBuffer_entity (r, c) e = (r, c) := by
  rw [Pass_GBuffer_entity_eq]
  have : e.gbufferDraw = none := by
    unfold Entity.gbufferDraw
    rcases hsh with h | ⟨sh, h, hs⟩
    · simp [hren, hmat, h]
    · simp only [hren, hmat, h]
      split
      · rfl
      · split
        · simp [hs]
        · rfl
  rw [this]

/-- C10 (the code at the failing input): with `m_vps_depth` in state Failed the shadow
depth pass still records draws with it bound, with `m_vps_transparent` in state Compiling
the transparent pass does, with the vertex shader `m_vs_gbuffer` in state Failed
`Pass_GBuffer` does, and with `m_ps_gamma_correction` in state Compiling `Pass_PostLight`
does.  The state is tested in two places only: `Pass_Light` with `m_vps_light` not compiled
returns the renderer unchanged, and in `Pass_GBuffer` an entity whose material has no
shader or a shader that is not compiled records nothing, so every entity it draws has a
compiled material shader. -/
theorem C10_draws_with_uncompiled_shader :
    exampleSceneUncompiled.m_vps_depth.state = .Shader_Failed ∧
    drawsWithUncompiledShader (appended exampleSceneUncompiled
      (Pass_DepthDirectionalLight exampleSceneUncompiled exampleSceneUncompiled.GetLightDirectional))
      = true ∧
    exampleSceneUncompiled.m_vps_transparent.state = .Shader_Compiling ∧
    drawsWithUncompiledShader (appended exampleSceneUncompiled
      (Pass_Transparent exampleSceneUncompiled (exampleTexture 20))) = true ∧
    exampleSceneUncompiled.m_vs_gbuffer.state = .Shader_Failed ∧
    drawsWithUncompiledShader (appended exampleSceneUncompiled
      (Pass_GBuffer exampleSceneUncompiled)) = true ∧
    exampleSceneUncompiled.m_ps_gamma_correction.state = .Shader_Compiling ∧
    drawsWithUncompiledShader (appended exampleSceneUncompiled
      (Pass_PostLight exampleSceneUncompiled (exampleTexture 20) (exampleTexture 21)).r) = true ∧
    (∀ (r : Renderer) (tex_shadows tex_ssao tex_out : RHI_RenderTexture),
      r.m_vps_light.GetCompilationState ≠ Shader_Compiled →
      Pass_Light r tex_shadows tex_ssao tex_out = r) ∧
    (∀ (r : Renderer) (c : BindCache) (e : Entity) (ren : Renderable) (mat : Material),
      e.renderable = some ren → ren.material = some mat →
      (mat.shader = none ∨ ∃ sh, mat.shader = some sh ∧ sh.GetCompilationState ≠ Shader_Compiled) →
      Pass_GBuffer_entity (r, c) e = (r, c)) ∧
    (∀ (r : Renderer), ∀ d ∈ r.gbufferDrawn, d.shader.GetCompilationState = Shader_Compiled) := by
  refine ⟨by decide, by decide, by decide, by decide, by decide, by decide, by decide, by decide,
    ?_, guarded_entity_skips, gbufferDrawn_compiled⟩
  intro r a b c h
  unfold Pass_Light
  rw [if_pos h]

/-! ### Pass_Light -/

/-- C11: with the lighting shader not compiled `Pass_Light` returns the renderer unchanged
(no command, no constant-buffer update, `tex_out` not written).  With the shader compiled
it only extends the trace, records exactly one draw, the full-screen quad, with `tex_out`
as render target, and the texture array bound for that draw has in its SSAO slot (slot 5)
`tex_ssao` when the SSAO flag is set and the white texture otherwise. -/
theorem C11_Pass_Light (r : Renderer) (tex_shadows tex_ssao tex_out : RHI_RenderTexture) :
    (r.m_vps_light.GetCompilationState ≠ Shader_Compiled →
      Pass_Light r tex_shadows tex_ssao tex_out = r) ∧
    (r.m_vps_light.GetCompilationState = Shader_Compiled →
      Pass_Light r tex_shadows tex_ssao tex_out =
        r.emit (appended r (Pass_Light r tex_shadows tex_ssao tex_out)) ∧
      (appended r (Pass_Light r tex_shadows tex_ssao tex_out)).filter Ev.isDraw =
        [.DrawIndexed r.m_quad.index_count 0 0] ∧
      targetsAtDraws (appended r (Pass_Light r tex_shadows tex_ssao tex_out)) =
        [some (tex_out.GetRenderTargetView 0)] ∧
      ∃ textures, texturesAtDraws (appended r (Pass_Light r tex_shadows tex_ssao tex_out)) =
          [some textures] ∧
        textures[5]? = some (if r.Flags_IsSet .Render_PostProcess_SSAO
          then tex_ssao.GetShaderResource else some r.m_tex_white)) := by
  constructor
  · intro h
    unfold Pass_Light
    rw [if_pos h]
  · intro h
    have hn : ¬ r.m_vps_light.GetCompilationState ≠ Shader_Compiled := fun hc => hc h
    refine ⟨?_, ?_, ?_, ?_⟩
    · simp [Pass_Light, hn, appended, Renderer.emit]
    · simp [Pass_Light, hn, appended, Renderer.emit, Ev.isDraw]
    · simp [Pass_Light, hn, appended, Renderer.emit, targetsAtDraws, targetsAtDraws.go]
    · refine ⟨[ r.m_g_buffer_albedo.GetShaderResource, r.m_g_buffer_normal.GetShaderResource,
          r.m_g_buffer_depth.GetShaderResource, r.m_g_buffer_material.GetShaderResource,
          tex_shadows.GetShaderResource,
          if r.Flags_IsSet .Render_PostProcess_SSAO then tex_ssao.GetShaderResource
            else some r.m_tex_white,
          r.m_render_tex_full_hdr_light2.GetShaderResource,
          match r.m_skybox with
          | some t => some t
          | none => some r.m_tex_white,
          some r.m_tex_lut_ibl ], ?_, ?_⟩
      · simp [Pass_Light, hn, appended, Renderer.emit, texturesAtDraws, boundAtDraws,
          boundAtDraws.go, Ev.isDraw, BoundState.step, BoundState.unbound, Renderer.Flags_IsSet]
      · simp

/-- The example renderer with the SSAO flag set: slot 5 holds `tex_ssao` (texture 13). -/
theorem C11_Pass_Light_witness :
    ∃ textures, texturesAtDraws (appended { exampleRenderer with m_flags := [.Render_PostProcess_SSAO] }
        (Pass_Light { exampleRenderer with m_flags := [.Render_PostProcess_SSAO] }
          (exampleTexture 12) (exampleTexture 13) (exampleTexture 14))) = [some textures] ∧
      textures[5]? = some (some 13) :=
  ((C11_Pass_Light { exampleRenderer with m_flags := [.Render_PostProcess_SSAO] }
    (exampleTexture 12) (exampleTexture 13) (exampleTexture 14)).2 rfl).2.2.2

/-! ### Which entities are drawn -/

/-- The tests of the G-buffer loop are the claim's tests, and the draw recorded for an
entity that passes is that of its renderable. -/
theorem gbufferDraw_spec (e : Entity) :
    match e.gbufferDraw with
    | none => e.passesGBufferTests = false
    | some d => e.passesGBufferTests = true ∧ e.drawCall = some d.drawCall := by
  unfold Entity.gbufferDraw Entity.passesGBufferTests Entity.drawCall
  cases hren : e.renderable with
  | none => simp
  | some ren =>
    cases hmat : ren.material with
    | none => simp [hmat]
    | some mat =>
      cases hsh : mat.shader with
      | none => simp [hmat, hsh]
      | some sh =>
        cases hmod : ren.model with
        | none => simp [hmat, hsh, hmod]
        | some mod =>
          cases hvb : mod.vertex_buffer with
          | none => simp [hmat, hsh, hmod, hvb]
          | some vb =>
            cases hib : mod.index_buffer with
            | none => simp [hmat, hsh, hmod, hvb, hib]
            | some ib =>
              by_cases hc : sh.GetCompilationState = Shader_Compiled <;>
              by_cases hf : ren.in_view_frustum = true <;>
              simp [hmat, hsh, hmod, hvb, hib, hc, hf, GBufferDraw.drawCall]

theorem gbufferDrawn_drawCalls (es : List Entity) :
    (es.filterMap Entity.gbufferDraw).map GBufferDraw.drawCall =
      (es.filter Entity.passesGBufferTests).filterMap Entity.drawCall := by
  induction es with
  | nil => rfl
  | cons e es ih =>
    have h := gbufferDraw_spec e
    cases hd : e.gbufferDraw with
    | none =>
      rw [hd] at h
      simp [List.filterMap_cons, hd, List.filter_cons, h, ih]
    | some d =>
      rw [hd] at h
      simp [List.filterMap_cons, hd, List.filter_cons, h.1, h.2, ih]

theorem gbufferDrawn_length (es : List Entity) :
    (es.filterMap Entity.gbufferDraw).length = (es.filter Entity.passesGBufferTests).length := by
  induction es with
  | nil => rfl
  | cons e es ih =>
    have h := gbufferDraw_spec e
    cases hd : e.gbufferDraw with
    | none =>
      rw [hd] at h
      simp [List.filterMap_cons, hd, List.filter_cons, h, ih]
    | some d =>
      rw [hd] at h
      simp [List.filterMap_cons, hd, List.filter_cons, h.1, ih]

/-- C20 (amended): with a valid device and a non-empty opaque bucket the draws
`Pass_GBuffer` records are,
in bucket order, the draw calls of exactly the entities that have a renderable, a
material, a compiled shader, complete geometry and are inside the frustum, so their count
is the count of these entities; an entity failing a test leaves the renderer and the
caches as they were, recording no command; an entity passing them records events ending
in its draw call, the only draw among them. -/
theorem C20_GBuffer_draws (r : Renderer) (hdev : r.m_rhi_device = true)
    (hne : r.m_entities_ObjectOpaque ≠ []) :
    (appended r (Pass_GBuffer r)).filter Ev.isDraw =
      (r.m_entities_ObjectOpaque.filter Entity.passesGBufferTests).filterMap Entity.drawCall ∧
    ((appended r (Pass_GBuffer r)).filter Ev.isDraw).length =
      (r.m_entities_ObjectOpaque.filter Entity.passesGBufferTests).length ∧
    (∀ (e : Entity) (r' : Renderer) (c : BindCache), e.passesGBufferTests = false →
      Pass_GBuffer_entity (r', c) e = (r', c)) ∧
    (∀ (e : Entity) (r' : Renderer) (c : BindCache), e.passesGBufferTests = true →
      ∃ call, e.drawCall = some call ∧
        (appended r' (Pass_GBuffer_entity (r', c) e).1).filter Ev.isDraw = [call] ∧
        (appended r' (Pass_GBuffer_entity (r', c) e).1).getLast? = some call) := by
  have hdraws := Pass_GBuffer_draws r hdev hne
  refine ⟨?_, ?_, ?_, ?_⟩
  · rw [hdraws, Renderer.gbufferDrawn, gbufferDrawn_drawCalls]
  · rw [hdraws, Renderer.gbufferDrawn, List.length_map, gbufferDrawn_length]
  · intro e r' c he
    have h := gbufferDraw_spec e
    rw [Pass_GBuffer_entity_eq]
    cases hd : e.gbufferDraw with
    | none => rfl
    | some d => rw [hd] at h; simp [he] at h
  · intro e r' c he
    have h := gbufferDraw_spec e
    rw [Pass_GBuffer_entity_eq]
    cases hd : e.gbufferDraw with
    | none => rw [hd] at h; simp [he] at h
    | some d =>
      rw [hd] at h
      refine ⟨d.drawCall, h.2, ?_, ?_⟩
      · simp [appended, Renderer.emit, filter_isDraw_events]
      · have hl : (d.events c).getLast? = some d.drawCall := by
          by_cases hg : c.currently_bound_geometry = d.model.resource_id <;>
          by_cases hs : c.currently_bound_shader = d.shader.id <;>
          by_cases hm : c.currently_bound_material = d.material.resource_id <;>
          simp [GBufferDraw.events, GBufferDraw.drawCall, hg, hs, hm]
        simpa [appended, Renderer.emit] using hl

/-- The example scene: five entities pass the tests and five draws are recorded. -/
theorem C20_GBuffer_draws_witness :
    ((appended exampleScene (Pass_GBuffer exampleScene)).filter Ev.isDraw).length = 5 :=
  (C20_GBuffer_draws exampleScene rfl (by decide)).2.1.trans (by decide)

/-- C20 (counterexample): without a device `Pass_GBuffer` returns at its first test; on the
example scene, whose bucket holds five entities that pass every test, it records no draw
and nothing else. -/
theorem C20_no_device_no_draws :
    exampleSceneNoDevice.m_entities_ObjectOpaque ≠ [] ∧
    (exampleSceneNoDevice.m_entities_ObjectOpaque.filter Entity.passesGBufferTests).length = 5 ∧
    Pass_GBuffer exampleSceneNoDevice = exampleSceneNoDevice ∧
    (appended exampleSceneNoDevice (Pass_GBuffer exampleSceneNoDevice)).filter Ev.isDraw = [] ∧
    ((appended exampleSceneNoDevice (Pass_GBuffer exampleSceneNoDevice)).filter Ev.isDraw).length ≠
      (exampleSceneNoDevice.m_entities_ObjectOpaque.filter Entity.passesGBufferTests).length := by
  refine ⟨by decide, by decide, rfl, by decide, by decide⟩

/-! ### Pass_Transparent -/

/-- One iteration of the transparent loop. -/
theorem Pass_Transparent_entity_eq (r : Renderer) (e : Entity) :
    Pass_Transparent_entity r e =
      match e.transparentDraw with
      | none => r
      | some d =>
        { r.emit (d.events r.m_vps_transparent.id) with
          m_renderer_meshes_rendered := r.m_renderer_meshes_rendered + 1 } := by
  unfold Pass_Transparent_entity Entity.transparentDraw
  cases hren : e.renderable with
  | none => rfl
  | some ren =>
    cases hmat : ren.material with
    | none => simp [hmat]
    | some mat =>
      cases hmod : ren.model with
      | none => simp [hmat, hmod]
      | some mod =>
        cases hvb : mod.vertex_buffer with
        | none => simp [hmat, hmod, hvb]
        | some vb =>
          cases hib : mod.index_buffer with
          | none => simp [hmat, hmod, hvb, hib]
          | some ib =>
            by_cases hf : ren.in_view_frustum = true <;>
              simp [hmat, hmod, hvb, hib, hf, TransparentDraw.events, Renderer.emit]

theorem Pass_Transparent_loop_eq (es : List Entity) (r : Renderer) :
    es.foldl Pass_Transparent_entity r =
      { r.emit ((es.filterMap Entity.transparentDraw).flatMap
          (fun d => d.events r.m_vps_transparent.id)) with
        m_renderer_meshes_rendered :=
          r.m_renderer_meshes_rendered + (es.filterMap Entity.transparentDraw).length } := by
  induction es generalizing r with
  | nil => simp [Renderer.emit]
  | cons e es ih =>
    rw [List.foldl_cons, Pass_Transparent_entity_eq]
    cases hd : e.transparentDraw with
    | none => simp [ih, hd]
    | some d =>
      simp only [ih, hd, List.filterMap_cons, List.flatMap_cons, List.length_cons]
      simp only [Renderer.emit, List.append_assoc, Renderer.mk.injEq, true_and, and_true]
      omega

/-- The pass `Pass_Transparent` when it runs: header, loop, End, Submit, Clear. -/
theorem Pass_Transparent_runs (r : Renderer) (tex_out : RHI_RenderTexture) (light : Light)
    (hl : r.GetLightDirectional = some light) (hne : r.m_entities_ObjectTransparent ≠ []) :
    Pass_Transparent r tex_out =
      { r.emit (Pass_Transparent_header r tex_out ++
          (r.transparentDrawn.flatMap (fun d => d.events r.m_vps_transparent.id) ++
            [.End, .Submit, .Clear])) with
        m_renderer_meshes_rendered := r.m_renderer_meshes_rendered + r.transparentDrawn.length } := by
  have hemp : r.m_entities_ObjectTransparent.isEmpty = false := by
    cases h : r.m_entities_ObjectTransparent with
    | nil => exact absurd h hne
    | cons _ _ => rfl
  unfold Pass_Transparent
  simp only [hl, hemp, Bool.false_eq_true, if_false]
  rw [Pass_Transparent_loop_eq]
  simp [Renderer.emit, Pass_Transparent_header, Renderer.transparentDrawn, List.append_assoc]

theorem transparentDraw_spec (e : Entity) :
    match e.transparentDraw with
    | none => e.passesTransparentTests = false
    | some d => e.passesTransparentTests = true ∧ e.drawCall = some d.drawCall ∧ d.entity = e.id ∧
        (∃ ren mod, e.renderable = some ren ∧ ren.model = some mod ∧
          mod.index_buffer = some d.index_buffer ∧ mod.vertex_buffer = some d.vertex_buffer) := by
  unfold Entity.transparentDraw Entity.passesTransparentTests Entity.drawCall
  cases hren : e.renderable with
  | none => simp
  | some ren =>
    cases hmat : ren.material with
    | none => simp [hmat]
    | some mat =>
      cases hmod : ren.model with
      | none => simp [hmat, hmod]
      | some mod =>
        cases hvb : mod.vertex_buffer with
        | none => simp [hmat, hmod, hvb]
        | some vb =>
          cases hib : mod.index_buffer with
          | none => simp [hmat, hmod, hvb, hib]
          | some ib =>
            by_cases hf : ren.in_view_frustum = true <;>
              simp [hmat, hmod, hvb, hib, hf, TransparentDraw.drawCall]

theorem transparentDrawn_drawCalls (es : List Entity) :
    (es.filterMap Entity.transparentDraw).map TransparentDraw.drawCall =
      (es.filter Entity.passesTransparentTests).filterMap Entity.drawCall := by
  induction es with
  | nil => rfl
  | cons e es ih =>
    have h := transparentDraw_spec e
    cases hd : e.transparentDraw with
    | none =>
      rw [hd] at h
      simp [List.filterMap_cons, hd, List.filter_cons, h, ih]
    | some d =>
      rw [hd] at h
      simp [List.filterMap_cons, hd, List.filter_cons, h.1, h.2.1, ih]

theorem drawSegments_go_transparent_events (d : TransparentDraw) (sh : Nat) (cur rest : List Ev) :
    drawSegments.go cur (d.events sh ++ rest) = (cur ++ d.events sh) :: drawSegments.go [] rest := by
  simp [TransparentDraw.events, drawSegments.go, Ev.isDraw]

theorem drawSegments_go_transparent (ds : List TransparentDraw) (sh : Nat) (cur : List Ev) :
    drawSegments.go cur (ds.flatMap (fun d => d.events sh) ++ [.End, .Submit, .Clear]) =
      match ds with
      | [] => []
      | d :: rest => (cur ++ d.events sh) :: rest.map (fun d => d.events sh) := by
  induction ds generalizing cur with
  | nil => simp [drawSegments.go, Ev.isDraw]
  | cons d ds ih =>
    rw [List.flatMap_cons, List.append_assoc, drawSegments_go_transparent_events, ih []]
    cases ds with
    | nil => rfl
    | cons d' ds' => simp

theorem filter_isDraw_transparent (ds : List TransparentDraw) (sh : Nat) :
    (ds.flatMap (fun d => d.events sh)).filter Ev.isDraw = ds.map TransparentDraw.drawCall := by
  induction ds with
  | nil => rfl
  | cons d ds ih =>
    rw [List.flatMap_cons, List.filter_append, ih, List.map_cons]
    simp [TransparentDraw.events, TransparentDraw.drawCall, Ev.isDraw]

theorem filter_isSetBlendState_transparent (ds : List TransparentDraw) (sh : Nat) :
    (ds.flatMap (fun d => d.events sh)).filter Ev.isSetBlendState = [] := by
  induction ds with
  | nil => rfl
  | cons d ds ih =>
    rw [List.flatMap_cons, List.filter_append, ih]
    simp [TransparentDraw.events, Ev.isSetBlendState]

/-- C19: `Pass_Transparent` returns the renderer unchanged when there is no directional
light or the transparent bucket is empty.  Otherwise its draws are, in bucket order, the
draw calls of exactly the transparent entities that have a renderable, a material,
complete geometry and lie inside the frustum; the stretch of trace that ends with the
draw of such an entity holds that entity's own `SetBufferIndex`, `SetBufferVertex`,
buffer update and constant-buffer bind, whatever was drawn before (the first stretch also
holds the pass header); and the only blend state set in the pass is the enabled one, in
the header before every draw. -/
theorem C19_Pass_Transparent (r : Renderer) (tex_out : RHI_RenderTexture) :
    ((r.GetLightDirectional = none ∨ r.m_entities_ObjectTransparent = []) →
      Pass_Transparent r tex_out = r) ∧
    ((∃ light, r.GetLightDirectional = some light) → r.m_entities_ObjectTransparent ≠ [] →
      (appended r (Pass_Transparent r tex_out)).filter Ev.isDraw =
        (r.m_entities_ObjectTransparent.filter Entity.passesTransparentTests).filterMap
          Entity.drawCall ∧
      drawSegments (appended r (Pass_Transparent r tex_out)) =
        (match r.transparentDrawn with
          | [] => []
          | d :: rest =>
            (Pass_Transparent_header r tex_out ++ d.events r.m_vps_transparent.id) ::
              rest.map (fun d => d.events r.m_vps_transparent.id)) ∧
      (appended r (Pass_Transparent r tex_out)).filter Ev.isSetBlendState =
        [.SetBlendState .m_blend_enabled] ∧
      (appended r (Pass_Transparent r tex_out)).take 3 =
        [.Begin "Pass_Transparent", .SetPrimitiveTopology .PrimitiveTopology_TriangleList,
          .SetBlendState .m_blend_enabled]) := by
  constructor
  · rintro (h | h)
    · simp [Pass_Transparent, h]
    · cases hl : r.GetLightDirectional <;> simp [Pass_Transparent, hl, h]
  · rintro ⟨light, hl⟩ hne
    have happ : appended r (Pass_Transparent r tex_out) =
        Pass_Transparent_header r tex_out ++
          (r.transparentDrawn.flatMap (fun d => d.events r.m_vps_transparent.id) ++
            [.End, .Submit, .Clear]) := by
      rw [Pass_Transparent_runs r tex_out light hl hne]
      simp [appended, Renderer.emit]
    refine ⟨?_, ?_, ?_, ?_⟩
    · rw [happ, List.filter_append, List.filter_append, filter_isDraw_transparent,
        ← transparentDrawn_drawCalls]
      simp [Pass_Transparent_header, Ev.isDraw, Renderer.transparentDrawn]
    · rw [happ, drawSegments,
        drawSegments_go_nodraw _ (by simp [Pass_Transparent_header, Ev.isDraw]),
        drawSegments_go_transparent]
      simp
    · rw [happ, List.filter_append, List.filter_append, filter_isSetBlendState_transparent]
      simp [Pass_Transparent_header, Ev.isSetBlendState]
    · rw [happ]
      simp [Pass_Transparent_header]

/-- The example scene with three transparent entities, the second culled: two draws, the
second stretch binding the third entity's own buffers. -/
theorem C19_Pass_Transparent_witness :
    (appended exampleTransparentScene
        (Pass_Transparent exampleTransparentScene (exampleTexture 14))).filter Ev.isDraw =
      [.DrawIndexed 36 0 0, .DrawIndexed 36 0 0] ∧
    (drawSegments (appended exampleTransparentScene
        (Pass_Transparent exampleTransparentScene (exampleTexture 14))))[1]? =
      some [ .SetRasterizerState (.GetRasterizerState .Cull_Back .Fill_Solid),
             .SetBufferIndex 4005, .SetBufferVertex 3005,
             .UpdateBuffer 5 0 (.Struct_Transparency 13),
             .SetConstantBuffer 1 .Buffer_Global (.shader 5 0),
             .DrawIndexed 36 0 0 ] := by
  have h := (C19_Pass_Transparent exampleTransparentScene (exampleTexture 14)).2
    ⟨_, rfl⟩ (by decide)
  refine ⟨h.1.trans (by decide), ?_⟩
  rw [h.2.1]
  decide

/-! ### RHI_Command -/

/-- C13 (the code at the failing input): `RHI_Command::Clear` resets every listed slot to
its default except `depth_stencil_state`, which keeps the value the command held; on the
example command, whose depth-stencil state is set, the slots are therefore not all at
their defaults after `Clear`. -/
theorem C13_Clear_keeps_depth_stencil_state :
    (∀ c : RHI_Command, (c.Clear).depth_stencil_state = c.depth_stencil_state ∧
      ({ c.Clear with depth_stencil_state := none }).slotsDefault) ∧
    exampleCommand.Clear.depth_stencil_state = some 77 ∧
    ¬ exampleCommand.Clear.slotsDefault := by
  refine ⟨fun c => ⟨rfl, ?_⟩, rfl, by decide⟩
  simp [RHI_Command.slotsDefault, RHI_Command.Clear]

/-- C14 (as stated, refuted): directly after construction the four slot arrays hold no
element, not 10, and the same after `Clear` on the example command. -/
theorem C14_arrays_not_sized_10 :
    ¬ (RHI_Command.new exampleCommand).arraysSized10 ∧
    (RHI_Command.new exampleCommand).render_targets.size = 0 ∧
    ¬ exampleCommand.Clear.arraysSized10 := by
  decide

/-- C14 (amended): directly after construction each of the four slot arrays is empty with
a capacity of at least 10, and `Clear` empties the four arrays without changing their
capacity, so a command that had room for 10 elements in each keeps it. -/
theorem C14_arrays_reserved (indeterminate c : RHI_Command) :
    (RHI_Command.new indeterminate).arraysReserved10 ∧
    (c.Clear.render_targets.size = 0 ∧ c.Clear.textures.size = 0 ∧
      c.Clear.samplers.size = 0 ∧ c.Clear.constant_buffers.size = 0) ∧
    (c.Clear.render_targets.capacity = c.render_targets.capacity ∧
      c.Clear.textures.capacity = c.textures.capacity ∧
      c.Clear.samplers.capacity = c.samplers.capacity ∧
      c.Clear.constant_buffers.capacity = c.constant_buffers.capacity) := by
  refine ⟨?_, ⟨rfl, rfl, rfl, rfl⟩, ⟨rfl, rfl, rfl, rfl⟩⟩
  simp [RHI_Command.arraysReserved10, RHI_Command.new, RHI_Command.Clear, SlotVector.clear,
    SlotVector.resize, SlotVector.reserve, SlotVector.empty, SlotVector.size]

/-! ### Shader compilation -/

/-- C15: a shader starts in `Shader_Uninitialized`; after `CompileVertex`, `CompilePixel`
or `CompileVertexPixel`, whatever the state before (a failed shader included), the state is
`Shader_Built` when the API compile returned true and `Shader_Failed` otherwise, hence
never `Shader_Uninitialized` or `Shader_Compiling`; for `CompileVertexPixel` it is built
iff both compiles returned true, and both API calls are made whatever the first returns. -/
theorem C15_shader_state (api : Engine.ShaderApi) (s : Engine.RHI_Shader) (shader : String)
    (input_layout : Nat) :
    Engine.RHI_Shader.new.GetState = .Shader_Uninitialized ∧
    ((Engine.RHI_Shader.CompileVertex api s shader input_layout).1.GetState =
      if Engine.vertexResult api s shader input_layout then .Shader_Built else .Shader_Failed) ∧
    ((Engine.RHI_Shader.CompilePixel api s shader).1.GetState =
      if Engine.pixelResult api s shader then .Shader_Built else .Shader_Failed) ∧
    ((Engine.RHI_Shader.CompileVertexPixel api s shader input_layout).1.GetState =
      if Engine.vertexResult api s shader input_layout
          && Engine.pixelResultAfterVertex api s shader input_layout
        then .Shader_Built else .Shader_Failed) ∧
    ((Engine.RHI_Shader.CompileVertexPixel api s shader input_layout).2.filter
        Engine.ShaderEv.isApiCall =
      [.API_CompileVertex shader input_layout, .API_CompilePixel shader]) ∧
    (∀ t ∈ [(Engine.RHI_Shader.CompileVertex api s shader input_layout).1,
        (Engine.RHI_Shader.CompilePixel api s shader).1,
        (Engine.RHI_Shader.CompileVertexPixel api s shader input_layout).1],
      t.GetState ≠ .Shader_Uninitialized ∧ t.GetState ≠ .Shader_Compiling) ∧
    ((Engine.RHI_Shader.CompileVertex api { s with m_shaderState := .Shader_Failed } shader
        input_layout).1.GetState = .Shader_Built ↔
      Engine.vertexResult api { s with m_shaderState := .Shader_Failed } shader input_layout
        = true) ∧
    ((Engine.RHI_Shader.CompilePixel api { s with m_shaderState := .Shader_Failed }
        shader).1.GetState = .Shader_Built ↔
      Engine.pixelResult api { s with m_shaderState := .Shader_Failed } shader = true) ∧
    ((Engine.RHI_Shader.CompileVertexPixel api { s with m_shaderState := .Shader_Failed } shader
        input_layout).1.GetState = .Shader_Built ↔
      (Engine.vertexResult api { s with m_shaderState := .Shader_Failed } shader input_layout
          = true ∧
        Engine.pixelResultAfterVertex api { s with m_shaderState := .Shader_Failed } shader
          input_layout = true)) := by
  have hlog : ∀ (st : Shader_State) (f : String) (e : Engine.ShaderEv),
      e ∈ Engine.LOG_STATE st f → e.isApiCall = false := by
    intro st f e he
    unfold Engine.LOG_STATE at he
    split_ifs at he <;> simp at he <;> subst he <;> rfl
  have hfl : ∀ (st : Shader_State) (f : String),
      (Engine.LOG_STATE st f).filter Engine.ShaderEv.isApiCall = [] := by
    intro st f
    rw [List.filter_eq_nil_iff]
    intro e he
    simp [hlog st f e he]
  refine ⟨rfl, rfl, rfl, rfl, ?_, ?_, ?_, ?_, ?_⟩
  · simp only [Engine.RHI_Shader.CompileVertexPixel, List.filter_append, hfl]
    simp [Engine.ShaderEv.isApiCall]
  · intro t ht
    simp only [List.mem_cons, List.mem_singleton, List.not_mem_nil, or_false] at ht
    rcases ht with rfl | rfl | rfl
    · simp only [Engine.RHI_Shader.CompileVertex, Engine.RHI_Shader.GetState]
      split_ifs <;> simp
    · simp only [Engine.RHI_Shader.CompilePixel, Engine.RHI_Shader.GetState]
      split_ifs <;> simp
    · simp only [Engine.RHI_Shader.CompileVertexPixel, Engine.RHI_Shader.GetState]
      split_ifs <;> simp
  · simp only [Engine.RHI_Shader.CompileVertex, Engine.RHI_Shader.GetState,
      Engine.vertexResult]
    split_ifs with h <;> simp [h]
  · simp only [Engine.RHI_Shader.CompilePixel, Engine.RHI_Shader.GetState,
      Engine.pixelResult]
    split_ifs with h <;> simp [h]
  · simp only [Engine.RHI_Shader.CompileVertexPixel, Engine.RHI_Shader.GetState,
      Engine.vertexResult, Engine.pixelResultAfterVertex]
    split_ifs with h <;> simp_all

/-! ### RHI_SwapChain -/

/-- C16: `Resize` with a zero width or height, or one above `m_max_resolution`, returns
false, leaves every member as it was and calls nothing on the device (the render-target
view is not released; only a line is logged); and a `Resize` that returns true had
`1 ≤ width, height ≤ m_max_resolution`. -/
theorem C16_Resize_out_of_range (s : RHI_SwapChain) (env : D3D11_Results) (width height : Nat) :
    ((width = 0 ∨ height = 0 ∨ width > s.m_max_resolution ∨ height > s.m_max_resolution) →
      (s.Resize env width height).1 = false ∧ (s.Resize env width height).2.1 = s ∧
      (∀ e ∈ (s.Resize env width height).2.2, e.isDeviceCall = false)) ∧
    ((s.Resize env width height).1 = true →
      (1 ≤ width ∧ width ≤ s.m_max_resolution) ∧ (1 ≤ height ∧ height ≤ s.m_max_resolution)) := by
  constructor
  · intro hbad
    have hbad2 : width = 0 ∨ width > s.m_max_resolution ∨ height = 0 ∨
        height > s.m_max_resolution := by tauto
    unfold RHI_SwapChain.Resize
    by_cases hsc : s.m_swap_chain.isNone = true
    · simp [hsc, SwapEv.isDeviceCall]
    · simp only [hsc, if_false, if_pos hbad2]
      simp [SwapEv.isDeviceCall]
  · intro hret
    by_contra hcon
    have hbad2 : width = 0 ∨ width > s.m_max_resolution ∨ height = 0 ∨
        height > s.m_max_resolution := by omega
    unfold RHI_SwapChain.Resize at hret
    by_cases hsc : s.m_swap_chain.isNone = true
    · simp [hsc] at hret
    · simp only [hsc, if_false, if_pos hbad2] at hret
      simp at hret

theorem C16_Resize_out_of_range_witness :
    ((exampleSwapChain.Resize exampleResults 0 720).1 = false ∧
      (exampleSwapChain.Resize exampleResults 0 720).2.1 = exampleSwapChain ∧
      (∀ e ∈ (exampleSwapChain.Resize exampleResults 0 720).2.2, e.isDeviceCall = false)) ∧
    ((exampleSwapChain.Resize exampleResults 1920 1080).1 = true ∧
      (1 ≤ 1920 ∧ 1920 ≤ exampleSwapChain.m_max_resolution) ∧
      (1 ≤ 1080 ∧ 1080 ≤ exampleSwapChain.m_max_resolution)) :=
  ⟨(C16_Resize_out_of_range exampleSwapChain exampleResults 0 720).1 (Or.inl rfl),
    by decide,
    (C16_Resize_out_of_range exampleSwapChain exampleResults 1920 1080).2 (by decide)⟩

/-- C17 (as stated, refuted): when the swap chain is created and getting its back buffer,
or creating the render-target view, fails, `m_initialized` stays false, yet `Present`
calls the device and returns true, and `Resize` calls the device and can return true. -/
theorem C17_uninitialized_not_guarded :
    exampleSwapChainNoBackbuffer.m_initialized = false ∧
    exampleSwapChainNoBackbuffer.Present 1 = (true, [.Present 1 0]) ∧
    (exampleSwapChainNoBackbuffer.Resize exampleResults 1920 1080).1 = true ∧
    (exampleSwapChainNoBackbuffer.Resize exampleResults 1920 1080).2.2 =
      [.GetDidsplayModeFastest, .ResizeTarget 1920 1080, .ResizeBuffers 2 1920 1080,
        .GetBuffer, .GetDevicePhysical, .CreateRenderTargetView 5, .Release_backbuffer 5] ∧
    exampleSwapChainNoView.m_initialized = false ∧
    exampleSwapChainNoView.Present 1 = (true, [.Present 1 0]) := by
  decide

/-- C17 (amended): on an object whose `m_initialized` starts false, `m_initialized` is
true after construction iff every step succeeded; `Resize` and `Present` are guarded by
`m_swap_chain`: when it is null they return false, change nothing and call nothing on the
device, and otherwise `Present` calls the device and returns true; and on an object whose
`m_swap_chain` starts null, it is null after construction iff the construction did not
get as far as creating the swap chain. -/
theorem C17_guard_is_swap_chain (init : RHI_SwapChain) (env : D3D11_Results)
    (window_handle device : Option Nat) (width height format flags buffer_count : Nat)
    (hinit : init.m_initialized = false) (hnull : init.m_swap_chain = none) :
    (((RHI_SwapChain.new init env window_handle device width height format flags
        buffer_count).1.m_initialized = true) ↔ ConstructionSucceeds env window_handle device) ∧
    (((RHI_SwapChain.new init env window_handle device width height format flags
        buffer_count).1.m_swap_chain = none) ↔ ¬ SwapChainCreated env window_handle device) ∧
    (∀ (s : RHI_SwapChain) (env2 : D3D11_Results) (w h mode : Nat), s.m_swap_chain = none →
      s.Resize env2 w h = (false, s, [.LOG_ERROR "Invalid internals"]) ∧
      s.Present mode = (false, [.LOG_ERROR "Invalid internals"])) ∧
    (∀ (s : RHI_SwapChain) (mode : Nat), s.m_swap_chain ≠ none →
      (s.Present mode).1 = true ∧ ∃ f, (s.Present mode).2 = [.Present mode f]) := by
  refine ⟨?_, ?_, ?_, ?_⟩
  · unfold RHI_SwapChain.new ConstructionSucceeds
    cases window_handle <;> cases device <;> simp [hinit]
    cases env.IsWindow <;> simp [hinit]
    cases env.GetDevicePhysical <;> simp [hinit]
    cases env.GetPrimaryAdapter <;> simp [hinit]
    cases env.GetParent <;> simp [hinit]
    cases env.CreateSwapChain <;> simp [hinit]
    cases env.GetBuffer <;> simp [hinit]
    cases env.CreateRenderTargetView <;> simp [hinit]
  · unfold RHI_SwapChain.new SwapChainCreated
    cases window_handle <;> cases device <;> simp [hnull]
    cases env.IsWindow <;> simp [hnull]
    cases env.GetDevicePhysical <;> simp [hnull]
    cases env.GetPrimaryAdapter <;> simp [hnull]
    cases env.GetParent <;> simp [hnull]
    cases env.CreateSwapChain <;> simp [hnull]
    cases env.GetBuffer <;> simp
    cases env.CreateRenderTargetView <;> simp
  · intro s env2 w h mode hs
    simp [RHI_SwapChain.Resize, RHI_SwapChain.Present, hs]
  · intro s mode hs
    have : s.m_swap_chain.isNone = false := by
      cases h : s.m_swap_chain with
      | none => exact absurd h hs
      | some _ => rfl
    simp [RHI_SwapChain.Present, this]

theorem C17_guard_is_swap_chain_witness :
    exampleSwapChainInit.m_initialized = false ∧ exampleSwapChainInit.m_swap_chain = none ∧
    (((RHI_SwapChain.new exampleSwapChainInit exampleResults (some 100) (some 200) 1280 720 0 0
        2).1.m_initialized = true) ↔ ConstructionSucceeds exampleResults (some 100) (some 200)) ∧
    ConstructionSucceeds exampleResults (some 100) (some 200) :=
  ⟨rfl, rfl,
    (C17_guard_is_swap_chain exampleSwapChainInit exampleResults (some 100) (some 200) 1280 720
      0 0 2 rfl rfl).1,
    by decide⟩

/-! ### Pass_PreLight -/

theorem preLightSteps_append (a b : List Ev) :
    preLightSteps (a ++ b) = preLightSteps a ++ preLightSteps b := by
  simp [preLightSteps, List.filterMap_append]

theorem Pass_ShadowMapping_returns (r : Renderer) (t sm : RHI_RenderTexture) (l : Light)
    (hc : l.cast_shadows = true) (hm : l.shadow_map = some sm) :
    Pass_ShadowMapping r t (some l) = .ok (r.emit (Pass_ShadowMapping_events r t sm)) := by
  simp only [Pass_ShadowMapping, Light.GetCastShadows, Light.GetShadowMap, hc, hm, Bool.not_true,
    Bool.false_eq_true, if_false, emit_emit]
  rfl

theorem Pass_ShadowMapping_faults (r : Renderer) (t : RHI_RenderTexture) (l : Light)
    (hc : l.cast_shadows = true) (hm : l.shadow_map = none) :
    Pass_ShadowMapping r t (some l) = .error (r.emit (Pass_ShadowMapping_begun r t)) := by
  simp [Pass_ShadowMapping, Light.GetCastShadows, Light.GetShadowMap, hc, hm,
    Pass_ShadowMapping_begun]

theorem Pass_ShadowMapping_skips (r : Renderer) (t : RHI_RenderTexture) (l : Option Light)
    (h : l = none ∨ ∃ x, l = some x ∧ x.cast_shadows = false) :
    Pass_ShadowMapping r t l = .ok r := by
  rcases h with h | ⟨x, h, hc⟩
  · subst h; rfl
  · subst h; simp [Pass_ShadowMapping, Light.GetCastShadows, hc]

theorem Pass_SSAO_steps (r : Renderer) (t : RHI_RenderTexture) :
    Pass_SSAO r t = r.emit (appended r (Pass_SSAO r t)) ∧
    preLightSteps (appended r (Pass_SSAO r t)) = [.SSAO] := by
  have h : ∃ evs, Pass_SSAO r t = r.emit evs ∧ preLightSteps evs = [.SSAO] :=
    ⟨_, rfl, by simp [preLightSteps, Ev.preLightStep]⟩
  obtain ⟨evs, h1, h2⟩ := h
  rw [h1, appended_emit]
  exact ⟨rfl, h2⟩

theorem Pass_BlurBilateralGaussian_steps (r : Renderer) (a b : RHI_RenderTexture) (sigma stride : Rat) :
    (Pass_BlurBilateralGaussian r a b sigma stride).r =
      r.emit (appended r (Pass_BlurBilateralGaussian r a b sigma stride).r) ∧
    preLightSteps (appended r (Pass_BlurBilateralGaussian r a b sigma stride).r) =
      [.Blur (texturesMatch a b)] ∧
    ∀ c, texturesMatch (Pass_BlurBilateralGaussian r a b sigma stride).tex_in c = texturesMatch a c := by
  have h : ∃ evs, (Pass_BlurBilateralGaussian r a b sigma stride).r = r.emit evs ∧
      preLightSteps evs = [.Blur (texturesMatch a b)] := by
    by_cases hm : a.width ≠ b.width ∨ a.height ≠ b.height ∨ a.format ≠ b.format
    · have : texturesMatch a b = false := by
        simp only [texturesMatch, decide_eq_false_iff_not]; tauto
      simp only [Pass_BlurBilateralGaussian, if_pos hm]
      exact ⟨_, rfl, by simp [preLightSteps, Ev.preLightStep, this]⟩
    · have : texturesMatch a b = true := by
        simp only [texturesMatch, decide_eq_true_eq]; tauto
      simp only [Pass_BlurBilateralGaussian, if_neg hm, emit_emit]
      exact ⟨_, rfl, by simp [preLightSteps, Ev.preLightStep, this]⟩
  obtain ⟨evs, h1, h2⟩ := h
  rw [h1, appended_emit]
  refine ⟨rfl, h2, ?_⟩
  intro c
  by_cases hm : a.width ≠ b.width ∨ a.height ≠ b.height ∨ a.format ≠ b.format
  · simp only [Pass_BlurBilateralGaussian, if_pos hm]
  · simp only [Pass_BlurBilateralGaussian, if_neg hm]
    simp only [ne_eq, not_or, not_not] at hm
    obtain ⟨h1, h2, h3⟩ := hm
    simp only [texturesMatch, h1, h2, h3]


theorem steps_emit (r : Renderer) (evs : List Ev) : RecordsSteps r (r.emit evs) (preLightSteps evs) :=
  ⟨evs, rfl, rfl⟩

theorem steps_trans {r r' r'' : Renderer} {a b : List PreLightStep}
    (h1 : RecordsSteps r r' a) (h2 : RecordsSteps r' r'' b) : RecordsSteps r r'' (a ++ b) := by
  obtain ⟨e1, rfl, rfl⟩ := h1
  obtain ⟨e2, rfl, rfl⟩ := h2
  exact ⟨e1 ++ e2, emit_emit _ _ _, preLightSteps_append _ _⟩

theorem steps_cast {r r' : Renderer} {a b : List PreLightStep}
    (h : RecordsSteps r r' a) (e : a = b) : RecordsSteps r r' b := e ▸ h

theorem steps_ShadowMapping (r : Renderer) (t sm : RHI_RenderTexture) :
    RecordsSteps r (r.emit (Pass_ShadowMapping_events r t sm)) [.ShadowMapping] :=
  ⟨_, rfl, by simp [preLightSteps, Ev.preLightStep, Pass_ShadowMapping_events,
    Pass_ShadowMapping_begun]⟩

theorem steps_SSAO (r : Renderer) (t : RHI_RenderTexture) :
    RecordsSteps r (Pass_SSAO r t) [.SSAO] :=
  ⟨_, (Pass_SSAO_steps r t).1, (Pass_SSAO_steps r t).2⟩

theorem steps_Blur (r : Renderer) (a b : RHI_RenderTexture) (sigma stride : Rat) :
    RecordsSteps r (Pass_BlurBilateralGaussian r a b sigma stride).r [.Blur (texturesMatch a b)] :=
  ⟨_, (Pass_BlurBilateralGaussian_steps r a b sigma stride).1,
    (Pass_BlurBilateralGaussian_steps r a b sigma stride).2.1⟩

theorem steps_flags {r r' : Renderer} {st : List PreLightStep} (h : RecordsSteps r r' st)
    (f : Renderer_Option) : r'.Flags_IsSet f = r.Flags_IsSet f := by
  obtain ⟨e, rfl, -⟩ := h
  rfl

theorem shadowMapMissing_eq (r : Renderer) :
    r.shadowMapMissing = true ↔
      ∃ l, r.GetLightDirectional = some l ∧ l.cast_shadows = true ∧ l.shadow_map = none := by
  unfold Renderer.shadowMapMissing
  cases hl : r.GetLightDirectional with
  | none => simp
  | some l =>
    cases hc : l.cast_shadows <;> cases hm : l.shadow_map <;>
      simp [Light.GetCastShadows, Light.GetShadowMap, hc, hm]

/-- With a shadow-casting light that has no shadow map, `Pass_PreLight` stops at the null
dereference of `Pass_ShadowMapping`. -/
theorem Pass_PreLight_faults (r : Renderer) (a b c : RHI_RenderTexture)
    (h : r.shadowMapMissing = true) :
    Pass_PreLight r a b c =
      .error (r.emit (Pass_PreLight_header r ++ Pass_ShadowMapping_begun r a)) := by
  obtain ⟨l, hl, hc, hm⟩ := (shadowMapMissing_eq r).1 h
  have hemitL : ∀ (x : Renderer) (evs : List Ev),
      (x.emit evs).GetLightDirectional = x.GetLightDirectional := fun _ _ => rfl
  simp only [Pass_PreLight, hemitL, hl, Light.GetCastShadows, hc, if_true,
    Pass_ShadowMapping_faults _ _ _ hc hm, emit_emit]
  rfl

/-- When `Pass_ShadowMapping` does not fault, `Pass_PreLight` returns, having recorded its
steps. -/
theorem Pass_PreLight_steps (r : Renderer) (tex_in tex_shadows_out tex_ssao_out : RHI_RenderTexture)
    (h : r.shadowMapMissing = false) :
    ∃ p, Pass_PreLight r tex_in tex_shadows_out tex_ssao_out = .ok p ∧
      RecordsSteps r p.r
        ((if r.castsShadows then [.ShadowMapping, .Blur (texturesMatch tex_in tex_shadows_out)]
          else [.Clear tex_shadows_out.id ⟨1, 1, 1, 1⟩]) ++
        (if r.Flags_IsSet .Render_PostProcess_SSAO then
            [.SSAO, .Blur (texturesMatch tex_in tex_ssao_out)]
          else [])) := by
  have hblurF : ∀ (x : Renderer) (a b : RHI_RenderTexture) (f : Renderer_Option),
      (Pass_BlurBilateralGaussian x a b 1 1).r.Flags_IsSet f = x.Flags_IsSet f :=
    fun x a b f => steps_flags (steps_Blur x a b 1 1) f
  have hemitF : ∀ (x : Renderer) (evs : List Ev) (f : Renderer_Option),
      (x.emit evs).Flags_IsSet f = x.Flags_IsSet f := fun _ _ _ => rfl
  have hemitL : ∀ (x : Renderer) (evs : List Ev),
      (x.emit evs).GetLightDirectional = x.GetLightDirectional := fun _ _ => rfl
  have hmatch := fun (x : Renderer) (a b : RHI_RenderTexture) =>
    (Pass_BlurBilateralGaussian_steps x a b 1 1).2.2
  cases hl : r.GetLightDirectional with
  | none =>
    by_cases hf : r.Flags_IsSet .Render_PostProcess_SSAO = true
    · simp only [Pass_PreLight, hemitL, hl, hemitF, hf, Renderer.castsShadows, if_true,
        Bool.not_false, Bool.false_eq_true, if_false]
      refine ⟨_, rfl, ?_⟩
      refine steps_cast (steps_trans (steps_trans (steps_trans (steps_trans (steps_emit _ _)
        (steps_emit _ _)) (steps_SSAO _ _)) (steps_Blur _ _ _ _ _)) (steps_emit _ _)) ?_
      simp [preLightSteps, Ev.preLightStep]
    · simp only [Pass_PreLight, hemitL, hl, hemitF, hf, Renderer.castsShadows, if_true,
        Bool.not_false, Bool.false_eq_true, if_false]
      refine ⟨_, rfl, ?_⟩
      refine steps_cast (steps_trans (steps_trans (steps_emit _ _) (steps_emit _ _))
        (steps_emit _ _)) ?_
      simp [preLightSteps, Ev.preLightStep]
  | some l =>
    cases hc : l.cast_shadows with
    | false =>
      by_cases hf : r.Flags_IsSet .Render_PostProcess_SSAO = true
      · simp only [Pass_PreLight, hemitL, hl, hemitF, hf, Renderer.castsShadows, if_true,
          Bool.not_false, Bool.false_eq_true, if_false, Light.GetCastShadows, hc]
        refine ⟨_, rfl, ?_⟩
        refine steps_cast (steps_trans (steps_trans (steps_trans (steps_trans (steps_emit _ _)
          (steps_emit _ _)) (steps_SSAO _ _)) (steps_Blur _ _ _ _ _)) (steps_emit _ _)) ?_
        simp [preLightSteps, Ev.preLightStep]
      · simp only [Pass_PreLight, hemitL, hl, hemitF, hf, Renderer.castsShadows, if_true,
          Bool.not_false, Bool.false_eq_true, if_false, Light.GetCastShadows, hc]
        refine ⟨_, rfl, ?_⟩
        refine steps_cast (steps_trans (steps_trans (steps_emit _ _) (steps_emit _ _))
          (steps_emit _ _)) ?_
        simp [preLightSteps, Ev.preLightStep]
    | true =>
      cases hm : l.shadow_map with
      | none =>
        have : r.shadowMapMissing = true := (shadowMapMissing_eq r).2 ⟨l, hl, hc, hm⟩
        rw [this] at h
        exact absurd h (by decide)
      | some sm =>
        by_cases hf : r.Flags_IsSet .Render_PostProcess_SSAO = true
        · simp only [Pass_PreLight, hemitL, hl, hemitF, hblurF,
            Pass_ShadowMapping_returns _ _ _ _ hc hm, hf,
            Renderer.castsShadows, if_true, Bool.not_true, Bool.false_eq_true, if_false,
            Light.GetCastShadows, hc]
          refine ⟨_, rfl, ?_⟩
          refine steps_cast (steps_trans (steps_trans (steps_trans (steps_trans (steps_trans
            (steps_emit _ _) (steps_ShadowMapping _ _ sm)) (steps_Blur _ _ _ _ _))
            (steps_SSAO _ _)) (steps_Blur _ _ _ _ _)) (steps_emit _ _)) ?_
          simp [preLightSteps, Ev.preLightStep, hmatch]
        · simp only [Pass_PreLight, hemitL, hl, hemitF, hblurF,
            Pass_ShadowMapping_returns _ _ _ _ hc hm, hf,
            Renderer.castsShadows, if_true, Bool.not_true, Bool.false_eq_true, if_false,
            Light.GetCastShadows, hc]
          refine ⟨_, rfl, ?_⟩
          refine steps_cast (steps_trans (steps_trans (steps_trans
            (steps_emit _ _) (steps_ShadowMapping _ _ sm)) (steps_Blur _ _ _ _ _))
            (steps_emit _ _)) ?_
          simp [preLightSteps, Ev.preLightStep]

/-- C18 (the code, with the failing input): when the directional light casts shadows and
has no shadow map, `Pass_PreLight` stops inside `Pass_ShadowMapping` at the null
dereference, having recorded the shadow-mapping step and no blur.  In every other
state it returns, and the steps it has recorded are, in this order: the shadow-mapping
pass followed by a call of the bilateral blur when a directional light exists and casts
shadows, and otherwise neither of them but the clear of the shadow target to (1,1,1,1);
then the SSAO pass followed by a call of the bilateral blur when the flag
`Render_PostProcess_SSAO` is set, and otherwise nothing.  (A blur that is called draws
when its two textures match and stops at its parameter check when they do not.) -/
theorem C18_Pass_PreLight (r : Renderer) (tex_in tex_shadows_out tex_ssao_out : RHI_RenderTexture) :
    (r.shadowMapMissing = true →
      r.castsShadows = true ∧
      Pass_PreLight r tex_in tex_shadows_out tex_ssao_out =
        .error (r.emit (Pass_PreLight_header r ++ Pass_ShadowMapping_begun r tex_in)) ∧
      preLightSteps (Pass_PreLight_header r ++ Pass_ShadowMapping_begun r tex_in) =
        [.ShadowMapping]) ∧
    (r.shadowMapMissing = false →
      ∃ p, Pass_PreLight r tex_in tex_shadows_out tex_ssao_out = .ok p ∧
        preLightSteps (appended r p.r) =
          (if r.castsShadows then [.ShadowMapping, .Blur (texturesMatch tex_in tex_shadows_out)]
            else [.Clear tex_shadows_out.id ⟨1, 1, 1, 1⟩]) ++
          (if r.Flags_IsSet .Render_PostProcess_SSAO then
              [.SSAO, .Blur (texturesMatch tex_in tex_ssao_out)]
            else [])) ∧
    exampleSceneNoShadowMap.shadowMapMissing = true ∧
    Pass_PreLight exampleSceneNoShadowMap (exampleTexture 11) (exampleTexture 12)
        (exampleTexture 13) =
      .error (exampleSceneNoShadowMap.emit
        (Pass_PreLight_header exampleSceneNoShadowMap ++
          Pass_ShadowMapping_begun exampleSceneNoShadowMap (exampleTexture 11))) ∧
    exampleScene.shadowMapMissing = false ∧
    exampleSceneOneCascade.shadowMapMissing = false := by
  refine ⟨?_, ?_, by decide, Pass_PreLight_faults _ _ _ _ (by decide), by decide, by decide⟩
  · intro h
    refine ⟨?_, Pass_PreLight_faults r _ _ _ h, ?_⟩
    · obtain ⟨l, hl, hc, -⟩ := (shadowMapMissing_eq r).1 h
      simp [Renderer.castsShadows, hl, Light.GetCastShadows, hc]
    · simp [preLightSteps, Ev.preLightStep, Pass_PreLight_header, Pass_ShadowMapping_begun]
  · intro h
    obtain ⟨p, hp, evs, h1, h2⟩ := Pass_PreLight_steps r tex_in tex_shadows_out tex_ssao_out h
    exact ⟨p, hp, by rw [h1, appended_emit, h2]⟩

/-- With a shadow map of one cascade `Pass_PreLight` returns after shadow mapping and a blur
that draws; without a shadow map it stops with the shadow-mapping step begun. -/
theorem C18_Pass_PreLight_witness :
    (∃ p, Pass_PreLight exampleSceneOneCascade (exampleTexture 11) (exampleTexture 12)
        (exampleTexture 13) = .ok p ∧
      preLightSteps (appended exampleSceneOneCascade p.r) = [.ShadowMapping, .Blur true]) ∧
    (∃ x, Pass_PreLight exampleSceneNoShadowMap (exampleTexture 11) (exampleTexture 12)
        (exampleTexture 13) = .error x ∧
      preLightSteps (appended exampleSceneNoShadowMap x) = [.ShadowMapping]) := by
  constructor
  · obtain ⟨p, hp, ht⟩ := (C18_Pass_PreLight exampleSceneOneCascade (exampleTexture 11)
      (exampleTexture 12) (exampleTexture 13)).2.1 (by decide)
    exact ⟨p, hp, ht.trans (by decide)⟩
  · obtain ⟨-, hx, ht⟩ := (C18_Pass_PreLight exampleSceneNoShadowMap (exampleTexture 11)
      (exampleTexture 12) (exampleTexture 13)).1 (by decide)
    exact ⟨_, hx, by rw [appended_emit]; exact ht⟩

/-! ### Scopes -/

theorem scopeStep_free {e : Ev} (h : e.isScope = false) (d : Nat) : scopeStep d e = some d := by
  cases e <;> first | rfl | (simp [Ev.isScope] at h)

theorem nameAt_free {e : Ev} (h : e.isScope = false) (k d : Nat) : e.nameAt k d = [] := by
  cases e <;> first | rfl | (simp [Ev.isScope] at h)

theorem depthAfter_of_step {d d' : Nat} {e : Ev} (h : scopeStep d e = some d') :
    e.depthAfter d = d' := by
  cases e <;> simp [scopeStep, Ev.depthAfter] at h ⊢ <;> omega

theorem scopeStep_shift {d d' : Nat} {e : Ev} (h : scopeStep d e = some d') (k : Nat) :
    scopeStep (d + k) e = some (d' + k) := by
  cases e <;> simp [scopeStep] at h ⊢ <;> omega

theorem scopeDepth_shift {a : List Ev} {d d' : Nat} (h : scopeDepth d a = some d') (k : Nat) :
    scopeDepth (d + k) a = some (d' + k) := by
  induction a generalizing d with
  | nil => simp [scopeDepth] at h ⊢; omega
  | cons e t ih =>
    rw [scopeDepth] at h ⊢
    cases hs : scopeStep d e with
    | none => simp [hs] at h
    | some d1 =>
      rw [hs] at h
      rw [scopeStep_shift hs k]
      exact ih h

theorem scopeDepth_append {a : List Ev} {d d' : Nat} (h : scopeDepth d a = some d') (b : List Ev) :
    scopeDepth d (a ++ b) = scopeDepth d' b := by
  induction a generalizing d with
  | nil => simp [scopeDepth] at h; subst h; rfl
  | cons e t ih =>
    rw [scopeDepth] at h
    rw [List.cons_append, scopeDepth]
    cases hs : scopeStep d e with
    | none => simp [hs] at h
    | some d1 =>
      rw [hs] at h
      exact ih h

theorem scopeNamesAt_append {a : List Ev} {d d' : Nat} (h : scopeDepth d a = some d')
    (k : Nat) (b : List Ev) :
    scopeNamesAt k d (a ++ b) = scopeNamesAt k d a ++ scopeNamesAt k d' b := by
  induction a generalizing d with
  | nil => simp [scopeDepth] at h; subst h; rfl
  | cons e t ih =>
    rw [scopeDepth] at h
    cases hs : scopeStep d e with
    | none => simp [hs] at h
    | some d1 =>
      rw [hs] at h
      rw [List.cons_append, scopeNamesAt, scopeNamesAt, depthAfter_of_step hs, ih h,
        List.append_assoc]

theorem scopeNamesAt_deep {a : List Ev} {d d' : Nat} (h : scopeDepth d a = some d')
    {k D : Nat} (hk : k < D) : scopeNamesAt k (D + d) a = [] := by
  induction a generalizing d with
  | nil => rfl
  | cons e t ih =>
    rw [scopeDepth] at h
    cases hs : scopeStep d e with
    | none => simp [hs] at h
    | some d1 =>
      rw [hs] at h
      have h1 := depthAfter_of_step (scopeStep_shift hs D)
      rw [scopeNamesAt, Nat.add_comm D d, h1, Nat.add_comm d1 D, ih h]
      cases e <;> simp [Ev.nameAt]
      omega

theorem scopeNamesAt_shift {a : List Ev} {d d' : Nat} (h : scopeDepth d a = some d') (k : Nat) :
    scopeNamesAt (k + 1) (d + 1) a = scopeNamesAt k d a := by
  induction a generalizing d with
  | nil => rfl
  | cons e t ih =>
    rw [scopeDepth] at h
    cases hs : scopeStep d e with
    | none => simp [hs] at h
    | some d1 =>
      rw [hs] at h
      rw [scopeNamesAt, scopeNamesAt, depthAfter_of_step (scopeStep_shift hs 1),
        depthAfter_of_step hs, ih h]
      cases e <;> simp [Ev.nameAt]

theorem scopeDepth_free {a : List Ev} (h : ∀ e ∈ a, e.isScope = false) (d : Nat) :
    scopeDepth d a = some d := by
  induction a with
  | nil => rfl
  | cons e t ih =>
    rw [scopeDepth, scopeStep_free (h e (List.mem_cons_self _ _))]
    exact ih (fun x hx => h x (List.mem_cons_of_mem _ hx))

theorem scopeNamesAt_free {a : List Ev} (h : ∀ e ∈ a, e.isScope = false) (k d : Nat) :
    scopeNamesAt k d a = [] := by
  induction a with
  | nil => rfl
  | cons e t ih =>
    have he := h e (List.mem_cons_self _ _)
    rw [scopeNamesAt, nameAt_free he, depthAfter_of_step (scopeStep_free he d)]
    exact ih (fun x hx => h x (List.mem_cons_of_mem _ hx))


/-! ### Composing well-nested recordings -/

theorem nested_refl (r : Renderer) : Nested r r := ⟨[], by simp, rfl⟩

theorem nested_trans {r r' r'' : Renderer} (h1 : Nested r r') (h2 : Nested r' r'') :
    Nested r r'' := by
  obtain ⟨a, ha, ha2⟩ := h1
  obtain ⟨b, hb, hb2⟩ := h2
  exact ⟨a ++ b, by rw [hb, ha, List.append_assoc], by rw [scopeDepth_append ha2, hb2]⟩

theorem nested_emit (r : Renderer) (evs : List Ev) (h : scopeDepth 0 evs = some 0) :
    Nested r (r.emit evs) := ⟨evs, rfl, h⟩

theorem nested_of_trace {r r' : Renderer} (h : r'.trace = r.trace) : Nested r r' :=
  ⟨[], by simp [h], rfl⟩

theorem nested_ite {r a b : Renderer} (c : Prop) [Decidable c] (ha : Nested r a) (hb : Nested r b) :
    Nested r (if c then a else b) := by
  split_ifs
  · exact ha
  · exact hb

theorem nested_foldl {σ α : Type} (π : σ → Renderer) (f : σ → α → σ)
    (h : ∀ s e, Nested (π s) (π (f s e))) (l : List α) (s : σ) :
    Nested (π s) (π (l.foldl f s)) := by
  induction l generalizing s with
  | nil => exact nested_refl _
  | cons e t ih => exact nested_trans (h s e) (ih (f s e))

theorem nested_scope {r x : Renderer} (name : String) (h : Nested (r.emit [.Begin name]) x) :
    Nested r (x.emit [.End]) := by
  obtain ⟨a, ha, ha2⟩ := h
  refine ⟨.Begin name :: (a ++ [.End]), ?_, ?_⟩
  · simp [Renderer.emit, ha]
  · rw [scopeDepth]
    simp only [scopeStep, Option.some_bind]
    have := scopeDepth_shift ha2 1
    rw [scopeDepth_append this]
    rfl

theorem scoped_nested {r r' : Renderer} {names : List String} (h : Scoped r r' names) :
    Nested r r' := by
  obtain ⟨a, ha, ha2, -⟩ := h
  exact ⟨a, ha, ha2⟩

theorem scoped_refl (r : Renderer) : Scoped r r [] := ⟨[], by simp, rfl, rfl⟩

theorem scoped_emit (r : Renderer) (evs : List Ev) (names : List String)
    (h : scopeDepth 0 evs = some 0) (hn : scopeNamesAt 0 0 evs = names) :
    Scoped r (r.emit evs) names := ⟨evs, rfl, h, hn⟩

theorem scoped_trans {r r' r'' : Renderer} {a b : List String} (h1 : Scoped r r' a)
    (h2 : Scoped r' r'' b) : Scoped r r'' (a ++ b) := by
  obtain ⟨x, hx, hx2, hx3⟩ := h1
  obtain ⟨y, hy, hy2, hy3⟩ := h2
  exact ⟨x ++ y, by rw [hy, hx, List.append_assoc], by rw [scopeDepth_append hx2, hy2],
    by rw [scopeNamesAt_append hx2, hx3, hy3]⟩

/-- A pass body: `Begin name`, then `pre`, then whatever leads to `x`, then `post`, which
closes the scope. -/
theorem scoped_wrap {r x : Renderer} (name : String) (pre post : List Ev)
    (hpre : scopeDepth 0 pre = some 0) (hpost : scopeDepth 1 post = some 0)
    (hnames : scopeNamesAt 0 1 post = [])
    (h : Nested (r.emit (.Begin name :: pre)) x) :
    Scoped r (x.emit post) [name] := by
  obtain ⟨a, ha, ha2⟩ := h
  have hin : scopeDepth 0 (pre ++ a) = some 0 := by rw [scopeDepth_append hpre, ha2]
  have hin1 : scopeDepth 1 (pre ++ a) = some 1 := scopeDepth_shift hin 1
  refine ⟨.Begin name :: ((pre ++ a) ++ post), ?_, ?_, ?_⟩
  · simp [Renderer.emit, ha]
  · rw [scopeDepth]
    simp only [scopeStep, Option.some_bind]
    rw [scopeDepth_append hin1, hpost]
  · rw [scopeNamesAt]
    simp only [Ev.nameAt, Ev.depthAfter, if_true]
    rw [scopeNamesAt_append hin1, hnames]
    have := scopeNamesAt_deep (k := 0) (D := 1) hin (by omega)
    simp only [Nat.add_zero] at this
    simp [this]

theorem nested_wrap {r x : Renderer} (name : String) (pre post : List Ev)
    (hpre : scopeDepth 0 pre = some 0) (hpost : scopeDepth 1 post = some 0)
    (hnames : scopeNamesAt 0 1 post = [])
    (h : Nested (r.emit (.Begin name :: pre)) x) :
    Nested r (x.emit post) :=
  scoped_nested (scoped_wrap name pre post hpre hpost hnames h)

theorem nested_same_trace {r x r' : Renderer} (hx : Nested r x) (h : r'.trace = x.trace) :
    Nested r r' := by
  obtain ⟨a, ha, ha2⟩ := hx
  exact ⟨a, by rw [h, ha], ha2⟩

theorem scopedPass_refl (name : String) (r : Renderer) : ScopedPass name r r :=
  Or.inl (scoped_refl r)

/-! ### The passes without loops -/

theorem scoped_PerformanceMetrics (r : Renderer) (t : RHI_RenderTexture) :
    ScopedPass "Pass_PerformanceMetrics" r (Pass_PerformanceMetrics r t) := by
  unfold Pass_PerformanceMetrics
  by_cases h : r.Flags_IsSet .Render_Gizmo_PerformanceMetrics = true
  · simp only [h, Bool.not_true, Bool.false_eq_true, if_false]
    exact Or.inr (scoped_emit _ _ _ rfl rfl)
  · simp only [h, Bool.not_false, if_true]
    exact scopedPass_refl _ _

theorem scoped_Light (r : Renderer) (a b c : RHI_RenderTexture) :
    ScopedPass "Pass_Light" r (Pass_Light r a b c) := by
  unfold Pass_Light
  by_cases h : r.m_vps_light.GetCompilationState ≠ Shader_Compiled
  · rw [if_pos h]
    exact scopedPass_refl _ _
  · rw [if_neg h]
    simp only [emit_emit]
    exact Or.inr (scoped_emit _ _ _ rfl rfl)

theorem scoped_DebugBuffer (r : Renderer) (t : RHI_RenderTexture) :
    ScopedPass "Pass_DebugBuffer" r (Pass_DebugBuffer r t) := by
  have hd : ∀ (x : Renderer) (evs : List Ev), (x.emit evs).m_debug_buffer = x.m_debug_buffer :=
    fun _ _ => rfl
  have hf : ∀ (x : Renderer) (evs : List Ev) (f : Renderer_Option),
      (x.emit evs).Flags_IsSet f = x.Flags_IsSet f := fun _ _ _ => rfl
  unfold Pass_DebugBuffer
  cases h : r.m_debug_buffer with
  | RendererDebug_None =>
    simp only [if_true]
    exact scopedPass_refl _ _
  | RendererDebug_SSAO =>
    by_cases hs : r.Flags_IsSet .Render_PostProcess_SSAO = true
    · simp only [hd, hf, h, hs, if_true, if_false, reduceCtorEq, emit_emit]
      exact Or.inr (scoped_emit _ _ _ rfl rfl)
    · simp only [hd, hf, h, hs, if_true, if_false, reduceCtorEq, emit_emit]
      exact Or.inr (scoped_emit _ _ _ rfl rfl)
  | _ =>
    simp only [hd, hf, h, if_true, if_false, reduceCtorEq, emit_emit]
    exact Or.inr (scoped_emit _ _ _ rfl rfl)

theorem nested_ShadowMapping (r x : Renderer) (t : RHI_RenderTexture) (l : Option Light)
    (h : Pass_ShadowMapping r t l = .ok x) : Nested r x := by
  cases l with
  | none =>
    rw [Pass_ShadowMapping_skips r t none (Or.inl rfl)] at h
    cases h
    exact nested_refl _
  | some l =>
    cases hc : l.cast_shadows with
    | false =>
      rw [Pass_ShadowMapping_skips r t (some l) (Or.inr ⟨l, rfl, hc⟩)] at h
      cases h
      exact nested_refl _
    | true =>
      cases hm : l.shadow_map with
      | none =>
        rw [Pass_ShadowMapping_faults r t l hc hm] at h
        cases h
      | some sm =>
        rw [Pass_ShadowMapping_returns r t sm l hc hm] at h
        cases h
        exact nested_emit _ _ rfl

theorem nested_SSAO (r : Renderer) (t : RHI_RenderTexture) : Nested r (Pass_SSAO r t) :=
  nested_emit _ _ rfl

theorem nested_BlurBox (r : Renderer) (a b : RHI_RenderTexture) : Nested r (Pass_BlurBox r a b) :=
  nested_emit _ _ rfl

theorem nested_BlurBilateralGaussian (r : Renderer) (a b : RHI_RenderTexture) (s p : Rat) :
    Nested r (Pass_BlurBilateralGaussian r a b s p).r := by
  unfold Pass_BlurBilateralGaussian
  split_ifs
  · exact nested_emit _ _ rfl
  · simp only [emit_emit]
    exact nested_emit _ _ rfl

theorem nested_BlurGaussian (r : Renderer) (a b : RHI_RenderTexture) (s p : Rat) :
    Nested r (Pass_BlurGaussian r a b s p).r := by
  unfold Pass_BlurGaussian
  split_ifs
  · exact nested_emit _ _ rfl
  · simp only [emit_emit]
    exact nested_emit _ _ rfl

/-- `Pass_PreLight` returns exactly when `Pass_ShadowMapping` does not fault. -/
theorem Pass_PreLight_returns_iff (r : Renderer) (a b c : RHI_RenderTexture) :
    (∃ p, Pass_PreLight r a b c = .ok p) ↔ r.shadowMapMissing = false := by
  constructor
  · rintro ⟨p, hp⟩
    cases hs : r.shadowMapMissing with
    | false => rfl
    | true =>
      rw [Pass_PreLight_faults r a b c hs] at hp
      cases hp
  · intro h
    obtain ⟨p, hp, -⟩ := Pass_PreLight_steps r a b c h
    exact ⟨p, hp⟩

theorem scoped_PreLight_returned (r : Renderer) (a b c : RHI_RenderTexture)
    (h : r.shadowMapMissing = false) :
    ∃ p, Pass_PreLight r a b c = .ok p ∧ Scoped r p.r ["Pass_PreLight"] := by
  have hblurF : ∀ (x : Renderer) (a b : RHI_RenderTexture) (f : Renderer_Option),
      (Pass_BlurBilateralGaussian x a b 1 1).r.Flags_IsSet f = x.Flags_IsSet f :=
    fun x a b f => steps_flags (steps_Blur x a b 1 1) f
  have hemitF : ∀ (x : Renderer) (evs : List Ev) (f : Renderer_Option),
      (x.emit evs).Flags_IsSet f = x.Flags_IsSet f := fun _ _ _ => rfl
  have hemitL : ∀ (x : Renderer) (evs : List Ev),
      (x.emit evs).GetLightDirectional = x.GetLightDirectional := fun _ _ => rfl
  cases hl : r.GetLightDirectional with
  | none =>
    by_cases hf : r.Flags_IsSet .Render_PostProcess_SSAO = true
    · simp only [Pass_PreLight, hemitL, hl, hemitF, hf, if_true,
        Bool.not_false, Bool.false_eq_true, if_false]
      refine ⟨_, rfl, ?_⟩
      exact scoped_wrap _ _ _ (by rfl) (by rfl) (by rfl)
        (nested_trans (nested_trans (nested_emit _ _ (by rfl)) (nested_SSAO _ _))
          (nested_BlurBilateralGaussian _ _ _ _ _))
    · simp only [Pass_PreLight, hemitL, hl, hemitF, hf, if_true,
        Bool.not_false, Bool.false_eq_true, if_false]
      refine ⟨_, rfl, ?_⟩
      exact scoped_wrap _ _ _ (by rfl) (by rfl) (by rfl) (nested_emit _ _ (by rfl))
  | some l =>
    cases hc : l.cast_shadows with
    | false =>
      by_cases hf : r.Flags_IsSet .Render_PostProcess_SSAO = true
      · simp only [Pass_PreLight, hemitL, hl, hemitF, hf, if_true,
          Bool.not_false, Bool.false_eq_true, if_false, Light.GetCastShadows, hc]
        refine ⟨_, rfl, ?_⟩
        exact scoped_wrap _ _ _ (by rfl) (by rfl) (by rfl)
          (nested_trans (nested_trans (nested_emit _ _ (by rfl)) (nested_SSAO _ _))
            (nested_BlurBilateralGaussian _ _ _ _ _))
      · simp only [Pass_PreLight, hemitL, hl, hemitF, hf, if_true,
          Bool.not_false, Bool.false_eq_true, if_false, Light.GetCastShadows, hc]
        refine ⟨_, rfl, ?_⟩
        exact scoped_wrap _ _ _ (by rfl) (by rfl) (by rfl) (nested_emit _ _ (by rfl))
    | true =>
      cases hm : l.shadow_map with
      | none =>
        have : r.shadowMapMissing = true := (shadowMapMissing_eq r).2 ⟨l, hl, hc, hm⟩
        rw [this] at h
        exact absurd h (by decide)
      | some sm =>
        by_cases hf : r.Flags_IsSet .Render_PostProcess_SSAO = true
        · simp only [Pass_PreLight, hemitL, hl, hemitF, hblurF,
            Pass_ShadowMapping_returns _ _ _ _ hc hm, hf,
            if_true, Bool.not_true, Bool.false_eq_true, if_false,
            Light.GetCastShadows, hc]
          refine ⟨_, rfl, ?_⟩
          exact scoped_wrap _ _ _ (by rfl) (by rfl) (by rfl)
            (nested_trans (nested_trans (nested_trans (nested_emit _ _ (by rfl))
              (nested_BlurBilateralGaussian _ _ _ _ _)) (nested_SSAO _ _))
              (nested_BlurBilateralGaussian _ _ _ _ _))
        · simp only [Pass_PreLight, hemitL, hl, hemitF, hblurF,
            Pass_ShadowMapping_returns _ _ _ _ hc hm, hf,
            if_true, Bool.not_true, Bool.false_eq_true, if_false,
            Light.GetCastShadows, hc]
          refine ⟨_, rfl, ?_⟩
          exact scoped_wrap _ _ _ (by rfl) (by rfl) (by rfl)
            (nested_trans (nested_emit _ _ (by rfl)) (nested_BlurBilateralGaussian _ _ _ _ _))

/-- Whenever `Pass_PreLight` returns it has recorded exactly its own scope. -/
theorem scoped_PreLight (r : Renderer) (a b c : RHI_RenderTexture) (p : PreLightState)
    (h : Pass_PreLight r a b c = .ok p) : Scoped r p.r ["Pass_PreLight"] := by
  obtain ⟨p', hp', hs⟩ := scoped_PreLight_returned r a b c
    ((Pass_PreLight_returns_iff r a b c).1 ⟨p, h⟩)
  rw [h] at hp'
  cases hp'
  exact hs

theorem nested_ToneMapping (r : Renderer) (a b : RHI_RenderTexture) :
    Nested r (Pass_ToneMapping r a b) := nested_emit _ _ (by rfl)

theorem nested_GammaCorrection (r : Renderer) (a b : RHI_RenderTexture) :
    Nested r (Pass_GammaCorrection r a b) := nested_emit _ _ (by rfl)

theorem nested_ChromaticAberration (r : Renderer) (a b : RHI_RenderTexture) :
    Nested r (Pass_ChromaticAberration r a b) := nested_emit _ _ (by rfl)

theorem nested_MotionBlur (r : Renderer) (a b : RHI_RenderTexture) :
    Nested r (Pass_MotionBlur r a b) := nested_emit _ _ (by rfl)

theorem nested_Dithering (r : Renderer) (a b : RHI_RenderTexture) :
    Nested r (Pass_Dithering r a b) := nested_emit _ _ (by rfl)

theorem nested_Sharpening (r : Renderer) (a b : RHI_RenderTexture) :
    Nested r (Pass_Sharpening r a b) := nested_emit _ _ (by rfl)

theorem nested_FXAA (r : Renderer) (a b : RHI_RenderTexture) :
    Nested r (Pass_FXAA r a b).r := by
  simp only [Pass_FXAA, emit_emit]
  exact nested_emit _ _ (by rfl)

theorem nested_TAA (r : Renderer) (a b : RHI_RenderTexture) :
    Nested r (Pass_TAA r a b) := by
  simp only [Pass_TAA, emit_emit]
  exact nested_same_trace (nested_emit _ _ (by rfl)) rfl

theorem nested_Bloom (r : Renderer) (a b : RHI_RenderTexture) :
    Nested r (Pass_Bloom r a b) := by
  simp only [Pass_Bloom, emit_emit, List.cons_append, List.nil_append]
  exact nested_wrap "Pass_Bloom" _ _ (by rfl) (by rfl) (by rfl)
    (nested_same_trace (nested_BlurGaussian _ _ _ _ _) rfl)

theorem nested_run (e : PostEffect) (s : PassState) : Nested s.r (e.run s).r := by
  cases e
  · exact nested_TAA _ _ _
  · exact nested_Bloom _ _ _
  · exact nested_MotionBlur _ _ _
  · exact nested_Dithering _ _ _
  · exact nested_ToneMapping _ _ _
  · exact nested_FXAA _ _ _
  · exact nested_Sharpening _ _ _
  · exact nested_ChromaticAberration _ _ _

theorem nested_stage (e : PostEffect) (s : PassState) : Nested s.r (PostLight_stage e s).r := by
  unfold PostLight_stage
  split_ifs
  · exact nested_trans (nested_run e s) (nested_emit _ _ (by rfl))
  · exact nested_refl _

theorem scoped_PostLight (r : Renderer) (a b : RHI_RenderTexture) :
    ScopedPass "Pass_PostLight" r (Pass_PostLight r a b).r := by
  rw [Pass_PostLight_eq_stages]
  right
  simp only [PostLight_end, emit_emit]
  simp only [PostLight_begin]
  exact scoped_wrap "Pass_PostLight" _ _ (by rfl) (by rfl) (by rfl) <|
    nested_trans (nested_trans (nested_trans (nested_trans (nested_trans (nested_trans
    (nested_trans (nested_trans (nested_stage .TAA _)
    (nested_stage .Bloom _)) (nested_stage .MotionBlur _)) (nested_stage .Dithering _))
    (nested_stage .ToneMapping _)) (nested_stage .FXAA _)) (nested_stage .Sharpening _))
    (nested_stage .ChromaticAberration _)) (nested_GammaCorrection _ _ _)

/-! ### The passes with entity loops -/

theorem scopeDepth_gbufferEvents (d : GBufferDraw) (c : BindCache) :
    scopeDepth 0 (d.events c) = some 0 := by
  unfold GBufferDraw.events
  split_ifs <;> rfl

theorem nested_GBuffer_entity (s : Renderer × BindCache) (e : Entity) :
    Nested s.1 (Pass_GBuffer_entity s e).1 := by
  obtain ⟨r, c⟩ := s
  rw [Pass_GBuffer_entity_eq]
  cases e.gbufferDraw with
  | none => exact nested_refl _
  | some d => exact nested_same_trace (nested_emit _ _ (scopeDepth_gbufferEvents d c)) rfl

theorem scoped_GBuffer (r : Renderer) : ScopedPass "Pass_GBuffer" r (Pass_GBuffer r) := by
  unfold Pass_GBuffer
  by_cases hdev : r.m_rhi_device = true
  · by_cases hemp : r.m_entities_ObjectOpaque.isEmpty = true
    · have hemp2 : ∀ (x : Renderer) (evs : List Ev),
          (x.emit evs).m_entities_ObjectOpaque = x.m_entities_ObjectOpaque := fun _ _ => rfl
      simp only [hdev, hemp, hemp2, Bool.not_true, Bool.false_eq_true, if_false, if_true, emit_emit]
      exact Or.inr (scoped_emit _ _ _ rfl rfl)
    · have hemp2 : ∀ (x : Renderer) (evs : List Ev),
          (x.emit evs).m_entities_ObjectOpaque = x.m_entities_ObjectOpaque := fun _ _ => rfl
      simp only [hdev, hemp, hemp2, Bool.not_true, Bool.false_eq_true, if_false, emit_emit,
        List.cons_append, List.nil_append]
      exact Or.inr (scoped_wrap _ _ _ (by rfl) (by rfl) (by rfl)
        (nested_foldl Prod.fst Pass_GBuffer_entity nested_GBuffer_entity _ _))
  · simp only [hdev, Bool.not_false, if_true]
    exact scopedPass_refl _ _

theorem scopeDepth_transparentEvents (d : TransparentDraw) (sh : Nat) :
    scopeDepth 0 (d.events sh) = some 0 := rfl

theorem nested_Transparent_entity (r : Renderer) (e : Entity) :
    Nested r (Pass_Transparent_entity r e) := by
  rw [Pass_Transparent_entity_eq]
  cases e.transparentDraw with
  | none => exact nested_refl _
  | some d => exact nested_same_trace (nested_emit _ _ (scopeDepth_transparentEvents d _)) rfl

theorem scoped_Transparent (r : Renderer) (t : RHI_RenderTexture) :
    ScopedPass "Pass_Transparent" r (Pass_Transparent r t) := by
  unfold Pass_Transparent
  cases hl : r.GetLightDirectional with
  | none => exact scopedPass_refl _ _
  | some l =>
    by_cases hemp : r.m_entities_ObjectTransparent.isEmpty = true
    · simp only [hemp, if_true]
      exact scopedPass_refl _ _
    · simp only [hemp, Bool.false_eq_true, if_false]
      exact Or.inr (scoped_wrap _ _ _ (by rfl) (by rfl) (by rfl)
        (nested_foldl id Pass_Transparent_entity nested_Transparent_entity _ _))

theorem scopeDepth_depthEvents (d : DepthDraw) (i c : Nat) :
    scopeDepth 0 (d.events i c) = some 0 := by
  unfold DepthDraw.events
  split_ifs <;> rfl

theorem nested_Depth_entity (i : Nat) (s : Renderer × Nat) (e : Entity) :
    Nested s.1 (Pass_DepthDirectionalLight_entity i s e).1 := by
  obtain ⟨r, c⟩ := s
  rw [Pass_DepthDirectionalLight_entity_eq]
  cases e.depthDraw with
  | none => exact nested_refl _
  | some d => exact nested_emit _ _ (scopeDepth_depthEvents d i c)

theorem nested_Depth_cascade (sm : RHI_RenderTexture) (es : List Entity) (depth : Rat)
    (s : Renderer × Nat) (i : Nat) :
    Nested s.1 (Pass_DepthDirectionalLight_cascade sm es depth s i).1 := by
  unfold Pass_DepthDirectionalLight_cascade
  exact nested_wrap _ _ _ (by rfl) (by rfl) (by rfl)
    (nested_foldl Prod.fst (Pass_DepthDirectionalLight_entity i) (nested_Depth_entity i) _ _)

theorem scoped_DepthDirectionalLight (r : Renderer) (l : Option Light) :
    ScopedPass "Pass_DepthDirectionalLight" r (Pass_DepthDirectionalLight r l) := by
  unfold Pass_DepthDirectionalLight
  cases l with
  | none => exact scopedPass_refl _ _
  | some l =>
    by_cases hc : l.GetCastShadows = true
    · cases hm : l.GetShadowMap with
      | none =>
        simp only [hc, hm, Bool.not_true, Bool.false_eq_true, if_false]
        exact scopedPass_refl _ _
      | some sm =>
        by_cases hemp : r.m_entities_ObjectOpaque.isEmpty = true
        · simp only [hc, hm, hemp, Bool.not_true, Bool.false_eq_true, if_false, if_true]
          exact scopedPass_refl _ _
        · simp only [hc, hm, hemp, Bool.not_true, Bool.false_eq_true, if_false]
          exact Or.inr (scoped_wrap _ _ _ (by rfl) (by rfl) (by rfl)
            (nested_foldl Prod.fst _ (nested_Depth_cascade sm _ _) _ _))
    · simp only [hc, Bool.not_false, if_true]
      exact scopedPass_refl _ _

/-! ### The overlay passes -/

theorem nested_Lines_aabb (r : Renderer) (e : Entity) : Nested r (Pass_Lines_aabb r e) := by
  unfold Pass_Lines_aabb
  cases e.renderable with
  | none => exact nested_refl _
  | some _ => exact nested_same_trace (nested_refl _) rfl

theorem nested_set_lines_count {r x : Renderer} (n : Nat) (h : Nested r x) :
    Nested r { x with m_vertex_buffer_lines_count := n } := nested_same_trace h rfl

theorem nested_set_depth_enabled {r x : Renderer} (n : Nat) (h : Nested r x) :
    Nested r { x with m_lines_list_depth_enabled := n } := nested_same_trace h rfl

theorem nested_set_depth_disabled {r x : Renderer} (n : Nat) (h : Nested r x) :
    Nested r { x with m_lines_list_depth_disabled := n } := nested_same_trace h rfl

theorem scopedPass_ite {name : String} {r a b : Renderer} (c : Prop) [Decidable c]
    (ha : ScopedPass name r a) (hb : ScopedPass name r b) :
    ScopedPass name r (if c then a else b) := by
  split_ifs
  · exact ha
  · exact hb

theorem scoped_Lines (r : Renderer) (t : RHI_RenderTexture) :
    ScopedPass "Pass_Lines" r (Pass_Lines r t) := by
  simp only [Pass_Lines]
  refine scopedPass_ite _ (scopedPass_refl _ _) (Or.inr ?_)
  · refine scoped_wrap "Pass_Lines" [] _ rfl (by rfl) (by rfl) ?_
    -- lines that do not require depth
    refine nested_trans ?_ (nested_ite _ (nested_set_depth_disabled _ (nested_trans
      (nested_ite _ (nested_set_lines_count _ (nested_emit _ _ (by rfl))) (nested_refl _))
      (nested_emit _ _ (by rfl)))) (nested_refl _))
    refine nested_trans ?_ (nested_emit _ _ (by rfl))
    -- lines that require depth
    refine nested_trans ?_ (nested_ite _ (nested_set_depth_enabled _ (nested_trans
      (nested_ite _ (nested_set_lines_count _ (nested_emit _ _ (by rfl))) (nested_refl _))
      (nested_emit _ _ (by rfl)))) (nested_refl _))
    refine nested_trans ?_ (nested_ite _ (nested_emit _ _ (by rfl)) (nested_refl _))
    refine nested_trans ?_ (nested_emit _ _ (by rfl))
    refine nested_trans ?_ (nested_emit _ _ (by rfl))
    -- generated lines
    refine nested_trans ?_ (nested_ite _ (nested_trans
      (nested_foldl id Pass_Lines_aabb nested_Lines_aabb _ _)
      (nested_foldl id Pass_Lines_aabb nested_Lines_aabb _ _)) (nested_refl _))
    exact nested_ite _ (nested_same_trace (nested_refl _) rfl) (nested_refl _)

theorem nested_Gizmos_light (r : Renderer) (e : LightEntity) :
    Nested r (Pass_Gizmos_light r e) := by
  simp only [Pass_Gizmos_light]
  refine nested_ite _ (nested_refl _) ?_
  refine nested_trans ?_ (nested_emit _ _ (by rfl))
  refine nested_ite _ ?_ (nested_refl _)
  exact nested_trans (nested_same_trace (nested_refl r) rfl) (nested_emit _ _ (by rfl))

theorem scoped_Gizmos (r : Renderer) (t : RHI_RenderTexture) :
    ScopedPass "Pass_Gizmos" r (Pass_Gizmos r t) := by
  simp only [Pass_Gizmos]
  refine scopedPass_ite _ (scopedPass_refl _ _) (Or.inr ?_)
  exact scoped_wrap "Pass_Gizmos" _ _ (by rfl) (by rfl) (by rfl)
    (nested_trans
      -- lights
      (nested_ite _ (nested_scope "Pass_Gizmos_Lights"
        (nested_foldl id Pass_Gizmos_light nested_Gizmos_light _ _)) (nested_refl _))
      -- transform
      (nested_ite _ (nested_trans (nested_emit _ _ (by rfl))
        (nested_ite _ (nested_wrap "Pass_Gizmos_Transform" _ _ (by rfl) (by rfl) (by rfl)
          (nested_trans (nested_emit _ _ (by rfl))
            (nested_ite _ (nested_emit _ _ (by rfl)) (nested_refl _))))
          (nested_refl _))) (nested_refl _)))

/-! ### Scopes along an unchanged trace -/

theorem scoped_same_trace {r x r' : Renderer} {names : List String} (hx : Scoped r x names)
    (h : r'.trace = x.trace) : Scoped r r' names := by
  obtain ⟨a, ha, ha2, ha3⟩ := hx
  exact ⟨a, by rw [h, ha], ha2, ha3⟩

/-! ### Begin and End are balanced -/

theorem scopeDepth_counts {evs : List Ev} {d d' : Nat} (h : scopeDepth d evs = some d') :
    countEnd evs + d' = countBegin evs + d ∧
      ∀ n, countEnd (evs.take n) ≤ countBegin (evs.take n) + d := by
  induction evs generalizing d with
  | nil =>
    simp [scopeDepth] at h
    subst h
    simp [countEnd, countBegin]
  | cons e t ih =>
    rw [scopeDepth] at h
    cases hs : scopeStep d e with
    | none => simp [hs] at h
    | some d1 =>
      rw [hs] at h
      obtain ⟨h1, h2⟩ := ih h
      have hstep : (if e.isEnd then 1 else 0) + d1 = (if e.isBegin then 1 else 0) + d := by
        cases e <;> simp [scopeStep, Ev.isEnd, Ev.isBegin] at hs ⊢ <;> omega
      have hc1 : countEnd (e :: t) = (if e.isEnd then 1 else 0) + countEnd t := by
        simp only [countEnd, List.filter_cons]
        split_ifs <;> simp [Nat.add_comm]
      have hc2 : countBegin (e :: t) = (if e.isBegin then 1 else 0) + countBegin t := by
        simp only [countBegin, List.filter_cons]
        split_ifs <;> simp [Nat.add_comm]
      refine ⟨by rw [hc1, hc2]; omega, ?_⟩
      intro n
      cases n with
      | zero => simp [countEnd, countBegin]
      | succ n =>
        have hn := h2 n
        have hc1' : countEnd (e :: t.take n) = (if e.isEnd then 1 else 0) + countEnd (t.take n) := by
          simp only [countEnd, List.filter_cons]
          split_ifs <;> simp [Nat.add_comm]
        have hc2' : countBegin (e :: t.take n) =
            (if e.isBegin then 1 else 0) + countBegin (t.take n) := by
          simp only [countBegin, List.filter_cons]
          split_ifs <;> simp [Nat.add_comm]
        rw [List.take_succ_cons, hc1', hc2']
        omega

theorem balanced_of_nested {r r' : Renderer} (h : Nested r r') : RecordsBalanced r r' := by
  obtain ⟨evs, ht, hd⟩ := h
  have happ : appended r r' = evs := by simp [appended, ht]
  rw [RecordsBalanced, happ]
  obtain ⟨h1, h2⟩ := scopeDepth_counts hd
  exact ⟨ht, by omega, fun n => by simpa using h2 n⟩

theorem nested_of_scopedPass {name : String} {r r' : Renderer} (h : ScopedPass name r r') :
    Nested r r' := by
  rcases h with h | h <;> exact scoped_nested h

/-! ### Resource id 0 and the bind caches -/

theorem header_noBinds (r : Renderer) :
    noGeometryBind (Pass_GBuffer_header r) = true ∧ noShaderBind (Pass_GBuffer_header r) = true ∧
      noMaterialBind (Pass_GBuffer_header r) = true := by
  refine ⟨?_, ?_, ?_⟩ <;>
    simp only [noGeometryBind, noShaderBind, noMaterialBind, List.all_eq_true] <;>
    intro e he <;> obtain ⟨h1, h2, h3, h4, h5⟩ := header_clean r e he <;> simp [h1, h2, h3, h4, h5]

theorem gbufferEvents_binds (d : GBufferDraw) (c : BindCache) :
    noGeometryBind (d.events c) = decide (c.currently_bound_geometry = d.model.resource_id) ∧
    noShaderBind (d.events c) = decide (c.currently_bound_shader = d.shader.id) ∧
    noMaterialBind (d.events c) = decide (c.currently_bound_material = d.material.resource_id) ∧
    (d.events c).getLast? = some d.drawCall := by
  by_cases hg : c.currently_bound_geometry = d.model.resource_id <;>
  by_cases hs : c.currently_bound_shader = d.shader.id <;>
  by_cases hm : c.currently_bound_material = d.material.resource_id <;>
  simp [noGeometryBind, noShaderBind, noMaterialBind, GBufferDraw.events, hg, hs, hm,
    Ev.isSetBufferIndex, Ev.isSetBufferVertex, Ev.isSetShaderPixel, Ev.isSetTextures,
    Ev.isMaterialBuffer, GBufferDraw.drawCall]

theorem depthEvents_binds (d : DepthDraw) (i c : Nat) :
    noGeometryBind (d.events i c) = decide (c = d.model.resource_id) ∧
    (d.events i c).getLast? = some d.drawCall ∧
    ∃ pre, d.events i c = pre ++ [d.drawCall] ∧ ∀ e ∈ pre, e.isDraw = false := by
  by_cases hg : c = d.model.resource_id
  · refine ⟨?_, ?_, ⟨[.Transform_UpdateConstantBufferLight d.entity i,
      .SetConstantBuffer 1 .Buffer_VertexShader (.transformLight d.entity i)], ?_, ?_⟩⟩ <;>
    simp [noGeometryBind, DepthDraw.events, hg, Ev.isSetBufferIndex, Ev.isSetBufferVertex,
      DepthDraw.drawCall, Ev.isDraw]
  · refine ⟨?_, ?_, ⟨[.SetBufferIndex d.index_buffer, .SetBufferVertex d.vertex_buffer,
      .Transform_UpdateConstantBufferLight d.entity i,
      .SetConstantBuffer 1 .Buffer_VertexShader (.transformLight d.entity i)], ?_, ?_⟩⟩ <;>
    simp [noGeometryBind, DepthDraw.events, hg, Ev.isSetBufferIndex, Ev.isSetBufferVertex,
      DepthDraw.drawCall, Ev.isDraw]

/-- C28: the stretch of trace that ends with the first draw of `Pass_GBuffer` records no
`SetBufferIndex` / `SetBufferVertex` exactly when the first drawn entity has geometry id
0, the value the cache starts with; likewise no `SetShaderPixel` exactly when its shader
id is 0 and no material bind exactly when its material id is 0.  In
`Pass_DepthDirectionalLight` (shadow-casting light, at least one cascade) the stretch that
ends with the first draw records no geometry bind exactly when the first drawn entity has
geometry id 0. -/
theorem C28_zero_id_is_not_bound (r : Renderer) (hdev : r.m_rhi_device = true) :
    (∀ d rest, r.gbufferDrawn = d :: rest →
      ∃ seg, (gbufferSegments r).head? = some seg ∧ seg.getLast? = some d.drawCall ∧
        noGeometryBind seg = decide (d.geometryId = 0) ∧
        noShaderBind seg = decide (d.shaderId = 0) ∧
        noMaterialBind seg = decide (d.materialId = 0)) ∧
    (∀ (light : Light) (sm : RHI_RenderTexture) d rest, light.cast_shadows = true →
      light.shadow_map = some sm → 0 < sm.array_size → r.depthDrawn = d :: rest →
      ∃ seg, (drawSegments (appended r (Pass_DepthDirectionalLight r (some light)))).head? =
          some seg ∧ seg.getLast? = some d.drawCall ∧
        noGeometryBind seg = decide (d.model.resource_id = 0)) := by
  constructor
  · intro d rest hd
    have hne : r.m_entities_ObjectOpaque ≠ [] := by
      intro h
      simp [Renderer.gbufferDrawn, h] at hd
    obtain ⟨hg, hs, hm, hl⟩ := gbufferEvents_binds d ⟨0, 0, 0⟩
    obtain ⟨h1, h2, h3⟩ := header_noBinds r
    refine ⟨Pass_GBuffer_header r ++ d.events ⟨0, 0, 0⟩, ?_, ?_, ?_, ?_, ?_⟩
    · unfold gbufferSegments drawSegments
      rw [appended_Pass_GBuffer r hdev hne, drawSegments_go_nodraw _ (header_nodraw r), hd,
        gbufferLoop, List.append_assoc, drawSegments_go_events]
      simp
    · rw [List.getLast?_append, hl]; rfl
    · have : noGeometryBind (Pass_GBuffer_header r ++ d.events ⟨0, 0, 0⟩) =
          (noGeometryBind (Pass_GBuffer_header r) && noGeometryBind (d.events ⟨0, 0, 0⟩)) := by
        simp [noGeometryBind, List.all_append]
      rw [this, h1, hg]
      simp [GBufferDraw.geometryId, Model.GetResourceId, eq_comm]
    · have : noShaderBind (Pass_GBuffer_header r ++ d.events ⟨0, 0, 0⟩) =
          (noShaderBind (Pass_GBuffer_header r) && noShaderBind (d.events ⟨0, 0, 0⟩)) := by
        simp [noShaderBind, List.all_append]
      rw [this, h2, hs]
      simp [GBufferDraw.shaderId, RHI_Shader.RHI_GetID, eq_comm]
    · have : noMaterialBind (Pass_GBuffer_header r ++ d.events ⟨0, 0, 0⟩) =
          (noMaterialBind (Pass_GBuffer_header r) && noMaterialBind (d.events ⟨0, 0, 0⟩)) := by
        simp [noMaterialBind, List.all_append]
      rw [this, h3, hm]
      simp [GBufferDraw.materialId, Material.GetResourceId, eq_comm]
  · intro light sm d rest hcast hmap hN hd
    have hne : r.m_entities_ObjectOpaque ≠ [] := by
      intro h
      simp [Renderer.depthDrawn, h] at hd
    obtain ⟨hg, hl, pre, hpre, hnd⟩ := depthEvents_binds d 0 0
    obtain ⟨n, hn⟩ : ∃ n, sm.array_size = n + 1 := ⟨sm.array_size - 1, by omega⟩
    have happ : appended r (Pass_DepthDirectionalLight r (some light)) =
        Pass_DepthDirectionalLight_header r sm ++
          (cascades sm r.clear_depth r.depthDrawn 0 sm.array_size 0 ++ [.End, .Submit, .Clear]) := by
      rw [Pass_DepthDirectionalLight_runs r light sm hcast hmap hne]
      simp [appended, Renderer.emit]
    let hdr : List Ev := Pass_DepthDirectionalLight_header r sm ++
      [ .Begin ("Cascade_" ++ toString (0 + 1)),
        .SetRenderTarget (sm.GetRenderTargetView 0) (some sm.GetDepthStencilView),
        .ClearDepthStencil sm.GetDepthStencilView .Clear_Depth r.clear_depth ]
    have hhdr : ∀ e ∈ hdr, e.isDraw = false ∧ e.isSetBufferIndex = false ∧
        e.isSetBufferVertex = false := by
      intro e he
      simp only [hdr, Pass_DepthDirectionalLight_header, List.cons_append, List.nil_append,
        List.mem_cons, List.mem_singleton, List.not_mem_nil, or_false] at he
      rcases he with h | h | h | h | h | h | h | h | h | h | h | h | h | h | h <;>
        subst h <;> exact ⟨rfl, rfl, rfl⟩
    refine ⟨hdr ++ d.events 0 0, ?_, ?_, ?_⟩
    · rw [happ, hn, hd, cascades, cascadeBlock, depthLoop, hpre]
      have : Pass_DepthDirectionalLight_header r sm ++
          (([ Ev.Begin ("Cascade_" ++ toString (0 + 1)),
              Ev.SetRenderTarget (sm.GetRenderTargetView 0) (some sm.GetDepthStencilView),
              Ev.ClearDepthStencil sm.GetDepthStencilView .Clear_Depth r.clear_depth ] ++
            (pre ++ [d.drawCall] ++ depthLoop 0 d.model.resource_id rest) ++ [Ev.End]) ++
            cascades sm r.clear_depth (d :: rest) (0 + 1) n
              (depthLoopCache 0 (d :: rest)) ++ [Ev.End, Ev.Submit, Ev.Clear]) =
          (hdr ++ pre) ++ (d.drawCall :: ((depthLoop 0 d.model.resource_id rest ++ [Ev.End]) ++
            cascades sm r.clear_depth (d :: rest) (0 + 1) n
              (depthLoopCache 0 (d :: rest)) ++ [Ev.End, Ev.Submit, Ev.Clear])) := by
        simp [hdr, List.append_assoc]
      rw [this, drawSegments, drawSegments_go_nodraw]
      · simp [drawSegments.go, DepthDraw.drawCall, Ev.isDraw, List.append_assoc]
      · intro e he
        rcases List.mem_append.1 he with h | h
        · exact (hhdr e h).1
        · exact hnd e h
    · rw [List.getLast?_append, hl]; rfl
    · have : noGeometryBind (hdr ++ d.events 0 0) =
          (noGeometryBind hdr && noGeometryBind (d.events 0 0)) := by
        simp [noGeometryBind, List.all_append]
      have h1 : noGeometryBind hdr = true := by
        simp only [noGeometryBind, List.all_eq_true]
        intro e he
        simp [(hhdr e he).2.1, (hhdr e he).2.2]
      rw [this, h1, hg]
      simp [eq_comm]

theorem C28_zero_id_is_not_bound_witness :
    exampleSceneZero.m_rhi_device = true ∧
    (∃ seg, (gbufferSegments exampleSceneZero).head? = some seg ∧
      seg.getLast? = some (.DrawIndexed 36 0 0) ∧
      noGeometryBind seg = true ∧ noShaderBind seg = true ∧ noMaterialBind seg = true) ∧
    (∃ seg, (drawSegments (appended exampleSceneZero
        (Pass_DepthDirectionalLight exampleSceneZero (some (exampleLight 3))))).head? = some seg ∧
      seg.getLast? = some (.DrawIndexed 36 0 0) ∧ noGeometryBind seg = true) := by
  obtain ⟨seg, h1, h2, h3, h4, h5⟩ :=
    (C28_zero_id_is_not_bound exampleSceneZero rfl).1 _ _ rfl
  obtain ⟨seg', k1, k2, k3⟩ :=
    (C28_zero_id_is_not_bound exampleSceneZero rfl).2 (exampleLight 3) _ _ _ rfl rfl
      (by decide) rfl
  exact ⟨rfl, ⟨seg, h1, h2, h3, h4, h5⟩, ⟨seg', k1, k2, k3⟩⟩

/-! ### The cascades draw the same entities -/

/-- The shadow depth loop draws the entities that pass `passesDepthTests`; the drawn entity
keeps the entity's id and its draw is that of the renderable. -/
theorem depthDraw_spec (e : Entity) :
    match e.depthDraw with
    | none => e.passesDepthTests = false
    | some d => e.passesDepthTests = true ∧ e.drawCall = some d.drawCall ∧ d.entity = e.id := by
  unfold Entity.depthDraw Entity.passesDepthTests Entity.drawCall
  cases hren : e.renderable with
  | none => simp
  | some ren =>
    cases hmat : ren.material with
    | none => simp [hmat]
    | some mat =>
      cases hmod : ren.model with
      | none => simp [hmat, hmod]
      | some mod =>
        cases hvb : mod.vertex_buffer with
        | none => simp [hmat, hmod, hvb]
        | some vb =>
          cases hib : mod.index_buffer with
          | none => simp [hmat, hmod, hvb, hib]
          | some ib =>
            have hlt : (mat.color_albedo.w < 1) = (mat.color_albedo.w.lt 1 = true) := rfl
            by_cases hc : ren.cast_shadows = true <;>
            by_cases ha : mat.color_albedo.w.lt 1 = true <;>
            simp [hmat, hmod, hvb, hib, hc, hlt, ha, DepthDraw.drawCall]

theorem depthDrawn_drawCalls (es : List Entity) :
    (es.filterMap Entity.depthDraw).map DepthDraw.drawCall =
      (es.filter Entity.passesDepthTests).filterMap Entity.drawCall := by
  induction es with
  | nil => rfl
  | cons e es ih =>
    have h := depthDraw_spec e
    cases hd : e.depthDraw with
    | none =>
      rw [hd] at h
      simp [List.filterMap_cons, hd, List.filter_cons, h, ih]
    | some d =>
      rw [hd] at h
      simp [List.filterMap_cons, hd, List.filter_cons, h.1, h.2.1, ih]

theorem depthDrawn_length (es : List Entity) :
    (es.filterMap Entity.depthDraw).length = (es.filter Entity.passesDepthTests).length := by
  induction es with
  | nil => rfl
  | cons e es ih =>
    have h := depthDraw_spec e
    cases hd : e.depthDraw with
    | none =>
      rw [hd] at h
      simp [List.filterMap_cons, hd, List.filter_cons, h, ih]
    | some d =>
      rw [hd] at h
      simp [List.filterMap_cons, hd, List.filter_cons, h.1, ih]

theorem depthDrawn_lightBinds (es : List Entity) (i : Nat) :
    (es.filterMap Entity.depthDraw).flatMap (fun d =>
        [Ev.SetConstantBuffer 1 .Buffer_VertexShader (.transformLight d.entity i), d.drawCall]) =
      (es.filter Entity.passesDepthTests).flatMap (Entity.lightBindAndDraw i) := by
  induction es with
  | nil => rfl
  | cons e es ih =>
    have h := depthDraw_spec e
    cases hd : e.depthDraw with
    | none =>
      rw [hd] at h
      simp [List.filterMap_cons, hd, List.filter_cons, h, ih]
    | some d =>
      rw [hd] at h
      simp [List.filterMap_cons, hd, List.filter_cons, h.1, h.2.1, h.2.2, ih,
        Entity.lightBindAndDraw]

theorem depthEvents_filters (d : DepthDraw) (i c : Nat) :
    (d.events i c).filter Ev.isDraw = [d.drawCall] ∧
    (d.events i c).filter Ev.isDrawOrVsSlot1 =
      [.SetConstantBuffer 1 .Buffer_VertexShader (.transformLight d.entity i), d.drawCall] := by
  by_cases hg : c = d.model.resource_id <;>
    simp [DepthDraw.events, hg, Ev.isDraw, Ev.isDrawOrVsSlot1, DepthDraw.drawCall]

theorem depthLoop_filters (ds : List DepthDraw) (i c : Nat) :
    (depthLoop i c ds).filter Ev.isDraw = ds.map DepthDraw.drawCall ∧
    (depthLoop i c ds).filter Ev.isDrawOrVsSlot1 = ds.flatMap (fun d =>
      [.SetConstantBuffer 1 .Buffer_VertexShader (.transformLight d.entity i), d.drawCall]) := by
  induction ds generalizing c with
  | nil => exact ⟨rfl, rfl⟩
  | cons d ds ih =>
    obtain ⟨h1, h2⟩ := depthEvents_filters d i c
    obtain ⟨k1, k2⟩ := ih d.model.resource_id
    constructor
    · rw [depthLoop, List.filter_append, h1, k1]; rfl
    · rw [depthLoop, List.filter_append, h2, k2]; rfl

theorem cascadeBlock_filters (sm : RHI_RenderTexture) (depth : Rat) (ds : List DepthDraw)
    (i c : Nat) :
    (cascadeBlock sm depth i (depthLoop i c ds)).filter Ev.isDraw = ds.map DepthDraw.drawCall ∧
    (cascadeBlock sm depth i (depthLoop i c ds)).filter Ev.isDrawOrVsSlot1 = ds.flatMap (fun d =>
      [.SetConstantBuffer 1 .Buffer_VertexShader (.transformLight d.entity i), d.drawCall]) := by
  obtain ⟨h1, h2⟩ := depthLoop_filters ds i c
  constructor
  · simp [cascadeBlock, List.filter_append, h1, Ev.isDraw]
  · simp [cascadeBlock, List.filter_append, h2, Ev.isDrawOrVsSlot1]

/-- The sub-scopes of a run of cascades, with the entity loop of each. -/
theorem subScopes_go_cascades_loops (sm : RHI_RenderTexture) (depth : Rat) (ds : List DepthDraw)
    (n i c : Nat) :
    ∀ k, k < n → ∃ c',
      (subScopes.go 1 [] (cascades sm depth ds i n c ++ [.End, .Submit, .Clear]))[k]? =
        some (cascadeBlock sm depth (i + k) (depthLoop (i + k) c' ds)) := by
  induction n generalizing i c with
  | zero => intro k hk; omega
  | succ n ih =>
    rw [cascades, List.append_assoc,
      subScopes_go_cascadeBlock sm depth i _ (depthLoop_inCascadeBody ds i c)]
    intro k hkn
    cases k with
    | zero => exact ⟨c, by simp⟩
    | succ k =>
      obtain ⟨c', hb⟩ := ih (i + 1) (depthLoopCache c ds) k (by omega)
      exact ⟨c', by simpa [Nat.add_assoc, Nat.add_comm 1 k] using hb⟩

theorem cascades_draw_count (sm : RHI_RenderTexture) (depth : Rat) (ds : List DepthDraw)
    (n i c : Nat) :
    ((cascades sm depth ds i n c).filter Ev.isDraw).length = n * ds.length := by
  induction n generalizing i c with
  | zero => simp [cascades]
  | succ n ih =>
    rw [cascades, List.filter_append, List.length_append, ih,
      (cascadeBlock_filters sm depth ds i c).1, List.length_map]
    ring

theorem float_ge_one (w : Float32) : decide (w ≥ 1) = Float32.le 1 w :=
  Bool.decide_eq_true

theorem float_not_lt_one (w : Float32) (h : w ≠ .NaN) : (!(w.lt 1)) = decide (w ≥ 1) := by
  rw [float_ge_one]
  cases w with
  | NaN => exact absurd rfl h
  | neg_infinity => rfl
  | infinity => rfl
  | finite v =>
    show (!(decide (v < ((1 : Nat) : Rat)))) = decide (((1 : Nat) : Rat) ≤ v)
    have hc : ((1 : Nat) : Rat) = 1 := Nat.cast_one
    rw [hc]
    by_cases hv : v < 1
    · simp [hv]
    · simp [hv, not_lt.1 hv]

/-- But for a NaN alpha, the tests of the depth loop are those of the claim. -/
theorem passesDepthTests_claimed (e : Entity)
    (h : ∀ ren mat, e.renderable = some ren → ren.material = some mat →
      mat.color_albedo.w ≠ .NaN) :
    e.passesDepthTests = e.passesClaimedDepthTests := by
  unfold Entity.passesDepthTests Entity.passesClaimedDepthTests
  cases hren : e.renderable with
  | none => rfl
  | some ren =>
    cases hmat : ren.material with
    | none => simp [hmat]
    | some mat => simp only [hmat, float_not_lt_one _ (h ren mat hren hmat)]

/-- C23 (amended): for a directional light that casts shadows into a shadow map of array
size N (non-empty opaque bucket), the draws inside the sub-scope of every cascade i < N
are, in bucket order, the draw calls of exactly the opaque entities that have a renderable,
a material, complete geometry, the cast-shadows flag and an albedo alpha that is not below
1 (the float comparison `alpha < 1.0f` is false: alpha is at least 1 or NaN); among the
draws and the constant-buffer binds at vertex-shader slot 1 of sub-scope i, each draw is
directly preceded by the bind of that entity's light constant buffer of index i; the pass
records N times as many draws as there are such entities; and for an entity whose alpha is
not NaN the tests are those of the claim, with "alpha >= 1.0". -/
theorem C23_cascades_same_entities (r : Renderer) (light : Light) (sm : RHI_RenderTexture)
    (hcast : light.cast_shadows = true) (hmap : light.shadow_map = some sm)
    (hne : r.m_entities_ObjectOpaque ≠ []) :
    (∀ i, i < sm.array_size → ∃ scope,
      (subScopes (appended r (Pass_DepthDirectionalLight r (some light))))[i]? = some scope ∧
      scope.filter Ev.isDraw =
        (r.m_entities_ObjectOpaque.filter Entity.passesDepthTests).filterMap Entity.drawCall ∧
      scope.filter Ev.isDrawOrVsSlot1 =
        (r.m_entities_ObjectOpaque.filter Entity.passesDepthTests).flatMap
          (Entity.lightBindAndDraw i)) ∧
    ((appended r (Pass_DepthDirectionalLight r (some light))).filter Ev.isDraw).length =
      sm.array_size * (r.m_entities_ObjectOpaque.filter Entity.passesDepthTests).length ∧
    (∀ e : Entity,
      (∀ ren mat, e.renderable = some ren → ren.material = some mat →
        mat.color_albedo.w ≠ .NaN) →
      e.passesDepthTests = e.passesClaimedDepthTests) := by
  have happ : appended r (Pass_DepthDirectionalLight r (some light)) =
      Pass_DepthDirectionalLight_header r sm ++
        (cascades sm r.clear_depth r.depthDrawn 0 sm.array_size 0 ++ [.End, .Submit, .Clear]) := by
    rw [Pass_DepthDirectionalLight_runs r light sm hcast hmap hne]
    simp [appended, Renderer.emit]
  have hhdr : ∀ rest, subScopes.go 0 [] (Pass_DepthDirectionalLight_header r sm ++ rest) =
      subScopes.go 1 [] rest := by
    intro rest
    simp [Pass_DepthDirectionalLight_header, subScopes.go]
  refine ⟨?_, ?_, passesDepthTests_claimed⟩
  · intro i hi
    rw [happ, subScopes, hhdr]
    obtain ⟨c', hc'⟩ := subScopes_go_cascades_loops sm r.clear_depth r.depthDrawn
      sm.array_size 0 0 i hi
    rw [Nat.zero_add] at hc'
    obtain ⟨h1, h2⟩ := cascadeBlock_filters sm r.clear_depth r.depthDrawn i c'
    refine ⟨_, hc', ?_, ?_⟩
    · rw [h1, Renderer.depthDrawn, depthDrawn_drawCalls]
    · rw [h2, Renderer.depthDrawn, depthDrawn_lightBinds]
  · rw [happ, List.filter_append, List.filter_append, List.length_append, List.length_append,
      cascades_draw_count, Renderer.depthDrawn, depthDrawn_length]
    simp [Pass_DepthDirectionalLight_header, Ev.isDraw]

theorem C23_cascades_same_entities_witness :
    ((appended exampleShadowScene (Pass_DepthDirectionalLight exampleShadowScene
        (some (exampleLight 3)))).filter Ev.isDraw).length = 3 * 2 ∧
    ∃ scope, (subScopes (appended exampleShadowScene (Pass_DepthDirectionalLight
        exampleShadowScene (some (exampleLight 3)))))[2]? = some scope ∧
      scope.filter Ev.isDrawOrVsSlot1 =
        [ .SetConstantBuffer 1 .Buffer_VertexShader (.transformLight 1 2), .DrawIndexed 36 0 0,
          .SetConstantBuffer 1 .Buffer_VertexShader (.transformLight 2 2), .DrawIndexed 36 0 0 ] := by
  have h := C23_cascades_same_entities exampleShadowScene (exampleLight 3) _ rfl rfl (by decide)
  obtain ⟨scope, h1, -, h3⟩ := h.1 2 (by decide)
  exact ⟨h.2.1.trans (by decide), scope, h1, h3.trans (by decide)⟩

/-- C23 (counterexample): an opaque entity that casts shadows and has a NaN albedo alpha
fails the test "alpha >= 1.0" and is drawn in every cascade: the comparison
`alpha < 1.0f` that skips an entity is false for NaN. -/
theorem C23_nan_alpha_is_drawn :
    (exampleSceneNaN.m_entities_ObjectOpaque.filter Entity.passesClaimedDepthTests).map Entity.id
      = [1] ∧
    (exampleSceneNaN.m_entities_ObjectOpaque.filter Entity.passesDepthTests).map Entity.id
      = [1, 2] ∧
    ((subScopes (appended exampleSceneNaN (Pass_DepthDirectionalLight exampleSceneNaN
        (some (exampleLight 3))))).map (fun scope => scope.filter Ev.isDrawOrVsSlot1)) =
      [ [ .SetConstantBuffer 1 .Buffer_VertexShader (.transformLight 1 0), .DrawIndexed 36 0 0,
          .SetConstantBuffer 1 .Buffer_VertexShader (.transformLight 2 0), .DrawIndexed 36 0 0 ],
        [ .SetConstantBuffer 1 .Buffer_VertexShader (.transformLight 1 1), .DrawIndexed 36 0 0,
          .SetConstantBuffer 1 .Buffer_VertexShader (.transformLight 2 1), .DrawIndexed 36 0 0 ],
        [ .SetConstantBuffer 1 .Buffer_VertexShader (.transformLight 1 2), .DrawIndexed 36 0 0,
          .SetConstantBuffer 1 .Buffer_VertexShader (.transformLight 2 2), .DrawIndexed 36 0 0 ] ] ∧
    ((appended exampleSceneNaN (Pass_DepthDirectionalLight exampleSceneNaN
        (some (exampleLight 3)))).filter Ev.isDraw).length = 6 ∧
    3 * (exampleSceneNaN.m_entities_ObjectOpaque.filter Entity.passesClaimedDepthTests).length
      = 3 := by
  refine ⟨by decide, by decide, by decide, by decide, by decide⟩

/-! ### Render-target views of the shadow depth pass -/

theorem requestedViews_append (a b : List Ev) :
    requestedViews (a ++ b) = requestedViews a ++ requestedViews b := by
  simp [requestedViews, List.flatMap_append]

theorem depthLoop_views (ds : List DepthDraw) (i c : Nat) : requestedViews (depthLoop i c ds) = [] := by
  simp only [requestedViews, List.flatMap_eq_nil_iff]
  intro e he
  have h := depthLoop_inCascadeBody ds i c e he
  cases e <;> first | rfl | (simp [Ev.inCascadeBody] at h)

theorem cascades_views (sm : RHI_RenderTexture) (depth : Rat) (ds : List DepthDraw)
    (n i c : Nat) :
    requestedViews (cascades sm depth ds i n c) =
      (List.range' i n).map sm.GetRenderTargetView := by
  induction n generalizing i c with
  | zero => simp [cascades, requestedViews]
  | succ n ih =>
    rw [cascades, requestedViews_append, ih, cascadeBlock, requestedViews_append,
      requestedViews_append, depthLoop_views, List.range'_succ]
    simp [requestedViews, Ev.views]

/-- The views the shadow depth pass asks for: 0, 1, 2 for the initial clears whatever the
array size, then one per cascade. -/
theorem depthPass_views (r : Renderer) (light : Light) (sm : RHI_RenderTexture)
    (hcast : light.cast_shadows = true) (hmap : light.shadow_map = some sm)
    (hne : r.m_entities_ObjectOpaque ≠ []) :
    requestedViews (appended r (Pass_DepthDirectionalLight r (some light))) =
      [sm.GetRenderTargetView 0, sm.GetRenderTargetView 1, sm.GetRenderTargetView 2] ++
        (List.range sm.array_size).map sm.GetRenderTargetView := by
  have happ : appended r (Pass_DepthDirectionalLight r (some light)) =
      Pass_DepthDirectionalLight_header r sm ++
        (cascades sm r.clear_depth r.depthDrawn 0 sm.array_size 0 ++ [.End, .Submit, .Clear]) := by
    rw [Pass_DepthDirectionalLight_runs r light sm hcast hmap hne]
    simp [appended, Renderer.emit]
  rw [happ, requestedViews_append, requestedViews_append, cascades_views, List.range_eq_range']
  simp [requestedViews, Ev.views, Pass_DepthDirectionalLight_header]

/-- C27 (the code at the failing input): for every shadow-casting light and non-empty
opaque bucket the pass asks for views 0, 1 and 2 of the shadow map for its initial clears,
whatever the array size N, and then for view i in cascade i < N; so with N at least 3 every
index is below N, and with a shadow map of a single cascade (N = 1) the pass asks for
views 1 and 2, which are not below N. -/
theorem C27_clears_views_beyond_array_size :
    (∀ (r : Renderer) (light : Light) (sm : RHI_RenderTexture), light.cast_shadows = true →
      light.shadow_map = some sm → r.m_entities_ObjectOpaque ≠ [] →
      (requestedViews (appended r (Pass_DepthDirectionalLight r (some light)))).map
          RenderTargetView.index = [0, 1, 2] ++ List.range sm.array_size ∧
      (3 ≤ sm.array_size → ∀ v ∈ requestedViews (appended r (Pass_DepthDirectionalLight r
        (some light))), v.index < sm.array_size)) ∧
    (exampleLight 1).shadow_map.map RHI_RenderTexture.array_size = some 1 ∧
    (requestedViews (appended exampleSceneOneCascade (Pass_DepthDirectionalLight
        exampleSceneOneCascade (some (exampleLight 1))))).map RenderTargetView.index =
      [0, 1, 2, 0] ∧
    ¬ ∀ v ∈ requestedViews (appended exampleSceneOneCascade (Pass_DepthDirectionalLight
        exampleSceneOneCascade (some (exampleLight 1)))), v.index < 1 := by
  refine ⟨?_, rfl, ?_, ?_⟩
  · intro r light sm hcast hmap hne
    have h := depthPass_views r light sm hcast hmap hne
    have hidx : (requestedViews (appended r (Pass_DepthDirectionalLight r (some light)))).map
        RenderTargetView.index = [0, 1, 2] ++ List.range sm.array_size := by
      rw [h]
      simp [RHI_RenderTexture.GetRenderTargetView, List.map_map, Function.comp_def]
    refine ⟨hidx, ?_⟩
    intro h3 v hv
    have : v.index ∈ [0, 1, 2] ++ List.range sm.array_size := by
      rw [← hidx]; exact List.mem_map_of_mem _ hv
    simp only [List.mem_append, List.mem_cons, List.mem_singleton, List.not_mem_nil, or_false,
      List.mem_range] at this
    omega
  · rw [depthPass_views exampleSceneOneCascade (exampleLight 1) _ rfl rfl (by decide)]
    decide
  · rw [depthPass_views exampleSceneOneCascade (exampleLight 1) _ rfl rfl (by decide)]
    decide

/-! ### The two directions of the Gaussian blurs -/

/-- What `Pass_BlurGaussian` records on matching textures, as far as the two directions
are concerned: the buffers of `m_ps_blur_gaussian` are updated, those of
`m_ps_blur_gaussian_bilateral` are bound, and both sub-scopes have the same label. -/
theorem Pass_BlurGaussian_directions (r : Renderer) (a b : RHI_RenderTexture) (sigma stride : Rat)
    (hm : texturesMatch a b = true) :
    (appended r (Pass_BlurGaussian r a b sigma stride).r).filter Ev.isBlurStep =
      [ .UpdateBuffer r.m_ps_blur_gaussian.id 0 (.Struct_Blur stride 0 sigma),
        .SetConstantBuffer 1 .Buffer_PixelShader (.shader r.m_ps_blur_gaussian_bilateral.id 0),
        .DrawIndexed r.m_quad.index_count 0 0,
        .UpdateBuffer r.m_ps_blur_gaussian.id 1 (.Struct_Blur 0 stride sigma),
        .SetConstantBuffer 1 .Buffer_PixelShader (.shader r.m_ps_blur_gaussian_bilateral.id 1),
        .DrawIndexed r.m_quad.index_count 0 0 ] ∧
    scopeNamesAt 1 0 (appended r (Pass_BlurGaussian r a b sigma stride).r) =
      ["Pass_BlurBilateralGaussian_Horizontal", "Pass_BlurBilateralGaussian_Horizontal"] ∧
    (appended r (Pass_BlurGaussian r a b sigma stride).r).filterMap Ev.pixelShaderSet =
      [r.m_ps_blur_gaussian] := by
  have hn : ¬ (a.width ≠ b.width ∨ a.height ≠ b.height ∨ a.format ≠ b.format) := by
    simp only [texturesMatch, decide_eq_true_eq] at hm
    simp [hm.1, hm.2.1, hm.2.2]
  refine ⟨?_, ?_, ?_⟩ <;>
    simp [Pass_BlurGaussian, hn, appended, Renderer.emit, Ev.isBlurStep, scopeNamesAt, Ev.nameAt,
      Ev.depthAfter, Ev.pixelShaderSet]

/-- The same reading of `Pass_BlurBilateralGaussian`: it updates and binds the buffers of
the one shader it sets, and labels its sub-scopes horizontal and vertical. -/
theorem Pass_BlurBilateralGaussian_directions (r : Renderer) (a b : RHI_RenderTexture)
    (sigma stride : Rat) (hm : texturesMatch a b = true) :
    (appended r (Pass_BlurBilateralGaussian r a b sigma stride).r).filter Ev.isBlurStep =
      [ .UpdateBuffer r.m_ps_blur_gaussian_bilateral.id 0 (.Struct_Blur stride 0 sigma),
        .SetConstantBuffer 1 .Buffer_PixelShader (.shader r.m_ps_blur_gaussian_bilateral.id 0),
        .DrawIndexed r.m_quad.index_count 0 0,
        .UpdateBuffer r.m_ps_blur_gaussian_bilateral.id 1 (.Struct_Blur 0 stride sigma),
        .SetConstantBuffer 1 .Buffer_PixelShader (.shader r.m_ps_blur_gaussian_bilateral.id 1),
        .DrawIndexed r.m_quad.index_count 0 0 ] ∧
    scopeNamesAt 1 0 (appended r (Pass_BlurBilateralGaussian r a b sigma stride).r) =
      ["Pass_BlurBilateralGaussian_Horizontal", "Pass_BlurBilateralGaussian_Vertical"] ∧
    (appended r (Pass_BlurBilateralGaussian r a b sigma stride).r).filterMap Ev.pixelShaderSet =
      [r.m_ps_blur_gaussian_bilateral] := by
  have hn : ¬ (a.width ≠ b.width ∨ a.height ≠ b.height ∨ a.format ≠ b.format) := by
    simp only [texturesMatch, decide_eq_true_eq] at hm
    simp [hm.1, hm.2.1, hm.2.2]
  refine ⟨?_, ?_, ?_⟩ <;>
    simp [Pass_BlurBilateralGaussian, hn, appended, Renderer.emit, Ev.isBlurStep, scopeNamesAt,
      Ev.nameAt, Ev.depthAfter, Ev.pixelShaderSet]

/-- C29 (the code at the failing input): `Pass_BlurGaussian` on the example renderer and
two matching textures sets the pixel shader `m_ps_blur_gaussian` (id 11) and updates its
buffers 0 and 1, but the buffers bound at pixel-shader slot 1 for the two draws are those
of `m_ps_blur_gaussian_bilateral` (id 12), and both direction sub-scopes are labelled
"Pass_BlurBilateralGaussian_Horizontal". -/
theorem C29_BlurGaussian_binds_other_shader :
    texturesMatch (exampleTexture 9) (exampleTexture 10) = true ∧
    (appended exampleRenderer (Pass_BlurGaussian exampleRenderer (exampleTexture 9)
        (exampleTexture 10) 2 1).r).filterMap Ev.pixelShaderSet = [⟨11, Shader_Compiled⟩] ∧
    (appended exampleRenderer (Pass_BlurGaussian exampleRenderer (exampleTexture 9)
        (exampleTexture 10) 2 1).r).filterMap Ev.updatedShader = [11, 11] ∧
    (appended exampleRenderer (Pass_BlurGaussian exampleRenderer (exampleTexture 9)
        (exampleTexture 10) 2 1).r).filterMap Ev.psSlot1Shader = [12, 12] ∧
    scopeNamesAt 1 0 (appended exampleRenderer (Pass_BlurGaussian exampleRenderer
        (exampleTexture 9) (exampleTexture 10) 2 1).r) =
      ["Pass_BlurBilateralGaussian_Horizontal", "Pass_BlurBilateralGaussian_Horizontal"] := by
  refine ⟨by decide, ?_, ?_, ?_, ?_⟩ <;>
    simp [Pass_BlurGaussian, exampleTexture, appended, Renderer.emit, exampleRenderer,
      Ev.pixelShaderSet, Ev.updatedShader, Ev.psSlot1Shader, scopeNamesAt, Ev.nameAt,
      Ev.depthAfter]

/-! ## C30: the blurs ping-pong between their two textures -/

theorem Pass_BlurBilateralGaussian_reads (r : Renderer) (A B : RHI_RenderTexture) (sigma pixel_stride : Rat)
    (h : texturesMatch A B = true) :
    drawReads (appended r (Pass_BlurBilateralGaussian r A B sigma pixel_stride).r) =
        [ readsWrites [A, r.m_g_buffer_depth, r.m_g_buffer_normal] B,
          readsWrites [B, r.m_g_buffer_depth, r.m_g_buffer_normal] A ] ∧
      (Pass_BlurBilateralGaussian r A B sigma pixel_stride).tex_in = B ∧
      (Pass_BlurBilateralGaussian r A B sigma pixel_stride).tex_out = A := by
  simp only [texturesMatch, decide_eq_true_eq] at h
  obtain ⟨h1, h2, h3⟩ := h
  simp [Pass_BlurBilateralGaussian, h1, h2, h3, appended, Renderer.emit, drawReads, drawReadsFrom,
    SlotState.step, SlotState.unbound, writeSlots, Ev.isDraw, readsWrites]

theorem Pass_BlurGaussian_reads (r : Renderer) (A B : RHI_RenderTexture) (sigma pixel_stride : Rat)
    (h : texturesMatch A B = true) :
    drawReads (appended r (Pass_BlurGaussian r A B sigma pixel_stride).r) =
        [readsWrites [A] B, readsWrites [B] A] ∧
      (Pass_BlurGaussian r A B sigma pixel_stride).tex_in = B ∧
      (Pass_BlurGaussian r A B sigma pixel_stride).tex_out = A := by
  simp only [texturesMatch, decide_eq_true_eq] at h
  obtain ⟨h1, h2, h3⟩ := h
  simp [Pass_BlurGaussian, h1, h2, h3, appended, Renderer.emit, drawReads, drawReadsFrom,
    SlotState.step, SlotState.unbound, writeSlots, Ev.isDraw, readsWrites]

theorem Pass_Bloom_reads (r : Renderer) (tex_in tex_out : RHI_RenderTexture)
    (h : texturesMatch r.m_render_tex_quarter_blur2 r.m_render_tex_quarter_blur1 = true) :
    drawReads (appended r (Pass_Bloom r tex_in tex_out)) =
      [ readsWrites [tex_in] r.m_render_tex_quarter_blur1,
        readsWrites [r.m_render_tex_quarter_blur1] r.m_render_tex_quarter_blur2,
        readsWrites [r.m_render_tex_quarter_blur2] r.m_render_tex_quarter_blur1,
        readsWrites [r.m_render_tex_quarter_blur1] r.m_render_tex_quarter_blur2,
        readsWrites [tex_in, r.m_render_tex_quarter_blur2] tex_out ] := by
  simp only [texturesMatch, decide_eq_true_eq] at h
  obtain ⟨h1, h2, h3⟩ := h
  simp [Pass_Bloom, Pass_BlurGaussian, h1, h2, h3, appended, Renderer.emit, drawReads, drawReadsFrom,
    SlotState.step, SlotState.unbound, writeSlots, Ev.isDraw, readsWrites]

/-! ## C22: no draw of a post-process pass writes a texture it reads -/

theorem Pass_MotionBlur_avoids (r : Renderer) (a b : RHI_RenderTexture) (h : PoolDistinct r a b) :
    drawsAvoidInputs (appended r (Pass_MotionBlur r a b)) := by
  simp only [PoolDistinct, List.nodup_cons, List.mem_cons, List.mem_singleton, not_or, List.not_mem_nil,
    not_false_eq_true, List.nodup_nil, and_true] at h
  simp [drawsAvoidInputs, Pass_MotionBlur, appended, Renderer.emit, drawReads, drawReadsFrom,
    SlotState.step, SlotState.unbound, writeSlots, Ev.isDraw, SlotState.writesBoundTexture,
    RHI_RenderTexture.GetRenderTargetView, RHI_RenderTexture.GetShaderResource]
  tauto

theorem Pass_Dithering_avoids (r : Renderer) (a b : RHI_RenderTexture) (h : PoolDistinct r a b) :
    drawsAvoidInputs (appended r (Pass_Dithering r a b)) := by
  simp only [PoolDistinct, List.nodup_cons, List.mem_cons, List.mem_singleton, not_or, List.not_mem_nil,
    not_false_eq_true, List.nodup_nil, and_true] at h
  simp [drawsAvoidInputs, Pass_Dithering, appended, Renderer.emit, drawReads, drawReadsFrom,
    SlotState.step, SlotState.unbound, writeSlots, Ev.isDraw, SlotState.writesBoundTexture,
    RHI_RenderTexture.GetRenderTargetView, RHI_RenderTexture.GetShaderResource]
  tauto

theorem Pass_ToneMapping_avoids (r : Renderer) (a b : RHI_RenderTexture) (h : PoolDistinct r a b) :
    drawsAvoidInputs (appended r (Pass_ToneMapping r a b)) := by
  simp only [PoolDistinct, List.nodup_cons, List.mem_cons, List.mem_singleton, not_or, List.not_mem_nil,
    not_false_eq_true, List.nodup_nil, and_true] at h
  simp [drawsAvoidInputs, Pass_ToneMapping, appended, Renderer.emit, drawReads, drawReadsFrom,
    SlotState.step, SlotState.unbound, writeSlots, Ev.isDraw, SlotState.writesBoundTexture,
    RHI_RenderTexture.GetRenderTargetView, RHI_RenderTexture.GetShaderResource]
  tauto

theorem Pass_Sharpening_avoids (r : Renderer) (a b : RHI_RenderTexture) (h : PoolDistinct r a b) :
    drawsAvoidInputs (appended r (Pass_Sharpening r a b)) := by
  simp only [PoolDistinct, List.nodup_cons, List.mem_cons, List.mem_singleton, not_or, List.not_mem_nil,
    not_false_eq_true, List.nodup_nil, and_true] at h
  simp [drawsAvoidInputs, Pass_Sharpening, appended, Renderer.emit, drawReads, drawReadsFrom,
    SlotState.step, SlotState.unbound, writeSlots, Ev.isDraw, SlotState.writesBoundTexture,
    RHI_RenderTexture.GetRenderTargetView, RHI_RenderTexture.GetShaderResource]
  tauto

theorem Pass_ChromaticAberration_avoids (r : Renderer) (a b : RHI_RenderTexture) (h : PoolDistinct r a b) :
    drawsAvoidInputs (appended r (Pass_ChromaticAberration r a b)) := by
  simp only [PoolDistinct, List.nodup_cons, List.mem_cons, List.mem_singleton, not_or, List.not_mem_nil,
    not_false_eq_true, List.nodup_nil, and_true] at h
  simp [drawsAvoidInputs, Pass_ChromaticAberration, appended, Renderer.emit, drawReads, drawReadsFrom,
    SlotState.step, SlotState.unbound, writeSlots, Ev.isDraw, SlotState.writesBoundTexture,
    RHI_RenderTexture.GetRenderTargetView, RHI_RenderTexture.GetShaderResource]
  tauto

theorem Pass_GammaCorrection_avoids (r : Renderer) (a b : RHI_RenderTexture) (h : PoolDistinct r a b) :
    drawsAvoidInputs (appended r (Pass_GammaCorrection r a b)) := by
  simp only [PoolDistinct, List.nodup_cons, List.mem_cons, List.mem_singleton, not_or, List.not_mem_nil,
    not_false_eq_true, List.nodup_nil, and_true] at h
  simp [drawsAvoidInputs, Pass_GammaCorrection, appended, Renderer.emit, drawReads, drawReadsFrom,
    SlotState.step, SlotState.unbound, writeSlots, Ev.isDraw, SlotState.writesBoundTexture,
    RHI_RenderTexture.GetRenderTargetView, RHI_RenderTexture.GetShaderResource]
  tauto

theorem Pass_TAA_avoids (r : Renderer) (a b : RHI_RenderTexture) (h : PoolDistinct r a b) :
    drawsAvoidInputs (appended r (Pass_TAA r a b)) := by
  simp only [PoolDistinct, List.nodup_cons, List.mem_cons, List.mem_singleton, not_or, List.not_mem_nil,
    not_false_eq_true, List.nodup_nil, and_true] at h
  simp [drawsAvoidInputs, Pass_TAA, appended, Renderer.emit, drawReads, drawReadsFrom,
    SlotState.step, SlotState.unbound, writeSlots, Ev.isDraw, SlotState.writesBoundTexture,
    RHI_RenderTexture.GetRenderTargetView, RHI_RenderTexture.GetShaderResource]
  tauto

theorem Pass_FXAA_avoids (r : Renderer) (a b : RHI_RenderTexture) (h : PoolDistinct r a b) :
    drawsAvoidInputs (appended r (Pass_FXAA r a b).r) := by
  simp only [PoolDistinct, List.nodup_cons, List.mem_cons, List.mem_singleton, not_or, List.not_mem_nil,
    not_false_eq_true, List.nodup_nil, and_true] at h
  simp [drawsAvoidInputs, Pass_FXAA, appended, Renderer.emit, drawReads, drawReadsFrom,
    SlotState.step, SlotState.unbound, writeSlots, Ev.isDraw, SlotState.writesBoundTexture,
    RHI_RenderTexture.GetRenderTargetView, RHI_RenderTexture.GetShaderResource]
  tauto

theorem Pass_BlurGaussian_avoids (r : Renderer) (a b : RHI_RenderTexture) (sigma pixel_stride : Rat)
    (h : PoolDistinct r a b) :
    drawsAvoidInputs (appended r (Pass_BlurGaussian r a b sigma pixel_stride).r) := by
  simp only [PoolDistinct, List.nodup_cons, List.mem_cons, List.mem_singleton, not_or, List.not_mem_nil,
    not_false_eq_true, List.nodup_nil, and_true] at h
  by_cases hm : a.width ≠ b.width ∨ a.height ≠ b.height ∨ a.format ≠ b.format
  · simp [drawsAvoidInputs, Pass_BlurGaussian, hm, appended, Renderer.emit, drawReads, drawReadsFrom,
    SlotState.step, SlotState.unbound, writeSlots, Ev.isDraw, SlotState.writesBoundTexture,
    RHI_RenderTexture.GetRenderTargetView, RHI_RenderTexture.GetShaderResource]
  · simp [drawsAvoidInputs, Pass_BlurGaussian, hm, appended, Renderer.emit, drawReads, drawReadsFrom,
    SlotState.step, SlotState.unbound, writeSlots, Ev.isDraw, SlotState.writesBoundTexture,
    RHI_RenderTexture.GetRenderTargetView, RHI_RenderTexture.GetShaderResource]
    tauto

theorem Pass_BlurBilateralGaussian_avoids (r : Renderer) (a b : RHI_RenderTexture) (sigma pixel_stride : Rat)
    (h : PoolDistinct r a b) :
    drawsAvoidInputs (appended r (Pass_BlurBilateralGaussian r a b sigma pixel_stride).r) := by
  simp only [PoolDistinct, List.nodup_cons, List.mem_cons, List.mem_singleton, not_or, List.not_mem_nil,
    not_false_eq_true, List.nodup_nil, and_true] at h
  by_cases hm : a.width ≠ b.width ∨ a.height ≠ b.height ∨ a.format ≠ b.format
  · simp [drawsAvoidInputs, Pass_BlurBilateralGaussian, hm, appended, Renderer.emit, drawReads, drawReadsFrom,
    SlotState.step, SlotState.unbound, writeSlots, Ev.isDraw, SlotState.writesBoundTexture,
    RHI_RenderTexture.GetRenderTargetView, RHI_RenderTexture.GetShaderResource]
  · simp [drawsAvoidInputs, Pass_BlurBilateralGaussian, hm, appended, Renderer.emit, drawReads, drawReadsFrom,
    SlotState.step, SlotState.unbound, writeSlots, Ev.isDraw, SlotState.writesBoundTexture,
    RHI_RenderTexture.GetRenderTargetView, RHI_RenderTexture.GetShaderResource]
    tauto

theorem Pass_Bloom_avoids (r : Renderer) (a b : RHI_RenderTexture) (h : PoolDistinct r a b) :
    drawsAvoidInputs (appended r (Pass_Bloom r a b)) := by
  simp only [PoolDistinct, List.nodup_cons, List.mem_cons, List.mem_singleton, not_or, List.not_mem_nil,
    not_false_eq_true, List.nodup_nil, and_true] at h
  by_cases hm : r.m_render_tex_quarter_blur2.width ≠ r.m_render_tex_quarter_blur1.width ∨
      r.m_render_tex_quarter_blur2.height ≠ r.m_render_tex_quarter_blur1.height ∨
      r.m_render_tex_quarter_blur2.format ≠ r.m_render_tex_quarter_blur1.format
  · simp [drawsAvoidInputs, Pass_Bloom, Pass_BlurGaussian, hm, appended, Renderer.emit, drawReads, drawReadsFrom,
    SlotState.step, SlotState.unbound, writeSlots, Ev.isDraw, SlotState.writesBoundTexture,
    RHI_RenderTexture.GetRenderTargetView, RHI_RenderTexture.GetShaderResource]
    tauto
  · simp [drawsAvoidInputs, Pass_Bloom, Pass_BlurGaussian, hm, appended, Renderer.emit, drawReads, drawReadsFrom,
    SlotState.step, SlotState.unbound, writeSlots, Ev.isDraw, SlotState.writesBoundTexture,
    RHI_RenderTexture.GetRenderTargetView, RHI_RenderTexture.GetShaderResource]
    tauto

/-- C22: with pairwise distinct handles, at every draw recorded by a post-process effect or
blur the render target set for the pass is the texture of none of the slots the pass has
bound; `Pass_TAA` and `Pass_FXAA` record two draws each. -/
theorem C22_draws_avoid_inputs (r : Renderer) (tex_in tex_out : RHI_RenderTexture)
    (sigma pixel_stride : Rat) (h : PoolDistinct r tex_in tex_out) :
    drawsAvoidInputs (appended r (Pass_TAA r tex_in tex_out)) ∧
    drawsAvoidInputs (appended r (Pass_Bloom r tex_in tex_out)) ∧
    drawsAvoidInputs (appended r (Pass_MotionBlur r tex_in tex_out)) ∧
    drawsAvoidInputs (appended r (Pass_Dithering r tex_in tex_out)) ∧
    drawsAvoidInputs (appended r (Pass_ToneMapping r tex_in tex_out)) ∧
    drawsAvoidInputs (appended r (Pass_FXAA r tex_in tex_out).r) ∧
    drawsAvoidInputs (appended r (Pass_Sharpening r tex_in tex_out)) ∧
    drawsAvoidInputs (appended r (Pass_ChromaticAberration r tex_in tex_out)) ∧
    drawsAvoidInputs (appended r (Pass_GammaCorrection r tex_in tex_out)) ∧
    drawsAvoidInputs (appended r (Pass_BlurGaussian r tex_in tex_out sigma pixel_stride).r) ∧
    drawsAvoidInputs (appended r (Pass_BlurBilateralGaussian r tex_in tex_out sigma pixel_stride).r) ∧
    (drawReads (appended r (Pass_TAA r tex_in tex_out))).length = 2 ∧
    (drawReads (appended r (Pass_FXAA r tex_in tex_out).r)).length = 2 :=
  ⟨Pass_TAA_avoids r tex_in tex_out h, Pass_Bloom_avoids r tex_in tex_out h,
    Pass_MotionBlur_avoids r tex_in tex_out h, Pass_Dithering_avoids r tex_in tex_out h,
    Pass_ToneMapping_avoids r tex_in tex_out h, Pass_FXAA_avoids r tex_in tex_out h,
    Pass_Sharpening_avoids r tex_in tex_out h, Pass_ChromaticAberration_avoids r tex_in tex_out h,
    Pass_GammaCorrection_avoids r tex_in tex_out h,
    Pass_BlurGaussian_avoids r tex_in tex_out sigma pixel_stride h,
    Pass_BlurBilateralGaussian_avoids r tex_in tex_out sigma pixel_stride h,
    by simp [Pass_TAA, appended, Renderer.emit, drawReads, drawReadsFrom, Ev.isDraw],
    by simp [Pass_FXAA, appended, Renderer.emit, drawReads, drawReadsFrom, Ev.isDraw]⟩

/-- The example renderer with its two full-size light textures (14 and 6): the handles are
pairwise distinct, and both draws of `Pass_FXAA` and of the Gaussian blur write a texture
they do not read. -/
theorem C22_draws_avoid_inputs_witness :
    PoolDistinct exampleRenderer (exampleTexture 14) (exampleTexture 6) ∧
      drawsAvoidInputs (appended exampleRenderer
        (Pass_FXAA exampleRenderer (exampleTexture 14) (exampleTexture 6)).r) ∧
      drawsAvoidInputs (appended exampleRenderer
        (Pass_BlurGaussian exampleRenderer (exampleTexture 14) (exampleTexture 6) 2 1).r) :=
  ⟨by decide,
    (C22_draws_avoid_inputs exampleRenderer (exampleTexture 14) (exampleTexture 6) 2 1
      (by decide)).2.2.2.2.2.1,
    (C22_draws_avoid_inputs exampleRenderer (exampleTexture 14) (exampleTexture 6) 2 1
      (by decide)).2.2.2.2.2.2.2.2.2.1⟩

/-! ## C21: render targets set while bound as a texture -/

theorem Pass_MotionBlur_rebinds (r : Renderer) (a b : RHI_RenderTexture) :
    reboundWhileBound (appended r (Pass_MotionBlur r a b)) = [] := by
  simp [reboundWhileBound, reboundFrom, Pass_MotionBlur, appended, Renderer.emit,
    SlotState.step, SlotState.unbound, writeSlots,
    RHI_RenderTexture.GetRenderTargetView, RHI_RenderTexture.GetShaderResource]

theorem Pass_Dithering_rebinds (r : Renderer) (a b : RHI_RenderTexture) :
    reboundWhileBound (appended r (Pass_Dithering r a b)) = [] := by
  simp [reboundWhileBound, reboundFrom, Pass_Dithering, appended, Renderer.emit,
    SlotState.step, SlotState.unbound, writeSlots,
    RHI_RenderTexture.GetRenderTargetView, RHI_RenderTexture.GetShaderResource]

theorem Pass_ToneMapping_rebinds (r : Renderer) (a b : RHI_RenderTexture) :
    reboundWhileBound (appended r (Pass_ToneMapping r a b)) = [] := by
  simp [reboundWhileBound, reboundFrom, Pass_ToneMapping, appended, Renderer.emit,
    SlotState.step, SlotState.unbound, writeSlots,
    RHI_RenderTexture.GetRenderTargetView, RHI_RenderTexture.GetShaderResource]

theorem Pass_Sharpening_rebinds (r : Renderer) (a b : RHI_RenderTexture) :
    reboundWhileBound (appended r (Pass_Sharpening r a b)) = [] := by
  simp [reboundWhileBound, reboundFrom, Pass_Sharpening, appended, Renderer.emit,
    SlotState.step, SlotState.unbound, writeSlots,
    RHI_RenderTexture.GetRenderTargetView, RHI_RenderTexture.GetShaderResource]

theorem Pass_ChromaticAberration_rebinds (r : Renderer) (a b : RHI_RenderTexture) :
    reboundWhileBound (appended r (Pass_ChromaticAberration r a b)) = [] := by
  simp [reboundWhileBound, reboundFrom, Pass_ChromaticAberration, appended, Renderer.emit,
    SlotState.step, SlotState.unbound, writeSlots,
    RHI_RenderTexture.GetRenderTargetView, RHI_RenderTexture.GetShaderResource]

theorem Pass_GammaCorrection_rebinds (r : Renderer) (a b : RHI_RenderTexture) :
    reboundWhileBound (appended r (Pass_GammaCorrection r a b)) = [] := by
  simp [reboundWhileBound, reboundFrom, Pass_GammaCorrection, appended, Renderer.emit,
    SlotState.step, SlotState.unbound, writeSlots,
    RHI_RenderTexture.GetRenderTargetView, RHI_RenderTexture.GetShaderResource]

theorem Pass_TAA_rebinds (r : Renderer) (a b : RHI_RenderTexture) (h : PoolDistinct r a b) :
    reboundWhileBound (appended r (Pass_TAA r a b)) = [] := by
  simp only [PoolDistinct, List.nodup_cons, List.mem_cons, List.mem_singleton, not_or, List.not_mem_nil,
    not_false_eq_true, List.nodup_nil, and_true] at h
  simp [reboundWhileBound, reboundFrom, Pass_TAA, appended, Renderer.emit,
    SlotState.step, SlotState.unbound, writeSlots,
    RHI_RenderTexture.GetRenderTargetView, RHI_RenderTexture.GetShaderResource]
  tauto

theorem Pass_FXAA_rebinds (r : Renderer) (a b : RHI_RenderTexture) :
    reboundWhileBound (appended r (Pass_FXAA r a b).r) = [a.GetRenderTargetView 0] := by
  simp [reboundWhileBound, reboundFrom, Pass_FXAA, appended, Renderer.emit,
    SlotState.step, SlotState.unbound, writeSlots,
    RHI_RenderTexture.GetRenderTargetView, RHI_RenderTexture.GetShaderResource]

theorem Pass_BlurGaussian_rebinds (r : Renderer) (a b : RHI_RenderTexture) (sigma pixel_stride : Rat) :
    reboundWhileBound (appended r (Pass_BlurGaussian r a b sigma pixel_stride).r) = [] := by
  by_cases hm : a.width ≠ b.width ∨ a.height ≠ b.height ∨ a.format ≠ b.format
  · simp [reboundWhileBound, reboundFrom, Pass_BlurGaussian, hm, appended, Renderer.emit,
    SlotState.step, SlotState.unbound, writeSlots,
    RHI_RenderTexture.GetRenderTargetView, RHI_RenderTexture.GetShaderResource]
  · simp [reboundWhileBound, reboundFrom, Pass_BlurGaussian, hm, appended, Renderer.emit,
    SlotState.step, SlotState.unbound, writeSlots,
    RHI_RenderTexture.GetRenderTargetView, RHI_RenderTexture.GetShaderResource]

theorem Pass_BlurBilateralGaussian_rebinds (r : Renderer) (a b : RHI_RenderTexture) (sigma pixel_stride : Rat) :
    reboundWhileBound (appended r (Pass_BlurBilateralGaussian r a b sigma pixel_stride).r) = [] := by
  by_cases hm : a.width ≠ b.width ∨ a.height ≠ b.height ∨ a.format ≠ b.format
  · simp [reboundWhileBound, reboundFrom, Pass_BlurBilateralGaussian, hm, appended, Renderer.emit,
    SlotState.step, SlotState.unbound, writeSlots,
    RHI_RenderTexture.GetRenderTargetView, RHI_RenderTexture.GetShaderResource]
  · simp [reboundWhileBound, reboundFrom, Pass_BlurBilateralGaussian, hm, appended, Renderer.emit,
    SlotState.step, SlotState.unbound, writeSlots,
    RHI_RenderTexture.GetRenderTargetView, RHI_RenderTexture.GetShaderResource]

theorem Pass_Bloom_rebinds (r : Renderer) (a b : RHI_RenderTexture) (h : PoolDistinct r a b) :
    reboundWhileBound (appended r (Pass_Bloom r a b)) = [] := by
  simp only [PoolDistinct, List.nodup_cons, List.mem_cons, List.mem_singleton, not_or, List.not_mem_nil,
    not_false_eq_true, List.nodup_nil, and_true] at h
  by_cases hm : r.m_render_tex_quarter_blur2.width ≠ r.m_render_tex_quarter_blur1.width ∨
      r.m_render_tex_quarter_blur2.height ≠ r.m_render_tex_quarter_blur1.height ∨
      r.m_render_tex_quarter_blur2.format ≠ r.m_render_tex_quarter_blur1.format
  · simp [reboundWhileBound, reboundFrom, Pass_Bloom, Pass_BlurGaussian, hm, appended, Renderer.emit,
    SlotState.step, SlotState.unbound, writeSlots,
    RHI_RenderTexture.GetRenderTargetView, RHI_RenderTexture.GetShaderResource]
    tauto
  · simp [reboundWhileBound, reboundFrom, Pass_Bloom, Pass_BlurGaussian, hm, appended, Renderer.emit,
    SlotState.step, SlotState.unbound, writeSlots,
    RHI_RenderTexture.GetRenderTargetView, RHI_RenderTexture.GetShaderResource]
    tauto

/-- C21, the divergence: `Pass_FXAA` binds `tex_in` in slot 0 for its luma draw and then
sets `tex_in` as the render target of its second draw with no `ClearTextures` in between
(on the example renderer with textures 14 and 6: `SetTexture 0 14`, the draw,
`SetRenderTarget` of texture 14).  The other post-process passes and both blurs never set
a render target whose texture is bound in a slot (for `Pass_TAA` and `Pass_Bloom`, given
pairwise distinct handles). -/
theorem C21_FXAA_sets_bound_texture_as_target :
    (∀ (r : Renderer) (tex_in tex_out : RHI_RenderTexture),
      reboundWhileBound (appended r (Pass_FXAA r tex_in tex_out).r) =
        [tex_in.GetRenderTargetView 0]) ∧
    reboundWhileBound (appended exampleRenderer
      (Pass_FXAA exampleRenderer (exampleTexture 14) (exampleTexture 6)).r) = [⟨14, 0⟩] ∧
    ((appended exampleRenderer
      (Pass_FXAA exampleRenderer (exampleTexture 14) (exampleTexture 6)).r).drop 9).take 3 =
        [.SetTexture 0 (some 14), .DrawIndexed 6 0 0, .SetRenderTarget ⟨14, 0⟩ none] ∧
    (∀ (r : Renderer) (tex_in tex_out : RHI_RenderTexture) (sigma pixel_stride : Rat),
      reboundWhileBound (appended r (Pass_MotionBlur r tex_in tex_out)) = [] ∧
      reboundWhileBound (appended r (Pass_Dithering r tex_in tex_out)) = [] ∧
      reboundWhileBound (appended r (Pass_ToneMapping r tex_in tex_out)) = [] ∧
      reboundWhileBound (appended r (Pass_Sharpening r tex_in tex_out)) = [] ∧
      reboundWhileBound (appended r (Pass_ChromaticAberration r tex_in tex_out)) = [] ∧
      reboundWhileBound (appended r (Pass_GammaCorrection r tex_in tex_out)) = [] ∧
      reboundWhileBound (appended r (Pass_BlurGaussian r tex_in tex_out sigma pixel_stride).r) = [] ∧
      reboundWhileBound
        (appended r (Pass_BlurBilateralGaussian r tex_in tex_out sigma pixel_stride).r) = []) ∧
    (∀ (r : Renderer) (tex_in tex_out : RHI_RenderTexture), PoolDistinct r tex_in tex_out →
      reboundWhileBound (appended r (Pass_TAA r tex_in tex_out)) = [] ∧
      reboundWhileBound (appended r (Pass_Bloom r tex_in tex_out)) = []) ∧
    PoolDistinct exampleRenderer (exampleTexture 14) (exampleTexture 6) :=
  ⟨Pass_FXAA_rebinds,
    Pass_FXAA_rebinds exampleRenderer (exampleTexture 14) (exampleTexture 6),
    by rfl,
    fun r tex_in tex_out sigma pixel_stride =>
      ⟨Pass_MotionBlur_rebinds r tex_in tex_out, Pass_Dithering_rebinds r tex_in tex_out,
        Pass_ToneMapping_rebinds r tex_in tex_out, Pass_Sharpening_rebinds r tex_in tex_out,
        Pass_ChromaticAberration_rebinds r tex_in tex_out,
        Pass_GammaCorrection_rebinds r tex_in tex_out,
        Pass_BlurGaussian_rebinds r tex_in tex_out sigma pixel_stride,
        Pass_BlurBilateralGaussian_rebinds r tex_in tex_out sigma pixel_stride⟩,
    fun r tex_in tex_out h =>
      ⟨Pass_TAA_rebinds r tex_in tex_out h, Pass_Bloom_rebinds r tex_in tex_out h⟩,
    by decide⟩

/-! ## C26: the pair `Pass_PostLight` hands back -/

theorem drawReadsFrom_concat (s : SlotState) (a b : List Ev) :
    drawReadsFrom s (a ++ b) = drawReadsFrom s a ++ drawReadsFrom (a.foldl SlotState.step s) b := by
  induction a generalizing s with
  | nil => rfl
  | cons e t ih =>
    by_cases hd : e.isDraw = true
    · have hs : s.step e = s := by cases e <;> simp_all [Ev.isDraw, SlotState.step]
      simp [drawReadsFrom, hd, hs, ih]
    · simp [drawReadsFrom, hd, ih]

/-- What a stage of `Pass_PostLight` does to the pair, and that it keeps the configuration. -/
theorem stage_pair (e : PostEffect) (s : PassState) :
    (PostLight_stage e s).r.m_flags = s.r.m_flags ∧
    (PostLight_stage e s).r.m_tonemapping = s.r.m_tonemapping ∧
    (PostLight_stage e s).tex_in =
      (if (s.r.effectEnabled e && decide (e ≠ .FXAA)) = true then s.tex_out else s.tex_in) ∧
    (PostLight_stage e s).tex_out =
      (if (s.r.effectEnabled e && decide (e ≠ .FXAA)) = true then s.tex_in else s.tex_out) := by
  obtain ⟨_, ⟨hf, ht, _, _⟩, _, _, _⟩ := link_stage e s
  refine ⟨hf, ht, ?_, ?_⟩
  · by_cases h : s.r.effectEnabled e = true
    · cases e <;> simp [PostLight_stage, h, swap_targets, PostEffect.run, Pass_FXAA]
    · simp [PostLight_stage, h]
  · by_cases h : s.r.effectEnabled e = true
    · cases e <;> simp [PostLight_stage, h, swap_targets, PostEffect.run, Pass_FXAA]
    · simp [PostLight_stage, h]

theorem pairAfter_stage {r : Renderer} {A B : RHI_RenderTexture} {s : PassState} {n : Nat}
    (h : PairAfter r A B s n) (e : PostEffect) :
    PairAfter r A B (PostLight_stage e s)
      (n + if (r.effectEnabled e && decide (e ≠ .FXAA)) = true then 1 else 0) := by
  obtain ⟨hf, ht, hi, ho⟩ := h
  obtain ⟨sf, st, si, so⟩ := stage_pair e s
  have he : s.r.effectEnabled e = r.effectEnabled e := effectEnabled_congr hf ht e
  rw [he] at si so
  refine ⟨sf.trans hf, st.trans ht, ?_, ?_⟩
  · rw [si, hi, ho]
    by_cases hc : (r.effectEnabled e && decide (e ≠ .FXAA)) = true
    · rw [if_pos hc, if_pos hc]
      rcases Nat.mod_two_eq_zero_or_one n with hn | hn
      · rw [if_neg (by omega), if_pos (by omega)]
      · rw [if_pos hn, if_neg (by omega)]
    · rw [if_neg hc, if_neg hc, Nat.add_zero]
  · rw [so, hi, ho]
    by_cases hc : (r.effectEnabled e && decide (e ≠ .FXAA)) = true
    · rw [if_pos hc, if_pos hc]
      rcases Nat.mod_two_eq_zero_or_one n with hn | hn
      · rw [if_neg (by omega), if_pos (by omega)]
      · rw [if_pos hn, if_neg (by omega)]
    · rw [if_neg hc, if_neg hc, Nat.add_zero]

theorem enabledSwaps_eq (r : Renderer) :
    r.enabledSwaps =
      (if r.effectEnabled .TAA = true then 1 else 0) +
      (if r.effectEnabled .Bloom = true then 1 else 0) +
      (if r.effectEnabled .MotionBlur = true then 1 else 0) +
      (if r.effectEnabled .Dithering = true then 1 else 0) +
      (if r.effectEnabled .ToneMapping = true then 1 else 0) +
      (if r.effectEnabled .Sharpening = true then 1 else 0) +
      (if r.effectEnabled .ChromaticAberration = true then 1 else 0) := by
  simp only [Renderer.enabledSwaps, swappingEffects, List.countP_cons, List.countP_nil]
  ac_rfl

theorem pairAfter_congr {r : Renderer} {A B : RHI_RenderTexture} {s : PassState} {n m : Nat}
    (h : PairAfter r A B s n) (hnm : n = m) : PairAfter r A B s m := hnm ▸ h

theorem PostLight_end_pair (s : PassState) :
    (PostLight_end s).tex_in = s.tex_in ∧ (PostLight_end s).tex_out = s.tex_out := ⟨rfl, rfl⟩

theorem Pass_PostLight_pair (r : Renderer) (A B : RHI_RenderTexture) :
    (Pass_PostLight r A B).tex_in = (if r.enabledSwaps % 2 = 1 then B else A) ∧
    (Pass_PostLight r A B).tex_out = (if r.enabledSwaps % 2 = 1 then A else B) := by
  have h0 : PairAfter r A B (PostLight_begin r A B) 0 := ⟨rfl, rfl, rfl, rfl⟩
  have h := pairAfter_stage (pairAfter_stage (pairAfter_stage (pairAfter_stage (pairAfter_stage
    (pairAfter_stage (pairAfter_stage (pairAfter_stage h0 .TAA) .Bloom) .MotionBlur) .Dithering)
    .ToneMapping) .FXAA) .Sharpening) .ChromaticAberration
  have h' := pairAfter_congr h (m := r.enabledSwaps) (by
    rw [enabledSwaps_eq]
    simp)
  rw [Pass_PostLight_eq_stages, (PostLight_end_pair _).1, (PostLight_end_pair _).2]
  exact ⟨h'.2.2.1, h'.2.2.2⟩

theorem PostLight_end_events (r : Renderer) (s : PassState) (p : List Ev)
    (hp : s.r.trace = r.trace ++ p) :
    appended r (PostLight_end s).r =
        p ++ appended s.r (Pass_GammaCorrection s.r s.tex_in s.tex_out) ++ [.End, .Submit, .Clear] ∧
      (drawReads (appended r (PostLight_end s).r)).getLast? =
        some (readsWrites [s.tex_in] s.tex_out) := by
  have h1 : appended r (PostLight_end s).r =
      p ++ appended s.r (Pass_GammaCorrection s.r s.tex_in s.tex_out) ++ [.End, .Submit, .Clear] := by
    simp [appended, PostLight_end, Pass_GammaCorrection, Renderer.emit, hp]
  refine ⟨h1, ?_⟩
  rw [h1, List.append_assoc, drawReads, drawReadsFrom_concat]
  simp [appended, Pass_GammaCorrection, Renderer.emit, drawReadsFrom, SlotState.step, writeSlots,
    Ev.isDraw, readsWrites]

theorem Pass_PostLight_gamma (r : Renderer) (A B : RHI_RenderTexture) :
    (∃ x pre, appended r (Pass_PostLight r A B).r =
        pre ++ appended x (Pass_GammaCorrection x (Pass_PostLight r A B).tex_in
          (Pass_PostLight r A B).tex_out) ++ [.End, .Submit, .Clear]) ∧
      (drawReads (appended r (Pass_PostLight r A B).r)).getLast? =
        some (readsWrites [(Pass_PostLight r A B).tex_in] (Pass_PostLight r A B).tex_out) := by
  have h := link_step (link_step (link_step (link_step (link_step (link_step (link_step
    (link_step (link_begin r A B) .TAA) .Bloom) .MotionBlur) .Dithering) .ToneMapping) .FXAA)
    .Sharpening) .ChromaticAberration
  obtain ⟨_, ⟨_, _, ht, _⟩, _, _, _⟩ := h
  have he := PostLight_end_events r _ _ ht
  rw [Pass_PostLight_eq_stages, (PostLight_end_pair _).1, (PostLight_end_pair _).2]
  exact ⟨⟨_, _, he.1⟩, he.2⟩

/-! ### The overlay passes leave the output member alone -/

theorem foldl_output {α : Type} (f : Renderer → α → Renderer)
    (hf : ∀ r a, (f r a).m_render_tex_full_hdr_light2 = r.m_render_tex_full_hdr_light2)
    (l : List α) (r : Renderer) :
    (l.foldl f r).m_render_tex_full_hdr_light2 = r.m_render_tex_full_hdr_light2 := by
  induction l generalizing r with
  | nil => rfl
  | cons a t ih => exact (ih _).trans (hf r a)

theorem Pass_Lines_aabb_output (r : Renderer) (e : Entity) :
    (Pass_Lines_aabb r e).m_render_tex_full_hdr_light2 = r.m_render_tex_full_hdr_light2 := by
  unfold Pass_Lines_aabb
  cases e.renderable <;> rfl

theorem Pass_Lines_output (r : Renderer) (t : RHI_RenderTexture) :
    (Pass_Lines r t).m_render_tex_full_hdr_light2 = r.m_render_tex_full_hdr_light2 := by
  simp [Pass_Lines, apply_ite Renderer.m_render_tex_full_hdr_light2, Renderer.emit,
    Renderer.DrawLine, foldl_output Pass_Lines_aabb Pass_Lines_aabb_output]

theorem Pass_Gizmos_light_output (r : Renderer) (e : LightEntity) :
    (Pass_Gizmos_light r e).m_render_tex_full_hdr_light2 = r.m_render_tex_full_hdr_light2 := by
  simp [Pass_Gizmos_light, apply_ite Renderer.m_render_tex_full_hdr_light2, Renderer.emit]

theorem Pass_Gizmos_output (r : Renderer) (t : RHI_RenderTexture) :
    (Pass_Gizmos r t).m_render_tex_full_hdr_light2 = r.m_render_tex_full_hdr_light2 := by
  simp [Pass_Gizmos, apply_ite Renderer.m_render_tex_full_hdr_light2, Renderer.emit,
    foldl_output Pass_Gizmos_light Pass_Gizmos_light_output]

theorem Pass_DebugBuffer_output (r : Renderer) (t : RHI_RenderTexture) :
    (Pass_DebugBuffer r t).m_render_tex_full_hdr_light2 = r.m_render_tex_full_hdr_light2 := by
  simp [Pass_DebugBuffer, apply_ite Renderer.m_render_tex_full_hdr_light2, Renderer.emit]

/-! ## C25: ReadAnimations adds the animations and reads no channel -/

theorem ReadAnimations_channels_zero (helper : AssimpHelper) (assimp_animation : aiAnimation)
    (fuel : Nat) :
    ReadAnimations_channels helper assimp_animation (fuel + 1) 0 [] = some [] := by
  simp [ReadAnimations_channels]

theorem ReadAnimations_animation_eq (helper : AssimpHelper) (assimp_animation : aiAnimation)
    (fuel : Nat) :
    ReadAnimations_animation helper (fuel + 1) assimp_animation =
      some (importedAnimation assimp_animation) := by
  simp only [ReadAnimations_animation, ReadAnimations_channels_zero, importedAnimation]
  by_cases h : assimp_animation.mTicksPerSecond = 0 <;> simp [h]

theorem ReadAnimations_from_eq (helper : AssimpHelper) (fuel : Nat) (scene : aiScene)
    (remaining i : Nat) (added : List Animation) (h : i + remaining ≤ scene.mAnimations.length) :
    ReadAnimations_from helper (fuel + 1) scene remaining i added =
      some (added ++ ((scene.mAnimations.drop i).take remaining).map importedAnimation) := by
  induction remaining generalizing i added with
  | zero => simp [ReadAnimations_from]
  | succ n ih =>
    have hi : i < scene.mAnimations.length := by omega
    rw [ReadAnimations_from, List.getElem?_eq_getElem hi]
    simp only [ReadAnimations_animation_eq]
    rw [ih (i + 1) _ (by omega), List.drop_eq_getElem_cons hi, List.take_succ_cons, List.map_cons,
      List.append_assoc]
    rfl

/-- C25: the channel loop of `ModelImporter::ReadAnimations` (condition `j > mNumChannels`
from `j = 0`) returns having executed its body zero times, whatever `mNumChannels` and the
channels are; and for a scene whose animation array holds at least `mNumAnimations`
entries the function returns having added exactly `mNumAnimations` animations, the `i`-th
with the name and duration of the `i`-th source animation and its ticks per second, or 25
when that is 0, and with no other call made on it. -/
theorem C25_ReadAnimations (helper : AssimpHelper) (scene : aiScene) (fuel : Nat)
    (h : scene.mNumAnimations ≤ scene.mAnimations.length) :
    (∀ assimp_animation : aiAnimation,
      ReadAnimations_channels helper assimp_animation (fuel + 1) 0 [] = some []) ∧
    ReadAnimations helper (fuel + 1) scene =
      some ((scene.mAnimations.take scene.mNumAnimations).map importedAnimation) ∧
    ((scene.mAnimations.take scene.mNumAnimations).map importedAnimation).length =
      scene.mNumAnimations := by
  refine ⟨fun a => ReadAnimations_channels_zero helper a fuel, ?_, ?_⟩
  · rw [ReadAnimations, ReadAnimations_from_eq helper fuel scene _ 0 [] (by omega)]
    simp
  · simp [h]

/-- The example scene: two animations with channels, none of which is read; "idle" has tick
rate 0 and is added with 25. -/
theorem C25_ReadAnimations_witness :
    exampleAnimScene.mNumAnimations ≤ exampleAnimScene.mAnimations.length ∧
      ReadAnimations exampleHelper 1 exampleAnimScene =
        some [ ⟨[.SetName "walk", .SetDuration 40, .SetTicksPerSec 30]⟩,
               ⟨[.SetName "idle", .SetDuration 10, .SetTicksPerSec 25]⟩ ] :=
  ⟨by decide, (C25_ReadAnimations exampleHelper exampleAnimScene 0 (by decide)).2.1.trans (by
    simp [exampleAnimScene, importedAnimation])⟩

theorem Pass_PreLight_reads (r : Renderer) (A B tex_ssao_out sm : RHI_RenderTexture) (light : Light)
    (hl : r.GetLightDirectional = some light) (hc : light.GetCastShadows = true)
    (hsm : light.GetShadowMap = some sm) (h : texturesMatch A B = true) :
    ∃ p, Pass_PreLight r A B tex_ssao_out = .ok p ∧
      ((drawReads (appended r p.r)).drop 1).take 2 =
        [ readsWrites [A, r.m_g_buffer_depth, r.m_g_buffer_normal] B,
          readsWrites [B, r.m_g_buffer_depth, r.m_g_buffer_normal] A ] ∧
      p.tex_shadows_out = A := by
  simp only [texturesMatch, decide_eq_true_eq] at h
  obtain ⟨h1, h2, h3⟩ := h
  simp only [Renderer.GetLightDirectional] at hl
  simp only [Light.GetCastShadows] at hc
  simp only [Light.GetShadowMap] at hsm
  by_cases hf : Renderer_Option.Render_PostProcess_SSAO ∈ r.m_flags
  · by_cases hm : B.width ≠ tex_ssao_out.width ∨ B.height ≠ tex_ssao_out.height ∨ B.format ≠ tex_ssao_out.format
    · simp [Pass_PreLight, Pass_ShadowMapping, Pass_SSAO, Pass_BlurBilateralGaussian, Renderer.GetLightDirectional, Light.GetCastShadows, Light.GetShadowMap, hl, hc, hsm, h1, h2, h3, hf, hm,
        appended, Renderer.emit, drawReads, drawReadsFrom,
        SlotState.step, SlotState.unbound, writeSlots, Ev.isDraw, readsWrites, Renderer.Flags_IsSet] 
    · simp [Pass_PreLight, Pass_ShadowMapping, Pass_SSAO, Pass_BlurBilateralGaussian, Renderer.GetLightDirectional, Light.GetCastShadows, Light.GetShadowMap, hl, hc, hsm, h1, h2, h3, hf, hm,
        appended, Renderer.emit, drawReads, drawReadsFrom,
        SlotState.step, SlotState.unbound, writeSlots, Ev.isDraw, readsWrites, Renderer.Flags_IsSet] 
  · simp [Pass_PreLight, Pass_ShadowMapping, Pass_SSAO, Pass_BlurBilateralGaussian, Renderer.GetLightDirectional, Light.GetCastShadows, Light.GetShadowMap, hl, hc, hsm, h1, h2, h3, hf,
        appended, Renderer.emit, drawReads, drawReadsFrom,
        SlotState.step, SlotState.unbound, writeSlots, Ev.isDraw, readsWrites, Renderer.Flags_IsSet] 

/-- C30: for textures `(tex_in, tex_out) = (A, B)` matching in width, height and format,
`Pass_BlurBilateralGaussian` and `Pass_BlurGaussian` record exactly two draws, the first
reading `A` and writing `B`, the second reading `B` and writing `A`, and return with
`tex_in = B` and `tex_out = A`.  In `Pass_Bloom` (quarter textures matching) the last blur
draw writes `m_render_tex_quarter_blur2` and the additive blend reads that texture in its
second slot; in `Pass_PreLight` with a directional light that casts shadows into a shadow
map the pass returns, the two blur draws follow the shadow-mapping draw, the second writes
`A`, and `tex_shadows_out` is `A` on return; with a light that casts shadows and has no
shadow map the pass stops in `Pass_ShadowMapping` before any draw, so before the blur. -/
theorem C30_blurs_ping_pong (r : Renderer) (A B : RHI_RenderTexture) (sigma pixel_stride : Rat)
    (h : texturesMatch A B = true) :
    (drawReads (appended r (Pass_BlurBilateralGaussian r A B sigma pixel_stride).r) =
        [ readsWrites [A, r.m_g_buffer_depth, r.m_g_buffer_normal] B,
          readsWrites [B, r.m_g_buffer_depth, r.m_g_buffer_normal] A ] ∧
      (Pass_BlurBilateralGaussian r A B sigma pixel_stride).tex_in = B ∧
      (Pass_BlurBilateralGaussian r A B sigma pixel_stride).tex_out = A) ∧
    (drawReads (appended r (Pass_BlurGaussian r A B sigma pixel_stride).r) =
        [readsWrites [A] B, readsWrites [B] A] ∧
      (Pass_BlurGaussian r A B sigma pixel_stride).tex_in = B ∧
      (Pass_BlurGaussian r A B sigma pixel_stride).tex_out = A) ∧
    (∀ tex_in tex_out : RHI_RenderTexture,
      texturesMatch r.m_render_tex_quarter_blur2 r.m_render_tex_quarter_blur1 = true →
      drawReads (appended r (Pass_Bloom r tex_in tex_out)) =
        [ readsWrites [tex_in] r.m_render_tex_quarter_blur1,
          readsWrites [r.m_render_tex_quarter_blur1] r.m_render_tex_quarter_blur2,
          readsWrites [r.m_render_tex_quarter_blur2] r.m_render_tex_quarter_blur1,
          readsWrites [r.m_render_tex_quarter_blur1] r.m_render_tex_quarter_blur2,
          readsWrites [tex_in, r.m_render_tex_quarter_blur2] tex_out ]) ∧
    (∀ (light : Light) (sm tex_ssao_out : RHI_RenderTexture),
      r.GetLightDirectional = some light → light.GetCastShadows = true →
      light.GetShadowMap = some sm →
      ∃ p, Pass_PreLight r A B tex_ssao_out = .ok p ∧
        ((drawReads (appended r p.r)).drop 1).take 2 =
          [ readsWrites [A, r.m_g_buffer_depth, r.m_g_buffer_normal] B,
            readsWrites [B, r.m_g_buffer_depth, r.m_g_buffer_normal] A ] ∧
        p.tex_shadows_out = A) ∧
    (∀ tex_ssao_out : RHI_RenderTexture, r.shadowMapMissing = true →
      ∃ x, Pass_PreLight r A B tex_ssao_out = .error x ∧ drawReads (appended r x) = []) :=
  ⟨Pass_BlurBilateralGaussian_reads r A B sigma pixel_stride h,
    Pass_BlurGaussian_reads r A B sigma pixel_stride h,
    fun tex_in tex_out hq => Pass_Bloom_reads r tex_in tex_out hq,
    fun light sm tex_ssao_out hl hc hsm =>
      Pass_PreLight_reads r A B tex_ssao_out sm light hl hc hsm h,
    fun tex_ssao_out hm =>
      ⟨_, Pass_PreLight_faults r A B tex_ssao_out hm, by rw [appended_emit]; rfl⟩⟩

/-- The shadow scene with the textures `Pass_Main` passes to `Pass_PreLight`: the half-size
spare and shadow textures match, the blurs return them exchanged, and `tex_shadows_out`
ends as the spare texture (11), which the second blur draw wrote. -/
theorem C30_blurs_ping_pong_witness :
    texturesMatch exampleShadowScene.m_render_tex_half_spare
        exampleShadowScene.m_render_tex_half_shadows = true ∧
      (Pass_BlurGaussian exampleShadowScene exampleShadowScene.m_render_tex_half_spare
        exampleShadowScene.m_render_tex_half_shadows 2 1).tex_out =
          exampleShadowScene.m_render_tex_half_spare ∧
      ∃ p, Pass_PreLight exampleShadowScene exampleShadowScene.m_render_tex_half_spare
          exampleShadowScene.m_render_tex_half_shadows
          exampleShadowScene.m_render_tex_half_ssao = .ok p ∧ p.tex_shadows_out.id = 11 :=
  ⟨by decide,
    (C30_blurs_ping_pong exampleShadowScene exampleShadowScene.m_render_tex_half_spare
      exampleShadowScene.m_render_tex_half_shadows 2 1 (by decide)).2.1.2.2,
    by
      obtain ⟨p, hp, -, ht⟩ := (C30_blurs_ping_pong exampleShadowScene
        exampleShadowScene.m_render_tex_half_spare exampleShadowScene.m_render_tex_half_shadows
        2 1 (by decide)).2.2.2.1 (exampleLight 3) { exampleTexture 50 with array_size := 3 }
        exampleShadowScene.m_render_tex_half_ssao rfl rfl rfl
      exact ⟨p, hp, by rw [ht]; rfl⟩⟩

/-- `Pass_Main` hands the handle `Pass_PostLight` leaves in `tex_out` to all four overlay
passes. -/
theorem Pass_Main_overlays_on_output (r : Renderer) :
    Pass_Main r =
      match Pass_Main_lit r with
      | .error x => .error x
      | .ok x =>
        .ok (Pass_Main_overlays
          { (Pass_PostLight x x.m_render_tex_full_hdr_light x.m_render_tex_full_hdr_light2).r with
            m_render_tex_full_hdr_light := (Pass_PostLight x x.m_render_tex_full_hdr_light x.m_render_tex_full_hdr_light2).tex_in,
            m_render_tex_full_hdr_light2 := (Pass_PostLight x x.m_render_tex_full_hdr_light x.m_render_tex_full_hdr_light2).tex_out }
          (Pass_PostLight x x.m_render_tex_full_hdr_light x.m_render_tex_full_hdr_light2).tex_out) := by
  simp only [Pass_Main, Pass_Main_lit]
  cases Pass_PreLight
      (Pass_GBuffer (Pass_DepthDirectionalLight (r.emit [.Begin "Pass_Main"])
        (r.emit [.Begin "Pass_Main"]).GetLightDirectional))
      (Pass_GBuffer (Pass_DepthDirectionalLight (r.emit [.Begin "Pass_Main"])
        (r.emit [.Begin "Pass_Main"]).GetLightDirectional)).m_render_tex_half_spare
      (Pass_GBuffer (Pass_DepthDirectionalLight (r.emit [.Begin "Pass_Main"])
        (r.emit [.Begin "Pass_Main"]).GetLightDirectional)).m_render_tex_half_shadows
      (Pass_GBuffer (Pass_DepthDirectionalLight (r.emit [.Begin "Pass_Main"])
        (r.emit [.Begin "Pass_Main"]).GetLightDirectional)).m_render_tex_half_ssao with
  | error x => rfl
  | ok p =>
    simp only [Pass_Main_overlays, Pass_Lines_output, Pass_Gizmos_output, Pass_DebugBuffer_output]

theorem sameGuards_refl (r : Renderer) : SameGuards r r := ⟨rfl, rfl, rfl, rfl, rfl, rfl, rfl, rfl, rfl⟩

theorem sameGuards_trans {r x y : Renderer} (h₁ : SameGuards r x) (h₂ : SameGuards x y) :
    SameGuards r y := by
  obtain ⟨a1, a2, a3, a4, a5, a6, a7, a8, a9⟩ := h₁
  obtain ⟨b1, b2, b3, b4, b5, b6, b7, b8, b9⟩ := h₂
  exact ⟨b1.trans a1, b2.trans a2, b3.trans a3, b4.trans a4, b5.trans a5, b6.trans a6,
    b7.trans a7, b8.trans a8, b9.trans a9⟩

theorem sameGuards_emit (r : Renderer) (evs : List Ev) : SameGuards r (r.emit evs) :=
  sameGuards_refl r

theorem sameGuards_meshes (r : Renderer) (evs : List Ev) (n : Nat) :
    SameGuards r { r.emit evs with m_renderer_meshes_rendered := n } := sameGuards_refl r

theorem isEmpty_false_of_ne {α : Type} {l : List α} (h : l.isEmpty = false) : l ≠ [] := by
  intro e; subst e; simp at h

theorem scopedIf_pos {r r' : Renderer} {name : String} {g : Bool} (hg : g = true)
    (h : Scoped r r' [name]) : Scoped r r' (if g then [name] else []) := by
  subst hg; exact h

theorem scopedIf_neg {r : Renderer} {name : String} {g : Bool} (hg : g = false) :
    Scoped r r (if g then [name] else []) := by
  subst hg; exact scoped_refl r

theorem exact_DepthDirectionalLight (r : Renderer) (l : Option Light) :
    Scoped r (Pass_DepthDirectionalLight r l)
        (if r.depthPassRuns l then ["Pass_DepthDirectionalLight"] else []) ∧
      SameGuards r (Pass_DepthDirectionalLight r l) := by
  unfold Pass_DepthDirectionalLight
  cases l with
  | none => exact ⟨scopedIf_neg rfl, sameGuards_refl r⟩
  | some l =>
    by_cases hc : l.GetCastShadows = true
    · cases hm : l.GetShadowMap with
      | none =>
        simp only [hc, hm, Bool.not_true, Bool.false_eq_true, if_false]
        exact ⟨scopedIf_neg (by simp [Renderer.depthPassRuns, hm]), sameGuards_refl r⟩
      | some sm =>
        cases hemp : r.m_entities_ObjectOpaque.isEmpty with
        | true =>
          simp only [hc, hm, hemp, Bool.not_true, Bool.false_eq_true, if_false, if_true]
          exact ⟨scopedIf_neg (by simp [Renderer.depthPassRuns, hemp]), sameGuards_refl r⟩
        | false =>
          refine ⟨?_, ?_⟩
          · simp only [hc, hm, hemp, Bool.not_true, Bool.false_eq_true, if_false]
            exact scopedIf_pos (by simp [Renderer.depthPassRuns, hc, hm, hemp])
              (scoped_wrap _ _ _ (by rfl) (by rfl) (by rfl)
                (nested_foldl Prod.fst _ (nested_Depth_cascade sm _ _) _ _))
          · have := Pass_DepthDirectionalLight_runs r l sm hc hm (isEmpty_false_of_ne hemp)
            unfold Pass_DepthDirectionalLight at this
            rw [this]
            exact sameGuards_emit _ _
    · simp only [hc, Bool.not_false, if_true]
      exact ⟨scopedIf_neg (by simp [Renderer.depthPassRuns, hc]), sameGuards_refl r⟩

theorem exact_GBuffer (r : Renderer) :
    Scoped r (Pass_GBuffer r) (if r.m_rhi_device then ["Pass_GBuffer"] else []) ∧
      SameGuards r (Pass_GBuffer r) := by
  cases hdev : r.m_rhi_device with
  | false =>
    unfold Pass_GBuffer
    simp only [hdev, Bool.not_false, if_true]
    exact ⟨scoped_refl r, sameGuards_refl r⟩
  | true =>
    cases hemp : r.m_entities_ObjectOpaque.isEmpty with
    | true =>
      have hemp2 : ∀ (x : Renderer) (evs : List Ev),
          (x.emit evs).m_entities_ObjectOpaque = x.m_entities_ObjectOpaque := fun _ _ => rfl
      unfold Pass_GBuffer
      simp only [hdev, hemp, hemp2, Bool.not_true, Bool.false_eq_true, if_false, if_true, emit_emit]
      exact ⟨scoped_emit _ _ _ rfl rfl, sameGuards_emit _ _⟩
    | false =>
      refine ⟨?_, ?_⟩
      · have hemp2 : ∀ (x : Renderer) (evs : List Ev),
            (x.emit evs).m_entities_ObjectOpaque = x.m_entities_ObjectOpaque := fun _ _ => rfl
        unfold Pass_GBuffer
        simp only [hdev, hemp, hemp2, Bool.not_true, Bool.false_eq_true, if_false, emit_emit,
          List.cons_append, List.nil_append]
        exact scoped_wrap _ _ _ (by rfl) (by rfl) (by rfl)
          (nested_foldl Prod.fst Pass_GBuffer_entity nested_GBuffer_entity _ _)
      · rw [Pass_GBuffer_nonempty r hdev (isEmpty_false_of_ne hemp)]
        exact sameGuards_meshes _ _ _

theorem exact_Light (r : Renderer) (a b c : RHI_RenderTexture) :
    Scoped r (Pass_Light r a b c) (if r.lightPassRuns then ["Pass_Light"] else []) ∧
      SameGuards r (Pass_Light r a b c) := by
  unfold Pass_Light
  by_cases h : r.m_vps_light.GetCompilationState ≠ Shader_Compiled
  · rw [if_pos h]
    exact ⟨scopedIf_neg (by simp [Renderer.lightPassRuns, h]), sameGuards_refl r⟩
  · rw [if_neg h]
    simp only [emit_emit]
    exact ⟨scopedIf_pos (by simpa [Renderer.lightPassRuns] using h) (scoped_emit _ _ _ rfl rfl),
      sameGuards_emit _ _⟩

theorem exact_Transparent (r : Renderer) (t : RHI_RenderTexture) :
    Scoped r (Pass_Transparent r t) (if r.transparentPassRuns then ["Pass_Transparent"] else []) ∧
      SameGuards r (Pass_Transparent r t) := by
  cases hl : r.GetLightDirectional with
  | none =>
    unfold Pass_Transparent
    simp only [hl]
    exact ⟨scopedIf_neg (by simp [Renderer.transparentPassRuns, hl]), sameGuards_refl r⟩
  | some l =>
    cases hemp : r.m_entities_ObjectTransparent.isEmpty with
    | true =>
      unfold Pass_Transparent
      simp only [hl, hemp, if_true]
      exact ⟨scopedIf_neg (by simp [Renderer.transparentPassRuns, hemp]), sameGuards_refl r⟩
    | false =>
      refine ⟨?_, ?_⟩
      · unfold Pass_Transparent
        simp only [hl, hemp, Bool.false_eq_true, if_false]
        exact scopedIf_pos (by simp [Renderer.transparentPassRuns, hl, hemp])
          (scoped_wrap _ _ _ (by rfl) (by rfl) (by rfl)
            (nested_foldl id Pass_Transparent_entity nested_Transparent_entity _ _))
      · rw [Pass_Transparent_runs r t l hl (isEmpty_false_of_ne hemp)]
        exact sameGuards_meshes _ _ _

theorem sameGuards_BlurGaussian (r : Renderer) (a b : RHI_RenderTexture) (sigma stride : Rat) :
    SameGuards r (Pass_BlurGaussian r a b sigma stride).r := by
  unfold Pass_BlurGaussian
  split_ifs
  · exact sameGuards_emit _ _
  · exact sameGuards_refl r

theorem sameGuards_run (e : PostEffect) (s : PassState) : SameGuards s.r (e.run s).r := by
  cases e
  case Bloom =>
    simp only [PostEffect.run, Pass_Bloom, Pass_BlurGaussian]
    split_ifs <;> exact ⟨rfl, rfl, rfl, rfl, rfl, rfl, rfl, rfl, rfl⟩
  case TAA =>
    simp only [PostEffect.run, Pass_TAA]
    exact ⟨rfl, rfl, rfl, rfl, rfl, rfl, rfl, rfl, rfl⟩
  case MotionBlur =>
    simp only [PostEffect.run, Pass_MotionBlur]
    exact sameGuards_emit _ _
  case Dithering =>
    simp only [PostEffect.run, Pass_Dithering]
    exact sameGuards_emit _ _
  case ToneMapping =>
    simp only [PostEffect.run, Pass_ToneMapping]
    exact sameGuards_emit _ _
  case FXAA =>
    simp only [PostEffect.run, Pass_FXAA, emit_emit]
    exact sameGuards_emit _ _
  case Sharpening =>
    simp only [PostEffect.run, Pass_Sharpening]
    exact sameGuards_emit _ _
  case ChromaticAberration =>
    simp only [PostEffect.run, Pass_ChromaticAberration]
    exact sameGuards_emit _ _

theorem sameGuards_stage (e : PostEffect) (s : PassState) :
    SameGuards s.r (PostLight_stage e s).r := by
  unfold PostLight_stage
  split_ifs
  · exact sameGuards_trans (sameGuards_run e s) (sameGuards_emit _ _)
  · exact sameGuards_refl _

theorem sameGuards_step {r : Renderer} {s : PassState} (h : SameGuards r s.r) (e : PostEffect) :
    SameGuards r (PostLight_stage e s).r := sameGuards_trans h (sameGuards_stage e s)

theorem sameGuards_end {r : Renderer} {s : PassState} (h : SameGuards r s.r) :
    SameGuards r (PostLight_end s).r := by
  refine sameGuards_trans h ?_
  simp only [PostLight_end, Pass_GammaCorrection, emit_emit]
  exact sameGuards_emit _ _

theorem sameGuards_PostLight (r : Renderer) (a b : RHI_RenderTexture) :
    SameGuards r (Pass_PostLight r a b).r := by
  have h0 : SameGuards r (PostLight_begin r a b).r := sameGuards_refl r
  have h := sameGuards_end (sameGuards_step (sameGuards_step (sameGuards_step (sameGuards_step
    (sameGuards_step (sameGuards_step (sameGuards_step (sameGuards_step h0 .TAA) .Bloom)
    .MotionBlur) .Dithering) .ToneMapping) .FXAA) .Sharpening) .ChromaticAberration)
  rw [Pass_PostLight_eq_stages]
  exact h

theorem scoped_PostLight_exact (r : Renderer) (a b : RHI_RenderTexture) :
    Scoped r (Pass_PostLight r a b).r ["Pass_PostLight"] := by
  rw [Pass_PostLight_eq_stages]
  simp only [PostLight_end, emit_emit]
  simp only [PostLight_begin]
  exact scoped_wrap "Pass_PostLight" _ _ (by rfl) (by rfl) (by rfl) <|
    nested_trans (nested_trans (nested_trans (nested_trans (nested_trans (nested_trans
    (nested_trans (nested_trans (nested_stage .TAA _)
    (nested_stage .Bloom _)) (nested_stage .MotionBlur _)) (nested_stage .Dithering _))
    (nested_stage .ToneMapping _)) (nested_stage .FXAA _)) (nested_stage .Sharpening _))
    (nested_stage .ChromaticAberration _)) (nested_GammaCorrection _ _ _)

theorem sameGuards_PreLight (r : Renderer) (a b c : RHI_RenderTexture) (p : PreLightState)
    (h : Pass_PreLight r a b c = .ok p) : SameGuards r p.r := by
  have hret : r.shadowMapMissing = false := (Pass_PreLight_returns_iff r a b c).1 ⟨p, h⟩
  obtain ⟨p', hp', evs, he, -⟩ := Pass_PreLight_steps r a b c hret
  rw [h] at hp'
  cases hp'
  rw [he]
  exact sameGuards_emit _ _

theorem sameFlags_refl (r : Renderer) : SameFlags r r := ⟨rfl, rfl⟩

theorem sameFlags_trans {r x y : Renderer} (h₁ : SameFlags r x) (h₂ : SameFlags x y) :
    SameFlags r y := ⟨h₂.1.trans h₁.1, h₂.2.trans h₁.2⟩

theorem sameFlags_of_guards {r x : Renderer} (h : SameGuards r x) : SameFlags r x :=
  ⟨h.1, h.2.2.2.2.2.2.1⟩

theorem foldl_flags {α : Type} (f : Renderer → α → Renderer) (hf : ∀ r a, SameFlags r (f r a))
    (l : List α) (r : Renderer) : SameFlags r (l.foldl f r) := by
  induction l generalizing r with
  | nil => exact sameFlags_refl r
  | cons a t ih => exact sameFlags_trans (hf r a) (ih _)

theorem Pass_Lines_aabb_flags (r : Renderer) (e : Entity) : SameFlags r (Pass_Lines_aabb r e) := by
  unfold Pass_Lines_aabb
  cases e.renderable <;> exact sameFlags_refl r

theorem Pass_Gizmos_light_flags (r : Renderer) (e : LightEntity) :
    SameFlags r (Pass_Gizmos_light r e) := by
  simp [SameFlags, Pass_Gizmos_light, apply_ite Renderer.m_flags,
    apply_ite Renderer.m_debug_buffer, Renderer.emit]

theorem sameFlags_Lines (r : Renderer) (t : RHI_RenderTexture) : SameFlags r (Pass_Lines r t) := by
  have h1 : (Pass_Lines r t).m_flags = r.m_flags := by
    simp [Pass_Lines, apply_ite Renderer.m_flags, Renderer.emit, Renderer.DrawLine,
      (fun l x => (foldl_flags Pass_Lines_aabb Pass_Lines_aabb_flags l x).1)]
  have h2 : (Pass_Lines r t).m_debug_buffer = r.m_debug_buffer := by
    simp [Pass_Lines, apply_ite Renderer.m_debug_buffer, Renderer.emit, Renderer.DrawLine,
      (fun l x => (foldl_flags Pass_Lines_aabb Pass_Lines_aabb_flags l x).2)]
  exact ⟨h1, h2⟩

theorem sameFlags_Gizmos (r : Renderer) (t : RHI_RenderTexture) : SameFlags r (Pass_Gizmos r t) := by
  have h1 : (Pass_Gizmos r t).m_flags = r.m_flags := by
    simp [Pass_Gizmos, apply_ite Renderer.m_flags, Renderer.emit,
      (fun l x => (foldl_flags Pass_Gizmos_light Pass_Gizmos_light_flags l x).1)]
  have h2 : (Pass_Gizmos r t).m_debug_buffer = r.m_debug_buffer := by
    simp [Pass_Gizmos, apply_ite Renderer.m_debug_buffer, Renderer.emit,
      (fun l x => (foldl_flags Pass_Gizmos_light Pass_Gizmos_light_flags l x).2)]
  exact ⟨h1, h2⟩

theorem sameFlags_DebugBuffer (r : Renderer) (t : RHI_RenderTexture) :
    SameFlags r (Pass_DebugBuffer r t) := by
  simp [SameFlags, Pass_DebugBuffer, apply_ite Renderer.m_flags,
    apply_ite Renderer.m_debug_buffer, Renderer.emit]

theorem scopedIf_ite {name : String} {r x : Renderer} (g : Bool) (h : Scoped r x [name]) :
    Scoped r (if (!g) = true then r else x) (if g then [name] else []) := by
  cases g
  · exact scoped_refl r
  · exact h

theorem scoped_Lines_exact (r : Renderer) (t : RHI_RenderTexture) :
    Scoped r (Pass_Lines r t) (if r.linesPassRuns then ["Pass_Lines"] else []) := by
  simp only [Pass_Lines]
  refine scopedIf_ite r.linesPassRuns ?_
  · refine scoped_wrap "Pass_Lines" [] _ rfl (by rfl) (by rfl) ?_
    -- lines that do not require depth
    refine nested_trans ?_ (nested_ite _ (nested_set_depth_disabled _ (nested_trans
      (nested_ite _ (nested_set_lines_count _ (nested_emit _ _ (by rfl))) (nested_refl _))
      (nested_emit _ _ (by rfl)))) (nested_refl _))
    refine nested_trans ?_ (nested_emit _ _ (by rfl))
    -- lines that require depth
    refine nested_trans ?_ (nested_ite _ (nested_set_depth_enabled _ (nested_trans
      (nested_ite _ (nested_set_lines_count _ (nested_emit _ _ (by rfl))) (nested_refl _))
      (nested_emit _ _ (by rfl)))) (nested_refl _))
    refine nested_trans ?_ (nested_ite _ (nested_emit _ _ (by rfl)) (nested_refl _))
    refine nested_trans ?_ (nested_emit _ _ (by rfl))
    refine nested_trans ?_ (nested_emit _ _ (by rfl))
    -- generated lines
    refine nested_trans ?_ (nested_ite _ (nested_trans
      (nested_foldl id Pass_Lines_aabb nested_Lines_aabb _ _)
      (nested_foldl id Pass_Lines_aabb nested_Lines_aabb _ _)) (nested_refl _))
    exact nested_ite _ (nested_same_trace (nested_refl _) rfl) (nested_refl _)

theorem scoped_Gizmos_exact (r : Renderer) (t : RHI_RenderTexture) :
    Scoped r (Pass_Gizmos r t) (if r.gizmosPassRuns then ["Pass_Gizmos"] else []) := by
  simp only [Pass_Gizmos]
  refine scopedIf_ite r.gizmosPassRuns ?_
  exact scoped_wrap "Pass_Gizmos" _ _ (by rfl) (by rfl) (by rfl)
    (nested_trans
      -- lights
      (nested_ite _ (nested_scope "Pass_Gizmos_Lights"
        (nested_foldl id Pass_Gizmos_light nested_Gizmos_light _ _)) (nested_refl _))
      -- transform
      (nested_ite _ (nested_trans (nested_emit _ _ (by rfl))
        (nested_ite _ (nested_wrap "Pass_Gizmos_Transform" _ _ (by rfl) (by rfl) (by rfl)
          (nested_trans (nested_emit _ _ (by rfl))
            (nested_ite _ (nested_emit _ _ (by rfl)) (nested_refl _))))
          (nested_refl _))) (nested_refl _)))

theorem scoped_PerformanceMetrics_exact (r : Renderer) (t : RHI_RenderTexture) :
    Scoped r (Pass_PerformanceMetrics r t)
      (if r.Flags_IsSet .Render_Gizmo_PerformanceMetrics then ["Pass_PerformanceMetrics"]
        else []) := by
  unfold Pass_PerformanceMetrics
  exact scopedIf_ite _ (scoped_emit _ _ _ rfl rfl)

theorem scoped_DebugBuffer_exact (r : Renderer) (t : RHI_RenderTexture) :
    Scoped r (Pass_DebugBuffer r t) (if r.debugPassRuns then ["Pass_DebugBuffer"] else []) := by
  have hd : ∀ (x : Renderer) (evs : List Ev), (x.emit evs).m_debug_buffer = x.m_debug_buffer :=
    fun _ _ => rfl
  have hf : ∀ (x : Renderer) (evs : List Ev) (f : Renderer_Option),
      (x.emit evs).Flags_IsSet f = x.Flags_IsSet f := fun _ _ _ => rfl
  unfold Pass_DebugBuffer
  cases h : r.m_debug_buffer with
  | RendererDebug_None =>
    simp only [if_true]
    exact scopedIf_neg (by simp [Renderer.debugPassRuns, h])
  | RendererDebug_SSAO =>
    by_cases hs : r.Flags_IsSet .Render_PostProcess_SSAO = true
    · simp only [hd, hf, h, hs, if_true, if_false, reduceCtorEq, emit_emit]
      exact scopedIf_pos (by simp [Renderer.debugPassRuns, h]) (scoped_emit _ _ _ rfl rfl)
    · simp only [hd, hf, h, hs, if_true, if_false, reduceCtorEq, emit_emit]
      exact scopedIf_pos (by simp [Renderer.debugPassRuns, h]) (scoped_emit _ _ _ rfl rfl)
  | _ =>
    simp only [hd, hf, h, if_true, if_false, reduceCtorEq, emit_emit]
    exact scopedIf_pos (by simp [Renderer.debugPassRuns, h]) (scoped_emit _ _ _ rfl rfl)

theorem guards_of_same {r x : Renderer} (h : SameGuards r x) :
    x.GetLightDirectional = r.GetLightDirectional ∧
    x.shadowMapMissing = r.shadowMapMissing ∧
    x.depthPassRuns x.GetLightDirectional = r.depthPassRuns r.GetLightDirectional ∧
    x.lightPassRuns = r.lightPassRuns ∧
    x.transparentPassRuns = r.transparentPassRuns ∧
    x.linesPassRuns = r.linesPassRuns ∧
    x.gizmosPassRuns = r.gizmosPassRuns ∧
    x.debugPassRuns = r.debugPassRuns ∧
    (∀ f, x.Flags_IsSet f = r.Flags_IsSet f) := by
  obtain ⟨a1, a2, a3, a4, a5, a6, a7, a8, a9⟩ := h
  simp only [Renderer.GetLightDirectional, Renderer.shadowMapMissing, Renderer.depthPassRuns,
    Renderer.lightPassRuns, Renderer.transparentPassRuns, Renderer.linesPassRuns,
    Renderer.gizmosPassRuns, Renderer.debugPassRuns, Renderer.Flags_IsSet,
    a1, a2, a3, a4, a5, a6, a7, a8, a9]
  simp

theorem flags_of_same {r x : Renderer} (h : SameFlags r x) :
    x.gizmosPassRuns = r.gizmosPassRuns ∧ x.debugPassRuns = r.debugPassRuns ∧
    (∀ f, x.Flags_IsSet f = r.Flags_IsSet f) := by
  obtain ⟨a1, a2⟩ := h
  simp only [Renderer.gizmosPassRuns, Renderer.debugPassRuns, Renderer.Flags_IsSet, a1, a2]
  simp

theorem scoped_cast {r x : Renderer} {a b : List String} (h : Scoped r x a) (e : a = b) :
    Scoped r x b := e ▸ h

theorem scoped_set_half {r x : Renderer} {names : List String} (a b c : RHI_RenderTexture)
    (h : Scoped r x names) :
    Scoped r { x with m_render_tex_half_spare := a, m_render_tex_half_shadows := b, m_render_tex_half_ssao := c } names :=
  scoped_same_trace h rfl

theorem scoped_set_full {r x : Renderer} {names : List String} (a b : RHI_RenderTexture)
    (h : Scoped r x names) :
    Scoped r { x with m_render_tex_full_hdr_light := a, m_render_tex_full_hdr_light2 := b } names :=
  scoped_same_trace h rfl

theorem sameGuards_set_half {r x : Renderer} (a b c : RHI_RenderTexture) (h : SameGuards r x) :
    SameGuards r { x with m_render_tex_half_spare := a, m_render_tex_half_shadows := b, m_render_tex_half_ssao := c } :=
  h

theorem sameGuards_set_full {r x : Renderer} (a b : RHI_RenderTexture) (h : SameGuards r x) :
    SameGuards r { x with m_render_tex_full_hdr_light := a, m_render_tex_full_hdr_light2 := b } :=
  h

/-- The passes of `Pass_Main` before `Pass_PreLight`. -/
theorem Pass_Main_geometry (r : Renderer) :
    Scoped (r.emit [.Begin "Pass_Main"])
        (Pass_GBuffer (Pass_DepthDirectionalLight (r.emit [.Begin "Pass_Main"])
          (r.emit [.Begin "Pass_Main"]).GetLightDirectional)) r.geometryPasses ∧
      SameGuards r (Pass_GBuffer (Pass_DepthDirectionalLight (r.emit [.Begin "Pass_Main"])
          (r.emit [.Begin "Pass_Main"]).GetLightDirectional)) := by
  have h0 : SameGuards r (r.emit [.Begin "Pass_Main"]) := sameGuards_emit _ _
  have h1 := exact_DepthDirectionalLight (r.emit [.Begin "Pass_Main"])
    (r.emit [.Begin "Pass_Main"]).GetLightDirectional
  have g1 := sameGuards_trans h0 h1.2
  have h2 := exact_GBuffer (Pass_DepthDirectionalLight (r.emit [.Begin "Pass_Main"])
    (r.emit [.Begin "Pass_Main"]).GetLightDirectional)
  refine ⟨scoped_cast (scoped_trans h1.1 h2.1) ?_, sameGuards_trans g1 h2.2⟩
  rw [(guards_of_same h0).2.2.1, g1.2.2.1]
  rfl

/-- The scopes recorded when `Pass_Transparent` has returned in `Pass_Main`. -/
theorem Pass_Main_lit_returns (r : Renderer) (h : r.shadowMapMissing = false) :
    ∃ x, Pass_Main_lit r = .ok x ∧ SameGuards r x ∧
      Scoped (r.emit [.Begin "Pass_Main"]) x
        (r.geometryPasses ++ ["Pass_PreLight"] ++
          (if r.lightPassRuns then ["Pass_Light"] else []) ++
          (if r.transparentPassRuns then ["Pass_Transparent"] else [])) := by
  have hg := Pass_Main_geometry r
  simp only [Pass_Main_lit]
  generalize Pass_GBuffer (Pass_DepthDirectionalLight (r.emit [.Begin "Pass_Main"])
    (r.emit [.Begin "Pass_Main"]).GetLightDirectional) = r2 at hg ⊢
  obtain ⟨p, hp⟩ := (Pass_PreLight_returns_iff r2 r2.m_render_tex_half_spare
    r2.m_render_tex_half_shadows r2.m_render_tex_half_ssao).2
    ((guards_of_same hg.2).2.1.trans h)
  have hpl := And.intro (scoped_PreLight r2 _ _ _ p hp) (sameGuards_PreLight r2 _ _ _ p hp)
  have g3 : SameGuards r { p.r with m_render_tex_half_spare := p.tex_in, m_render_tex_half_shadows := p.tex_shadows_out, m_render_tex_half_ssao := p.tex_ssao_out } :=
    sameGuards_set_half _ _ _ (sameGuards_trans hg.2 hpl.2)
  simp only [hp]
  refine ⟨_, rfl, sameGuards_trans (sameGuards_trans g3 (exact_Light _ _ _ _).2)
    (exact_Transparent _ _).2, ?_⟩
  refine scoped_cast (scoped_trans (scoped_trans (scoped_trans hg.1
    (scoped_set_half _ _ _ hpl.1)) (exact_Light _ _ _ _).1) (exact_Transparent _ _).1) ?_
  rw [(guards_of_same g3).2.2.2.1,
    (guards_of_same (sameGuards_trans g3 (exact_Light _ _ _ _).2)).2.2.2.2.1]

/-- The scopes the four overlay passes of `Pass_Main` record. -/
theorem Pass_Main_overlays_scoped (y : Renderer) (tex : RHI_RenderTexture) :
    ∃ z, Pass_Main_overlays y tex = z.emit [.End, .Submit, .Clear] ∧
      Scoped y z
        ((if y.linesPassRuns then ["Pass_Lines"] else []) ++
          (if y.gizmosPassRuns then ["Pass_Gizmos"] else []) ++
          (if y.debugPassRuns then ["Pass_DebugBuffer"] else []) ++
          (if y.Flags_IsSet .Render_Gizmo_PerformanceMetrics then ["Pass_PerformanceMetrics"]
            else [])) := by
  simp only [Pass_Main_overlays]
  refine ⟨_, rfl, ?_⟩
  have f1 := sameFlags_Lines y tex
  have f2 := sameFlags_trans f1 (sameFlags_Gizmos (Pass_Lines y tex) tex)
  have f3 := sameFlags_trans f2 (sameFlags_DebugBuffer (Pass_Gizmos (Pass_Lines y tex) tex) tex)
  refine scoped_cast (scoped_trans (scoped_trans (scoped_trans (scoped_Lines_exact y tex)
    (scoped_Gizmos_exact _ tex)) (scoped_DebugBuffer_exact _ tex))
    (scoped_PerformanceMetrics_exact _ tex)) ?_
  rw [(flags_of_same f1).1, (flags_of_same f2).2.1, (flags_of_same f3).2.2]

/-- When `Pass_ShadowMapping` does not fault, `Pass_Main` returns, having recorded inside
its own scope exactly the scopes of the passes that go past their early returns. -/
theorem Pass_Main_returns (r : Renderer) (h : r.shadowMapMissing = false) :
    ∃ z, Pass_Main r = .ok (z.emit [.End, .Submit, .Clear]) ∧
      Scoped (r.emit [.Begin "Pass_Main"]) z r.framePasses := by
  obtain ⟨x, hx, gx, sx⟩ := Pass_Main_lit_returns r h
  rw [Pass_Main_overlays_on_output, hx]
  have hpost := scoped_set_full
    (Pass_PostLight x x.m_render_tex_full_hdr_light x.m_render_tex_full_hdr_light2).tex_in
    (Pass_PostLight x x.m_render_tex_full_hdr_light x.m_render_tex_full_hdr_light2).tex_out
    (scoped_PostLight_exact x x.m_render_tex_full_hdr_light x.m_render_tex_full_hdr_light2)
  have gpost := sameGuards_trans gx (sameGuards_set_full
    (Pass_PostLight x x.m_render_tex_full_hdr_light x.m_render_tex_full_hdr_light2).tex_in
    (Pass_PostLight x x.m_render_tex_full_hdr_light x.m_render_tex_full_hdr_light2).tex_out
    (sameGuards_PostLight x x.m_render_tex_full_hdr_light x.m_render_tex_full_hdr_light2))
  obtain ⟨z, hz, sz⟩ := Pass_Main_overlays_scoped _
    (Pass_PostLight x x.m_render_tex_full_hdr_light x.m_render_tex_full_hdr_light2).tex_out
  refine ⟨z, congrArg Except.ok hz, ?_⟩
  refine scoped_cast (scoped_trans (scoped_trans sx hpost) sz) ?_
  obtain ⟨-, -, -, -, -, g6, g7, g8, g9⟩ := guards_of_same gpost
  rw [g6, g7, g8, g9]
  simp [Renderer.framePasses, Renderer.geometryPasses, List.append_assoc]

/-- What a frame has recorded when, inside the scope `n` opened first, well-nested events
with outermost scopes `names` are followed by the events `post`. -/
theorem frame_of_scoped {r z : Renderer} {n : String} {names : List String}
    (h : Scoped (r.emit [.Begin n]) z names) (post : List Ev) :
    topLevelPasses (appended r (z.emit post)) = names ++ scopeNamesAt 1 1 post ∧
    scopeNamesAt 0 0 (appended r (z.emit post)) = n :: scopeNamesAt 0 1 post ∧
    scopeDepth 0 (appended r (z.emit post)) = scopeDepth 1 post := by
  obtain ⟨evs, ht, hd, hn⟩ := h
  have happ : appended r (z.emit post) = .Begin n :: (evs ++ post) := by
    simp [appended, Renderer.emit, ht]
  have hd1 : scopeDepth 1 evs = some 1 := scopeDepth_shift hd 1
  refine ⟨?_, ?_, ?_⟩
  · rw [happ, topLevelPasses, scopeNamesAt]
    simp only [Ev.nameAt, Ev.depthAfter]
    rw [scopeNamesAt_append hd1, scopeNamesAt_shift hd 0, hn]
    simp
  · rw [happ, scopeNamesAt]
    simp only [Ev.nameAt, Ev.depthAfter]
    rw [scopeNamesAt_append hd1]
    have := scopeNamesAt_deep (k := 0) (D := 1) hd (by omega)
    simp only [Nat.add_zero] at this
    simp [this]
  · rw [happ, scopeDepth]
    simp only [scopeStep, Option.some_bind]
    rw [scopeDepth_append hd1]

/-- When the directional light casts shadows and has no shadow map, `Pass_Main` stops in
`Pass_PreLight`, inside `Pass_ShadowMapping`, after the passes before `Pass_PreLight`. -/
theorem Pass_Main_faults (r : Renderer) (h : r.shadowMapMissing = true) :
    ∃ y, Scoped (r.emit [.Begin "Pass_Main"]) y r.geometryPasses ∧
      Pass_Main r = .error (y.emit
        (Pass_PreLight_header y ++ Pass_ShadowMapping_begun y y.m_render_tex_half_spare)) := by
  have hg := Pass_Main_geometry r
  simp only [Pass_Main]
  generalize Pass_GBuffer (Pass_DepthDirectionalLight (r.emit [.Begin "Pass_Main"])
    (r.emit [.Begin "Pass_Main"]).GetLightDirectional) = r2 at hg ⊢
  have hm : r2.shadowMapMissing = true := (guards_of_same hg.2).2.1.trans h
  refine ⟨r2, hg.1, ?_⟩
  rw [Pass_PreLight_faults r2 _ _ _ hm]

theorem Pass_Main_returns_iff (r : Renderer) :
    (∃ x, Pass_Main r = .ok x) ↔ r.shadowMapMissing = false := by
  constructor
  · rintro ⟨x, hx⟩
    cases hs : r.shadowMapMissing with
    | false => rfl
    | true =>
      obtain ⟨y, -, hy⟩ := Pass_Main_faults r hs
      rw [hy] at hx
      cases hx
  · intro h
    obtain ⟨z, hz, -⟩ := Pass_Main_returns r h
    exact ⟨_, hz⟩

theorem nested_Main (r x : Renderer) (h : Pass_Main r = .ok x) : Nested r x := by
  obtain ⟨z, hz, hs⟩ := Pass_Main_returns r ((Pass_Main_returns_iff r).1 ⟨x, h⟩)
  rw [hz] at h
  cases h
  exact nested_wrap "Pass_Main" [] _ rfl (by rfl) (by rfl) (scoped_nested hs)

theorem framePasses_sublist (r : Renderer) : r.framePasses.Sublist passOrder := by
  unfold Renderer.framePasses passOrder
  split_ifs <;> decide

theorem Pass_ShadowMapping_returns_iff (r : Renderer) (t : RHI_RenderTexture) (l : Option Light) :
    (∃ x, Pass_ShadowMapping r t l = .ok x) ↔ lightShadowMapMissing l = false := by
  cases l with
  | none => exact ⟨fun _ => rfl, fun _ => ⟨r, Pass_ShadowMapping_skips r t none (Or.inl rfl)⟩⟩
  | some l =>
    cases hc : l.cast_shadows with
    | false =>
      exact ⟨fun _ => by simp [lightShadowMapMissing, Light.GetCastShadows, hc],
        fun _ => ⟨r, Pass_ShadowMapping_skips r t (some l) (Or.inr ⟨l, rfl, hc⟩)⟩⟩
    | true =>
      cases hm : l.shadow_map with
      | none =>
        rw [Pass_ShadowMapping_faults r t l hc hm]
        simp [lightShadowMapMissing, Light.GetCastShadows, Light.GetShadowMap, hc, hm]
      | some sm =>
        rw [Pass_ShadowMapping_returns r t sm l hc hm]
        simp [lightShadowMapMissing, Light.GetCastShadows, Light.GetShadowMap, hc, hm]

theorem Pass_ShadowMapping_stops (r : Renderer) (t : RHI_RenderTexture) (l : Option Light)
    (h : lightShadowMapMissing l = true) :
    Pass_ShadowMapping r t l = .error (r.emit (Pass_ShadowMapping_begun r t)) := by
  cases l with
  | none => simp [lightShadowMapMissing] at h
  | some l =>
    simp only [lightShadowMapMissing, Light.GetCastShadows, Light.GetShadowMap, Bool.and_eq_true,
      Option.isNone_iff_eq_none] at h
    exact Pass_ShadowMapping_faults r t l h.1 h.2

/-- Events recorded from depth 0 that leave `d` scopes open hold `d` more `Begin` calls than
`End` calls. -/
theorem open_of_depth {r x : Renderer} {evs : List Ev} {d : Nat}
    (ht : x.trace = r.trace ++ evs) (h : scopeDepth 0 evs = some d) (hd : d ≠ 0) :
    x.trace = r.trace ++ appended r x ∧
    countBegin (appended r x) = countEnd (appended r x) + d ∧
    ¬ RecordsBalanced r x := by
  have happ : appended r x = evs := by simp [appended, ht]
  rw [happ]
  obtain ⟨h1, -⟩ := scopeDepth_counts h
  refine ⟨ht, by omega, fun hb => ?_⟩
  have := hb.2.1
  rw [happ] at this
  omega

/-- C12 (the code, with the failing input): when the directional light casts shadows and
has no shadow map, `Pass_Main` stops at the null dereference inside `Pass_PreLight`: the
top-level scopes recorded are those of the passes before it and "Pass_PreLight", three
scopes are left open, and no later pass is invoked.  In every other state `Pass_Main`
returns and the top-level scopes of the frame are exactly `framePasses`: in the order
Pass_DepthDirectionalLight, Pass_GBuffer, Pass_PreLight, Pass_Light, Pass_Transparent,
Pass_PostLight, Pass_Lines, Pass_Gizmos, Pass_DebugBuffer, Pass_PerformanceMetrics, the scope
of each pass once when the pass goes past its early returns and not at all when it does
not, those of Pass_PreLight and Pass_PostLight always; "Pass_Main" is the only outermost
scope and the recording is well nested. -/
theorem C12_Pass_Main_order (r : Renderer) :
    (r.shadowMapMissing = false →
      ∃ x, Pass_Main r = .ok x ∧
        topLevelPasses (appended r x) = r.framePasses ∧
        scopeNamesAt 0 0 (appended r x) = ["Pass_Main"] ∧
        scopeDepth 0 (appended r x) = some 0) ∧
    (r.shadowMapMissing = true →
      ∃ x, Pass_Main r = .error x ∧
        topLevelPasses (appended r x) = r.geometryPasses ++ ["Pass_PreLight"] ∧
        scopeNamesAt 0 0 (appended r x) = ["Pass_Main"] ∧
        scopeDepth 0 (appended r x) = some 3) ∧
    r.framePasses.Sublist passOrder ∧
    r.framePasses.Nodup ∧
    r.framePasses.Pairwise (fun a b => passOrder.indexOf a < passOrder.indexOf b) ∧
    ("Pass_DepthDirectionalLight" ∈ r.framePasses ↔ r.depthPassRuns r.GetLightDirectional = true) ∧
    ("Pass_GBuffer" ∈ r.framePasses ↔ r.m_rhi_device = true) ∧
    "Pass_PreLight" ∈ r.framePasses ∧
    ("Pass_Light" ∈ r.framePasses ↔ r.lightPassRuns = true) ∧
    ("Pass_Transparent" ∈ r.framePasses ↔ r.transparentPassRuns = true) ∧
    "Pass_PostLight" ∈ r.framePasses ∧
    ("Pass_Lines" ∈ r.framePasses ↔ r.linesPassRuns = true) ∧
    ("Pass_Gizmos" ∈ r.framePasses ↔ r.gizmosPassRuns = true) ∧
    ("Pass_DebugBuffer" ∈ r.framePasses ↔ r.debugPassRuns = true) ∧
    ("Pass_PerformanceMetrics" ∈ r.framePasses ↔
      r.Flags_IsSet .Render_Gizmo_PerformanceMetrics = true) ∧
    exampleSceneNoShadowMap.shadowMapMissing = true ∧
    exampleSceneNoShadowMap.geometryPasses ++ ["Pass_PreLight"] =
      ["Pass_GBuffer", "Pass_PreLight"] ∧
    exampleSceneAllPasses.shadowMapMissing = false ∧
    exampleSceneAllPasses.framePasses = passOrder := by
  have hsub := framePasses_sublist r
  have hpw : passOrder.Pairwise (fun a b => passOrder.indexOf a < passOrder.indexOf b) := by
    decide
  refine ⟨?_, ?_, hsub, List.Nodup.sublist hsub (by decide), List.Pairwise.sublist hsub hpw,
    ?_, ?_, ?_, ?_, ?_, ?_, ?_, ?_, ?_, ?_, by decide, by decide, by decide, by decide⟩
  · intro h
    obtain ⟨z, hz, hs⟩ := Pass_Main_returns r h
    obtain ⟨h1, h2, h3⟩ := frame_of_scoped hs [.End, .Submit, .Clear]
    exact ⟨_, hz, by rw [h1]; simp [scopeNamesAt, Ev.nameAt, Ev.depthAfter],
      by rw [h2]; simp [scopeNamesAt, Ev.nameAt, Ev.depthAfter], by rw [h3]; rfl⟩
  · intro h
    obtain ⟨y, hs, hy⟩ := Pass_Main_faults r h
    obtain ⟨h1, h2, h3⟩ := frame_of_scoped hs
      (Pass_PreLight_header y ++ Pass_ShadowMapping_begun y y.m_render_tex_half_spare)
    exact ⟨_, hy, by rw [h1]; rfl, by rw [h2]; rfl, by rw [h3]; rfl⟩
  all_goals simp [Renderer.framePasses]

/-- The frame stops in `Pass_PreLight` on the scene without a shadow map, and records all
ten scopes on the scene in which every pass goes past its early returns. -/
theorem C12_Pass_Main_order_witness :
    (∃ x, Pass_Main exampleSceneNoShadowMap = .error x ∧
      topLevelPasses (appended exampleSceneNoShadowMap x) = ["Pass_GBuffer", "Pass_PreLight"]) ∧
    (∃ x, Pass_Main exampleSceneAllPasses = .ok x ∧
      topLevelPasses (appended exampleSceneAllPasses x) = passOrder) := by
  constructor
  · obtain ⟨x, hx, ht, -⟩ := (C12_Pass_Main_order exampleSceneNoShadowMap).2.1 (by decide)
    exact ⟨x, hx, ht.trans (by decide)⟩
  · obtain ⟨x, hx, ht, -⟩ := (C12_Pass_Main_order exampleSceneAllPasses).1 (by decide)
    exact ⟨x, hx, ht.trans (by decide)⟩

/-- C24 (the code, with the failing input): every pass function but three only adds events
to the trace, among them as many `End` calls as `Begin` calls, and at no point of what it
adds are there more `End` calls than `Begin` calls; this for every renderer state and all
arguments, so on every path (early returns, the clear-only path of `Pass_GBuffer`, aborted
blurs, empty loops).  `Pass_ShadowMapping`, and with it `Pass_PreLight` and `Pass_Main`,
return exactly when the light does not both cast shadows and lack a shadow map, and are
then balanced in the same way; for a light that casts shadows and has no shadow map they
stop at the null dereference with one, two and three more `Begin` calls than `End` calls
recorded. -/
theorem C24_scopes_well_nested (r : Renderer) (a b c : RHI_RenderTexture) (sigma stride : Rat)
    (light : Option Light) :
    RecordsBalanced r (Pass_DepthDirectionalLight r light) ∧
    RecordsBalanced r (Pass_GBuffer r) ∧
    RecordsBalanced r (Pass_Light r a b c) ∧
    RecordsBalanced r (Pass_Transparent r a) ∧
    RecordsBalanced r (Pass_PostLight r a b).r ∧
    RecordsBalanced r (Pass_SSAO r a) ∧
    RecordsBalanced r (Pass_BlurBox r a b) ∧
    RecordsBalanced r (Pass_BlurGaussian r a b sigma stride).r ∧
    RecordsBalanced r (Pass_BlurBilateralGaussian r a b sigma stride).r ∧
    RecordsBalanced r (Pass_TAA r a b) ∧
    RecordsBalanced r (Pass_Bloom r a b) ∧
    RecordsBalanced r (Pass_ToneMapping r a b) ∧
    RecordsBalanced r (Pass_GammaCorrection r a b) ∧
    RecordsBalanced r (Pass_FXAA r a b).r ∧
    RecordsBalanced r (Pass_ChromaticAberration r a b) ∧
    RecordsBalanced r (Pass_MotionBlur r a b) ∧
    RecordsBalanced r (Pass_Dithering r a b) ∧
    RecordsBalanced r (Pass_Sharpening r a b) ∧
    RecordsBalanced r (Pass_Lines r a) ∧
    RecordsBalanced r (Pass_Gizmos r a) ∧
    RecordsBalanced r (Pass_PerformanceMetrics r a) ∧
    RecordsBalanced r (Pass_DebugBuffer r a) ∧
    ((∃ x, Pass_ShadowMapping r a light = .ok x) ↔ lightShadowMapMissing light = false) ∧
    (∀ x, Pass_ShadowMapping r a light = .ok x → RecordsBalanced r x) ∧
    (lightShadowMapMissing light = true →
      ∃ x, Pass_ShadowMapping r a light = .error x ∧ x.trace = r.trace ++ appended r x ∧
        countBegin (appended r x) = countEnd (appended r x) + 1 ∧ ¬ RecordsBalanced r x) ∧
    ((∃ p, Pass_PreLight r a b c = .ok p) ↔ r.shadowMapMissing = false) ∧
    (∀ p, Pass_PreLight r a b c = .ok p → RecordsBalanced r p.r) ∧
    (r.shadowMapMissing = true →
      ∃ x, Pass_PreLight r a b c = .error x ∧ x.trace = r.trace ++ appended r x ∧
        countBegin (appended r x) = countEnd (appended r x) + 2 ∧ ¬ RecordsBalanced r x) ∧
    ((∃ x, Pass_Main r = .ok x) ↔ r.shadowMapMissing = false) ∧
    (∀ x, Pass_Main r = .ok x → RecordsBalanced r x) ∧
    (r.shadowMapMissing = true →
      ∃ x, Pass_Main r = .error x ∧ x.trace = r.trace ++ appended r x ∧
        countBegin (appended r x) = countEnd (appended r x) + 3 ∧ ¬ RecordsBalanced r x) ∧
    r.shadowMapMissing = lightShadowMapMissing r.GetLightDirectional ∧
    exampleSceneNoShadowMap.shadowMapMissing = true ∧
    exampleScene.shadowMapMissing = false := by
  refine ⟨balanced_of_nested (nested_of_scopedPass (scoped_DepthDirectionalLight r light)),
    balanced_of_nested (nested_of_scopedPass (scoped_GBuffer r)),
    balanced_of_nested (nested_of_scopedPass (scoped_Light r a b c)),
    balanced_of_nested (nested_of_scopedPass (scoped_Transparent r a)),
    balanced_of_nested (nested_of_scopedPass (scoped_PostLight r a b)),
    balanced_of_nested (nested_SSAO r a),
    balanced_of_nested (nested_BlurBox r a b),
    balanced_of_nested (nested_BlurGaussian r a b sigma stride),
    balanced_of_nested (nested_BlurBilateralGaussian r a b sigma stride),
    balanced_of_nested (nested_TAA r a b),
    balanced_of_nested (nested_Bloom r a b),
    balanced_of_nested (nested_ToneMapping r a b),
    balanced_of_nested (nested_GammaCorrection r a b),
    balanced_of_nested (nested_FXAA r a b),
    balanced_of_nested (nested_ChromaticAberration r a b),
    balanced_of_nested (nested_MotionBlur r a b),
    balanced_of_nested (nested_Dithering r a b),
    balanced_of_nested (nested_Sharpening r a b),
    balanced_of_nested (nested_of_scopedPass (scoped_Lines r a)),
    balanced_of_nested (nested_of_scopedPass (scoped_Gizmos r a)),
    balanced_of_nested (nested_of_scopedPass (scoped_PerformanceMetrics r a)),
    balanced_of_nested (nested_of_scopedPass (scoped_DebugBuffer r a)),
    Pass_ShadowMapping_returns_iff r a light,
    fun x hx => balanced_of_nested (nested_ShadowMapping r x a light hx),
    ?_,
    Pass_PreLight_returns_iff r a b c,
    fun p hp => balanced_of_nested (scoped_nested (scoped_PreLight r a b c p hp)),
    ?_,
    Pass_Main_returns_iff r,
    fun x hx => balanced_of_nested (nested_Main r x hx),
    ?_, rfl, by decide, by decide⟩
  · intro h
    exact ⟨_, Pass_ShadowMapping_stops r a light h,
      open_of_depth (d := 1) (emit_trace r _) rfl (by decide)⟩
  · intro h
    exact ⟨_, Pass_PreLight_faults r a b c h,
      open_of_depth (d := 2) (emit_trace r _) rfl (by decide)⟩
  · intro h
    obtain ⟨y, ⟨evs, ht, hd, -⟩, hy⟩ := Pass_Main_faults r h
    have hdep : scopeDepth 0 (.Begin "Pass_Main" :: (evs ++
          (Pass_PreLight_header y ++ Pass_ShadowMapping_begun y y.m_render_tex_half_spare)))
        = some 3 := by
      rw [scopeDepth]
      simp only [scopeStep, Option.some_bind]
      rw [scopeDepth_append (scopeDepth_shift hd 1)]
      rfl
    refine ⟨_, hy, open_of_depth (d := 3) ?_ hdep (by decide)⟩
    rw [emit_trace, ht]
    simp

/-- On the scene without a shadow map `Pass_Main` stops with three scopes open; on the
example scene it returns, balanced. -/
theorem C24_scopes_well_nested_witness :
    (∃ x, Pass_Main exampleSceneNoShadowMap = .error x ∧
      countBegin (appended exampleSceneNoShadowMap x) =
        countEnd (appended exampleSceneNoShadowMap x) + 3) ∧
    (∃ x, Pass_Main exampleScene = .ok x ∧ RecordsBalanced exampleScene x) := by
  constructor
  · obtain ⟨-, -, -, -, -, -, -, -, -, -, -, -, -, -, -, -, -, -, -, -, -, -, -, -, -, -, -, -,
      -, -, hf, -⟩ := C24_scopes_well_nested exampleSceneNoShadowMap (exampleTexture 11)
        (exampleTexture 12) (exampleTexture 13) 1 1 none
    obtain ⟨x, hx, -, hc, -⟩ := hf (by decide)
    exact ⟨x, hx, hc⟩
  · obtain ⟨-, -, -, -, -, -, -, -, -, -, -, -, -, -, -, -, -, -, -, -, -, -, -, -, -, -, -, -,
      hr, hb, -⟩ := C24_scopes_well_nested exampleScene (exampleTexture 11)
        (exampleTexture 12) (exampleTexture 13) 1 1 none
    obtain ⟨x, hx⟩ := hr.2 (by decide)
    exact ⟨x, hx, hb x hx⟩

/-! ### The cascades and their light constant buffers -/

theorem depthEvents_lightBufferUse (d : DepthDraw) (i c : Nat) :
    (d.events i c).filter Ev.isLightBufferOrDraw = d.lightBufferUse i := by
  by_cases hg : c = d.model.resource_id <;>
    simp [DepthDraw.events, hg, Ev.isLightBufferOrDraw, DepthDraw.lightBufferUse,
      DepthDraw.drawCall]

theorem depthLoop_lightBufferUse (ds : List DepthDraw) (i c : Nat) :
    (depthLoop i c ds).filter Ev.isLightBufferOrDraw =
      ds.flatMap (fun d => d.lightBufferUse i) := by
  induction ds generalizing c with
  | nil => rfl
  | cons d ds ih =>
    rw [depthLoop, List.filter_append, depthEvents_lightBufferUse, ih]
    rfl

theorem depthLoop_no_clear (ds : List DepthDraw) (i c : Nat) :
    (depthLoop i c ds).filter Ev.isClearDepthStencil = [] := by
  rw [List.filter_eq_nil_iff]
  intro e he
  have h := depthLoop_inCascadeBody ds i c e he
  cases e <;> first | (simp [Ev.inCascadeBody] at h; done) | (simp [Ev.isClearDepthStencil])

/-- C7: for a directional light that casts shadows into a shadow map of array size N,
with a non-empty opaque bucket, the scopes `Pass_DepthDirectionalLight` opens inside its
own are exactly N, one after the other; the i-th (from 0) is labelled `Cascade_(i+1)`,
sets render-target view i with the map's depth-stencil view, records one depth clear and
then, up to its `End`, the entity loop of cascade i: it holds only geometry binds, draws,
and updates and binds of the light constant buffer of cascade i, and for every entity the
pass draws, in bucket order, the update of the entity's light constant buffer of index i,
its bind at vertex-shader slot 1 and the entity's draw, one directly after the other among
these events. -/
theorem C7_cascade_scopes (r : Renderer) (light : Light) (sm : RHI_RenderTexture)
    (hcast : light.cast_shadows = true) (hmap : light.shadow_map = some sm)
    (hne : r.m_entities_ObjectOpaque ≠ []) :
    (subScopes (appended r (Pass_DepthDirectionalLight r (some light)))).length = sm.array_size ∧
    ∀ i, i < sm.array_size → ∃ c,
      (subScopes (appended r (Pass_DepthDirectionalLight r (some light))))[i]? =
        some ([ .Begin ("Cascade_" ++ toString (i + 1)),
                .SetRenderTarget (sm.GetRenderTargetView i) (some sm.GetDepthStencilView),
                .ClearDepthStencil sm.GetDepthStencilView .Clear_Depth r.clear_depth ] ++
              depthLoop i c r.depthDrawn ++ [.End]) ∧
      (∀ e ∈ depthLoop i c r.depthDrawn, e.inCascadeBody i = true) ∧
      (depthLoop i c r.depthDrawn).filter Ev.isClearDepthStencil = [] ∧
      (depthLoop i c r.depthDrawn).filter Ev.isLightBufferOrDraw =
        r.depthDrawn.flatMap (fun d => d.lightBufferUse i) ∧
      ((depthLoop i c r.depthDrawn).filter Ev.isDraw).length = r.depthDrawn.length := by
  have happ : appended r (Pass_DepthDirectionalLight r (some light)) =
      Pass_DepthDirectionalLight_header r sm ++
        (cascades sm r.clear_depth r.depthDrawn 0 sm.array_size 0 ++ [.End, .Submit, .Clear]) := by
    rw [Pass_DepthDirectionalLight_runs r light sm hcast hmap hne]
    simp [appended, Renderer.emit]
  have hhdr : ∀ rest, subScopes.go 0 [] (Pass_DepthDirectionalLight_header r sm ++ rest) =
      subScopes.go 1 [] rest := by
    intro rest
    simp [Pass_DepthDirectionalLight_header, subScopes.go]
  rw [happ, subScopes, hhdr]
  refine ⟨(subScopes_go_cascades sm r.clear_depth r.depthDrawn sm.array_size 0 0).1, ?_⟩
  intro i hi
  obtain ⟨c, hc⟩ := subScopes_go_cascades_loops sm r.clear_depth r.depthDrawn
    sm.array_size 0 0 i hi
  rw [Nat.zero_add] at hc
  refine ⟨c, by simpa [cascadeBlock] using hc, depthLoop_inCascadeBody _ i c,
    depthLoop_no_clear _ i c, depthLoop_lightBufferUse _ i c, ?_⟩
  rw [(depthLoop_filters r.depthDrawn i c).1, List.length_map]

theorem C7_cascade_scopes_witness :
    (subScopes (appended exampleShadowScene
      (Pass_DepthDirectionalLight exampleShadowScene (some (exampleLight 3))))).length = 3 ∧
    (∃ c, (subScopes (appended exampleShadowScene
        (Pass_DepthDirectionalLight exampleShadowScene (some (exampleLight 3)))))[2]? =
        some ([ .Begin "Cascade_3", .SetRenderTarget ⟨50, 2⟩ (some 50),
                .ClearDepthStencil 50 .Clear_Depth 1 ] ++
              depthLoop 2 c exampleShadowScene.depthDrawn ++ [.End]) ∧
      (depthLoop 2 c exampleShadowScene.depthDrawn).filter Ev.isLightBufferOrDraw =
        [ .Transform_UpdateConstantBufferLight 1 2,
          .SetConstantBuffer 1 .Buffer_VertexShader (.transformLight 1 2),
          .DrawIndexed 36 0 0,
          .Transform_UpdateConstantBufferLight 2 2,
          .SetConstantBuffer 1 .Buffer_VertexShader (.transformLight 2 2),
          .DrawIndexed 36 0 0 ]) ∧
    (subScopes (appended exampleShadowScene
      (Pass_DepthDirectionalLight exampleShadowScene (some (exampleLight 3)))))[2]? =
      some [ .Begin "Cascade_3",
        .SetRenderTarget ⟨50, 2⟩ (some 50),
        .ClearDepthStencil 50 .Clear_Depth 1,
        .SetBufferIndex 4001, .SetBufferVertex 3001,
        .Transform_UpdateConstantBufferLight 1 2,
        .SetConstantBuffer 1 .Buffer_VertexShader (.transformLight 1 2),
        .DrawIndexed 36 0 0,
        .SetBufferIndex 4002, .SetBufferVertex 3002,
        .Transform_UpdateConstantBufferLight 2 2,
        .SetConstantBuffer 1 .Buffer_VertexShader (.transformLight 2 2),
        .DrawIndexed 36 0 0,
        .End ] := by
  have h := C7_cascade_scopes exampleShadowScene (exampleLight 3)
    { exampleTexture 50 with array_size := 3 } rfl rfl (by decide)
  obtain ⟨c, hc, -, -, hu, -⟩ := h.2 2 (by decide)
  exact ⟨h.1, ⟨c, hc, hu.trans (by decide)⟩, by decide⟩

end Directus
